import Mathlib

/-!
# Cartesian grid construction (`opm/core/grid/cart_grid.c`)

A shallow embedding of the structured-grid constructors of `cart_grid.c`
and proofs about the topology and geometry arrays they fill.

Conventions of the embedding

* A C array is a `List`; `a[i] = v` is `List.set`, and a read `a[i]` of an
  `int` array is `getD i 0`.
* A write cursor (`int *p = G->cell_faces; ... *p++ = v;`) is a `Ptr`: the
  buffer it points into together with the current offset.
* `for (i = 0; i < n; ++i) body` is `forLoop n body`, the body being a
  state transformer on the variables it assigns.
* `int` values are unbounded integers (signed overflow is undefined in C, so
  the embedding describes the executions in which no overflow occurs); the
  cell counts `nx, ny, nz` are natural numbers. The section on execution with
  32-bit `int` arithmetic repeats the allocators and the topology builders
  with wrapped arithmetic and with every store and load checked against the
  length of its array.
* `double` values are rationals: arithmetic is taken exactly.
-/

namespace CartGrid

/-! ## Loops and write cursors -/

/-- The loop `for (i = 0; i < n; ++i) body`: runs `body 0`, ..., `body (n-1)`
in this order on the state. -/
def forLoop {σ : Type} : Nat → (Nat → σ → σ) → σ → σ
  | 0, _, s => s
  | n + 1, body, s => body n (forLoop n body s)

/-- A pointer into an array: the array and the offset the pointer is at. -/
structure Ptr (α : Type) where
  buf : List α
  pos : Nat

/-- The statement `*p++ = v`. -/
def Ptr.put {α : Type} (p : Ptr α) (v : α) : Ptr α :=
  ⟨p.buf.set p.pos v, p.pos + 1⟩

/-- The statement `p[k] = v`. -/
def Ptr.store {α : Type} (p : Ptr α) (k : Nat) (v : α) : Ptr α :=
  ⟨p.buf.set (p.pos + k) v, p.pos⟩

/-- The expression `p[k]` on an `int` pointer. -/
def Ptr.load (p : Ptr Int) (k : Nat) : Int :=
  p.buf.getD (p.pos + k) 0

/-- The statement `++p`. -/
def Ptr.inc {α : Type} (p : Ptr α) : Ptr α :=
  ⟨p.buf, p.pos + 1⟩

/-- The read `x[i]` of a coordinate array. -/
def rd (x : List ℚ) (i : Nat) : ℚ :=
  x.getD i 0

/-! ## The grid structure (`opm/core/grid.h`) -/

/-- The fields of `struct UnstructuredGrid` that `cart_grid.c` touches. -/
structure UnstructuredGrid where
  dimensions : Nat
  number_of_cells : Nat
  number_of_faces : Nat
  number_of_nodes : Nat
  face_nodes : List Int
  face_nodepos : List Int
  face_cells : List Int
  face_centroids : List ℚ
  face_normals : List ℚ
  face_areas : List ℚ
  cell_faces : List Int
  cell_facepos : List Int
  cell_facetag : List Int
  cell_centroids : List ℚ
  cell_volumes : List ℚ
  global_cell : List Int
  cartdims : Nat × Nat × Nat
  node_coordinates : List ℚ
deriving DecidableEq

/-- The derived geometric quantities of a grid. -/
structure Geometry where
  face_centroids : List ℚ
  face_normals : List ℚ
  face_areas : List ℚ
  cell_centroids : List ℚ
  cell_volumes : List ℚ

/-- The environment of one construction call: the outcome of each memory
request it makes (`true` when the request is granted) and the external
geometry post-processor. -/
structure Extern where
  /-- The `malloc` of the coordinate buffer `x` in the uniform constructors. -/
  malloc_x : Bool
  /-- The `malloc` of the coordinate buffer `y` in the uniform constructors. -/
  malloc_y : Bool
  /-- The `malloc` of the coordinate buffer `z` in `create_grid_hexa3d`. -/
  malloc_z : Bool
  /-- The container allocation `allocate_grid`. -/
  allocate_grid_ok : Bool
  /-- The `malloc` of `global_cell` in `allocate_cart_grid`. -/
  malloc_global_cell : Bool
  /-- Modelled from the spec: `compute_geometry` of
  `opm/core/grid/cornerpoint_grid.c`, which is not part of `cart_grid.c`. Given
  complete topology and node coordinates it fills the centroid, volume, area
  and normal fields; the values it computes are left open. -/
  compute_geometry : UnstructuredGrid → Geometry

/-- Modelled from the spec: the generic allocator `allocate_grid` of
`opm/core/grid.c`, which is not part of `cart_grid.c`. It returns null on
out-of-memory and otherwise a container whose index and geometry arrays are
zero-initialised and sized for the given totals: `nfacenodes` face-node
entries, `ncellfaces` cell-face entries and tags, two neighbour slots per
face, one more offset than there are faces (cells) in `face_nodepos`
(`cell_facepos`), and `ndims` reals per node, face centroid, face normal and
cell centroid. The counts and `cartdims` are zero and `global_cell` is null
(the empty array). -/
def allocate_grid (ok : Bool) (ndims ncells nfaces nfacenodes ncellfaces nnodes : Nat) :
    Option UnstructuredGrid :=
  if ok then
    some
      { dimensions := 0
        number_of_cells := 0
        number_of_faces := 0
        number_of_nodes := 0
        face_nodes := List.replicate nfacenodes 0
        face_nodepos := List.replicate (nfaces + 1) 0
        face_cells := List.replicate (2 * nfaces) 0
        face_centroids := List.replicate (ndims * nfaces) 0
        face_normals := List.replicate (ndims * nfaces) 0
        face_areas := List.replicate nfaces 0
        cell_faces := List.replicate ncellfaces 0
        cell_facepos := List.replicate (ncells + 1) 0
        cell_facetag := List.replicate ncellfaces 0
        cell_centroids := List.replicate (ndims * ncells) 0
        cell_volumes := List.replicate ncells 0
        global_cell := []
        cartdims := (0, 0, 0)
        node_coordinates := List.replicate (ndims * nnodes) 0 }
  else none

/-! ## Static functions of `cart_grid.c` -/

/-- The function `fill_cart_indices`: the loop `G->global_cell[i] = i`. -/
def fill_cart_indices (G : UnstructuredGrid) : UnstructuredGrid :=
  { G with
    global_cell :=
      forLoop G.number_of_cells (fun i gc => gc.set i (i : Int)) G.global_cell }

/-- The function `allocate_cart_grid`: requests the container and then the `global_cell`
array (`malloc` of `ncells` ints, whose content is unspecified; every entry is
overwritten by `fill_cart_indices`, and the model takes zeros). When the
second request fails the container is destroyed and null is returned. -/
def allocate_cart_grid (m : Extern) (ndims ncells nfaces nnodes : Nat) :
    Option UnstructuredGrid :=
  let nfacenodes := nfaces * (2 * (ndims - 1))
  let ncellfaces := ncells * (2 * ndims)
  match allocate_grid m.allocate_grid_ok ndims ncells nfaces nfacenodes ncellfaces nnodes with
  | some g =>
    if m.malloc_global_cell then some { g with global_cell := List.replicate ncells 0 }
    else none
  | none => none

/-- The function `allocate_cart_grid_3d`: the counts of a 3D grid, the
allocation, and the header fields. -/
def allocate_cart_grid_3d (m : Extern) (nx ny nz : Nat) : Option UnstructuredGrid :=
  let Nx := nx + 1
  let Ny := ny + 1
  let Nz := nz + 1
  let nxf := Nx * ny * nz
  let nyf := nx * Ny * nz
  let nzf := nx * ny * Nz
  let ncells := nx * ny * nz
  let nfaces := nxf + nyf + nzf
  let nnodes := Nx * Ny * Nz
  match allocate_cart_grid m 3 ncells nfaces nnodes with
  | some G =>
    some { G with
      dimensions := 3
      cartdims := (nx, ny, nz)
      number_of_cells := ncells
      number_of_faces := nfaces
      number_of_nodes := nnodes }
  | none => none

/-- The function `allocate_cart_grid_2d`: the counts of a 2D grid, the
allocation, and the header fields. -/
def allocate_cart_grid_2d (m : Extern) (nx ny : Nat) : Option UnstructuredGrid :=
  let Nx := nx + 1
  let Ny := ny + 1
  let nxf := Nx * ny
  let nyf := nx * Ny
  let ncells := nx * ny
  let nfaces := nxf + nyf
  let nnodes := Nx * Ny
  match allocate_cart_grid m 2 ncells nfaces nnodes with
  | some G =>
    some { G with
      dimensions := 2
      cartdims := (nx, ny, 1)
      number_of_cells := ncells
      number_of_faces := nfaces
      number_of_nodes := nnodes }
  | none => none

/-- The function `fill_cart_topology_2d`: the cell loop writes `cell_faces` and
`cell_facepos`, the tag loop `cell_facetag`, the two face loops `face_nodes`,
`face_nodepos` and `face_cells`; `fill_cart_indices` runs last. -/
def fill_cart_topology_2d (G : UnstructuredGrid) : UnstructuredGrid :=
  let cfaces : Ptr Int := ⟨G.cell_faces, 0⟩
  let cfacepos : Ptr Int := ⟨G.cell_facepos, 0⟩
  let nx := G.cartdims.1
  let ny := G.cartdims.2.1
  let Nx := nx + 1
  let nxf := Nx * ny
  let cfacepos := cfacepos.store 0 0
  let s := forLoop ny (fun j s => forLoop nx (fun i (s : Ptr Int × Ptr Int) =>
      let cfaces := s.1
      let cfacepos := s.2
      let cfaces := cfaces.put ((i : Int) + Nx * j)
      let cfaces := cfaces.put ((i : Int) + nx * j + nxf)
      let cfaces := cfaces.put ((i : Int) + 1 + Nx * j)
      let cfaces := cfaces.put ((i : Int) + nx * (j + 1) + nxf)
      let cfacepos := cfacepos.store 1 (cfacepos.load 0 + 4)
      let cfacepos := cfacepos.inc
      (cfaces, cfacepos)) s) (cfaces, cfacepos)
  let cell_facetag := forLoop (nx * ny) (fun j tag =>
      let tag := tag.set (j * 4 + 0) 0
      let tag := tag.set (j * 4 + 1) 2
      let tag := tag.set (j * 4 + 2) 1
      let tag := tag.set (j * 4 + 3) 3
      tag) G.cell_facetag
  let fnodes : Ptr Int := ⟨G.face_nodes, 0⟩
  let fnodepos : Ptr Int := ⟨G.face_nodepos, 0⟩
  let fcells : Ptr Int := ⟨G.face_cells, 0⟩
  let fnodepos := fnodepos.store 0 0
  -- Faces with x-normal
  let t := forLoop ny (fun j t => forLoop (nx + 1) (fun i (t : Ptr Int × Ptr Int × Ptr Int) =>
      let fnodes := t.1
      let fnodepos := t.2.1
      let fcells := t.2.2
      let fnodes := fnodes.put ((i : Int) + Nx * j)
      let fnodes := fnodes.put ((i : Int) + Nx * (j + 1))
      let fnodepos := fnodepos.store 1 (fnodepos.load 0 + 2)
      let fnodepos := fnodepos.inc
      let fcells :=
        if i = 0 then
          (fcells.put (-1)).put ((i : Int) + nx * j)
        else if i = nx then
          (fcells.put ((i : Int) - 1 + nx * j)).put (-1)
        else
          (fcells.put ((i : Int) - 1 + nx * j)).put ((i : Int) + nx * j)
      (fnodes, fnodepos, fcells)) t) (fnodes, fnodepos, fcells)
  -- Faces with y-normal
  let t := forLoop (ny + 1) (fun j t => forLoop nx (fun i (t : Ptr Int × Ptr Int × Ptr Int) =>
      let fnodes := t.1
      let fnodepos := t.2.1
      let fcells := t.2.2
      let fnodes := fnodes.put ((i : Int) + 1 + Nx * j)
      let fnodes := fnodes.put ((i : Int) + Nx * j)
      let fnodepos := fnodepos.store 1 (fnodepos.load 0 + 2)
      let fnodepos := fnodepos.inc
      let fcells :=
        if j = 0 then
          (fcells.put (-1)).put ((i : Int) + nx * j)
        else if j = ny then
          (fcells.put ((i : Int) + nx * ((j : Int) - 1))).put (-1)
        else
          (fcells.put ((i : Int) + nx * ((j : Int) - 1))).put ((i : Int) + nx * j)
      (fnodes, fnodepos, fcells)) t) t
  fill_cart_indices
    { G with
      cell_faces := s.1.buf
      cell_facepos := s.2.buf
      cell_facetag := cell_facetag
      face_nodes := t.1.buf
      face_nodepos := t.2.1.buf
      face_cells := t.2.2.buf }


/-- The function `fill_cart_topology_3d`: the cell loop writes `cell_faces` and
`cell_facepos`, the tag loop `cell_facetag`, the three face loops `face_nodes`,
`face_nodepos` and `face_cells`; `fill_cart_indices` runs last. -/
def fill_cart_topology_3d (G : UnstructuredGrid) : UnstructuredGrid :=
  let nx := G.cartdims.1
  let ny := G.cartdims.2.1
  let nz := G.cartdims.2.2
  let Nx := nx + 1
  let Ny := ny + 1
  let nxf := Nx * ny * nz
  let nyf := nx * Ny * nz
  let cfaces : Ptr Int := ⟨G.cell_faces, 0⟩
  let cfacepos : Ptr Int := ⟨G.cell_facepos, 0⟩
  let cfacepos := cfacepos.store 0 0
  let s := forLoop nz (fun k s => forLoop ny (fun j s => forLoop nx
    (fun i (s : Ptr Int × Ptr Int) =>
      let cfaces := s.1
      let cfacepos := s.2
      let cfaces := cfaces.put ((i : Int) + Nx * (j + ny * k))
      let cfaces := cfaces.put ((i : Int) + 1 + Nx * (j + ny * k))
      let cfaces := cfaces.put ((i : Int) + nx * (j + Ny * k) + nxf)
      let cfaces := cfaces.put ((i : Int) + nx * (j + 1 + Ny * k) + nxf)
      let cfaces := cfaces.put ((i : Int) + nx * (j + ny * k) + nxf + nyf)
      let cfaces := cfaces.put ((i : Int) + nx * (j + ny * (k + 1)) + nxf + nyf)
      let cfacepos := cfacepos.store 1 (cfacepos.load 0 + 6)
      let cfacepos := cfacepos.inc
      (cfaces, cfacepos)) s) s) (cfaces, cfacepos)
  let cell_facetag := forLoop (nx * ny * nz) (fun k tag =>
      forLoop 6 (fun i (tag : List Int) => tag.set (k * 6 + i) (i : Int)) tag) G.cell_facetag
  let fnodes : Ptr Int := ⟨G.face_nodes, 0⟩
  let fnodepos : Ptr Int := ⟨G.face_nodepos, 0⟩
  let fcells : Ptr Int := ⟨G.face_cells, 0⟩
  let fnodepos := fnodepos.store 0 0
  -- Faces with x-normal
  let t := forLoop nz (fun k t => forLoop ny (fun j t => forLoop (nx + 1)
    (fun i (t : Ptr Int × Ptr Int × Ptr Int) =>
      let fnodes := t.1
      let fnodepos := t.2.1
      let fcells := t.2.2
      let fnodes := fnodes.put ((i : Int) + Nx * (j + Ny * k))
      let fnodes := fnodes.put ((i : Int) + Nx * (j + 1 + Ny * k))
      let fnodes := fnodes.put ((i : Int) + Nx * (j + 1 + Ny * (k + 1)))
      let fnodes := fnodes.put ((i : Int) + Nx * (j + Ny * (k + 1)))
      let fnodepos := fnodepos.store 1 (fnodepos.load 0 + 4)
      let fnodepos := fnodepos.inc
      let fcells :=
        if i = 0 then
          (fcells.put (-1)).put ((i : Int) + nx * (j + ny * k))
        else if i = nx then
          (fcells.put ((i : Int) - 1 + nx * (j + ny * k))).put (-1)
        else
          (fcells.put ((i : Int) - 1 + nx * (j + ny * k))).put ((i : Int) + nx * (j + ny * k))
      (fnodes, fnodepos, fcells)) t) t) (fnodes, fnodepos, fcells)
  -- Faces with y-normal
  let t := forLoop nz (fun k t => forLoop (ny + 1) (fun j t => forLoop nx
    (fun i (t : Ptr Int × Ptr Int × Ptr Int) =>
      let fnodes := t.1
      let fnodepos := t.2.1
      let fcells := t.2.2
      let fnodes := fnodes.put ((i : Int) + Nx * (j + Ny * k))
      let fnodes := fnodes.put ((i : Int) + Nx * (j + Ny * (k + 1)))
      let fnodes := fnodes.put ((i : Int) + 1 + Nx * (j + Ny * (k + 1)))
      let fnodes := fnodes.put ((i : Int) + 1 + Nx * (j + Ny * k))
      let fnodepos := fnodepos.store 1 (fnodepos.load 0 + 4)
      let fnodepos := fnodepos.inc
      let fcells :=
        if j = 0 then
          (fcells.put (-1)).put ((i : Int) + nx * (j + ny * k))
        else if j = ny then
          (fcells.put ((i : Int) + nx * ((j : Int) - 1 + ny * k))).put (-1)
        else
          (fcells.put ((i : Int) + nx * ((j : Int) - 1 + ny * k))).put
            ((i : Int) + nx * (j + ny * k))
      (fnodes, fnodepos, fcells)) t) t) t
  -- Faces with z-normal
  let t := forLoop (nz + 1) (fun k t => forLoop ny (fun j t => forLoop nx
    (fun i (t : Ptr Int × Ptr Int × Ptr Int) =>
      let fnodes := t.1
      let fnodepos := t.2.1
      let fcells := t.2.2
      let fnodes := fnodes.put ((i : Int) + Nx * (j + Ny * k))
      let fnodes := fnodes.put ((i : Int) + 1 + Nx * (j + Ny * k))
      let fnodes := fnodes.put ((i : Int) + 1 + Nx * (j + 1 + Ny * k))
      let fnodes := fnodes.put ((i : Int) + Nx * (j + 1 + Ny * k))
      let fnodepos := fnodepos.store 1 (fnodepos.load 0 + 4)
      let fnodepos := fnodepos.inc
      let fcells :=
        if k = 0 then
          (fcells.put (-1)).put ((i : Int) + nx * (j + ny * k))
        else if k = nz then
          (fcells.put ((i : Int) + nx * (j + ny * ((k : Int) - 1)))).put (-1)
        else
          (fcells.put ((i : Int) + nx * (j + ny * ((k : Int) - 1)))).put
            ((i : Int) + nx * (j + ny * k))
      (fnodes, fnodepos, fcells)) t) t) t
  fill_cart_indices
    { G with
      cell_faces := s.1.buf
      cell_facepos := s.2.buf
      cell_facetag := cell_facetag
      face_nodes := t.1.buf
      face_nodepos := t.2.1.buf
      face_cells := t.2.2.buf }

/-- The function `fill_cart_geometry_3d`: cell centroids and volumes, then the
normals, centroids and areas of the three face families, then the node
coordinates. -/
def fill_cart_geometry_3d (G : UnstructuredGrid) (x y z : List ℚ) : UnstructuredGrid :=
  let nx := G.cartdims.1
  let ny := G.cartdims.2.1
  let nz := G.cartdims.2.2
  let ccentroids : Ptr ℚ := ⟨G.cell_centroids, 0⟩
  let cvolumes : Ptr ℚ := ⟨G.cell_volumes, 0⟩
  let c := forLoop nz (fun k c => forLoop ny (fun j c => forLoop nx
    (fun i (c : Ptr ℚ × Ptr ℚ) =>
      let ccentroids := c.1
      let cvolumes := c.2
      let ccentroids := ccentroids.put ((rd x i + rd x (i + 1)) / 2)
      let ccentroids := ccentroids.put ((rd y j + rd y (j + 1)) / 2)
      let ccentroids := ccentroids.put ((rd z k + rd z (k + 1)) / 2)
      let dx := rd x (i + 1) - rd x i
      let dy := rd y (j + 1) - rd y j
      let dz := rd z (k + 1) - rd z k
      let cvolumes := cvolumes.put (dx * dy * dz)
      (ccentroids, cvolumes)) c) c) (ccentroids, cvolumes)
  let fnormals : Ptr ℚ := ⟨G.face_normals, 0⟩
  let fcentroids : Ptr ℚ := ⟨G.face_centroids, 0⟩
  let fareas : Ptr ℚ := ⟨G.face_areas, 0⟩
  -- Faces with x-normal
  let f := forLoop nz (fun k f => forLoop ny (fun j f => forLoop (nx + 1)
    (fun i (f : Ptr ℚ × Ptr ℚ × Ptr ℚ) =>
      let fnormals := f.1
      let fcentroids := f.2.1
      let fareas := f.2.2
      let dy := rd y (j + 1) - rd y j
      let dz := rd z (k + 1) - rd z k
      let fnormals := fnormals.put (dy * dz)
      let fnormals := fnormals.put 0
      let fnormals := fnormals.put 0
      let fcentroids := fcentroids.put (rd x i)
      let fcentroids := fcentroids.put ((rd y j + rd y (j + 1)) / 2)
      let fcentroids := fcentroids.put ((rd z k + rd z (k + 1)) / 2)
      let fareas := fareas.put (dy * dz)
      (fnormals, fcentroids, fareas)) f) f) (fnormals, fcentroids, fareas)
  -- Faces with y-normal
  let f := forLoop nz (fun k f => forLoop (ny + 1) (fun j f => forLoop nx
    (fun i (f : Ptr ℚ × Ptr ℚ × Ptr ℚ) =>
      let fnormals := f.1
      let fcentroids := f.2.1
      let fareas := f.2.2
      let dx := rd x (i + 1) - rd x i
      let dz := rd z (k + 1) - rd z k
      let fnormals := fnormals.put 0
      let fnormals := fnormals.put (dx * dz)
      let fnormals := fnormals.put 0
      let fcentroids := fcentroids.put ((rd x i + rd x (i + 1)) / 2)
      let fcentroids := fcentroids.put (rd y j)
      let fcentroids := fcentroids.put ((rd z k + rd z (k + 1)) / 2)
      let fareas := fareas.put (dx * dz)
      (fnormals, fcentroids, fareas)) f) f) f
  -- Faces with z-normal
  let f := forLoop (nz + 1) (fun k f => forLoop ny (fun j f => forLoop nx
    (fun i (f : Ptr ℚ × Ptr ℚ × Ptr ℚ) =>
      let fnormals := f.1
      let fcentroids := f.2.1
      let fareas := f.2.2
      let dx := rd x (i + 1) - rd x i
      let dy := rd y (j + 1) - rd y j
      let fnormals := fnormals.put 0
      let fnormals := fnormals.put 0
      let fnormals := fnormals.put (dx * dy)
      let fcentroids := fcentroids.put ((rd x i + rd x (i + 1)) / 2)
      let fcentroids := fcentroids.put ((rd y j + rd y (j + 1)) / 2)
      let fcentroids := fcentroids.put (rd z k)
      let fareas := fareas.put (dx * dy)
      (fnormals, fcentroids, fareas)) f) f) f
  let coord : Ptr ℚ := ⟨G.node_coordinates, 0⟩
  let coord := forLoop (nz + 1) (fun k coord => forLoop (ny + 1) (fun j coord =>
    forLoop (nx + 1) (fun i (coord : Ptr ℚ) =>
      let coord := coord.put (rd x i)
      let coord := coord.put (rd y j)
      let coord := coord.put (rd z k)
      coord) coord) coord) coord
  { G with
    cell_centroids := c.1.buf
    cell_volumes := c.2.buf
    face_normals := f.1.buf
    face_centroids := f.2.1.buf
    face_areas := f.2.2.buf
    node_coordinates := coord.buf }

/-- The function `fill_layered_geometry_3d`. The read cursor `depth` into `depthz` is the
offset it is at. -/
def fill_layered_geometry_3d (m : Extern) (G : UnstructuredGrid) (x y z depthz : List ℚ) :
    UnstructuredGrid :=
  let nx := G.cartdims.1
  let ny := G.cartdims.2.1
  let nz := G.cartdims.2.2
  let coord : Ptr ℚ := ⟨G.node_coordinates, 0⟩
  let s := forLoop (nz + 1) (fun k (s : Ptr ℚ × Nat) =>
    let coord := s.1
    let depth := 0
    forLoop (ny + 1) (fun j s => forLoop (nx + 1) (fun i (s : Ptr ℚ × Nat) =>
      let coord := s.1
      let depth := s.2
      let coord := coord.put (rd x i)
      let coord := coord.put (rd y j)
      let coord := coord.put (rd z k + rd depthz depth)
      let depth := depth + 1
      (coord, depth)) s) (coord, depth)) (coord, 0)
  let G := { G with node_coordinates := s.1.buf }
  let geo := m.compute_geometry G
  { G with
    face_centroids := geo.face_centroids
    face_normals := geo.face_normals
    face_areas := geo.face_areas
    cell_centroids := geo.cell_centroids
    cell_volumes := geo.cell_volumes }

/-- The function `fill_cart_geometry_2d`: cell centroids and volumes, then the
normals, centroids and areas of the two face families, then the node
coordinates. -/
def fill_cart_geometry_2d (G : UnstructuredGrid) (x y : List ℚ) : UnstructuredGrid :=
  let nx := G.cartdims.1
  let ny := G.cartdims.2.1
  let ccentroids : Ptr ℚ := ⟨G.cell_centroids, 0⟩
  let cvolumes : Ptr ℚ := ⟨G.cell_volumes, 0⟩
  let c := forLoop ny (fun j c => forLoop nx (fun i (c : Ptr ℚ × Ptr ℚ) =>
      let ccentroids := c.1
      let cvolumes := c.2
      let ccentroids := ccentroids.put ((rd x i + rd x (i + 1)) / 2)
      let ccentroids := ccentroids.put ((rd y j + rd y (j + 1)) / 2)
      let dx := rd x (i + 1) - rd x i
      let dy := rd y (j + 1) - rd y j
      let cvolumes := cvolumes.put (dx * dy)
      (ccentroids, cvolumes)) c) (ccentroids, cvolumes)
  let fnormals : Ptr ℚ := ⟨G.face_normals, 0⟩
  let fcentroids : Ptr ℚ := ⟨G.face_centroids, 0⟩
  let fareas : Ptr ℚ := ⟨G.face_areas, 0⟩
  -- Faces with x-normal
  let f := forLoop ny (fun j f => forLoop (nx + 1) (fun i (f : Ptr ℚ × Ptr ℚ × Ptr ℚ) =>
      let fnormals := f.1
      let fcentroids := f.2.1
      let fareas := f.2.2
      let dy := rd y (j + 1) - rd y j
      let fnormals := fnormals.put dy
      let fnormals := fnormals.put 0
      let fcentroids := fcentroids.put (rd x i)
      let fcentroids := fcentroids.put ((rd y j + rd y (j + 1)) / 2)
      let fareas := fareas.put dy
      (fnormals, fcentroids, fareas)) f) (fnormals, fcentroids, fareas)
  -- Faces with y-normal
  let f := forLoop (ny + 1) (fun j f => forLoop nx (fun i (f : Ptr ℚ × Ptr ℚ × Ptr ℚ) =>
      let fnormals := f.1
      let fcentroids := f.2.1
      let fareas := f.2.2
      let dx := rd x (i + 1) - rd x i
      let fnormals := fnormals.put 0
      let fnormals := fnormals.put dx
      let fcentroids := fcentroids.put ((rd x i + rd x (i + 1)) / 2)
      let fcentroids := fcentroids.put (rd y j)
      let fareas := fareas.put dx
      (fnormals, fcentroids, fareas)) f) f
  let coord : Ptr ℚ := ⟨G.node_coordinates, 0⟩
  let coord := forLoop (ny + 1) (fun j coord => forLoop (nx + 1) (fun i (coord : Ptr ℚ) =>
      let coord := coord.put (rd x i)
      let coord := coord.put (rd y j)
      coord) coord) coord
  { G with
    cell_centroids := c.1.buf
    cell_volumes := c.2.buf
    face_normals := f.1.buf
    face_centroids := f.2.1.buf
    face_areas := f.2.2.buf
    node_coordinates := coord.buf }

/-! ## Public entry points -/

/-- The function `create_grid_tensor2d`: allocation, topology, geometry; null
when the allocation fails. -/
def create_grid_tensor2d (m : Extern) (nx ny : Nat) (x y : List ℚ) : Option UnstructuredGrid :=
  match allocate_cart_grid_2d m nx ny with
  | some G =>
    let G := fill_cart_topology_2d G
    let G := fill_cart_geometry_2d G x y
    some G
  | none => none

/-- The function `create_grid_tensor3d`; the argument `depthz` is `none` for a null
pointer. -/
def create_grid_tensor3d (m : Extern) (nx ny nz : Nat) (x y z : List ℚ)
    (depthz : Option (List ℚ)) : Option UnstructuredGrid :=
  match allocate_cart_grid_3d m nx ny nz with
  | some G =>
    let G := fill_cart_topology_3d G
    match depthz with
    | none => some (fill_cart_geometry_3d G x y z)
    | some depthz => some (fill_layered_geometry_3d m G x y z depthz)
  | none => none

/-- The function `create_grid_hexa3d`. A coordinate buffer obtained from `malloc` has
unspecified content; each of its entries is assigned before it is read, and
the model starts from zeros. -/
def create_grid_hexa3d (m : Extern) (nx ny nz : Nat) (dx dy dz : ℚ) :
    Option UnstructuredGrid :=
  if m.malloc_x = false ∨ m.malloc_y = false ∨ m.malloc_z = false then none
  else
    let x : List ℚ := List.replicate (nx + 1) 0
    let y : List ℚ := List.replicate (ny + 1) 0
    let z : List ℚ := List.replicate (nz + 1) 0
    let x := forLoop (nx + 1) (fun i (x : List ℚ) => x.set i (i * dx)) x
    let y := forLoop (ny + 1) (fun i (y : List ℚ) => y.set i (i * dy)) y
    let z := forLoop (nz + 1) (fun i (z : List ℚ) => z.set i (i * dz)) z
    create_grid_tensor3d m nx ny nz x y z none

/-- The function `create_grid_cart3d`: unit spacing in `create_grid_hexa3d`. -/
def create_grid_cart3d (m : Extern) (nx ny nz : Nat) : Option UnstructuredGrid :=
  create_grid_hexa3d m nx ny nz 1 1 1

/-- The function `create_grid_cart2d`: the coordinates `i*dx`, `i*dy` are written
into fresh buffers and passed to `create_grid_tensor2d`. -/
def create_grid_cart2d (m : Extern) (nx ny : Nat) (dx dy : ℚ) : Option UnstructuredGrid :=
  if m.malloc_x = false ∨ m.malloc_y = false then none
  else
    let x : List ℚ := List.replicate (nx + 1) 0
    let y : List ℚ := List.replicate (ny + 1) 0
    let x := forLoop (nx + 1) (fun i (x : List ℚ) => x.set i (i * dx)) x
    let y := forLoop (ny + 1) (fun i (y : List ℚ) => y.set i (i * dy)) y
    create_grid_tensor2d m nx ny x y

/-! ## Reading a grid -/

/-- The faces of cell `c` as the reference test reads them: `cell_faces[k]`
for `k` from `cell_facepos[c]` up to `cell_facepos[c + 1] - 1`. -/
def cell_face_list (G : UnstructuredGrid) (c : Nat) : List Int :=
  let lo := (G.cell_facepos.getD c 0).toNat
  let hi := (G.cell_facepos.getD (c + 1) 0).toNat
  (List.range (hi - lo)).map (fun t => G.cell_faces.getD (lo + t) 0)

/-! ## Definitions used in the proofs -/

/-- The values written by `n` rounds of a loop whose round `i` writes the
list `g i` through a cursor. -/
def emitted {α : Type} : Nat → (Nat → List α) → List α
  | 0, _ => []
  | n + 1, g => emitted n g ++ g n

/-- Writing the values of a list one after the other through a cursor. -/
def Ptr.putAll {α : Type} (p : Ptr α) (vs : List α) : Ptr α :=
  vs.foldl Ptr.put p

/-- The stream written to `cell_faces` by the 2D topology builder. -/
def cfaces2d (nx ny : Nat) : List Int :=
  emitted ny (fun j => emitted nx (fun i =>
    [(i : Int) + ((nx + 1 : Nat) : Int) * j,
     (i : Int) + nx * j + (((nx + 1) * ny : Nat) : Int),
     (i : Int) + 1 + ((nx + 1 : Nat) : Int) * j,
     (i : Int) + nx * (j + 1) + (((nx + 1) * ny : Nat) : Int)]))

/-- The two neighbour slots written for the x-normal face `(i, j)` in 2D. -/
def fcells2d_x_block (nx i j : Nat) : List Int :=
  if i = 0 then [-1, (i : Int) + nx * j]
  else if i = nx then [(i : Int) - 1 + nx * j, -1]
  else [(i : Int) - 1 + nx * j, (i : Int) + nx * j]

/-- The neighbour slots written for the x-normal faces in 2D. -/
def fcells2d_x (nx ny : Nat) : List Int :=
  emitted ny (fun j => emitted (nx + 1) (fun i => fcells2d_x_block nx i j))

/-- The two neighbour slots written for the y-normal face `(i, j)` in 2D. -/
def fcells2d_y_block (nx ny i j : Nat) : List Int :=
  if j = 0 then [-1, (i : Int) + nx * j]
  else if j = ny then [(i : Int) + nx * ((j : Int) - 1), -1]
  else [(i : Int) + nx * ((j : Int) - 1), (i : Int) + nx * j]

/-- The neighbour slots written for the y-normal faces in 2D. -/
def fcells2d_y (nx ny : Nat) : List Int :=
  emitted (ny + 1) (fun j => emitted nx (fun i => fcells2d_y_block nx ny i j))

/-- One round of an offset-table update: `p[1] = p[0] + d; ++p;`. -/
def Ptr.bump (d : Int) (p : Ptr Int) : Ptr Int :=
  (p.store 1 (p.load 0 + d)).inc

/-- The tags written by the 2D topology builder. -/
def ctag2d (nx ny : Nat) : List Int :=
  emitted (nx * ny) (fun _ => [0, 2, 1, 3])

/-- The stream written to `cell_faces` by the 3D topology builder. -/
def cfaces3d (nx ny nz : Nat) : List Int :=
  emitted nz (fun k => emitted ny (fun j => emitted nx (fun i =>
    [(i : Int) + ((nx + 1 : Nat) : Int) * (j + ny * k),
     (i : Int) + 1 + ((nx + 1 : Nat) : Int) * (j + ny * k),
     (i : Int) + nx * (j + ((ny + 1 : Nat) : Int) * k) + (((nx + 1) * ny * nz : Nat) : Int),
     (i : Int) + nx * (j + 1 + ((ny + 1 : Nat) : Int) * k) + (((nx + 1) * ny * nz : Nat) : Int),
     (i : Int) + nx * (j + ny * k) + (((nx + 1) * ny * nz : Nat) : Int)
       + ((nx * (ny + 1) * nz : Nat) : Int),
     (i : Int) + nx * (j + ny * (k + 1)) + (((nx + 1) * ny * nz : Nat) : Int)
       + ((nx * (ny + 1) * nz : Nat) : Int)])))

/-- The tags written by the 3D topology builder. -/
def ctag3d (nx ny nz : Nat) : List Int :=
  emitted (nx * ny * nz) (fun _ => [0, 1, 2, 3, 4, 5])

/-- The two neighbour slots written for the x-normal face `(i, j, k)` in 3D. -/
def fcells3d_x_block (nx ny i j k : Nat) : List Int :=
  if i = 0 then [-1, (i : Int) + nx * (j + ny * k)]
  else if i = nx then [(i : Int) - 1 + nx * (j + ny * k), -1]
  else [(i : Int) - 1 + nx * (j + ny * k), (i : Int) + nx * (j + ny * k)]

/-- The neighbour slots written for the x-normal faces in 3D. -/
def fcells3d_x (nx ny nz : Nat) : List Int :=
  emitted nz (fun k => emitted ny (fun j => emitted (nx + 1) (fun i =>
    fcells3d_x_block nx ny i j k)))

/-- The two neighbour slots written for the y-normal face `(i, j, k)` in 3D. -/
def fcells3d_y_block (nx ny i j k : Nat) : List Int :=
  if j = 0 then [-1, (i : Int) + nx * (j + ny * k)]
  else if j = ny then [(i : Int) + nx * ((j : Int) - 1 + ny * k), -1]
  else [(i : Int) + nx * ((j : Int) - 1 + ny * k), (i : Int) + nx * (j + ny * k)]

/-- The neighbour slots written for the y-normal faces in 3D. -/
def fcells3d_y (nx ny nz : Nat) : List Int :=
  emitted nz (fun k => emitted (ny + 1) (fun j => emitted nx (fun i =>
    fcells3d_y_block nx ny i j k)))

/-- The two neighbour slots written for the z-normal face `(i, j, k)` in 3D. -/
def fcells3d_z_block (nx ny nz i j k : Nat) : List Int :=
  if k = 0 then [-1, (i : Int) + nx * (j + ny * k)]
  else if k = nz then [(i : Int) + nx * (j + ny * ((k : Int) - 1)), -1]
  else [(i : Int) + nx * (j + ny * ((k : Int) - 1)), (i : Int) + nx * (j + ny * k)]

/-- The neighbour slots written for the z-normal faces in 3D. -/
def fcells3d_z (nx ny nz : Nat) : List Int :=
  emitted (nz + 1) (fun k => emitted ny (fun j => emitted nx (fun i =>
    fcells3d_z_block nx ny nz i j k)))

/-- The nodes written for the x-normal faces in 2D. -/
def fnodes2d_x (nx ny : Nat) : List Int :=
  emitted ny (fun j => emitted (nx + 1) (fun i =>
    [(i : Int) + ((nx + 1 : Nat) : Int) * j, (i : Int) + ((nx + 1 : Nat) : Int) * (j + 1)]))

/-- The nodes written for the y-normal faces in 2D. -/
def fnodes2d_y (nx ny : Nat) : List Int :=
  emitted (ny + 1) (fun j => emitted nx (fun i =>
    [(i : Int) + 1 + ((nx + 1 : Nat) : Int) * j, (i : Int) + ((nx + 1 : Nat) : Int) * j]))

/-- The nodes written for the x-normal faces in 3D. -/
def fnodes3d_x (nx ny nz : Nat) : List Int :=
  emitted nz (fun k => emitted ny (fun j => emitted (nx + 1) (fun i =>
    [(i : Int) + ((nx + 1 : Nat) : Int) * (j + ((ny + 1 : Nat) : Int) * k),
     (i : Int) + ((nx + 1 : Nat) : Int) * (j + 1 + ((ny + 1 : Nat) : Int) * k),
     (i : Int) + ((nx + 1 : Nat) : Int) * (j + 1 + ((ny + 1 : Nat) : Int) * (k + 1)),
     (i : Int) + ((nx + 1 : Nat) : Int) * (j + ((ny + 1 : Nat) : Int) * (k + 1))])))

/-- The nodes written for the y-normal faces in 3D. -/
def fnodes3d_y (nx ny nz : Nat) : List Int :=
  emitted nz (fun k => emitted (ny + 1) (fun j => emitted nx (fun i =>
    [(i : Int) + ((nx + 1 : Nat) : Int) * (j + ((ny + 1 : Nat) : Int) * k),
     (i : Int) + ((nx + 1 : Nat) : Int) * (j + ((ny + 1 : Nat) : Int) * (k + 1)),
     (i : Int) + 1 + ((nx + 1 : Nat) : Int) * (j + ((ny + 1 : Nat) : Int) * (k + 1)),
     (i : Int) + 1 + ((nx + 1 : Nat) : Int) * (j + ((ny + 1 : Nat) : Int) * k)])))

/-- The nodes written for the z-normal faces in 3D. -/
def fnodes3d_z (nx ny nz : Nat) : List Int :=
  emitted (nz + 1) (fun k => emitted ny (fun j => emitted nx (fun i =>
    [(i : Int) + ((nx + 1 : Nat) : Int) * (j + ((ny + 1 : Nat) : Int) * k),
     (i : Int) + 1 + ((nx + 1 : Nat) : Int) * (j + ((ny + 1 : Nat) : Int) * k),
     (i : Int) + 1 + ((nx + 1 : Nat) : Int) * (j + 1 + ((ny + 1 : Nat) : Int) * k),
     (i : Int) + ((nx + 1 : Nat) : Int) * (j + 1 + ((ny + 1 : Nat) : Int) * k)])))

/-- The array sizes of a container obtained from `allocate_cart_grid`. -/
structure Sized (A : UnstructuredGrid) (ndims ncells nfaces nnodes : Nat) : Prop where
  face_nodes : A.face_nodes.length = nfaces * (2 * (ndims - 1))
  face_nodepos : A.face_nodepos.length = nfaces + 1
  face_cells : A.face_cells.length = 2 * nfaces
  face_centroids : A.face_centroids.length = ndims * nfaces
  face_normals : A.face_normals.length = ndims * nfaces
  face_areas : A.face_areas.length = nfaces
  cell_faces : A.cell_faces.length = ncells * (2 * ndims)
  cell_facepos : A.cell_facepos.length = ncells + 1
  cell_facetag : A.cell_facetag.length = ncells * (2 * ndims)
  cell_centroids : A.cell_centroids.length = ndims * ncells
  cell_volumes : A.cell_volumes.length = ncells
  global_cell : A.global_cell.length = ncells
  node_coordinates : A.node_coordinates.length = ndims * nnodes

/-- Both memory requests of `allocate_cart_grid` are granted. -/
def Extern.grid_granted (m : Extern) : Prop :=
  m.allocate_grid_ok = true ∧ m.malloc_global_cell = true

instance (m : Extern) : Decidable m.grid_granted :=
  inferInstanceAs (Decidable (_ ∧ _))

/-- An environment in which every memory request is granted and the geometry
post-processor returns the fields as it finds them. -/
def Extern.ample : Extern :=
  { malloc_x := true
    malloc_y := true
    malloc_z := true
    allocate_grid_ok := true
    malloc_global_cell := true
    compute_geometry := fun G =>
      ⟨G.face_centroids, G.face_normals, G.face_areas, G.cell_centroids, G.cell_volumes⟩ }

/-- What the 3D topology builder leaves in a freshly allocated grid. -/
structure Topo3d (G : UnstructuredGrid) (nx ny nz : Nat) : Prop where
  dimensions : G.dimensions = 3
  cartdims : G.cartdims = (nx, ny, nz)
  number_of_cells : G.number_of_cells = nx * ny * nz
  number_of_faces : G.number_of_faces =
    (nx + 1) * ny * nz + nx * (ny + 1) * nz + nx * ny * (nz + 1)
  number_of_nodes : G.number_of_nodes = (nx + 1) * (ny + 1) * (nz + 1)
  cell_faces : G.cell_faces = cfaces3d nx ny nz
  cell_facetag : G.cell_facetag = ctag3d nx ny nz
  face_nodes : G.face_nodes = fnodes3d_x nx ny nz ++ fnodes3d_y nx ny nz ++ fnodes3d_z nx ny nz
  face_cells : G.face_cells = fcells3d_x nx ny nz ++ fcells3d_y nx ny nz ++ fcells3d_z nx ny nz
  cell_facepos : ∀ c, c ≤ nx * ny * nz → G.cell_facepos[c]? = some (6 * (c : Int))
  face_nodepos : ∀ f, f ≤ (nx + 1) * ny * nz + nx * (ny + 1) * nz + nx * ny * (nz + 1) →
    G.face_nodepos[f]? = some (4 * (f : Int))
  global_cell : G.global_cell = emitted (nx * ny * nz) (fun i => [(i : Int)])

/-- What the 2D topology builder leaves in a freshly allocated grid. -/
structure Topo2d (G : UnstructuredGrid) (nx ny : Nat) : Prop where
  dimensions : G.dimensions = 2
  cartdims : G.cartdims = (nx, ny, 1)
  number_of_cells : G.number_of_cells = nx * ny
  number_of_faces : G.number_of_faces = (nx + 1) * ny + nx * (ny + 1)
  number_of_nodes : G.number_of_nodes = (nx + 1) * (ny + 1)
  cell_faces : G.cell_faces = cfaces2d nx ny
  cell_facetag : G.cell_facetag = ctag2d nx ny
  face_nodes : G.face_nodes = fnodes2d_x nx ny ++ fnodes2d_y nx ny
  face_cells : G.face_cells = fcells2d_x nx ny ++ fcells2d_y nx ny
  cell_facepos : ∀ c, c ≤ nx * ny → G.cell_facepos[c]? = some (4 * (c : Int))
  face_nodepos : ∀ f, f ≤ (nx + 1) * ny + nx * (ny + 1) →
    G.face_nodepos[f]? = some (2 * (f : Int))
  global_cell : G.global_cell = emitted (nx * ny) (fun i => [(i : Int)])

/-- The coordinate buffer the uniform constructors fill for `n` cells of
width `d`. -/
def uniform_coords (n : Nat) (d : ℚ) : List ℚ :=
  forLoop (n + 1) (fun i (x : List ℚ) => x.set i (i * d)) (List.replicate (n + 1) 0)

/-- The neighbour slots of face `f`, a face at position `p` of the `n + 1`
positions along its normal axis: the low boundary face has slots `(-1, c)`,
the high boundary face `(c, -1)`, an interior face two cells, and never are
both slots `-1`. -/
def boundary_slots (G : UnstructuredGrid) (f p n : Nat) : Prop :=
  ∃ a b : Int, G.face_cells[2 * f]? = some a ∧ G.face_cells[2 * f + 1]? = some b ∧
    (p = 0 → a = -1 ∧ 0 ≤ b) ∧ (p = n → 0 ≤ a ∧ b = -1) ∧
    (0 < p → p < n → 0 ≤ a ∧ 0 ≤ b) ∧ ¬ (a = -1 ∧ b = -1)

/-- The index of the face at local position `p` of the 3D cell `(i, j, k)`,
in the order x-low, x-high, y-low, y-high, z-low, z-high. -/
def cell_face3d (nx ny nz i j k p : Nat) : Nat :=
  match p with
  | 0 => i + (nx + 1) * (j + ny * k)
  | 1 => i + 1 + (nx + 1) * (j + ny * k)
  | 2 => (nx + 1) * ny * nz + (i + nx * (j + (ny + 1) * k))
  | 3 => (nx + 1) * ny * nz + (i + nx * (j + 1 + (ny + 1) * k))
  | 4 => (nx + 1) * ny * nz + nx * (ny + 1) * nz + (i + nx * (j + ny * k))
  | _ => (nx + 1) * ny * nz + nx * (ny + 1) * nz + (i + nx * (j + ny * (k + 1)))

/-- The index of the face at local position `p` of the 2D cell `(i, j)`, in
the order x-low, y-low, x-high, y-high. -/
def cell_face2d (nx ny i j p : Nat) : Nat :=
  match p with
  | 0 => i + (nx + 1) * j
  | 1 => (nx + 1) * ny + (i + nx * j)
  | 2 => i + 1 + (nx + 1) * j
  | _ => (nx + 1) * ny + (i + nx * (j + 1))

/-- The face family of face `f`: 0 for the x-normal faces `[0, nxf)`, 1 for
the y-normal faces `[nxf, nxf + nyf)` and 2 for the rest. -/
def face_family (nxf nyf f : Nat) : Nat :=
  if f < nxf then 0 else if f < nxf + nyf then 1 else 2

/-! ### Streams written by the geometry fillers -/

/-- The cell centroids written by the 3D geometry filler. -/
def ccent3d (nx ny nz : Nat) (x y z : List ℚ) : List ℚ :=
  emitted nz (fun k => emitted ny (fun j => emitted nx (fun i =>
    [(rd x i + rd x (i + 1)) / 2, (rd y j + rd y (j + 1)) / 2, (rd z k + rd z (k + 1)) / 2])))

/-- The cell volumes written by the 3D geometry filler. -/
def cvol3d (nx ny nz : Nat) (x y z : List ℚ) : List ℚ :=
  emitted nz (fun k => emitted ny (fun j => emitted nx (fun i =>
    [(rd x (i + 1) - rd x i) * (rd y (j + 1) - rd y j) * (rd z (k + 1) - rd z k)])))

/-- The normals written for the x-normal faces in 3D. -/
def fnorm3d_x (nx ny nz : Nat) (y z : List ℚ) : List ℚ :=
  emitted nz (fun k => emitted ny (fun j => emitted (nx + 1) (fun _ =>
    [(rd y (j + 1) - rd y j) * (rd z (k + 1) - rd z k), 0, 0])))

/-- The normals written for the y-normal faces in 3D. -/
def fnorm3d_y (nx ny nz : Nat) (x z : List ℚ) : List ℚ :=
  emitted nz (fun k => emitted (ny + 1) (fun _ => emitted nx (fun i =>
    [0, (rd x (i + 1) - rd x i) * (rd z (k + 1) - rd z k), 0])))

/-- The normals written for the z-normal faces in 3D. -/
def fnorm3d_z (nx ny nz : Nat) (x y : List ℚ) : List ℚ :=
  emitted (nz + 1) (fun _ => emitted ny (fun j => emitted nx (fun i =>
    [0, 0, (rd x (i + 1) - rd x i) * (rd y (j + 1) - rd y j)])))

/-- The centroids written for the x-normal faces in 3D. -/
def fcent3d_x (nx ny nz : Nat) (x y z : List ℚ) : List ℚ :=
  emitted nz (fun k => emitted ny (fun j => emitted (nx + 1) (fun i =>
    [rd x i, (rd y j + rd y (j + 1)) / 2, (rd z k + rd z (k + 1)) / 2])))

/-- The centroids written for the y-normal faces in 3D. -/
def fcent3d_y (nx ny nz : Nat) (x y z : List ℚ) : List ℚ :=
  emitted nz (fun k => emitted (ny + 1) (fun j => emitted nx (fun i =>
    [(rd x i + rd x (i + 1)) / 2, rd y j, (rd z k + rd z (k + 1)) / 2])))

/-- The centroids written for the z-normal faces in 3D. -/
def fcent3d_z (nx ny nz : Nat) (x y z : List ℚ) : List ℚ :=
  emitted (nz + 1) (fun k => emitted ny (fun j => emitted nx (fun i =>
    [(rd x i + rd x (i + 1)) / 2, (rd y j + rd y (j + 1)) / 2, rd z k])))

/-- The areas written for the x-normal faces in 3D. -/
def farea3d_x (nx ny nz : Nat) (y z : List ℚ) : List ℚ :=
  emitted nz (fun k => emitted ny (fun j => emitted (nx + 1) (fun _ =>
    [(rd y (j + 1) - rd y j) * (rd z (k + 1) - rd z k)])))

/-- The areas written for the y-normal faces in 3D. -/
def farea3d_y (nx ny nz : Nat) (x z : List ℚ) : List ℚ :=
  emitted nz (fun k => emitted (ny + 1) (fun _ => emitted nx (fun i =>
    [(rd x (i + 1) - rd x i) * (rd z (k + 1) - rd z k)])))

/-- The areas written for the z-normal faces in 3D. -/
def farea3d_z (nx ny nz : Nat) (x y : List ℚ) : List ℚ :=
  emitted (nz + 1) (fun _ => emitted ny (fun j => emitted nx (fun i =>
    [(rd x (i + 1) - rd x i) * (rd y (j + 1) - rd y j)])))

/-- The node coordinates written by the 3D geometry filler. -/
def coord3d (nx ny nz : Nat) (x y z : List ℚ) : List ℚ :=
  emitted (nz + 1) (fun k => emitted (ny + 1) (fun j => emitted (nx + 1) (fun i =>
    [rd x i, rd y j, rd z k])))

/-- The cell centroids written by the 2D geometry filler. -/
def ccent2d (nx ny : Nat) (x y : List ℚ) : List ℚ :=
  emitted ny (fun j => emitted nx (fun i =>
    [(rd x i + rd x (i + 1)) / 2, (rd y j + rd y (j + 1)) / 2]))

/-- The cell volumes (areas) written by the 2D geometry filler. -/
def cvol2d (nx ny : Nat) (x y : List ℚ) : List ℚ :=
  emitted ny (fun j => emitted nx (fun i =>
    [(rd x (i + 1) - rd x i) * (rd y (j + 1) - rd y j)]))

/-- The normals written for the x-normal faces in 2D. -/
def fnorm2d_x (nx ny : Nat) (y : List ℚ) : List ℚ :=
  emitted ny (fun j => emitted (nx + 1) (fun _ => [rd y (j + 1) - rd y j, 0]))

/-- The normals written for the y-normal faces in 2D. -/
def fnorm2d_y (nx ny : Nat) (x : List ℚ) : List ℚ :=
  emitted (ny + 1) (fun _ => emitted nx (fun i => [0, rd x (i + 1) - rd x i]))

/-- The centroids written for the x-normal faces in 2D. -/
def fcent2d_x (nx ny : Nat) (x y : List ℚ) : List ℚ :=
  emitted ny (fun j => emitted (nx + 1) (fun i => [rd x i, (rd y j + rd y (j + 1)) / 2]))

/-- The centroids written for the y-normal faces in 2D. -/
def fcent2d_y (nx ny : Nat) (x y : List ℚ) : List ℚ :=
  emitted (ny + 1) (fun j => emitted nx (fun i => [(rd x i + rd x (i + 1)) / 2, rd y j]))

/-- The areas (lengths) written for the x-normal faces in 2D. -/
def farea2d_x (nx ny : Nat) (y : List ℚ) : List ℚ :=
  emitted ny (fun j => emitted (nx + 1) (fun _ => [rd y (j + 1) - rd y j]))

/-- The areas (lengths) written for the y-normal faces in 2D. -/
def farea2d_y (nx ny : Nat) (x : List ℚ) : List ℚ :=
  emitted (ny + 1) (fun _ => emitted nx (fun i => [rd x (i + 1) - rd x i]))

/-- The node coordinates written by the 2D geometry filler. -/
def coord2d (nx ny : Nat) (x y : List ℚ) : List ℚ :=
  emitted (ny + 1) (fun j => emitted (nx + 1) (fun i => [rd x i, rd y j]))

/-- What the axis-aligned 3D geometry filler leaves in a freshly allocated
grid. -/
structure Geom3d (G : UnstructuredGrid) (nx ny nz : Nat) (x y z : List ℚ) : Prop where
  cell_centroids : G.cell_centroids = ccent3d nx ny nz x y z
  cell_volumes : G.cell_volumes = cvol3d nx ny nz x y z
  face_normals : G.face_normals = fnorm3d_x nx ny nz y z ++ fnorm3d_y nx ny nz x z ++
    fnorm3d_z nx ny nz x y
  face_centroids : G.face_centroids = fcent3d_x nx ny nz x y z ++ fcent3d_y nx ny nz x y z ++
    fcent3d_z nx ny nz x y z
  face_areas : G.face_areas = farea3d_x nx ny nz y z ++ farea3d_y nx ny nz x z ++
    farea3d_z nx ny nz x y
  node_coordinates : G.node_coordinates = coord3d nx ny nz x y z

/-- What the axis-aligned 2D geometry filler leaves in a freshly allocated
grid. -/
structure Geom2d (G : UnstructuredGrid) (nx ny : Nat) (x y : List ℚ) : Prop where
  cell_centroids : G.cell_centroids = ccent2d nx ny x y
  cell_volumes : G.cell_volumes = cvol2d nx ny x y
  face_normals : G.face_normals = fnorm2d_x nx ny y ++ fnorm2d_y nx ny x
  face_centroids : G.face_centroids = fcent2d_x nx ny x y ++ fcent2d_y nx ny x y
  face_areas : G.face_areas = farea2d_x nx ny y ++ farea2d_y nx ny x
  node_coordinates : G.node_coordinates = coord2d nx ny x y

/-- The node coordinates written by the layered geometry filler. -/
def coord3d_layered (nx ny nz : Nat) (x y z depthz : List ℚ) : List ℚ :=
  emitted (nz + 1) (fun k => emitted (ny + 1) (fun j => emitted (nx + 1) (fun i =>
    [rd x i, rd y j, rd z k + rd depthz (i + (nx + 1) * j)])))

/-! ### The calls made during a construction -/

/-- The routines whose calls are recorded. -/
inductive Call where
  | allocate_grid
  | malloc_global_cell
  | destroy_grid
  | fill_cart_topology_2d
  | fill_cart_geometry_2d
  | fill_cart_topology_3d
  | fill_cart_geometry_3d
  | fill_layered_geometry_3d
deriving DecidableEq, Repr

/-- The function `allocate_cart_grid` with the calls it makes, in order: the
container request, then (only with a container) the `global_cell` request,
then (only when that one fails) `destroy_grid` on the container. -/
def allocate_cart_grid_calls (m : Extern) (ndims ncells nfaces nnodes : Nat) :
    Option UnstructuredGrid × List Call :=
  let nfacenodes := nfaces * (2 * (ndims - 1))
  let ncellfaces := ncells * (2 * ndims)
  match allocate_grid m.allocate_grid_ok ndims ncells nfaces nfacenodes ncellfaces nnodes with
  | some g =>
    if m.malloc_global_cell then
      (some { g with global_cell := List.replicate ncells 0 },
        [Call.allocate_grid, Call.malloc_global_cell])
    else
      (none, [Call.allocate_grid, Call.malloc_global_cell, Call.destroy_grid])
  | none => (none, [Call.allocate_grid])

/-- The function `allocate_cart_grid_3d` with the calls it makes. -/
def allocate_cart_grid_3d_calls (m : Extern) (nx ny nz : Nat) :
    Option UnstructuredGrid × List Call :=
  let Nx := nx + 1
  let Ny := ny + 1
  let Nz := nz + 1
  let nxf := Nx * ny * nz
  let nyf := nx * Ny * nz
  let nzf := nx * ny * Nz
  let ncells := nx * ny * nz
  let nfaces := nxf + nyf + nzf
  let nnodes := Nx * Ny * Nz
  match allocate_cart_grid_calls m 3 ncells nfaces nnodes with
  | (some G, calls) =>
    (some { G with
      dimensions := 3
      cartdims := (nx, ny, nz)
      number_of_cells := ncells
      number_of_faces := nfaces
      number_of_nodes := nnodes }, calls)
  | (none, calls) => (none, calls)

/-- The function `allocate_cart_grid_2d` with the calls it makes. -/
def allocate_cart_grid_2d_calls (m : Extern) (nx ny : Nat) :
    Option UnstructuredGrid × List Call :=
  let Nx := nx + 1
  let Ny := ny + 1
  let nxf := Nx * ny
  let nyf := nx * Ny
  let ncells := nx * ny
  let nfaces := nxf + nyf
  let nnodes := Nx * Ny
  match allocate_cart_grid_calls m 2 ncells nfaces nnodes with
  | (some G, calls) =>
    (some { G with
      dimensions := 2
      cartdims := (nx, ny, 1)
      number_of_cells := ncells
      number_of_faces := nfaces
      number_of_nodes := nnodes }, calls)
  | (none, calls) => (none, calls)

/-- The function `create_grid_tensor2d` with the calls it makes. -/
def create_grid_tensor2d_calls (m : Extern) (nx ny : Nat) (x y : List ℚ) :
    Option UnstructuredGrid × List Call :=
  match allocate_cart_grid_2d_calls m nx ny with
  | (some G, calls) =>
    let G := fill_cart_topology_2d G
    let G := fill_cart_geometry_2d G x y
    (some G, calls ++ [Call.fill_cart_topology_2d, Call.fill_cart_geometry_2d])
  | (none, calls) => (none, calls)

/-- The function `create_grid_tensor3d` with the calls it makes. -/
def create_grid_tensor3d_calls (m : Extern) (nx ny nz : Nat) (x y z : List ℚ)
    (depthz : Option (List ℚ)) : Option UnstructuredGrid × List Call :=
  match allocate_cart_grid_3d_calls m nx ny nz with
  | (some G, calls) =>
    let G := fill_cart_topology_3d G
    match depthz with
    | none =>
      (some (fill_cart_geometry_3d G x y z),
        calls ++ [Call.fill_cart_topology_3d, Call.fill_cart_geometry_3d])
    | some depthz =>
      (some (fill_layered_geometry_3d m G x y z depthz),
        calls ++ [Call.fill_cart_topology_3d, Call.fill_layered_geometry_3d])
  | (none, calls) => (none, calls)

/-! ### Nodes of a face -/

/-- The index of the node `(i, j, k)` of a 3D grid. -/
def node3d (nx ny i j k : Nat) : Nat :=
  i + (nx + 1) * (j + (ny + 1) * k)

/-- The index of the node `(i, j)` of a 2D grid. -/
def node2d (nx i j : Nat) : Nat :=
  i + (nx + 1) * j

/-- The nodes of the x-normal face `(i, j, k)` in the order they are written. -/
def face_nodes3d_x (nx ny i j k : Nat) : List Nat :=
  [node3d nx ny i j k, node3d nx ny i (j + 1) k, node3d nx ny i (j + 1) (k + 1),
    node3d nx ny i j (k + 1)]

/-- The nodes of the y-normal face `(i, j, k)` in the order they are written. -/
def face_nodes3d_y (nx ny i j k : Nat) : List Nat :=
  [node3d nx ny i j k, node3d nx ny i j (k + 1), node3d nx ny (i + 1) j (k + 1),
    node3d nx ny (i + 1) j k]

/-- The nodes of the z-normal face `(i, j, k)` in the order they are written. -/
def face_nodes3d_z (nx ny i j k : Nat) : List Nat :=
  [node3d nx ny i j k, node3d nx ny (i + 1) j k, node3d nx ny (i + 1) (j + 1) k,
    node3d nx ny i (j + 1) k]

/-- The nodes of the x-normal face `(i, j)` in 2D. -/
def face_nodes2d_x (nx i j : Nat) : List Nat :=
  [node2d nx i j, node2d nx i (j + 1)]

/-- The nodes of the y-normal face `(i, j)` in 2D. -/
def face_nodes2d_y (nx i j : Nat) : List Nat :=
  [node2d nx (i + 1) j, node2d nx i j]

/-- A neighbour slot `a` of face `f` in a 3D grid is either `-1` or a cell of
the grid that has `f` among its six faces. -/
def slot_ok3 (nx ny nz f : Nat) (a : Int) : Prop :=
  a = -1 ∨ ∃ i j k, i < nx ∧ j < ny ∧ k < nz ∧ a = ((i + nx * (j + ny * k) : Nat) : Int) ∧
    ∃ p, p < 6 ∧ f = cell_face3d nx ny nz i j k p

/-- A neighbour slot `a` of face `f` in a 2D grid is either `-1` or a cell of
the grid that has `f` among its four faces. -/
def slot_ok2 (nx ny f : Nat) (a : Int) : Prop :=
  a = -1 ∨ ∃ i j, i < nx ∧ j < ny ∧ a = ((i + nx * j : Nat) : Int) ∧
    ∃ p, p < 4 ∧ f = cell_face2d nx ny i j p

/-- The cells of the grid whose face list contains face `f`. -/
def cells_with_face (G : UnstructuredGrid) (f : Nat) : Finset Nat :=
  (Finset.range G.number_of_cells).filter (fun c => (f : Int) ∈ cell_face_list G c)

/-- The number of neighbour slots of face `f` that are different from `-1`. -/
def used_slots (G : UnstructuredGrid) (f : Nat) : Nat :=
  (if G.face_cells.getD (2 * f) 0 = -1 then 0 else 1) +
    (if G.face_cells.getD (2 * f + 1) 0 = -1 then 0 else 1)

/-- The nodes listed for face `f`: the entries of `face_nodes` from
`face_nodepos[f]` up to `face_nodepos[f+1]`. -/
def face_node_list (G : UnstructuredGrid) (f : Nat) : List Int :=
  let lo := (G.face_nodepos.getD f 0).toNat
  let hi := (G.face_nodepos.getD (f + 1) 0).toNat
  (List.range (hi - lo)).map (fun t => G.face_nodes.getD (lo + t) 0)

/-- Coordinate `r` of node `n`, stored at `node_coordinates[dimensions*n + r]`. -/
def node_coordinate (G : UnstructuredGrid) (n : Int) (r : Nat) : ℚ :=
  G.node_coordinates.getD (G.dimensions * n.toNat + r) 0

/-- The arithmetic mean of a list of numbers. -/
def mean (l : List ℚ) : ℚ :=
  l.sum / l.length

/-! ### Orientation of faces -/

/-- Coordinate `r` of the node at position `t` of the node list of face `f`:
the stored point `P_t` of the face, read through `face_nodepos`, `face_nodes`
and `node_coordinates`. -/
def face_point (G : UnstructuredGrid) (f t r : Nat) : ℚ :=
  node_coordinate G ((face_node_list G f).getD t 0) r

/-- Component `r` of the cross product of two vectors of three components. -/
def cross (u v : Nat → ℚ) (r : Nat) : ℚ :=
  u ((r + 1) % 3) * v ((r + 2) % 3) - u ((r + 2) % 3) * v ((r + 1) % 3)

/-! ## Execution with 32-bit `int` arithmetic and checked stores

The functions below are the allocators and topology builders of `cart_grid.c`
once more, statement by statement, with the two things the definitions above
leave out: every `int` operation is reduced to 32 bits, and every store and
load through a cursor or an index is checked against the length of the array
it goes to. A run in which an access falls outside its array returns `none`. -/

/-- The value an `int` holds after an arithmetic operation with exact result
`v`: the result reduced modulo `2^32` into the range `[-2^31, 2^31)`. -/
def i32 (v : Int) : Int :=
  (v + 2 ^ 31) % 2 ^ 32 - 2 ^ 31

/-- The conversion of an `int` to `size_t` (64 bits). -/
def size_of_int (v : Int) : Nat :=
  (v % 2 ^ 64).toNat

/-- The statement `*p++ = v`, checked: `none` when the cursor stands outside
the array. -/
def Ptr.putC {α : Type} (p : Ptr α) (v : α) : Option (Ptr α) :=
  if p.pos < p.buf.length then some (p.put v) else none

/-- The statement `p[k] = v`, checked. -/
def Ptr.storeC {α : Type} (p : Ptr α) (k : Nat) (v : α) : Option (Ptr α) :=
  if p.pos + k < p.buf.length then some (p.store k v) else none

/-- The expression `p[k]` on an `int` pointer, checked. -/
def Ptr.loadC (p : Ptr Int) (k : Nat) : Option Int :=
  if p.pos + k < p.buf.length then some (p.load k) else none

/-- The statement `a[i] = v` with an `int` index `i`, checked. -/
def storeAt (a : List Int) (i : Int) (v : Int) : Option (List Int) :=
  if 0 ≤ i ∧ i.toNat < a.length then some (a.set i.toNat v) else none

/-- The loop `for (i = 0; i < n; ++i) body` over a body that may fail: the
first failing round ends the run. -/
def forLoopM {σ : Type} : Nat → (Nat → σ → Option σ) → σ → Option σ
  | 0, _, s => some s
  | n + 1, body, s => (forLoopM n body s).bind (body n)

/-- The function `fill_cart_indices` with checked stores. -/
def fill_cart_indices_checked (G : UnstructuredGrid) : Option UnstructuredGrid := do
  let global_cell ← forLoopM G.number_of_cells
    (fun i (gc : List Int) => storeAt gc (i : Int) (i : Int)) G.global_cell
  pure { G with global_cell := global_cell }

/-- The function `allocate_cart_grid_3d` with 32-bit `int` arithmetic: the
counts are computed in `int` and converted to `size_t` when they are passed to
`allocate_cart_grid`. The count fields of the container are natural numbers, so
a negative `int` count is stored as 0; the loops over these fields then run
zero times, as they do in C. -/
def allocate_cart_grid_3d_int32 (m : Extern) (nx ny nz : Nat) : Option UnstructuredGrid :=
  let Nx := i32 (nx + 1)
  let Ny := i32 (ny + 1)
  let Nz := i32 (nz + 1)
  let nxf := i32 (i32 (Nx * ny) * nz)
  let nyf := i32 (i32 (nx * Ny) * nz)
  let nzf := i32 (i32 (nx * ny) * Nz)
  let ncells := i32 (i32 (nx * ny) * nz)
  let nfaces := i32 (i32 (nxf + nyf) + nzf)
  let nnodes := i32 (i32 (Nx * Ny) * Nz)
  match allocate_cart_grid m 3 (size_of_int ncells) (size_of_int nfaces)
      (size_of_int nnodes) with
  | some G =>
    some { G with
      dimensions := 3
      cartdims := (nx, ny, nz)
      number_of_cells := ncells.toNat
      number_of_faces := nfaces.toNat
      number_of_nodes := nnodes.toNat }
  | none => none

/-- The function `allocate_cart_grid_2d` with 32-bit `int` arithmetic. -/
def allocate_cart_grid_2d_int32 (m : Extern) (nx ny : Nat) : Option UnstructuredGrid :=
  let Nx := i32 (nx + 1)
  let Ny := i32 (ny + 1)
  let nxf := i32 (Nx * ny)
  let nyf := i32 (nx * Ny)
  let ncells := i32 (nx * ny)
  let nfaces := i32 (nxf + nyf)
  let nnodes := i32 (Nx * Ny)
  match allocate_cart_grid m 2 (size_of_int ncells) (size_of_int nfaces)
      (size_of_int nnodes) with
  | some G =>
    some { G with
      dimensions := 2
      cartdims := (nx, ny, 1)
      number_of_cells := ncells.toNat
      number_of_faces := nfaces.toNat
      number_of_nodes := nnodes.toNat }
  | none => none

/-- The cell loop of `fill_cart_topology_3d`, with 32-bit `int` arithmetic and
checked accesses: six entries of `cell_faces` and one offset of `cell_facepos`
per cell. -/
def cell_loop_3d_checked (nx ny nz : Nat) (Nx Ny nxf nyf : Int) (s : Ptr Int × Ptr Int) :
    Option (Ptr Int × Ptr Int) :=
  forLoopM nz (fun k s => forLoopM ny (fun j s => forLoopM nx
    (fun i (s : Ptr Int × Ptr Int) => do
      let cfaces := s.1
      let cfacepos := s.2
      let cfaces ← cfaces.putC (i32 (i + i32 (Nx * i32 (j + i32 (ny * k)))))
      let cfaces ← cfaces.putC (i32 (i32 (i + 1) + i32 (Nx * i32 (j + i32 (ny * k)))))
      let cfaces ← cfaces.putC (i32 (i32 (i + i32 (nx * i32 (j + i32 (Ny * k)))) + nxf))
      let cfaces ← cfaces.putC
        (i32 (i32 (i + i32 (nx * i32 (i32 (j + 1) + i32 (Ny * k)))) + nxf))
      let cfaces ← cfaces.putC
        (i32 (i32 (i32 (i + i32 (nx * i32 (j + i32 (ny * k)))) + nxf) + nyf))
      let cfaces ← cfaces.putC
        (i32 (i32 (i32 (i + i32 (nx * i32 (j + i32 (ny * i32 (k + 1))))) + nxf) + nyf))
      let v ← cfacepos.loadC 0
      let cfacepos ← cfacepos.storeC 1 (i32 (v + 6))
      let cfacepos := cfacepos.inc
      pure (cfaces, cfacepos)) s) s) s

/-- The tag loop of `fill_cart_topology_3d`, with 32-bit `int` arithmetic and
checked stores. -/
def tag_loop_3d_checked (nx ny nz : Nat) (cell_facetag : List Int) : Option (List Int) :=
  forLoopM (i32 (i32 (nx * ny) * nz)).toNat (fun k tag =>
    forLoopM 6 (fun i (tag : List Int) => storeAt tag (i32 (i32 (k * 6) + i)) (i : Int)) tag)
    cell_facetag

/-- The loop over the faces with x-normal of `fill_cart_topology_3d`, with
32-bit `int` arithmetic and checked accesses. -/
def xface_loop_3d_checked (nx ny nz : Nat) (Nx Ny : Int) (t : Ptr Int × Ptr Int × Ptr Int) :
    Option (Ptr Int × Ptr Int × Ptr Int) :=
  forLoopM nz (fun k t => forLoopM ny (fun j t => forLoopM (i32 (nx + 1)).toNat
    (fun i (t : Ptr Int × Ptr Int × Ptr Int) => do
      let fnodes := t.1
      let fnodepos := t.2.1
      let fcells := t.2.2
      let fnodes ← fnodes.putC (i32 (i + i32 (Nx * i32 (j + i32 (Ny * k)))))
      let fnodes ← fnodes.putC (i32 (i + i32 (Nx * i32 (i32 (j + 1) + i32 (Ny * k)))))
      let fnodes ← fnodes.putC
        (i32 (i + i32 (Nx * i32 (i32 (j + 1) + i32 (Ny * i32 (k + 1))))))
      let fnodes ← fnodes.putC (i32 (i + i32 (Nx * i32 (j + i32 (Ny * i32 (k + 1))))))
      let v ← fnodepos.loadC 0
      let fnodepos ← fnodepos.storeC 1 (i32 (v + 4))
      let fnodepos := fnodepos.inc
      let fcells ←
        if i = 0 then
          (fcells.putC (-1)).bind
            (fun q => q.putC (i32 (i + i32 (nx * i32 (j + i32 (ny * k))))))
        else if i = nx then
          (fcells.putC (i32 (i32 (i - 1) + i32 (nx * i32 (j + i32 (ny * k)))))).bind
            (fun q => q.putC (-1))
        else
          (fcells.putC (i32 (i32 (i - 1) + i32 (nx * i32 (j + i32 (ny * k)))))).bind
            (fun q => q.putC (i32 (i + i32 (nx * i32 (j + i32 (ny * k))))))
      pure (fnodes, fnodepos, fcells)) t) t) t

/-- The loop over the faces with y-normal of `fill_cart_topology_3d`, with
32-bit `int` arithmetic and checked accesses. -/
def yface_loop_3d_checked (nx ny nz : Nat) (Nx Ny : Int) (t : Ptr Int × Ptr Int × Ptr Int) :
    Option (Ptr Int × Ptr Int × Ptr Int) :=
  forLoopM nz (fun k t => forLoopM (i32 (ny + 1)).toNat (fun j t => forLoopM nx
    (fun i (t : Ptr Int × Ptr Int × Ptr Int) => do
      let fnodes := t.1
      let fnodepos := t.2.1
      let fcells := t.2.2
      let fnodes ← fnodes.putC (i32 (i + i32 (Nx * i32 (j + i32 (Ny * k)))))
      let fnodes ← fnodes.putC (i32 (i + i32 (Nx * i32 (j + i32 (Ny * i32 (k + 1))))))
      let fnodes ← fnodes.putC
        (i32 (i32 (i + 1) + i32 (Nx * i32 (j + i32 (Ny * i32 (k + 1))))))
      let fnodes ← fnodes.putC (i32 (i32 (i + 1) + i32 (Nx * i32 (j + i32 (Ny * k)))))
      let v ← fnodepos.loadC 0
      let fnodepos ← fnodepos.storeC 1 (i32 (v + 4))
      let fnodepos := fnodepos.inc
      let fcells ←
        if j = 0 then
          (fcells.putC (-1)).bind
            (fun q => q.putC (i32 (i + i32 (nx * i32 (j + i32 (ny * k))))))
        else if j = ny then
          (fcells.putC (i32 (i + i32 (nx * i32 (i32 (j - 1) + i32 (ny * k)))))).bind
            (fun q => q.putC (-1))
        else
          (fcells.putC (i32 (i + i32 (nx * i32 (i32 (j - 1) + i32 (ny * k)))))).bind
            (fun q => q.putC (i32 (i + i32 (nx * i32 (j + i32 (ny * k))))))
      pure (fnodes, fnodepos, fcells)) t) t) t

/-- The loop over the faces with z-normal of `fill_cart_topology_3d`, with
32-bit `int` arithmetic and checked accesses. -/
def zface_loop_3d_checked (nx ny nz : Nat) (Nx Ny : Int) (t : Ptr Int × Ptr Int × Ptr Int) :
    Option (Ptr Int × Ptr Int × Ptr Int) :=
  forLoopM (i32 (nz + 1)).toNat (fun k t => forLoopM ny (fun j t => forLoopM nx
    (fun i (t : Ptr Int × Ptr Int × Ptr Int) => do
      let fnodes := t.1
      let fnodepos := t.2.1
      let fcells := t.2.2
      let fnodes ← fnodes.putC (i32 (i + i32 (Nx * i32 (j + i32 (Ny * k)))))
      let fnodes ← fnodes.putC (i32 (i32 (i + 1) + i32 (Nx * i32 (j + i32 (Ny * k)))))
      let fnodes ← fnodes.putC
        (i32 (i32 (i + 1) + i32 (Nx * i32 (i32 (j + 1) + i32 (Ny * k)))))
      let fnodes ← fnodes.putC (i32 (i + i32 (Nx * i32 (i32 (j + 1) + i32 (Ny * k)))))
      let v ← fnodepos.loadC 0
      let fnodepos ← fnodepos.storeC 1 (i32 (v + 4))
      let fnodepos := fnodepos.inc
      let fcells ←
        if k = 0 then
          (fcells.putC (-1)).bind
            (fun q => q.putC (i32 (i + i32 (nx * i32 (j + i32 (ny * k))))))
        else if k = nz then
          (fcells.putC (i32 (i + i32 (nx * i32 (j + i32 (ny * i32 (k - 1))))))).bind
            (fun q => q.putC (-1))
        else
          (fcells.putC (i32 (i + i32 (nx * i32 (j + i32 (ny * i32 (k - 1))))))).bind
            (fun q => q.putC (i32 (i + i32 (nx * i32 (j + i32 (ny * k))))))
      pure (fnodes, fnodepos, fcells)) t) t) t

/-- The function `fill_cart_topology_3d` with 32-bit `int` arithmetic and
checked accesses: the cell loop, the tag loop, the three face loops and
`fill_cart_indices`, in this order. It returns the filled grid together with
the offsets at which the cursors `cfaces`, `fnodes` and `fcells` stand when the
loops have run, that is the number of entries written through each of them; it
returns `none` when a store or a load falls outside its array. -/
def fill_cart_topology_3d_checked (G : UnstructuredGrid) :
    Option (UnstructuredGrid × Nat × Nat × Nat) := do
  let nx := G.cartdims.1
  let ny := G.cartdims.2.1
  let nz := G.cartdims.2.2
  let Nx := i32 (nx + 1)
  let Ny := i32 (ny + 1)
  let nxf := i32 (i32 (Nx * ny) * nz)
  let nyf := i32 (i32 (nx * Ny) * nz)
  let cfaces : Ptr Int := ⟨G.cell_faces, 0⟩
  let cfacepos : Ptr Int := ⟨G.cell_facepos, 0⟩
  let cfacepos ← cfacepos.storeC 0 0
  let s ← cell_loop_3d_checked nx ny nz Nx Ny nxf nyf (cfaces, cfacepos)
  let cell_facetag ← tag_loop_3d_checked nx ny nz G.cell_facetag
  let fnodes : Ptr Int := ⟨G.face_nodes, 0⟩
  let fnodepos : Ptr Int := ⟨G.face_nodepos, 0⟩
  let fcells : Ptr Int := ⟨G.face_cells, 0⟩
  let fnodepos ← fnodepos.storeC 0 0
  let t ← xface_loop_3d_checked nx ny nz Nx Ny (fnodes, fnodepos, fcells)
  let t ← yface_loop_3d_checked nx ny nz Nx Ny t
  let t ← zface_loop_3d_checked nx ny nz Nx Ny t
  let G ← fill_cart_indices_checked
    { G with
      cell_faces := s.1.buf
      cell_facepos := s.2.buf
      cell_facetag := cell_facetag
      face_nodes := t.1.buf
      face_nodepos := t.2.1.buf
      face_cells := t.2.2.buf }
  pure (G, s.1.pos, t.1.pos, t.2.2.pos)

/-- The cell loop of `fill_cart_topology_2d`, with 32-bit `int` arithmetic and
checked accesses: four entries of `cell_faces` and one offset of `cell_facepos`
per cell. -/
def cell_loop_2d_checked (nx ny : Nat) (Nx nxf : Int) (s : Ptr Int × Ptr Int) :
    Option (Ptr Int × Ptr Int) :=
  forLoopM ny (fun j s => forLoopM nx
    (fun i (s : Ptr Int × Ptr Int) => do
      let cfaces := s.1
      let cfacepos := s.2
      let cfaces ← cfaces.putC (i32 (i + i32 (Nx * j)))
      let cfaces ← cfaces.putC (i32 (i32 (i + i32 (nx * j)) + nxf))
      let cfaces ← cfaces.putC (i32 (i32 (i + 1) + i32 (Nx * j)))
      let cfaces ← cfaces.putC (i32 (i32 (i + i32 (nx * i32 (j + 1))) + nxf))
      let v ← cfacepos.loadC 0
      let cfacepos ← cfacepos.storeC 1 (i32 (v + 4))
      let cfacepos := cfacepos.inc
      pure (cfaces, cfacepos)) s) s

/-- The tag loop of `fill_cart_topology_2d`, with 32-bit `int` arithmetic and
checked stores. -/
def tag_loop_2d_checked (nx ny : Nat) (cell_facetag : List Int) : Option (List Int) :=
  forLoopM (i32 (nx * ny)).toNat (fun j (tag : List Int) => do
    let tag ← storeAt tag (i32 (i32 (j * 4) + 0)) 0
    let tag ← storeAt tag (i32 (i32 (j * 4) + 1)) 2
    let tag ← storeAt tag (i32 (i32 (j * 4) + 2)) 1
    let tag ← storeAt tag (i32 (i32 (j * 4) + 3)) 3
    pure tag) cell_facetag

/-- The loop over the faces with x-normal of `fill_cart_topology_2d`, with
32-bit `int` arithmetic and checked accesses. -/
def xface_loop_2d_checked (nx ny : Nat) (Nx : Int) (t : Ptr Int × Ptr Int × Ptr Int) :
    Option (Ptr Int × Ptr Int × Ptr Int) :=
  forLoopM ny (fun j t => forLoopM (i32 (nx + 1)).toNat
    (fun i (t : Ptr Int × Ptr Int × Ptr Int) => do
      let fnodes := t.1
      let fnodepos := t.2.1
      let fcells := t.2.2
      let fnodes ← fnodes.putC (i32 (i + i32 (Nx * j)))
      let fnodes ← fnodes.putC (i32 (i + i32 (Nx * i32 (j + 1))))
      let v ← fnodepos.loadC 0
      let fnodepos ← fnodepos.storeC 1 (i32 (v + 2))
      let fnodepos := fnodepos.inc
      let fcells ←
        if i = 0 then
          (fcells.putC (-1)).bind (fun q => q.putC (i32 (i + i32 (nx * j))))
        else if i = nx then
          (fcells.putC (i32 (i32 (i - 1) + i32 (nx * j)))).bind (fun q => q.putC (-1))
        else
          (fcells.putC (i32 (i32 (i - 1) + i32 (nx * j)))).bind
            (fun q => q.putC (i32 (i + i32 (nx * j))))
      pure (fnodes, fnodepos, fcells)) t) t

/-- The loop over the faces with y-normal of `fill_cart_topology_2d`, with
32-bit `int` arithmetic and checked accesses. -/
def yface_loop_2d_checked (nx ny : Nat) (Nx : Int) (t : Ptr Int × Ptr Int × Ptr Int) :
    Option (Ptr Int × Ptr Int × Ptr Int) :=
  forLoopM (i32 (ny + 1)).toNat (fun j t => forLoopM nx
    (fun i (t : Ptr Int × Ptr Int × Ptr Int) => do
      let fnodes := t.1
      let fnodepos := t.2.1
      let fcells := t.2.2
      let fnodes ← fnodes.putC (i32 (i32 (i + 1) + i32 (Nx * j)))
      let fnodes ← fnodes.putC (i32 (i + i32 (Nx * j)))
      let v ← fnodepos.loadC 0
      let fnodepos ← fnodepos.storeC 1 (i32 (v + 2))
      let fnodepos := fnodepos.inc
      let fcells ←
        if j = 0 then
          (fcells.putC (-1)).bind (fun q => q.putC (i32 (i + i32 (nx * j))))
        else if j = ny then
          (fcells.putC (i32 (i + i32 (nx * i32 (j - 1))))).bind (fun q => q.putC (-1))
        else
          (fcells.putC (i32 (i + i32 (nx * i32 (j - 1))))).bind
            (fun q => q.putC (i32 (i + i32 (nx * j))))
      pure (fnodes, fnodepos, fcells)) t) t

/-- The function `fill_cart_topology_2d` with 32-bit `int` arithmetic and
checked accesses. It returns the filled grid together with the offsets at
which the cursors `cfaces`, `fnodes` and `fcells` stand when the loops have
run; it returns `none` when a store or a load falls outside its array. -/
def fill_cart_topology_2d_checked (G : UnstructuredGrid) :
    Option (UnstructuredGrid × Nat × Nat × Nat) := do
  let cfaces : Ptr Int := ⟨G.cell_faces, 0⟩
  let cfacepos : Ptr Int := ⟨G.cell_facepos, 0⟩
  let nx := G.cartdims.1
  let ny := G.cartdims.2.1
  let Nx := i32 (nx + 1)
  let nxf := i32 (Nx * ny)
  let cfacepos ← cfacepos.storeC 0 0
  let s ← cell_loop_2d_checked nx ny Nx nxf (cfaces, cfacepos)
  let cell_facetag ← tag_loop_2d_checked nx ny G.cell_facetag
  let fnodes : Ptr Int := ⟨G.face_nodes, 0⟩
  let fnodepos : Ptr Int := ⟨G.face_nodepos, 0⟩
  let fcells : Ptr Int := ⟨G.face_cells, 0⟩
  let fnodepos ← fnodepos.storeC 0 0
  let t ← xface_loop_2d_checked nx ny Nx (fnodes, fnodepos, fcells)
  let t ← yface_loop_2d_checked nx ny Nx t
  let G ← fill_cart_indices_checked
    { G with
      cell_faces := s.1.buf
      cell_facepos := s.2.buf
      cell_facetag := cell_facetag
      face_nodes := t.1.buf
      face_nodepos := t.2.1.buf
      face_cells := t.2.2.buf }
  pure (G, s.1.pos, t.1.pos, t.2.2.pos)

/-- The state of a cell loop after `c` rounds: the `cell_faces` cursor has
written `d` entries per cell into an array of `d * N` entries, and the
`cell_facepos` cursor stands at entry `c`, which holds `d * c`, in an array of
`N + 1` entries. -/
def CellInv (d N c : Nat) (s : Ptr Int × Ptr Int) : Prop :=
  s.1.pos = d * c ∧ s.1.buf.length = d * N ∧ s.2.pos = c ∧ s.2.buf.length = N + 1 ∧
    s.2.load 0 = ((d * c : Nat) : Int)

/-- The state of a face loop after `c` rounds: the `face_nodes` cursor has
written `d` entries per face, the `face_nodepos` cursor stands at entry `c`,
which holds `d * c`, and the `face_cells` cursor has written two slots per
face, in arrays sized for `N` faces. -/
def FaceInv (d N c : Nat) (t : Ptr Int × Ptr Int × Ptr Int) : Prop :=
  t.1.pos = d * c ∧ t.1.buf.length = d * N ∧ t.2.1.pos = c ∧ t.2.1.buf.length = N + 1 ∧
    t.2.1.load 0 = ((d * c : Nat) : Int) ∧ t.2.2.pos = 2 * c ∧ t.2.2.buf.length = 2 * N

/-! ## Lemmas on loops and cursor writes -/

theorem getD_of_getElem? {α : Type} {l : List α} {q : Nat} {v d : α} (h : l[q]? = some v) :
    l.getD q d = v := by
  rw [List.getD_eq_getElem?_getD, h]; rfl

theorem Ptr.putAll_nil {α : Type} (p : Ptr α) : p.putAll [] = p := rfl

theorem Ptr.putAll_append {α : Type} (p : Ptr α) (a b : List α) :
    p.putAll (a ++ b) = (p.putAll a).putAll b := by
  simp [Ptr.putAll, List.foldl_append]

theorem Ptr.putAll_pos {α : Type} (vs : List α) (p : Ptr α) :
    (p.putAll vs).pos = p.pos + vs.length := by
  induction vs generalizing p with
  | nil => rfl
  | cons v vs ih =>
    show ((p.put v).putAll vs).pos = _
    rw [ih]; simp [Ptr.put]; omega

theorem Ptr.putAll_length {α : Type} (vs : List α) (p : Ptr α) :
    (p.putAll vs).buf.length = p.buf.length := by
  induction vs generalizing p with
  | nil => rfl
  | cons v vs ih =>
    show ((p.put v).putAll vs).buf.length = _
    rw [ih]; simp [Ptr.put]

/-- Reading back what a run of cursor writes left in the buffer. -/
theorem Ptr.putAll_getElem? {α : Type} (vs : List α) (p : Ptr α) (q : Nat)
    (hfit : p.pos + vs.length ≤ p.buf.length) :
    (p.putAll vs).buf[q]? =
      if p.pos ≤ q ∧ q < p.pos + vs.length then vs[q - p.pos]? else p.buf[q]? := by
  induction vs generalizing p with
  | nil =>
    show p.buf[q]? = _
    rw [if_neg (fun h => by simp at h; omega)]
  | cons v vs ih =>
    show ((p.put v).putAll vs).buf[q]? = _
    have hlen : (p.put v).buf.length = p.buf.length := by simp [Ptr.put]
    have hpos : (p.put v).pos = p.pos + 1 := rfl
    simp only [List.length_cons] at hfit
    rw [ih (p.put v) (by rw [hlen, hpos]; omega), hpos]
    by_cases h1 : p.pos + 1 ≤ q
    · by_cases h2 : q < p.pos + 1 + vs.length
      · have e : q - p.pos = (q - (p.pos + 1)) + 1 := by omega
        rw [if_pos ⟨h1, h2⟩, if_pos ⟨by omega, by simp only [List.length_cons]; omega⟩, e,
          List.getElem?_cons_succ]
      · rw [if_neg (fun h => h2 h.2), if_neg (fun h => h2 (by
          have := h.2; simp only [List.length_cons] at this; omega))]
        simp only [Ptr.put]
        rw [List.getElem?_set_ne (by omega)]
    · rw [if_neg (fun h => h1 h.1)]
      simp only [Ptr.put]
      by_cases h3 : q = p.pos
      · subst h3
        rw [if_pos ⟨le_refl _, by simp only [List.length_cons]; omega⟩,
          List.getElem?_set_self (by omega)]
        simp
      · rw [if_neg (fun h => h3 (by omega)), List.getElem?_set_ne (fun h => h3 h.symm)]

/-- A run of cursor writes that starts at the base of a buffer and fills it
leaves exactly the written values. -/
theorem Ptr.putAll_fill {α : Type} (vs : List α) (buf : List α) (h : vs.length = buf.length) :
    ((Ptr.mk buf 0).putAll vs).buf = vs := by
  apply List.ext_getElem?
  intro q
  rw [Ptr.putAll_getElem? vs ⟨buf, 0⟩ q (by simp [h])]
  by_cases hq : q < vs.length
  · simp [hq]
  · simp only [Nat.zero_le, true_and, zero_add, hq, if_false]
    rw [List.getElem?_eq_none (by omega), List.getElem?_eq_none (by omega)]

/-- A loop nest round of which writes `g i` through the cursor selected by
`π` writes the stream `emitted n g`. -/
theorem forLoop_emit {σ α : Type} (π : σ → Ptr α) (n : Nat) (body : Nat → σ → σ)
    (g : Nat → List α) (h : ∀ i s, π (body i s) = (π s).putAll (g i)) (s : σ) :
    π (forLoop n body s) = (π s).putAll (emitted n g) := by
  induction n with
  | zero => rfl
  | succ n ih =>
    show π (body n (forLoop n body s)) = _
    rw [h, ih, emitted, Ptr.putAll_append]

theorem emitted_length {α : Type} (m : Nat) (g : Nat → List α) (hg : ∀ i, (g i).length = m)
    (n : Nat) : (emitted n g).length = n * m := by
  induction n with
  | zero => simp [emitted]
  | succ n ih => simp [emitted, ih, hg, Nat.succ_mul]

/-- Entry `c * m + r` of a stream of blocks of length `m` is entry `r` of
block `c`. -/
theorem emitted_getElem? {α : Type} (m : Nat) (g : Nat → List α)
    (hg : ∀ i, (g i).length = m) (n c r : Nat) (hc : c < n) (hr : r < m) :
    (emitted n g)[c * m + r]? = (g c)[r]? := by
  induction n with
  | zero => omega
  | succ n ih =>
    have hl := emitted_length m g hg n
    simp only [emitted]
    by_cases h : c < n
    · have : c * m + r < n * m := by
        have := Nat.mul_le_mul_right m (Nat.succ_le_of_lt h)
        rw [Nat.succ_mul] at this; omega
      rw [List.getElem?_append_left (by omega), ih h]
    · have hcn : c = n := by omega
      subst hcn
      rw [List.getElem?_append_right (by omega), hl]
      congr 1; omega

theorem lex_lt {i j n m : Nat} (hi : i < n) (hj : j < m) : j * n + i < m * n := by
  have := Nat.mul_le_mul_right n (Nat.succ_le_of_lt hj)
  rw [Nat.succ_mul] at this; omega

theorem lex_lt_left {i j n m : Nat} (hi : i < n) (hj : j < m) : i + n * j < n * m := by
  have := lex_lt hi hj
  rw [Nat.mul_comm n j, Nat.mul_comm n m]; omega

/-- Entry of a two-level stream. -/
theorem emitted2_getElem? {α : Type} (m : Nat) (g : Nat → Nat → List α)
    (hg : ∀ i j, (g i j).length = m) (nx ny i j r : Nat) (hi : i < nx) (hj : j < ny)
    (hr : r < m) :
    (emitted ny (fun j => emitted nx (fun i => g i j)))[(i + nx * j) * m + r]? = (g i j)[r]? := by
  have e : (i + nx * j) * m + r = j * (nx * m) + (i * m + r) := by ring
  rw [e, emitted_getElem? (nx * m) _ (fun j => emitted_length m _ (fun i => hg i j) nx) ny j
    (i * m + r) hj (by have := lex_lt hr hi; omega)]
  exact emitted_getElem? m _ (fun i => hg i j) nx i r hi hr

theorem emitted2_length {α : Type} (m : Nat) (g : Nat → Nat → List α)
    (hg : ∀ i j, (g i j).length = m) (nx ny : Nat) :
    (emitted ny (fun j => emitted nx (fun i => g i j))).length = ny * (nx * m) :=
  emitted_length (nx * m) _ (fun j => emitted_length m _ (fun i => hg i j) nx) ny

theorem forLoop_emit_after {σ α : Type} (π : σ → Ptr α) (n : Nat) (body : Nat → σ → σ)
    (g : Nat → List α) (p : Ptr α) (pre : List α) (s : σ) (hs : π s = p.putAll pre)
    (h : ∀ i s, π (body i s) = (π s).putAll (g i)) :
    π (forLoop n body s) = p.putAll (pre ++ emitted n g) := by
  rw [forLoop_emit π n body g h, hs, ← Ptr.putAll_append]

theorem cfaces2d_length (nx ny : Nat) : (cfaces2d nx ny).length = ny * (nx * 4) :=
  emitted2_length 4 _ (fun _ _ => by rfl) _ _

theorem fcells2d_x_length (nx ny : Nat) : (fcells2d_x nx ny).length = ny * ((nx + 1) * 2) :=
  emitted2_length 2 _ (fun _ _ => by simp only [fcells2d_x_block, fcells2d_y_block]; split_ifs <;> rfl) _ _

theorem fcells2d_y_length (nx ny : Nat) : (fcells2d_y nx ny).length = (ny + 1) * (nx * 2) :=
  emitted2_length 2 _ (fun _ _ => by simp only [fcells2d_x_block, fcells2d_y_block]; split_ifs <;> rfl) _ _

theorem topo2d_cell_faces (G : UnstructuredGrid)
    (h : G.cell_faces.length = G.cartdims.2.1 * (G.cartdims.1 * 4)) :
    (fill_cart_topology_2d G).cell_faces = cfaces2d G.cartdims.1 G.cartdims.2.1 := by
  rw [← Ptr.putAll_fill (cfaces2d G.cartdims.1 G.cartdims.2.1) G.cell_faces
    (by rw [cfaces2d_length, h])]
  refine congrArg Ptr.buf (forLoop_emit (fun s : Ptr Int × Ptr Int => s.1) _ _ _ ?_ _)
  intro j s
  refine forLoop_emit (fun s : Ptr Int × Ptr Int => s.1) _ _ _ ?_ _
  intro i s
  rfl

theorem topo2d_face_cells (G : UnstructuredGrid)
    (h : G.face_cells.length =
      2 * ((G.cartdims.1 + 1) * G.cartdims.2.1 + G.cartdims.1 * (G.cartdims.2.1 + 1))) :
    (fill_cart_topology_2d G).face_cells =
      fcells2d_x G.cartdims.1 G.cartdims.2.1 ++ fcells2d_y G.cartdims.1 G.cartdims.2.1 := by
  rw [← Ptr.putAll_fill (fcells2d_x G.cartdims.1 G.cartdims.2.1 ++
    fcells2d_y G.cartdims.1 G.cartdims.2.1) G.face_cells
    (by rw [List.length_append, fcells2d_x_length, fcells2d_y_length, h]; ring)]
  refine congrArg Ptr.buf ?_
  refine forLoop_emit_after (fun s : Ptr Int × Ptr Int × Ptr Int => s.2.2) _ _ _ _ _ _ ?_ ?_
  · refine forLoop_emit (fun s : Ptr Int × Ptr Int × Ptr Int => s.2.2) _ _ _ ?_ _
    intro j s
    refine forLoop_emit (fun s : Ptr Int × Ptr Int × Ptr Int => s.2.2) _ _ _ ?_ _
    intro i s
    show (if i = 0 then _ else _) = _
    simp only [fcells2d_x_block, fcells2d_y_block, fcells3d_x_block, fcells3d_y_block,
      fcells3d_z_block]
    split_ifs <;> rfl
  · intro j s
    refine forLoop_emit (fun s : Ptr Int × Ptr Int × Ptr Int => s.2.2) _ _ _ ?_ _
    intro i s
    show (if j = 0 then _ else _) = _
    simp only [fcells2d_x_block, fcells2d_y_block, fcells3d_x_block, fcells3d_y_block,
      fcells3d_z_block]
    split_ifs <;> rfl

/-- A loop nest round of which applies `f` a fixed number of times to the
component selected by `π` applies it `n * m` times in all. -/
theorem forLoop_iter {σ α : Type} (π : σ → α) (f : α → α) (m n : Nat) (body : Nat → σ → σ)
    (h : ∀ i s, π (body i s) = f^[m] (π s)) (s : σ) :
    π (forLoop n body s) = f^[n * m] (π s) := by
  induction n with
  | zero => simp [forLoop]
  | succ n ih =>
    show π (body n (forLoop n body s)) = _
    rw [h, ih, ← Function.iterate_add_apply, Nat.succ_mul, Nat.add_comm]

/-- The offset table after `N` rounds of `p[1] = p[0] + d; ++p;` from its
base, entry 0 being 0. -/
theorem bump_iterate (d : Int) (buf : List Int) (h0 : buf[0]? = some 0) (N : Nat)
    (hN : N < buf.length) :
    ((Ptr.bump d)^[N] ⟨buf, 0⟩).pos = N ∧
    ((Ptr.bump d)^[N] ⟨buf, 0⟩).buf.length = buf.length ∧
    ∀ t, t ≤ N → ((Ptr.bump d)^[N] ⟨buf, 0⟩).buf[t]? = some (d * t) := by
  induction N with
  | zero =>
    refine ⟨rfl, rfl, ?_⟩
    intro t ht
    have : t = 0 := by omega
    subst this
    simpa using h0
  | succ N ih =>
    obtain ⟨hp, hl, hv⟩ := ih (by omega)
    rw [Function.iterate_succ_apply']
    generalize (Ptr.bump d)^[N] ⟨buf, 0⟩ = r at hp hl hv
    have hload : r.load 0 = d * N := by
      have := hv N (le_refl N)
      simp [Ptr.load, hp, List.getD_eq_getElem?_getD, this]
    refine ⟨by simp [Ptr.bump, Ptr.inc, Ptr.store, hp], by simp [Ptr.bump, Ptr.inc, Ptr.store, hl], ?_⟩
    intro t ht
    simp only [Ptr.bump, Ptr.inc, Ptr.store, hload, hp]
    by_cases h : t = N + 1
    · subst h
      rw [List.getElem?_set_self (by omega)]
      push_cast; ring_nf
    · rw [List.getElem?_set_ne (by omega)]
      exact hv t (by omega)

/-- A loop whose round `i` writes the block `g i` of length `m` at offset
`i * m` of an array writes the stream `emitted n g` from the base. -/
theorem forLoop_blocks {α : Type} (m : Nat) (g : Nat → List α) (hg : ∀ i, (g i).length = m)
    (body : Nat → List α → List α)
    (h : ∀ i a, body i a = ((Ptr.mk a (i * m)).putAll (g i)).buf) (n : Nat) (a : List α) :
    forLoop n body a = ((Ptr.mk a 0).putAll (emitted n g)).buf := by
  induction n with
  | zero => rfl
  | succ n ih =>
    show body n (forLoop n body a) = _
    rw [h, ih, emitted, Ptr.putAll_append]
    congr 2
    have := Ptr.putAll_pos (emitted n g) ⟨a, 0⟩
    rw [emitted_length m g hg] at this
    simp only [zero_add] at this
    rw [← this]

theorem ctag2d_length (nx ny : Nat) : (ctag2d nx ny).length = nx * ny * 4 :=
  emitted_length 4 _ (fun _ => by rfl) _

theorem topo2d_cell_facetag (G : UnstructuredGrid)
    (h : G.cell_facetag.length = G.cartdims.1 * G.cartdims.2.1 * 4) :
    (fill_cart_topology_2d G).cell_facetag = ctag2d G.cartdims.1 G.cartdims.2.1 := by
  rw [← Ptr.putAll_fill (ctag2d G.cartdims.1 G.cartdims.2.1) G.cell_facetag
    (by rw [ctag2d_length, h])]
  exact forLoop_blocks 4 _ (fun _ => by rfl) _ (fun i a => by rfl) _ _

theorem indices_global_cell (buf : List Int) (n : Nat) (h : buf.length = n) :
    forLoop n (fun i gc => gc.set i (i : Int)) buf = emitted n (fun i => [(i : Int)]) := by
  rw [← Ptr.putAll_fill (emitted n (fun i => [(i : Int)])) buf
    (by rw [emitted_length 1 _ (fun _ => by rfl), h, Nat.mul_one])]
  exact forLoop_blocks 1 _ (fun _ => by rfl) _
    (fun i a => by simp [Ptr.putAll, Ptr.put]) _ _

theorem topo2d_cell_facepos (G : UnstructuredGrid)
    (h : G.cell_facepos.length = G.cartdims.1 * G.cartdims.2.1 + 1) (c : Nat)
    (hc : c ≤ G.cartdims.1 * G.cartdims.2.1) :
    (fill_cart_topology_2d G).cell_facepos[c]? = some (4 * c) := by
  have key : (fill_cart_topology_2d G).cell_facepos =
      ((Ptr.bump 4)^[G.cartdims.2.1 * (G.cartdims.1 * 1)]
        ⟨G.cell_facepos.set 0 0, 0⟩).buf := by
    refine congrArg Ptr.buf (forLoop_iter (fun s : Ptr Int × Ptr Int => s.2) _ _ _ _ ?_ _)
    intro j s
    refine forLoop_iter (fun s : Ptr Int × Ptr Int => s.2) _ _ _ _ ?_ _
    intro i s
    rfl
  rw [key]
  have := bump_iterate 4 (G.cell_facepos.set 0 0)
    (by rw [List.getElem?_set_self (by omega)]) (G.cartdims.2.1 * (G.cartdims.1 * 1))
    (by rw [List.length_set, h, Nat.mul_one, Nat.mul_comm]; omega)
  exact this.2.2 c (by rw [Nat.mul_one, Nat.mul_comm]; exact hc)

theorem emitted3_length {α : Type} (m : Nat) (g : Nat → Nat → Nat → List α)
    (hg : ∀ i j k, (g i j k).length = m) (nx ny nz : Nat) :
    (emitted nz (fun k => emitted ny (fun j => emitted nx (fun i => g i j k)))).length =
      nz * (ny * (nx * m)) :=
  emitted_length (ny * (nx * m)) _ (fun k => emitted2_length m _ (fun i j => hg i j k) nx ny) nz

/-- Entry of a three-level stream. -/
theorem emitted3_getElem? {α : Type} (m : Nat) (g : Nat → Nat → Nat → List α)
    (hg : ∀ i j k, (g i j k).length = m) (nx ny nz i j k r : Nat) (hi : i < nx) (hj : j < ny)
    (hk : k < nz) (hr : r < m) :
    (emitted nz (fun k => emitted ny (fun j => emitted nx (fun i => g i j k))))[
      (i + nx * (j + ny * k)) * m + r]? = (g i j k)[r]? := by
  have e : (i + nx * (j + ny * k)) * m + r = k * (ny * (nx * m)) + ((i + nx * j) * m + r) := by
    ring
  have hb : (i + nx * j) * m + r < ny * (nx * m) := by
    have h1 := lex_lt hr hi
    have h2 := lex_lt h1 hj
    have e2 : (i + nx * j) * m + r = j * (nx * m) + (i * m + r) := by ring
    rw [e2]; exact h2
  rw [e, emitted_getElem? (ny * (nx * m)) _
    (fun k => emitted2_length m _ (fun i j => hg i j k) nx ny) nz k _ hk hb]
  exact emitted2_getElem? m _ (fun i j => hg i j k) nx ny i j r hi hj hr

theorem cfaces3d_length (nx ny nz : Nat) : (cfaces3d nx ny nz).length = nz * (ny * (nx * 6)) :=
  emitted3_length 6 _ (fun _ _ _ => by rfl) _ _ _

theorem ctag3d_length (nx ny nz : Nat) : (ctag3d nx ny nz).length = nx * ny * nz * 6 :=
  emitted_length 6 _ (fun _ => by rfl) _

theorem fcells3d_x_length (nx ny nz : Nat) :
    (fcells3d_x nx ny nz).length = nz * (ny * ((nx + 1) * 2)) :=
  emitted3_length 2 _ (fun _ _ _ => by
    simp only [fcells3d_x_block, fcells3d_y_block, fcells3d_z_block]; split_ifs <;> rfl) _ _ _

theorem fcells3d_y_length (nx ny nz : Nat) :
    (fcells3d_y nx ny nz).length = nz * ((ny + 1) * (nx * 2)) :=
  emitted3_length 2 _ (fun _ _ _ => by
    simp only [fcells3d_x_block, fcells3d_y_block, fcells3d_z_block]; split_ifs <;> rfl) _ _ _

theorem fcells3d_z_length (nx ny nz : Nat) :
    (fcells3d_z nx ny nz).length = (nz + 1) * (ny * (nx * 2)) :=
  emitted3_length 2 _ (fun _ _ _ => by
    simp only [fcells3d_x_block, fcells3d_y_block, fcells3d_z_block]; split_ifs <;> rfl) _ _ _

theorem topo3d_cell_faces (G : UnstructuredGrid)
    (h : G.cell_faces.length = G.cartdims.2.2 * (G.cartdims.2.1 * (G.cartdims.1 * 6))) :
    (fill_cart_topology_3d G).cell_faces =
      cfaces3d G.cartdims.1 G.cartdims.2.1 G.cartdims.2.2 := by
  rw [← Ptr.putAll_fill (cfaces3d G.cartdims.1 G.cartdims.2.1 G.cartdims.2.2) G.cell_faces
    (by rw [cfaces3d_length, h])]
  refine congrArg Ptr.buf (forLoop_emit (fun s : Ptr Int × Ptr Int => s.1) _ _ _ ?_ _)
  intro k s
  refine forLoop_emit (fun s : Ptr Int × Ptr Int => s.1) _ _ _ ?_ _
  intro j s
  refine forLoop_emit (fun s : Ptr Int × Ptr Int => s.1) _ _ _ ?_ _
  intro i s
  rfl

theorem topo3d_cell_facetag (G : UnstructuredGrid)
    (h : G.cell_facetag.length = G.cartdims.1 * G.cartdims.2.1 * G.cartdims.2.2 * 6) :
    (fill_cart_topology_3d G).cell_facetag =
      ctag3d G.cartdims.1 G.cartdims.2.1 G.cartdims.2.2 := by
  rw [← Ptr.putAll_fill (ctag3d G.cartdims.1 G.cartdims.2.1 G.cartdims.2.2) G.cell_facetag
    (by rw [ctag3d_length, h])]
  exact forLoop_blocks 6 _ (fun _ => by rfl) _ (fun i a => by rfl) _ _

theorem topo3d_face_cells (G : UnstructuredGrid)
    (h : G.face_cells.length =
      2 * ((G.cartdims.1 + 1) * G.cartdims.2.1 * G.cartdims.2.2 +
        G.cartdims.1 * (G.cartdims.2.1 + 1) * G.cartdims.2.2 +
        G.cartdims.1 * G.cartdims.2.1 * (G.cartdims.2.2 + 1))) :
    (fill_cart_topology_3d G).face_cells =
      fcells3d_x G.cartdims.1 G.cartdims.2.1 G.cartdims.2.2 ++
      fcells3d_y G.cartdims.1 G.cartdims.2.1 G.cartdims.2.2 ++
      fcells3d_z G.cartdims.1 G.cartdims.2.1 G.cartdims.2.2 := by
  rw [← Ptr.putAll_fill (fcells3d_x G.cartdims.1 G.cartdims.2.1 G.cartdims.2.2 ++
      fcells3d_y G.cartdims.1 G.cartdims.2.1 G.cartdims.2.2 ++
      fcells3d_z G.cartdims.1 G.cartdims.2.1 G.cartdims.2.2) G.face_cells
    (by rw [List.length_append, List.length_append, fcells3d_x_length, fcells3d_y_length,
      fcells3d_z_length, h]; ring)]
  refine congrArg Ptr.buf ?_
  refine forLoop_emit_after (fun s : Ptr Int × Ptr Int × Ptr Int => s.2.2) _ _ _ _ _ _ ?_ ?_
  · refine forLoop_emit_after (fun s : Ptr Int × Ptr Int × Ptr Int => s.2.2) _ _ _ _ _ _ ?_ ?_
    · refine forLoop_emit (fun s : Ptr Int × Ptr Int × Ptr Int => s.2.2) _ _ _ ?_ _
      intro k s
      refine forLoop_emit (fun s : Ptr Int × Ptr Int × Ptr Int => s.2.2) _ _ _ ?_ _
      intro j s
      refine forLoop_emit (fun s : Ptr Int × Ptr Int × Ptr Int => s.2.2) _ _ _ ?_ _
      intro i s
      show (if i = 0 then _ else _) = _
      simp only [fcells2d_x_block, fcells2d_y_block, fcells3d_x_block, fcells3d_y_block,
        fcells3d_z_block]
      split_ifs <;> rfl
    · intro k s
      refine forLoop_emit (fun s : Ptr Int × Ptr Int × Ptr Int => s.2.2) _ _ _ ?_ _
      intro j s
      refine forLoop_emit (fun s : Ptr Int × Ptr Int × Ptr Int => s.2.2) _ _ _ ?_ _
      intro i s
      show (if j = 0 then _ else _) = _
      simp only [fcells2d_x_block, fcells2d_y_block, fcells3d_x_block, fcells3d_y_block,
        fcells3d_z_block]
      split_ifs <;> rfl
  · intro k s
    refine forLoop_emit (fun s : Ptr Int × Ptr Int × Ptr Int => s.2.2) _ _ _ ?_ _
    intro j s
    refine forLoop_emit (fun s : Ptr Int × Ptr Int × Ptr Int => s.2.2) _ _ _ ?_ _
    intro i s
    show (if k = 0 then _ else _) = _
    simp only [fcells2d_x_block, fcells2d_y_block, fcells3d_x_block, fcells3d_y_block,
      fcells3d_z_block]
    split_ifs <;> rfl

theorem topo3d_cell_facepos (G : UnstructuredGrid)
    (h : G.cell_facepos.length = G.cartdims.1 * G.cartdims.2.1 * G.cartdims.2.2 + 1) (c : Nat)
    (hc : c ≤ G.cartdims.1 * G.cartdims.2.1 * G.cartdims.2.2) :
    (fill_cart_topology_3d G).cell_facepos[c]? = some (6 * c) := by
  have key : (fill_cart_topology_3d G).cell_facepos =
      ((Ptr.bump 6)^[G.cartdims.2.2 * (G.cartdims.2.1 * (G.cartdims.1 * 1))]
        ⟨G.cell_facepos.set 0 0, 0⟩).buf := by
    refine congrArg Ptr.buf (forLoop_iter (fun s : Ptr Int × Ptr Int => s.2) _ _ _ _ ?_ _)
    intro k s
    refine forLoop_iter (fun s : Ptr Int × Ptr Int => s.2) _ _ _ _ ?_ _
    intro j s
    refine forLoop_iter (fun s : Ptr Int × Ptr Int => s.2) _ _ _ _ ?_ _
    intro i s
    rfl
  have e : G.cartdims.2.2 * (G.cartdims.2.1 * (G.cartdims.1 * 1)) =
      G.cartdims.1 * G.cartdims.2.1 * G.cartdims.2.2 := by ring
  rw [key, e]
  have := bump_iterate 6 (G.cell_facepos.set 0 0)
    (by rw [List.getElem?_set_self (by omega)]) (G.cartdims.1 * G.cartdims.2.1 * G.cartdims.2.2)
    (by rw [List.length_set, h]; omega)
  exact this.2.2 c hc

theorem iterate_bump_add (d : Int) (a b : Nat) (p : Ptr Int) :
    (Ptr.bump d)^[b] ((Ptr.bump d)^[a] p) = (Ptr.bump d)^[a + b] p := by
  rw [Nat.add_comm, Function.iterate_add_apply]

theorem topo3d_face_nodepos (G : UnstructuredGrid)
    (h : G.face_nodepos.length =
      (G.cartdims.1 + 1) * G.cartdims.2.1 * G.cartdims.2.2 +
        G.cartdims.1 * (G.cartdims.2.1 + 1) * G.cartdims.2.2 +
        G.cartdims.1 * G.cartdims.2.1 * (G.cartdims.2.2 + 1) + 1) (f : Nat)
    (hf : f ≤ (G.cartdims.1 + 1) * G.cartdims.2.1 * G.cartdims.2.2 +
        G.cartdims.1 * (G.cartdims.2.1 + 1) * G.cartdims.2.2 +
        G.cartdims.1 * G.cartdims.2.1 * (G.cartdims.2.2 + 1)) :
    (fill_cart_topology_3d G).face_nodepos[f]? = some (4 * f) := by
  have key : (fill_cart_topology_3d G).face_nodepos =
      ((Ptr.bump 4)^[G.cartdims.2.2 * (G.cartdims.2.1 * ((G.cartdims.1 + 1) * 1)) +
          G.cartdims.2.2 * ((G.cartdims.2.1 + 1) * (G.cartdims.1 * 1)) +
          (G.cartdims.2.2 + 1) * (G.cartdims.2.1 * (G.cartdims.1 * 1))]
        ⟨G.face_nodepos.set 0 0, 0⟩).buf := by
    refine congrArg Ptr.buf ?_
    rw [← iterate_bump_add, ← iterate_bump_add]
    refine (forLoop_iter (fun s : Ptr Int × Ptr Int × Ptr Int => s.2.1) (Ptr.bump 4) _ _ _
      ?_ _).trans (congrArg _ ?_)
    · intro k s
      refine forLoop_iter (fun s : Ptr Int × Ptr Int × Ptr Int => s.2.1) _ _ _ _ ?_ _
      intro j s
      refine forLoop_iter (fun s : Ptr Int × Ptr Int × Ptr Int => s.2.1) _ _ _ _ ?_ _
      intro i s
      rfl
    refine (forLoop_iter (fun s : Ptr Int × Ptr Int × Ptr Int => s.2.1) (Ptr.bump 4) _ _ _
      ?_ _).trans (congrArg _ ?_)
    · intro k s
      refine forLoop_iter (fun s : Ptr Int × Ptr Int × Ptr Int => s.2.1) _ _ _ _ ?_ _
      intro j s
      refine forLoop_iter (fun s : Ptr Int × Ptr Int × Ptr Int => s.2.1) _ _ _ _ ?_ _
      intro i s
      rfl
    refine forLoop_iter (fun s : Ptr Int × Ptr Int × Ptr Int => s.2.1) (Ptr.bump 4) _ _ _ ?_ _
    intro k s
    refine forLoop_iter (fun s : Ptr Int × Ptr Int × Ptr Int => s.2.1) _ _ _ _ ?_ _
    intro j s
    refine forLoop_iter (fun s : Ptr Int × Ptr Int × Ptr Int => s.2.1) _ _ _ _ ?_ _
    intro i s
    rfl
  have e : G.cartdims.2.2 * (G.cartdims.2.1 * ((G.cartdims.1 + 1) * 1)) +
          G.cartdims.2.2 * ((G.cartdims.2.1 + 1) * (G.cartdims.1 * 1)) +
          (G.cartdims.2.2 + 1) * (G.cartdims.2.1 * (G.cartdims.1 * 1)) =
      (G.cartdims.1 + 1) * G.cartdims.2.1 * G.cartdims.2.2 +
        G.cartdims.1 * (G.cartdims.2.1 + 1) * G.cartdims.2.2 +
        G.cartdims.1 * G.cartdims.2.1 * (G.cartdims.2.2 + 1) := by ring
  rw [key, e]
  have := bump_iterate 4 (G.face_nodepos.set 0 0)
    (by rw [List.getElem?_set_self (by omega)]) _
    (by rw [List.length_set, h]; exact Nat.lt_succ_self _)
  exact this.2.2 f hf

theorem topo2d_face_nodepos (G : UnstructuredGrid)
    (h : G.face_nodepos.length =
      (G.cartdims.1 + 1) * G.cartdims.2.1 + G.cartdims.1 * (G.cartdims.2.1 + 1) + 1) (f : Nat)
    (hf : f ≤ (G.cartdims.1 + 1) * G.cartdims.2.1 + G.cartdims.1 * (G.cartdims.2.1 + 1)) :
    (fill_cart_topology_2d G).face_nodepos[f]? = some (2 * f) := by
  have key : (fill_cart_topology_2d G).face_nodepos =
      ((Ptr.bump 2)^[G.cartdims.2.1 * ((G.cartdims.1 + 1) * 1) +
          (G.cartdims.2.1 + 1) * (G.cartdims.1 * 1)]
        ⟨G.face_nodepos.set 0 0, 0⟩).buf := by
    refine congrArg Ptr.buf ?_
    rw [← iterate_bump_add]
    refine (forLoop_iter (fun s : Ptr Int × Ptr Int × Ptr Int => s.2.1) (Ptr.bump 2) _ _ _
      ?_ _).trans (congrArg _ ?_)
    · intro j s
      refine forLoop_iter (fun s : Ptr Int × Ptr Int × Ptr Int => s.2.1) _ _ _ _ ?_ _
      intro i s
      rfl
    refine forLoop_iter (fun s : Ptr Int × Ptr Int × Ptr Int => s.2.1) (Ptr.bump 2) _ _ _ ?_ _
    intro j s
    refine forLoop_iter (fun s : Ptr Int × Ptr Int × Ptr Int => s.2.1) _ _ _ _ ?_ _
    intro i s
    rfl
  have e : G.cartdims.2.1 * ((G.cartdims.1 + 1) * 1) +
          (G.cartdims.2.1 + 1) * (G.cartdims.1 * 1) =
      (G.cartdims.1 + 1) * G.cartdims.2.1 + G.cartdims.1 * (G.cartdims.2.1 + 1) := by ring
  rw [key, e]
  have := bump_iterate 2 (G.face_nodepos.set 0 0)
    (by rw [List.getElem?_set_self (by omega)]) _
    (by rw [List.length_set, h]; exact Nat.lt_succ_self _)
  exact this.2.2 f hf

theorem fnodes2d_x_length (nx ny : Nat) : (fnodes2d_x nx ny).length = ny * ((nx + 1) * 2) :=
  emitted2_length 2 _ (fun _ _ => by rfl) _ _

theorem fnodes2d_y_length (nx ny : Nat) : (fnodes2d_y nx ny).length = (ny + 1) * (nx * 2) :=
  emitted2_length 2 _ (fun _ _ => by rfl) _ _

theorem topo2d_face_nodes (G : UnstructuredGrid)
    (h : G.face_nodes.length =
      ((G.cartdims.1 + 1) * G.cartdims.2.1 + G.cartdims.1 * (G.cartdims.2.1 + 1)) * 2) :
    (fill_cart_topology_2d G).face_nodes =
      fnodes2d_x G.cartdims.1 G.cartdims.2.1 ++ fnodes2d_y G.cartdims.1 G.cartdims.2.1 := by
  rw [← Ptr.putAll_fill (fnodes2d_x G.cartdims.1 G.cartdims.2.1 ++
    fnodes2d_y G.cartdims.1 G.cartdims.2.1) G.face_nodes
    (by rw [List.length_append, fnodes2d_x_length, fnodes2d_y_length, h]; ring)]
  refine congrArg Ptr.buf ?_
  refine forLoop_emit_after (fun s : Ptr Int × Ptr Int × Ptr Int => s.1) _ _ _ _ _ _ ?_ ?_
  · refine forLoop_emit (fun s : Ptr Int × Ptr Int × Ptr Int => s.1) _ _ _ ?_ _
    intro j s
    refine forLoop_emit (fun s : Ptr Int × Ptr Int × Ptr Int => s.1) _ _ _ ?_ _
    intro i s
    rfl
  · intro j s
    refine forLoop_emit (fun s : Ptr Int × Ptr Int × Ptr Int => s.1) _ _ _ ?_ _
    intro i s
    rfl

theorem fnodes3d_x_length (nx ny nz : Nat) :
    (fnodes3d_x nx ny nz).length = nz * (ny * ((nx + 1) * 4)) :=
  emitted3_length 4 _ (fun _ _ _ => by rfl) _ _ _

theorem fnodes3d_y_length (nx ny nz : Nat) :
    (fnodes3d_y nx ny nz).length = nz * ((ny + 1) * (nx * 4)) :=
  emitted3_length 4 _ (fun _ _ _ => by rfl) _ _ _

theorem fnodes3d_z_length (nx ny nz : Nat) :
    (fnodes3d_z nx ny nz).length = (nz + 1) * (ny * (nx * 4)) :=
  emitted3_length 4 _ (fun _ _ _ => by rfl) _ _ _

theorem topo3d_face_nodes (G : UnstructuredGrid)
    (h : G.face_nodes.length =
      ((G.cartdims.1 + 1) * G.cartdims.2.1 * G.cartdims.2.2 +
        G.cartdims.1 * (G.cartdims.2.1 + 1) * G.cartdims.2.2 +
        G.cartdims.1 * G.cartdims.2.1 * (G.cartdims.2.2 + 1)) * 4) :
    (fill_cart_topology_3d G).face_nodes =
      fnodes3d_x G.cartdims.1 G.cartdims.2.1 G.cartdims.2.2 ++
      fnodes3d_y G.cartdims.1 G.cartdims.2.1 G.cartdims.2.2 ++
      fnodes3d_z G.cartdims.1 G.cartdims.2.1 G.cartdims.2.2 := by
  rw [← Ptr.putAll_fill (fnodes3d_x G.cartdims.1 G.cartdims.2.1 G.cartdims.2.2 ++
      fnodes3d_y G.cartdims.1 G.cartdims.2.1 G.cartdims.2.2 ++
      fnodes3d_z G.cartdims.1 G.cartdims.2.1 G.cartdims.2.2) G.face_nodes
    (by rw [List.length_append, List.length_append, fnodes3d_x_length, fnodes3d_y_length,
      fnodes3d_z_length, h]; ring)]
  refine congrArg Ptr.buf ?_
  refine forLoop_emit_after (fun s : Ptr Int × Ptr Int × Ptr Int => s.1) _ _ _ _ _ _ ?_ ?_
  · refine forLoop_emit_after (fun s : Ptr Int × Ptr Int × Ptr Int => s.1) _ _ _ _ _ _ ?_ ?_
    · refine forLoop_emit (fun s : Ptr Int × Ptr Int × Ptr Int => s.1) _ _ _ ?_ _
      intro k s
      refine forLoop_emit (fun s : Ptr Int × Ptr Int × Ptr Int => s.1) _ _ _ ?_ _
      intro j s
      refine forLoop_emit (fun s : Ptr Int × Ptr Int × Ptr Int => s.1) _ _ _ ?_ _
      intro i s
      rfl
    · intro k s
      refine forLoop_emit (fun s : Ptr Int × Ptr Int × Ptr Int => s.1) _ _ _ ?_ _
      intro j s
      refine forLoop_emit (fun s : Ptr Int × Ptr Int × Ptr Int => s.1) _ _ _ ?_ _
      intro i s
      rfl
  · intro k s
    refine forLoop_emit (fun s : Ptr Int × Ptr Int × Ptr Int => s.1) _ _ _ ?_ _
    intro j s
    refine forLoop_emit (fun s : Ptr Int × Ptr Int × Ptr Int => s.1) _ _ _ ?_ _
    intro i s
    rfl

theorem allocate_cart_grid_granted (m : Extern) (hm : m.grid_granted)
    (ndims ncells nfaces nnodes : Nat) :
    ∃ A, allocate_cart_grid m ndims ncells nfaces nnodes = some A ∧
      Sized A ndims ncells nfaces nnodes := by
  obtain ⟨h1, h2⟩ := hm
  simp only [allocate_cart_grid, allocate_grid, h1, h2, if_true]
  exact ⟨_, rfl, by constructor <;> simp⟩

theorem allocate_cart_grid_3d_granted (m : Extern) (hm : m.grid_granted) (nx ny nz : Nat) :
    ∃ A, allocate_cart_grid_3d m nx ny nz = some A ∧ A.dimensions = 3 ∧
      A.cartdims = (nx, ny, nz) ∧ A.number_of_cells = nx * ny * nz ∧
      A.number_of_faces = (nx + 1) * ny * nz + nx * (ny + 1) * nz + nx * ny * (nz + 1) ∧
      A.number_of_nodes = (nx + 1) * (ny + 1) * (nz + 1) ∧
      Sized A 3 (nx * ny * nz)
        ((nx + 1) * ny * nz + nx * (ny + 1) * nz + nx * ny * (nz + 1))
        ((nx + 1) * (ny + 1) * (nz + 1)) := by
  obtain ⟨A, hA, hs⟩ := allocate_cart_grid_granted m hm 3 (nx * ny * nz)
    ((nx + 1) * ny * nz + nx * (ny + 1) * nz + nx * ny * (nz + 1))
    ((nx + 1) * (ny + 1) * (nz + 1))
  simp only [allocate_cart_grid_3d, hA]
  exact ⟨_, rfl, rfl, rfl, rfl, rfl, rfl, ⟨hs.1, hs.2, hs.3, hs.4, hs.5, hs.6, hs.7, hs.8,
    hs.9, hs.10, hs.11, hs.12, hs.13⟩⟩

theorem allocate_cart_grid_2d_granted (m : Extern) (hm : m.grid_granted) (nx ny : Nat) :
    ∃ A, allocate_cart_grid_2d m nx ny = some A ∧ A.dimensions = 2 ∧
      A.cartdims = (nx, ny, 1) ∧ A.number_of_cells = nx * ny ∧
      A.number_of_faces = (nx + 1) * ny + nx * (ny + 1) ∧
      A.number_of_nodes = (nx + 1) * (ny + 1) ∧
      Sized A 2 (nx * ny) ((nx + 1) * ny + nx * (ny + 1)) ((nx + 1) * (ny + 1)) := by
  obtain ⟨A, hA, hs⟩ := allocate_cart_grid_granted m hm 2 (nx * ny)
    ((nx + 1) * ny + nx * (ny + 1)) ((nx + 1) * (ny + 1))
  simp only [allocate_cart_grid_2d, hA]
  exact ⟨_, rfl, rfl, rfl, rfl, rfl, rfl, ⟨hs.1, hs.2, hs.3, hs.4, hs.5, hs.6, hs.7, hs.8,
    hs.9, hs.10, hs.11, hs.12, hs.13⟩⟩

/-! ## The topology of a constructed grid -/

theorem topo3d_global_cell (G : UnstructuredGrid) (h : G.global_cell.length = G.number_of_cells) :
    (fill_cart_topology_3d G).global_cell =
      emitted G.number_of_cells (fun i => [(i : Int)]) :=
  indices_global_cell _ _ h

theorem topo2d_global_cell (G : UnstructuredGrid) (h : G.global_cell.length = G.number_of_cells) :
    (fill_cart_topology_2d G).global_cell =
      emitted G.number_of_cells (fun i => [(i : Int)]) :=
  indices_global_cell _ _ h

theorem fill_cart_topology_3d_spec (A : UnstructuredGrid) (nx ny nz : Nat)
    (hd : A.dimensions = 3) (hc : A.cartdims = (nx, ny, nz))
    (hnc : A.number_of_cells = nx * ny * nz)
    (hnf : A.number_of_faces = (nx + 1) * ny * nz + nx * (ny + 1) * nz + nx * ny * (nz + 1))
    (hnn : A.number_of_nodes = (nx + 1) * (ny + 1) * (nz + 1))
    (hs : Sized A 3 (nx * ny * nz)
      ((nx + 1) * ny * nz + nx * (ny + 1) * nz + nx * ny * (nz + 1))
      ((nx + 1) * (ny + 1) * (nz + 1))) :
    Topo3d (fill_cart_topology_3d A) nx ny nz := by
  have h1 : A.cartdims.1 = nx := by rw [hc]
  have h2 : A.cartdims.2.1 = ny := by rw [hc]
  have h3 : A.cartdims.2.2 = nz := by rw [hc]
  refine ⟨hd, hc, hnc, hnf, hnn, ?_, ?_, ?_, ?_, ?_, ?_, ?_⟩
  · have := topo3d_cell_faces A (by rw [hs.cell_faces, h1, h2, h3]; ring)
    rwa [h1, h2, h3] at this
  · have := topo3d_cell_facetag A (by rw [hs.cell_facetag, h1, h2, h3])
    rwa [h1, h2, h3] at this
  · have := topo3d_face_nodes A (by rw [hs.face_nodes, h1, h2, h3])
    rwa [h1, h2, h3] at this
  · have := topo3d_face_cells A (by rw [hs.face_cells, h1, h2, h3])
    rwa [h1, h2, h3] at this
  · intro c hcc
    exact topo3d_cell_facepos A (by rw [hs.cell_facepos, h1, h2, h3]) c
      (by rw [h1, h2, h3]; exact hcc)
  · intro f hf
    exact topo3d_face_nodepos A (by rw [hs.face_nodepos, h1, h2, h3]) f
      (by rw [h1, h2, h3]; exact hf)
  · have := topo3d_global_cell A (by rw [hs.global_cell, hnc])
    rwa [hnc] at this

theorem fill_cart_topology_2d_spec (A : UnstructuredGrid) (nx ny : Nat)
    (hd : A.dimensions = 2) (hc : A.cartdims = (nx, ny, 1))
    (hnc : A.number_of_cells = nx * ny)
    (hnf : A.number_of_faces = (nx + 1) * ny + nx * (ny + 1))
    (hnn : A.number_of_nodes = (nx + 1) * (ny + 1))
    (hs : Sized A 2 (nx * ny) ((nx + 1) * ny + nx * (ny + 1)) ((nx + 1) * (ny + 1))) :
    Topo2d (fill_cart_topology_2d A) nx ny := by
  have h1 : A.cartdims.1 = nx := by rw [hc]
  have h2 : A.cartdims.2.1 = ny := by rw [hc]
  refine ⟨hd, hc, hnc, hnf, hnn, ?_, ?_, ?_, ?_, ?_, ?_, ?_⟩
  · have := topo2d_cell_faces A (by rw [hs.cell_faces, h1, h2]; ring)
    rwa [h1, h2] at this
  · have := topo2d_cell_facetag A (by rw [hs.cell_facetag, h1, h2])
    rwa [h1, h2] at this
  · have := topo2d_face_nodes A (by rw [hs.face_nodes, h1, h2])
    rwa [h1, h2] at this
  · have := topo2d_face_cells A (by rw [hs.face_cells, h1, h2])
    rwa [h1, h2] at this
  · intro c hcc
    exact topo2d_cell_facepos A (by rw [hs.cell_facepos, h1, h2]) c
      (by rw [h1, h2]; exact hcc)
  · intro f hf
    exact topo2d_face_nodepos A (by rw [hs.face_nodepos, h1, h2]) f
      (by rw [h1, h2]; exact hf)
  · have := topo2d_global_cell A (by rw [hs.global_cell, hnc])
    rwa [hnc] at this

/-- With both grid requests granted the 3D tensor constructor returns a grid
carrying the Cartesian topology, whatever the coordinates and the depth
perturbation are. -/
theorem create_grid_tensor3d_topology (m : Extern) (hm : m.grid_granted) (nx ny nz : Nat)
    (x y z : List ℚ) (depthz : Option (List ℚ)) :
    ∃ G, create_grid_tensor3d m nx ny nz x y z depthz = some G ∧ Topo3d G nx ny nz := by
  obtain ⟨A, hA, hd, hc, hnc, hnf, hnn, hs⟩ := allocate_cart_grid_3d_granted m hm nx ny nz
  have T := fill_cart_topology_3d_spec A nx ny nz hd hc hnc hnf hnn hs
  simp only [create_grid_tensor3d, hA]
  cases depthz with
  | none =>
    exact ⟨_, rfl, ⟨T.1, T.2, T.3, T.4, T.5, T.6, T.7, T.8, T.9, T.10, T.11, T.12⟩⟩
  | some dz =>
    exact ⟨_, rfl, ⟨T.1, T.2, T.3, T.4, T.5, T.6, T.7, T.8, T.9, T.10, T.11, T.12⟩⟩

/-- With both grid requests granted the 2D tensor constructor returns a grid
carrying the Cartesian topology, whatever the coordinates are. -/
theorem create_grid_tensor2d_topology (m : Extern) (hm : m.grid_granted) (nx ny : Nat)
    (x y : List ℚ) :
    ∃ G, create_grid_tensor2d m nx ny x y = some G ∧ Topo2d G nx ny := by
  obtain ⟨A, hA, hd, hc, hnc, hnf, hnn, hs⟩ := allocate_cart_grid_2d_granted m hm nx ny
  have T := fill_cart_topology_2d_spec A nx ny hd hc hnc hnf hnn hs
  simp only [create_grid_tensor2d, hA]
  exact ⟨_, rfl, ⟨T.1, T.2, T.3, T.4, T.5, T.6, T.7, T.8, T.9, T.10, T.11, T.12⟩⟩

theorem create_grid_cart2d_eq (m : Extern) (hx : m.malloc_x = true) (hy : m.malloc_y = true)
    (nx ny : Nat) (dx dy : ℚ) :
    create_grid_cart2d m nx ny dx dy =
      create_grid_tensor2d m nx ny (uniform_coords nx dx) (uniform_coords ny dy) := by
  simp [create_grid_cart2d, hx, hy, uniform_coords]

theorem create_grid_hexa3d_eq (m : Extern) (hx : m.malloc_x = true) (hy : m.malloc_y = true)
    (hz : m.malloc_z = true) (nx ny nz : Nat) (dx dy dz : ℚ) :
    create_grid_hexa3d m nx ny nz dx dy dz =
      create_grid_tensor3d m nx ny nz (uniform_coords nx dx) (uniform_coords ny dy)
        (uniform_coords nz dz) none := by
  simp [create_grid_hexa3d, hx, hy, hz, uniform_coords]

theorem emitted_singleton {α : Type} (f : Nat → α) (n : Nat) :
    emitted n (fun i => [f i]) = (List.range n).map f := by
  induction n with
  | zero => rfl
  | succ n ih => rw [emitted, ih, List.range_succ, List.map_append]; rfl

theorem lex3_lt {i j k n m l : Nat} (hi : i < n) (hj : j < m) (hk : k < l) :
    i + n * (j + m * k) < n * m * l := by
  have := lex_lt_left hi (lex_lt_left hj hk)
  rwa [← Nat.mul_assoc] at this

/-! ### Reading the neighbour slots of a face -/

theorem fcells3d_get_x (nx ny nz i j k r : Nat) (hi : i ≤ nx) (hj : j < ny) (hk : k < nz)
    (hr : r < 2) :
    (fcells3d_x nx ny nz ++ fcells3d_y nx ny nz ++ fcells3d_z nx ny nz)[
      2 * (i + (nx + 1) * (j + ny * k)) + r]? = (fcells3d_x_block nx ny i j k)[r]? := by
  have hb := lex3_lt (Nat.lt_succ_of_le hi) hj hk
  rw [List.append_assoc, List.getElem?_append_left
    (by rw [fcells3d_x_length]; nlinarith [hb]), Nat.mul_comm 2]
  exact emitted3_getElem? 2 _ (fun _ _ _ => by
    simp only [fcells3d_x_block]; split_ifs <;> rfl) (nx + 1) ny nz i j k r
    (Nat.lt_succ_of_le hi) hj hk hr

theorem fcells3d_get_y (nx ny nz i j k r : Nat) (hi : i < nx) (hj : j ≤ ny) (hk : k < nz)
    (hr : r < 2) :
    (fcells3d_x nx ny nz ++ fcells3d_y nx ny nz ++ fcells3d_z nx ny nz)[
      2 * ((nx + 1) * ny * nz + (i + nx * (j + (ny + 1) * k))) + r]? =
      (fcells3d_y_block nx ny i j k)[r]? := by
  have hb := lex3_lt hi (Nat.lt_succ_of_le hj) hk
  rw [List.getElem?_append_left
    (by rw [List.length_append, fcells3d_x_length, fcells3d_y_length]; nlinarith [hb]),
    List.getElem?_append_right (by
      rw [fcells3d_x_length]
      have : nz * (ny * ((nx + 1) * 2)) = 2 * ((nx + 1) * ny * nz) := by ring
      omega), fcells3d_x_length]
  have e : 2 * ((nx + 1) * ny * nz + (i + nx * (j + (ny + 1) * k))) + r -
      nz * (ny * ((nx + 1) * 2)) = (i + nx * (j + (ny + 1) * k)) * 2 + r := by
    have : nz * (ny * ((nx + 1) * 2)) = 2 * ((nx + 1) * ny * nz) := by ring
    omega
  rw [e]
  exact emitted3_getElem? 2 _ (fun _ _ _ => by
    simp only [fcells3d_y_block]; split_ifs <;> rfl) nx (ny + 1) nz i j k r
    hi (Nat.lt_succ_of_le hj) hk hr

theorem fcells3d_get_z (nx ny nz i j k r : Nat) (hi : i < nx) (hj : j < ny) (hk : k ≤ nz)
    (hr : r < 2) :
    (fcells3d_x nx ny nz ++ fcells3d_y nx ny nz ++ fcells3d_z nx ny nz)[
      2 * ((nx + 1) * ny * nz + nx * (ny + 1) * nz + (i + nx * (j + ny * k))) + r]? =
      (fcells3d_z_block nx ny nz i j k)[r]? := by
  rw [List.getElem?_append_right (by
      rw [List.length_append, fcells3d_x_length, fcells3d_y_length]
      have : nz * (ny * ((nx + 1) * 2)) + nz * ((ny + 1) * (nx * 2)) =
        2 * ((nx + 1) * ny * nz + nx * (ny + 1) * nz) := by ring
      omega),
    List.length_append, fcells3d_x_length, fcells3d_y_length]
  have e : 2 * ((nx + 1) * ny * nz + nx * (ny + 1) * nz + (i + nx * (j + ny * k))) + r -
      (nz * (ny * ((nx + 1) * 2)) + nz * ((ny + 1) * (nx * 2))) =
      (i + nx * (j + ny * k)) * 2 + r := by
    have : nz * (ny * ((nx + 1) * 2)) + nz * ((ny + 1) * (nx * 2)) =
      2 * ((nx + 1) * ny * nz + nx * (ny + 1) * nz) := by ring
    omega
  rw [e]
  exact emitted3_getElem? 2 _ (fun _ _ _ => by
    simp only [fcells3d_z_block]; split_ifs <;> rfl) nx ny (nz + 1) i j k r
    hi hj (Nat.lt_succ_of_le hk) hr

theorem fcells2d_get_x (nx ny i j r : Nat) (hi : i ≤ nx) (hj : j < ny) (hr : r < 2) :
    (fcells2d_x nx ny ++ fcells2d_y nx ny)[2 * (i + (nx + 1) * j) + r]? =
      (fcells2d_x_block nx i j)[r]? := by
  have hb := lex_lt_left (Nat.lt_succ_of_le hi) hj
  rw [List.getElem?_append_left (by rw [fcells2d_x_length]; nlinarith [hb]), Nat.mul_comm 2]
  exact emitted2_getElem? 2 _ (fun _ _ => by
    simp only [fcells2d_x_block]; split_ifs <;> rfl) (nx + 1) ny i j r
    (Nat.lt_succ_of_le hi) hj hr

theorem fcells2d_get_y (nx ny i j r : Nat) (hi : i < nx) (hj : j ≤ ny) (hr : r < 2) :
    (fcells2d_x nx ny ++ fcells2d_y nx ny)[2 * ((nx + 1) * ny + (i + nx * j)) + r]? =
      (fcells2d_y_block nx ny i j)[r]? := by
  rw [List.getElem?_append_right (by
      rw [fcells2d_x_length]
      have : ny * ((nx + 1) * 2) = 2 * ((nx + 1) * ny) := by ring
      omega), fcells2d_x_length]
  have e : 2 * ((nx + 1) * ny + (i + nx * j)) + r - ny * ((nx + 1) * 2) =
      (i + nx * j) * 2 + r := by
    have : ny * ((nx + 1) * 2) = 2 * ((nx + 1) * ny) := by ring
    omega
  rw [e]
  exact emitted2_getElem? 2 _ (fun _ _ => by
    simp only [fcells2d_y_block]; split_ifs <;> rfl) nx (ny + 1) i j r
    hi (Nat.lt_succ_of_le hj) hr

/-- The pattern of the two slots of a face at position `p` of `n + 1`, given
the two cells on its sides (the low one exists when `0 < p`). -/
theorem slots_pattern (l : List Int) (p n : Nat) (hn : 1 ≤ n) (lo hi : Int)
    (hlo : 0 < p → 0 ≤ lo) (hhi : 0 ≤ hi)
    (h : l = if p = 0 then [-1, hi] else if p = n then [lo, -1] else [lo, hi]) :
    ∃ a b : Int, l[0]? = some a ∧ l[1]? = some b ∧
      (p = 0 → a = -1 ∧ 0 ≤ b) ∧ (p = n → 0 ≤ a ∧ b = -1) ∧
      (0 < p → p < n → 0 ≤ a ∧ 0 ≤ b) ∧ ¬ (a = -1 ∧ b = -1) := by
  subst h
  by_cases h0 : p = 0
  · subst h0
    refine ⟨-1, hi, by simp, by simp, fun _ => ⟨rfl, hhi⟩, fun h => by omega,
      fun h => by omega, fun h => by omega⟩
  · have hp : 0 < p := Nat.pos_of_ne_zero h0
    have := hlo hp
    by_cases h1 : p = n
    · refine ⟨lo, -1, by simp [h0, if_pos h1], by simp [h0, if_pos h1], fun h => absurd h h0,
        fun _ => ⟨this, rfl⟩, fun _ h => by omega, fun h => by omega⟩
    · refine ⟨lo, hi, by simp [h0, h1], by simp [h0, h1], fun h => absurd h h0,
        fun h => absurd h h1, fun _ _ => ⟨this, hhi⟩, fun h => by omega⟩

/-! ### Cells and their faces -/

/-- Every cell index of a 3D grid is `i + nx*(j + ny*k)` for one triple. -/
theorem cell_decomp3 (nx ny nz c : Nat) (hc : c < nx * ny * nz) :
    ∃ i j k, i < nx ∧ j < ny ∧ k < nz ∧ c = i + nx * (j + ny * k) := by
  have hnx : 0 < nx := by
    rcases Nat.eq_zero_or_pos nx with h | h
    · subst h; simp at hc
    · exact h
  have hny : 0 < ny := by
    rcases Nat.eq_zero_or_pos ny with h | h
    · subst h; simp at hc
    · exact h
  refine ⟨c % nx, (c / nx) % ny, (c / nx) / ny, Nat.mod_lt _ hnx, Nat.mod_lt _ hny, ?_, ?_⟩
  · rw [Nat.div_div_eq_div_mul]
    exact Nat.div_lt_of_lt_mul hc
  · rw [Nat.mod_add_div (c / nx) ny, Nat.mod_add_div c nx]

/-- Every cell index of a 2D grid is `i + nx*j` for one pair. -/
theorem cell_decomp2 (nx ny c : Nat) (hc : c < nx * ny) :
    ∃ i j, i < nx ∧ j < ny ∧ c = i + nx * j := by
  have hnx : 0 < nx := by
    rcases Nat.eq_zero_or_pos nx with h | h
    · subst h; simp at hc
    · exact h
  exact ⟨c % nx, c / nx, Nat.mod_lt _ hnx, Nat.div_lt_of_lt_mul hc, (Nat.mod_add_div c nx).symm⟩

theorem cfaces3d_get (nx ny nz i j k p : Nat) (hi : i < nx) (hj : j < ny) (hk : k < nz)
    (hp : p < 6) :
    (cfaces3d nx ny nz)[(i + nx * (j + ny * k)) * 6 + p]? =
      some ((cell_face3d nx ny nz i j k p : Nat) : Int) := by
  rw [cfaces3d, emitted3_getElem? 6 _ (fun _ _ _ => by rfl) nx ny nz i j k p hi hj hk hp]
  interval_cases p <;> simp only [cell_face3d, List.getElem?_cons_zero,
    List.getElem?_cons_succ] <;> congr 1 <;> push_cast <;> ring

theorem cfaces2d_get (nx ny i j p : Nat) (hi : i < nx) (hj : j < ny) (hp : p < 4) :
    (cfaces2d nx ny)[(i + nx * j) * 4 + p]? = some ((cell_face2d nx ny i j p : Nat) : Int) := by
  rw [cfaces2d, emitted2_getElem? 4 _ (fun _ _ => by rfl) nx ny i j p hi hj hp]
  interval_cases p <;> simp only [cell_face2d, List.getElem?_cons_zero,
    List.getElem?_cons_succ] <;> congr 1 <;> push_cast <;> ring

theorem ctag3d_get (nx ny nz c p : Nat) (hc : c < nx * ny * nz) (hp : p < 6) :
    (ctag3d nx ny nz)[c * 6 + p]? = some (p : Int) := by
  rw [ctag3d, emitted_getElem? 6 _ (fun _ => by rfl) _ c p hc hp]
  interval_cases p <;> rfl

theorem ctag2d_get (nx ny c p : Nat) (hc : c < nx * ny) (hp : p < 4) :
    (ctag2d nx ny)[c * 4 + p]? = ([0, 2, 1, 3] : List Int)[p]? :=
  emitted_getElem? 4 _ (fun _ => by rfl) _ c p hc hp

theorem fcells3d_x_block_low (nx ny i j k : Nat) (hi : i < nx) :
    (fcells3d_x_block nx ny i j k)[1]? = some ((i + nx * (j + ny * k) : Nat) : Int) := by
  unfold fcells3d_x_block
  split_ifs with h0 h1
  · simp
  · omega
  · simp

theorem fcells3d_x_block_high (nx ny i j k : Nat) :
    (fcells3d_x_block nx ny (i + 1) j k)[0]? = some ((i + nx * (j + ny * k) : Nat) : Int) := by
  unfold fcells3d_x_block
  rw [if_neg (Nat.succ_ne_zero i)]
  split_ifs <;> simp

theorem fcells3d_y_block_low (nx ny i j k : Nat) (hj : j < ny) :
    (fcells3d_y_block nx ny i j k)[1]? = some ((i + nx * (j + ny * k) : Nat) : Int) := by
  unfold fcells3d_y_block
  split_ifs with h0 h1
  · simp
  · omega
  · simp

theorem fcells3d_y_block_high (nx ny i j k : Nat) :
    (fcells3d_y_block nx ny i (j + 1) k)[0]? = some ((i + nx * (j + ny * k) : Nat) : Int) := by
  unfold fcells3d_y_block
  rw [if_neg (Nat.succ_ne_zero j)]
  split_ifs <;> simp

theorem fcells3d_z_block_low (nx ny nz i j k : Nat) (hk : k < nz) :
    (fcells3d_z_block nx ny nz i j k)[1]? = some ((i + nx * (j + ny * k) : Nat) : Int) := by
  unfold fcells3d_z_block
  split_ifs with h0 h1
  · simp
  · omega
  · simp

theorem fcells3d_z_block_high (nx ny nz i j k : Nat) :
    (fcells3d_z_block nx ny nz i j (k + 1))[0]? = some ((i + nx * (j + ny * k) : Nat) : Int) := by
  unfold fcells3d_z_block
  rw [if_neg (Nat.succ_ne_zero k)]
  split_ifs <;> simp

theorem fcells2d_x_block_low (nx i j : Nat) (hi : i < nx) :
    (fcells2d_x_block nx i j)[1]? = some ((i + nx * j : Nat) : Int) := by
  unfold fcells2d_x_block
  split_ifs with h0 h1
  · simp
  · omega
  · simp

theorem fcells2d_x_block_high (nx i j : Nat) :
    (fcells2d_x_block nx (i + 1) j)[0]? = some ((i + nx * j : Nat) : Int) := by
  unfold fcells2d_x_block
  rw [if_neg (Nat.succ_ne_zero i)]
  split_ifs <;> simp

theorem fcells2d_y_block_low (nx ny i j : Nat) (hj : j < ny) :
    (fcells2d_y_block nx ny i j)[1]? = some ((i + nx * j : Nat) : Int) := by
  unfold fcells2d_y_block
  split_ifs with h0 h1
  · simp
  · omega
  · simp

theorem fcells2d_y_block_high (nx ny i j : Nat) :
    (fcells2d_y_block nx ny i (j + 1))[0]? = some ((i + nx * j : Nat) : Int) := by
  unfold fcells2d_y_block
  rw [if_neg (Nat.succ_ne_zero j)]
  split_ifs <;> simp

/-- The cell `(i, j, k)` sits in the second slot of its low faces and in the
first slot of its high faces. -/
theorem cell_face3d_slot (nx ny nz i j k p : Nat) (hi : i < nx) (hj : j < ny) (hk : k < nz)
    (hp : p < 6) :
    (fcells3d_x nx ny nz ++ fcells3d_y nx ny nz ++ fcells3d_z nx ny nz)[
      2 * cell_face3d nx ny nz i j k p + (if p % 2 = 0 then 1 else 0)]? =
      some ((i + nx * (j + ny * k) : Nat) : Int) := by
  interval_cases p <;> simp only [cell_face3d]
  · show (_ : List Int)[2 * _ + 1]? = _
    rw [fcells3d_get_x nx ny nz i j k 1 (by omega) hj hk (by omega)]
    exact fcells3d_x_block_low nx ny i j k hi
  · show (_ : List Int)[2 * _ + 0]? = _
    rw [fcells3d_get_x nx ny nz (i + 1) j k 0 (by omega) hj hk (by omega)]
    exact fcells3d_x_block_high nx ny i j k
  · show (_ : List Int)[2 * _ + 1]? = _
    rw [fcells3d_get_y nx ny nz i j k 1 hi (by omega) hk (by omega)]
    exact fcells3d_y_block_low nx ny i j k hj
  · show (_ : List Int)[2 * _ + 0]? = _
    rw [fcells3d_get_y nx ny nz i (j + 1) k 0 hi (by omega) hk (by omega)]
    exact fcells3d_y_block_high nx ny i j k
  · show (_ : List Int)[2 * _ + 1]? = _
    rw [fcells3d_get_z nx ny nz i j k 1 hi hj (by omega) (by omega)]
    exact fcells3d_z_block_low nx ny nz i j k hk
  · show (_ : List Int)[2 * _ + 0]? = _
    rw [fcells3d_get_z nx ny nz i j (k + 1) 0 hi hj (by omega) (by omega)]
    exact fcells3d_z_block_high nx ny nz i j k

/-- The 2D cell `(i, j)` sits in the second slot of its low faces and in the
first slot of its high faces; the local positions are x-low, y-low, x-high,
y-high. -/
theorem cell_face2d_slot (nx ny i j p : Nat) (hi : i < nx) (hj : j < ny) (hp : p < 4) :
    (fcells2d_x nx ny ++ fcells2d_y nx ny)[
      2 * cell_face2d nx ny i j p + (if p < 2 then 1 else 0)]? =
      some ((i + nx * j : Nat) : Int) := by
  interval_cases p <;> simp only [cell_face2d]
  · show (_ : List Int)[2 * _ + 1]? = _
    rw [fcells2d_get_x nx ny i j 1 (by omega) hj (by omega)]
    exact fcells2d_x_block_low nx i j hi
  · show (_ : List Int)[2 * _ + 1]? = _
    rw [fcells2d_get_y nx ny i j 1 hi (by omega) (by omega)]
    exact fcells2d_y_block_low nx ny i j hj
  · show (_ : List Int)[2 * _ + 0]? = _
    rw [fcells2d_get_x nx ny (i + 1) j 0 (by omega) hj (by omega)]
    exact fcells2d_x_block_high nx i j
  · show (_ : List Int)[2 * _ + 0]? = _
    rw [fcells2d_get_y nx ny i (j + 1) 0 hi (by omega) (by omega)]
    exact fcells2d_y_block_high nx ny i j

/-- The face at local position `p` of a 3D cell lies in the family `p / 2`
and is one of the faces of the grid. -/
theorem cell_face3d_family (nx ny nz i j k p : Nat) (hi : i < nx) (hj : j < ny) (hk : k < nz)
    (hp : p < 6) :
    face_family ((nx + 1) * ny * nz) (nx * (ny + 1) * nz) (cell_face3d nx ny nz i j k p) = p / 2 ∧
    cell_face3d nx ny nz i j k p <
      (nx + 1) * ny * nz + nx * (ny + 1) * nz + nx * ny * (nz + 1) := by
  have hx0 := lex3_lt (show i < nx + 1 by omega) hj hk
  have hx1 := lex3_lt (show i + 1 < nx + 1 by omega) hj hk
  have hy0 := lex3_lt hi (show j < ny + 1 by omega) hk
  have hy1 := lex3_lt hi (show j + 1 < ny + 1 by omega) hk
  have hz0 := lex3_lt hi hj (show k < nz + 1 by omega)
  have hz1 := lex3_lt hi hj (show k + 1 < nz + 1 by omega)
  interval_cases p <;> simp only [cell_face3d, face_family] <;> constructor <;>
    first
    | omega
    | (split_ifs <;> omega)

/-- The face at local position `p` of a 2D cell lies in the x-family for
positions 0 and 2 and in the y-family for positions 1 and 3, and is one of
the faces of the grid. -/
theorem cell_face2d_family (nx ny i j p : Nat) (hi : i < nx) (hj : j < ny) (hp : p < 4) :
    face_family ((nx + 1) * ny) (nx * (ny + 1)) (cell_face2d nx ny i j p) = p % 2 ∧
    cell_face2d nx ny i j p < (nx + 1) * ny + nx * (ny + 1) := by
  have hx0 := lex_lt_left (show i < nx + 1 by omega) hj
  have hx1 := lex_lt_left (show i + 1 < nx + 1 by omega) hj
  have hy0 := lex_lt_left hi (show j < ny + 1 by omega)
  have hy1 := lex_lt_left hi (show j + 1 < ny + 1 by omega)
  interval_cases p <;> simp only [cell_face2d, face_family] <;> constructor <;>
    first
    | omega
    | (split_ifs <;> omega)

/-! ## The geometry of a constructed grid -/

theorem ccent3d_length (nx ny nz : Nat) (x y z : List ℚ) :
    (ccent3d nx ny nz x y z).length = nz * (ny * (nx * 3)) :=
  emitted3_length 3 _ (fun _ _ _ => by rfl) _ _ _

theorem cvol3d_length (nx ny nz : Nat) (x y z : List ℚ) :
    (cvol3d nx ny nz x y z).length = nz * (ny * (nx * 1)) :=
  emitted3_length 1 _ (fun _ _ _ => by rfl) _ _ _

theorem fnorm3d_x_length (nx ny nz : Nat) (y z : List ℚ) :
    (fnorm3d_x nx ny nz y z).length = nz * (ny * ((nx + 1) * 3)) :=
  emitted3_length 3 _ (fun _ _ _ => by rfl) _ _ _

theorem fnorm3d_y_length (nx ny nz : Nat) (x z : List ℚ) :
    (fnorm3d_y nx ny nz x z).length = nz * ((ny + 1) * (nx * 3)) :=
  emitted3_length 3 _ (fun _ _ _ => by rfl) _ _ _

theorem fnorm3d_z_length (nx ny nz : Nat) (x y : List ℚ) :
    (fnorm3d_z nx ny nz x y).length = (nz + 1) * (ny * (nx * 3)) :=
  emitted3_length 3 _ (fun _ _ _ => by rfl) _ _ _

theorem fcent3d_x_length (nx ny nz : Nat) (x y z : List ℚ) :
    (fcent3d_x nx ny nz x y z).length = nz * (ny * ((nx + 1) * 3)) :=
  emitted3_length 3 _ (fun _ _ _ => by rfl) _ _ _

theorem fcent3d_y_length (nx ny nz : Nat) (x y z : List ℚ) :
    (fcent3d_y nx ny nz x y z).length = nz * ((ny + 1) * (nx * 3)) :=
  emitted3_length 3 _ (fun _ _ _ => by rfl) _ _ _

theorem fcent3d_z_length (nx ny nz : Nat) (x y z : List ℚ) :
    (fcent3d_z nx ny nz x y z).length = (nz + 1) * (ny * (nx * 3)) :=
  emitted3_length 3 _ (fun _ _ _ => by rfl) _ _ _

theorem farea3d_x_length (nx ny nz : Nat) (y z : List ℚ) :
    (farea3d_x nx ny nz y z).length = nz * (ny * ((nx + 1) * 1)) :=
  emitted3_length 1 _ (fun _ _ _ => by rfl) _ _ _

theorem farea3d_y_length (nx ny nz : Nat) (x z : List ℚ) :
    (farea3d_y nx ny nz x z).length = nz * ((ny + 1) * (nx * 1)) :=
  emitted3_length 1 _ (fun _ _ _ => by rfl) _ _ _

theorem farea3d_z_length (nx ny nz : Nat) (x y : List ℚ) :
    (farea3d_z nx ny nz x y).length = (nz + 1) * (ny * (nx * 1)) :=
  emitted3_length 1 _ (fun _ _ _ => by rfl) _ _ _

theorem coord3d_length (nx ny nz : Nat) (x y z : List ℚ) :
    (coord3d nx ny nz x y z).length = (nz + 1) * ((ny + 1) * ((nx + 1) * 3)) :=
  emitted3_length 3 _ (fun _ _ _ => by rfl) _ _ _

theorem geom3d_cell_centroids (G : UnstructuredGrid) (x y z : List ℚ)
    (h : G.cell_centroids.length = G.cartdims.2.2 * (G.cartdims.2.1 * (G.cartdims.1 * 3))) :
    (fill_cart_geometry_3d G x y z).cell_centroids =
      ccent3d G.cartdims.1 G.cartdims.2.1 G.cartdims.2.2 x y z := by
  rw [← Ptr.putAll_fill (ccent3d G.cartdims.1 G.cartdims.2.1 G.cartdims.2.2 x y z)
    G.cell_centroids (by rw [ccent3d_length, h])]
  refine congrArg Ptr.buf (forLoop_emit (fun s : Ptr ℚ × Ptr ℚ => s.1) _ _ _ ?_ _)
  intro k s
  refine forLoop_emit (fun s : Ptr ℚ × Ptr ℚ => s.1) _ _ _ ?_ _
  intro j s
  refine forLoop_emit (fun s : Ptr ℚ × Ptr ℚ => s.1) _ _ _ ?_ _
  intro i s
  rfl

theorem geom3d_cell_volumes (G : UnstructuredGrid) (x y z : List ℚ)
    (h : G.cell_volumes.length = G.cartdims.2.2 * (G.cartdims.2.1 * (G.cartdims.1 * 1))) :
    (fill_cart_geometry_3d G x y z).cell_volumes =
      cvol3d G.cartdims.1 G.cartdims.2.1 G.cartdims.2.2 x y z := by
  rw [← Ptr.putAll_fill (cvol3d G.cartdims.1 G.cartdims.2.1 G.cartdims.2.2 x y z)
    G.cell_volumes (by rw [cvol3d_length, h])]
  refine congrArg Ptr.buf (forLoop_emit (fun s : Ptr ℚ × Ptr ℚ => s.2) _ _ _ ?_ _)
  intro k s
  refine forLoop_emit (fun s : Ptr ℚ × Ptr ℚ => s.2) _ _ _ ?_ _
  intro j s
  refine forLoop_emit (fun s : Ptr ℚ × Ptr ℚ => s.2) _ _ _ ?_ _
  intro i s
  rfl

theorem geom3d_node_coordinates (G : UnstructuredGrid) (x y z : List ℚ)
    (h : G.node_coordinates.length =
      (G.cartdims.2.2 + 1) * ((G.cartdims.2.1 + 1) * ((G.cartdims.1 + 1) * 3))) :
    (fill_cart_geometry_3d G x y z).node_coordinates =
      coord3d G.cartdims.1 G.cartdims.2.1 G.cartdims.2.2 x y z := by
  rw [← Ptr.putAll_fill (coord3d G.cartdims.1 G.cartdims.2.1 G.cartdims.2.2 x y z)
    G.node_coordinates (by rw [coord3d_length, h])]
  refine congrArg Ptr.buf (forLoop_emit (fun s : Ptr ℚ => s) _ _ _ ?_ _)
  intro k s
  refine forLoop_emit (fun s : Ptr ℚ => s) _ _ _ ?_ _
  intro j s
  refine forLoop_emit (fun s : Ptr ℚ => s) _ _ _ ?_ _
  intro i s
  rfl

theorem geom3d_face_normals (G : UnstructuredGrid) (x y z : List ℚ)
    (h : G.face_normals.length = 3 * ((G.cartdims.1 + 1) * G.cartdims.2.1 * G.cartdims.2.2 +
        G.cartdims.1 * (G.cartdims.2.1 + 1) * G.cartdims.2.2 +
        G.cartdims.1 * G.cartdims.2.1 * (G.cartdims.2.2 + 1))) :
    (fill_cart_geometry_3d G x y z).face_normals =
      fnorm3d_x G.cartdims.1 G.cartdims.2.1 G.cartdims.2.2 y z ++
      fnorm3d_y G.cartdims.1 G.cartdims.2.1 G.cartdims.2.2 x z ++
      fnorm3d_z G.cartdims.1 G.cartdims.2.1 G.cartdims.2.2 x y := by
  rw [← Ptr.putAll_fill (fnorm3d_x G.cartdims.1 G.cartdims.2.1 G.cartdims.2.2 y z ++
      fnorm3d_y G.cartdims.1 G.cartdims.2.1 G.cartdims.2.2 x z ++
      fnorm3d_z G.cartdims.1 G.cartdims.2.1 G.cartdims.2.2 x y) G.face_normals
    (by rw [List.length_append, List.length_append, fnorm3d_x_length, fnorm3d_y_length,
      fnorm3d_z_length, h]; ring)]
  refine congrArg Ptr.buf ?_
  refine forLoop_emit_after (fun s : Ptr ℚ × Ptr ℚ × Ptr ℚ => s.1) _ _ _ _ _ _ ?_ ?_
  · refine forLoop_emit_after (fun s : Ptr ℚ × Ptr ℚ × Ptr ℚ => s.1) _ _ _ _ _ _ ?_ ?_
    · refine forLoop_emit (fun s : Ptr ℚ × Ptr ℚ × Ptr ℚ => s.1) _ _ _ ?_ _
      intro k s
      refine forLoop_emit (fun s : Ptr ℚ × Ptr ℚ × Ptr ℚ => s.1) _ _ _ ?_ _
      intro j s
      refine forLoop_emit (fun s : Ptr ℚ × Ptr ℚ × Ptr ℚ => s.1) _ _ _ ?_ _
      intro i s
      rfl
    · intro k s
      refine forLoop_emit (fun s : Ptr ℚ × Ptr ℚ × Ptr ℚ => s.1) _ _ _ ?_ _
      intro j s
      refine forLoop_emit (fun s : Ptr ℚ × Ptr ℚ × Ptr ℚ => s.1) _ _ _ ?_ _
      intro i s
      rfl
  · intro k s
    refine forLoop_emit (fun s : Ptr ℚ × Ptr ℚ × Ptr ℚ => s.1) _ _ _ ?_ _
    intro j s
    refine forLoop_emit (fun s : Ptr ℚ × Ptr ℚ × Ptr ℚ => s.1) _ _ _ ?_ _
    intro i s
    rfl

theorem geom3d_face_centroids (G : UnstructuredGrid) (x y z : List ℚ)
    (h : G.face_centroids.length = 3 * ((G.cartdims.1 + 1) * G.cartdims.2.1 * G.cartdims.2.2 +
        G.cartdims.1 * (G.cartdims.2.1 + 1) * G.cartdims.2.2 +
        G.cartdims.1 * G.cartdims.2.1 * (G.cartdims.2.2 + 1))) :
    (fill_cart_geometry_3d G x y z).face_centroids =
      fcent3d_x G.cartdims.1 G.cartdims.2.1 G.cartdims.2.2 x y z ++
      fcent3d_y G.cartdims.1 G.cartdims.2.1 G.cartdims.2.2 x y z ++
      fcent3d_z G.cartdims.1 G.cartdims.2.1 G.cartdims.2.2 x y z := by
  rw [← Ptr.putAll_fill (fcent3d_x G.cartdims.1 G.cartdims.2.1 G.cartdims.2.2 x y z ++
      fcent3d_y G.cartdims.1 G.cartdims.2.1 G.cartdims.2.2 x y z ++
      fcent3d_z G.cartdims.1 G.cartdims.2.1 G.cartdims.2.2 x y z) G.face_centroids
    (by rw [List.length_append, List.length_append, fcent3d_x_length, fcent3d_y_length,
      fcent3d_z_length, h]; ring)]
  refine congrArg Ptr.buf ?_
  refine forLoop_emit_after (fun s : Ptr ℚ × Ptr ℚ × Ptr ℚ => s.2.1) _ _ _ _ _ _ ?_ ?_
  · refine forLoop_emit_after (fun s : Ptr ℚ × Ptr ℚ × Ptr ℚ => s.2.1) _ _ _ _ _ _ ?_ ?_
    · refine forLoop_emit (fun s : Ptr ℚ × Ptr ℚ × Ptr ℚ => s.2.1) _ _ _ ?_ _
      intro k s
      refine forLoop_emit (fun s : Ptr ℚ × Ptr ℚ × Ptr ℚ => s.2.1) _ _ _ ?_ _
      intro j s
      refine forLoop_emit (fun s : Ptr ℚ × Ptr ℚ × Ptr ℚ => s.2.1) _ _ _ ?_ _
      intro i s
      rfl
    · intro k s
      refine forLoop_emit (fun s : Ptr ℚ × Ptr ℚ × Ptr ℚ => s.2.1) _ _ _ ?_ _
      intro j s
      refine forLoop_emit (fun s : Ptr ℚ × Ptr ℚ × Ptr ℚ => s.2.1) _ _ _ ?_ _
      intro i s
      rfl
  · intro k s
    refine forLoop_emit (fun s : Ptr ℚ × Ptr ℚ × Ptr ℚ => s.2.1) _ _ _ ?_ _
    intro j s
    refine forLoop_emit (fun s : Ptr ℚ × Ptr ℚ × Ptr ℚ => s.2.1) _ _ _ ?_ _
    intro i s
    rfl

theorem geom3d_face_areas (G : UnstructuredGrid) (x y z : List ℚ)
    (h : G.face_areas.length = ((G.cartdims.1 + 1) * G.cartdims.2.1 * G.cartdims.2.2 +
        G.cartdims.1 * (G.cartdims.2.1 + 1) * G.cartdims.2.2 +
        G.cartdims.1 * G.cartdims.2.1 * (G.cartdims.2.2 + 1))) :
    (fill_cart_geometry_3d G x y z).face_areas =
      farea3d_x G.cartdims.1 G.cartdims.2.1 G.cartdims.2.2 y z ++
      farea3d_y G.cartdims.1 G.cartdims.2.1 G.cartdims.2.2 x z ++
      farea3d_z G.cartdims.1 G.cartdims.2.1 G.cartdims.2.2 x y := by
  rw [← Ptr.putAll_fill (farea3d_x G.cartdims.1 G.cartdims.2.1 G.cartdims.2.2 y z ++
      farea3d_y G.cartdims.1 G.cartdims.2.1 G.cartdims.2.2 x z ++
      farea3d_z G.cartdims.1 G.cartdims.2.1 G.cartdims.2.2 x y) G.face_areas
    (by rw [List.length_append, List.length_append, farea3d_x_length, farea3d_y_length,
      farea3d_z_length, h]; ring)]
  refine congrArg Ptr.buf ?_
  refine forLoop_emit_after (fun s : Ptr ℚ × Ptr ℚ × Ptr ℚ => s.2.2) _ _ _ _ _ _ ?_ ?_
  · refine forLoop_emit_after (fun s : Ptr ℚ × Ptr ℚ × Ptr ℚ => s.2.2) _ _ _ _ _ _ ?_ ?_
    · refine forLoop_emit (fun s : Ptr ℚ × Ptr ℚ × Ptr ℚ => s.2.2) _ _ _ ?_ _
      intro k s
      refine forLoop_emit (fun s : Ptr ℚ × Ptr ℚ × Ptr ℚ => s.2.2) _ _ _ ?_ _
      intro j s
      refine forLoop_emit (fun s : Ptr ℚ × Ptr ℚ × Ptr ℚ => s.2.2) _ _ _ ?_ _
      intro i s
      rfl
    · intro k s
      refine forLoop_emit (fun s : Ptr ℚ × Ptr ℚ × Ptr ℚ => s.2.2) _ _ _ ?_ _
      intro j s
      refine forLoop_emit (fun s : Ptr ℚ × Ptr ℚ × Ptr ℚ => s.2.2) _ _ _ ?_ _
      intro i s
      rfl
  · intro k s
    refine forLoop_emit (fun s : Ptr ℚ × Ptr ℚ × Ptr ℚ => s.2.2) _ _ _ ?_ _
    intro j s
    refine forLoop_emit (fun s : Ptr ℚ × Ptr ℚ × Ptr ℚ => s.2.2) _ _ _ ?_ _
    intro i s
    rfl

theorem ccent2d_length (nx ny : Nat) (x y : List ℚ) :
    (ccent2d nx ny x y).length = ny * (nx * 2) :=
  emitted2_length 2 _ (fun _ _ => by rfl) _ _

theorem cvol2d_length (nx ny : Nat) (x y : List ℚ) :
    (cvol2d nx ny x y).length = ny * (nx * 1) :=
  emitted2_length 1 _ (fun _ _ => by rfl) _ _

theorem fnorm2d_x_length (nx ny : Nat) (y : List ℚ) :
    (fnorm2d_x nx ny y).length = ny * ((nx + 1) * 2) :=
  emitted2_length 2 _ (fun _ _ => by rfl) _ _

theorem fnorm2d_y_length (nx ny : Nat) (x : List ℚ) :
    (fnorm2d_y nx ny x).length = (ny + 1) * (nx * 2) :=
  emitted2_length 2 _ (fun _ _ => by rfl) _ _

theorem fcent2d_x_length (nx ny : Nat) (x y : List ℚ) :
    (fcent2d_x nx ny x y).length = ny * ((nx + 1) * 2) :=
  emitted2_length 2 _ (fun _ _ => by rfl) _ _

theorem fcent2d_y_length (nx ny : Nat) (x y : List ℚ) :
    (fcent2d_y nx ny x y).length = (ny + 1) * (nx * 2) :=
  emitted2_length 2 _ (fun _ _ => by rfl) _ _

theorem farea2d_x_length (nx ny : Nat) (y : List ℚ) :
    (farea2d_x nx ny y).length = ny * ((nx + 1) * 1) :=
  emitted2_length 1 _ (fun _ _ => by rfl) _ _

theorem farea2d_y_length (nx ny : Nat) (x : List ℚ) :
    (farea2d_y nx ny x).length = (ny + 1) * (nx * 1) :=
  emitted2_length 1 _ (fun _ _ => by rfl) _ _

theorem coord2d_length (nx ny : Nat) (x y : List ℚ) :
    (coord2d nx ny x y).length = (ny + 1) * ((nx + 1) * 2) :=
  emitted2_length 2 _ (fun _ _ => by rfl) _ _

theorem geom2d_cell_centroids (G : UnstructuredGrid) (x y : List ℚ)
    (h : G.cell_centroids.length = G.cartdims.2.1 * (G.cartdims.1 * 2)) :
    (fill_cart_geometry_2d G x y).cell_centroids = ccent2d G.cartdims.1 G.cartdims.2.1 x y := by
  rw [← Ptr.putAll_fill (ccent2d G.cartdims.1 G.cartdims.2.1 x y)
    G.cell_centroids (by rw [ccent2d_length, h])]
  refine congrArg Ptr.buf (forLoop_emit (fun s : Ptr ℚ × Ptr ℚ => s.1) _ _ _ ?_ _)
  intro j s
  refine forLoop_emit (fun s : Ptr ℚ × Ptr ℚ => s.1) _ _ _ ?_ _
  intro i s
  rfl

theorem geom2d_cell_volumes (G : UnstructuredGrid) (x y : List ℚ)
    (h : G.cell_volumes.length = G.cartdims.2.1 * (G.cartdims.1 * 1)) :
    (fill_cart_geometry_2d G x y).cell_volumes = cvol2d G.cartdims.1 G.cartdims.2.1 x y := by
  rw [← Ptr.putAll_fill (cvol2d G.cartdims.1 G.cartdims.2.1 x y)
    G.cell_volumes (by rw [cvol2d_length, h])]
  refine congrArg Ptr.buf (forLoop_emit (fun s : Ptr ℚ × Ptr ℚ => s.2) _ _ _ ?_ _)
  intro j s
  refine forLoop_emit (fun s : Ptr ℚ × Ptr ℚ => s.2) _ _ _ ?_ _
  intro i s
  rfl

theorem geom2d_node_coordinates (G : UnstructuredGrid) (x y : List ℚ)
    (h : G.node_coordinates.length = (G.cartdims.2.1 + 1) * ((G.cartdims.1 + 1) * 2)) :
    (fill_cart_geometry_2d G x y).node_coordinates =
      coord2d G.cartdims.1 G.cartdims.2.1 x y := by
  rw [← Ptr.putAll_fill (coord2d G.cartdims.1 G.cartdims.2.1 x y)
    G.node_coordinates (by rw [coord2d_length, h])]
  refine congrArg Ptr.buf (forLoop_emit (fun s : Ptr ℚ => s) _ _ _ ?_ _)
  intro j s
  refine forLoop_emit (fun s : Ptr ℚ => s) _ _ _ ?_ _
  intro i s
  rfl

theorem geom2d_face_normals (G : UnstructuredGrid) (x y : List ℚ)
    (h : G.face_normals.length =
      2 * ((G.cartdims.1 + 1) * G.cartdims.2.1 + G.cartdims.1 * (G.cartdims.2.1 + 1))) :
    (fill_cart_geometry_2d G x y).face_normals =
      fnorm2d_x G.cartdims.1 G.cartdims.2.1 y ++ fnorm2d_y G.cartdims.1 G.cartdims.2.1 x := by
  rw [← Ptr.putAll_fill (fnorm2d_x G.cartdims.1 G.cartdims.2.1 y ++
      fnorm2d_y G.cartdims.1 G.cartdims.2.1 x) G.face_normals
    (by rw [List.length_append, fnorm2d_x_length, fnorm2d_y_length, h]; ring)]
  refine congrArg Ptr.buf ?_
  refine forLoop_emit_after (fun s : Ptr ℚ × Ptr ℚ × Ptr ℚ => s.1) _ _ _ _ _ _ ?_ ?_
  · refine forLoop_emit (fun s : Ptr ℚ × Ptr ℚ × Ptr ℚ => s.1) _ _ _ ?_ _
    intro j s
    refine forLoop_emit (fun s : Ptr ℚ × Ptr ℚ × Ptr ℚ => s.1) _ _ _ ?_ _
    intro i s
    rfl
  · intro j s
    refine forLoop_emit (fun s : Ptr ℚ × Ptr ℚ × Ptr ℚ => s.1) _ _ _ ?_ _
    intro i s
    rfl

theorem geom2d_face_centroids (G : UnstructuredGrid) (x y : List ℚ)
    (h : G.face_centroids.length =
      2 * ((G.cartdims.1 + 1) * G.cartdims.2.1 + G.cartdims.1 * (G.cartdims.2.1 + 1))) :
    (fill_cart_geometry_2d G x y).face_centroids =
      fcent2d_x G.cartdims.1 G.cartdims.2.1 x y ++ fcent2d_y G.cartdims.1 G.cartdims.2.1 x y := by
  rw [← Ptr.putAll_fill (fcent2d_x G.cartdims.1 G.cartdims.2.1 x y ++
      fcent2d_y G.cartdims.1 G.cartdims.2.1 x y) G.face_centroids
    (by rw [List.length_append, fcent2d_x_length, fcent2d_y_length, h]; ring)]
  refine congrArg Ptr.buf ?_
  refine forLoop_emit_after (fun s : Ptr ℚ × Ptr ℚ × Ptr ℚ => s.2.1) _ _ _ _ _ _ ?_ ?_
  · refine forLoop_emit (fun s : Ptr ℚ × Ptr ℚ × Ptr ℚ => s.2.1) _ _ _ ?_ _
    intro j s
    refine forLoop_emit (fun s : Ptr ℚ × Ptr ℚ × Ptr ℚ => s.2.1) _ _ _ ?_ _
    intro i s
    rfl
  · intro j s
    refine forLoop_emit (fun s : Ptr ℚ × Ptr ℚ × Ptr ℚ => s.2.1) _ _ _ ?_ _
    intro i s
    rfl

theorem geom2d_face_areas (G : UnstructuredGrid) (x y : List ℚ)
    (h : G.face_areas.length =
      (G.cartdims.1 + 1) * G.cartdims.2.1 + G.cartdims.1 * (G.cartdims.2.1 + 1)) :
    (fill_cart_geometry_2d G x y).face_areas =
      farea2d_x G.cartdims.1 G.cartdims.2.1 y ++ farea2d_y G.cartdims.1 G.cartdims.2.1 x := by
  rw [← Ptr.putAll_fill (farea2d_x G.cartdims.1 G.cartdims.2.1 y ++
      farea2d_y G.cartdims.1 G.cartdims.2.1 x) G.face_areas
    (by rw [List.length_append, farea2d_x_length, farea2d_y_length, h]; ring)]
  refine congrArg Ptr.buf ?_
  refine forLoop_emit_after (fun s : Ptr ℚ × Ptr ℚ × Ptr ℚ => s.2.2) _ _ _ _ _ _ ?_ ?_
  · refine forLoop_emit (fun s : Ptr ℚ × Ptr ℚ × Ptr ℚ => s.2.2) _ _ _ ?_ _
    intro j s
    refine forLoop_emit (fun s : Ptr ℚ × Ptr ℚ × Ptr ℚ => s.2.2) _ _ _ ?_ _
    intro i s
    rfl
  · intro j s
    refine forLoop_emit (fun s : Ptr ℚ × Ptr ℚ × Ptr ℚ => s.2.2) _ _ _ ?_ _
    intro i s
    rfl

/-- With both grid requests granted and no depth perturbation the 3D tensor
constructor returns a grid with the Cartesian topology and the axis-aligned
geometry. -/
theorem create_grid_tensor3d_spec (m : Extern) (hm : m.grid_granted) (nx ny nz : Nat)
    (x y z : List ℚ) :
    ∃ G, create_grid_tensor3d m nx ny nz x y z none = some G ∧ Topo3d G nx ny nz ∧
      Geom3d G nx ny nz x y z := by
  obtain ⟨A, hA, hd, hc, hnc, hnf, hnn, hs⟩ := allocate_cart_grid_3d_granted m hm nx ny nz
  have T := fill_cart_topology_3d_spec A nx ny nz hd hc hnc hnf hnn hs
  simp only [create_grid_tensor3d, hA]
  refine ⟨_, rfl, ⟨T.1, T.2, T.3, T.4, T.5, T.6, T.7, T.8, T.9, T.10, T.11, T.12⟩, ?_⟩
  have h1 : (fill_cart_topology_3d A).cartdims.1 = nx := by rw [T.cartdims]
  have h2 : (fill_cart_topology_3d A).cartdims.2.1 = ny := by rw [T.cartdims]
  have h3 : (fill_cart_topology_3d A).cartdims.2.2 = nz := by rw [T.cartdims]
  have l1 : (fill_cart_topology_3d A).cell_centroids.length = 3 * (nx * ny * nz) :=
    hs.cell_centroids
  have l2 : (fill_cart_topology_3d A).cell_volumes.length = nx * ny * nz := hs.cell_volumes
  have l3 : (fill_cart_topology_3d A).face_normals.length =
    3 * ((nx + 1) * ny * nz + nx * (ny + 1) * nz + nx * ny * (nz + 1)) := hs.face_normals
  have l4 : (fill_cart_topology_3d A).face_centroids.length =
    3 * ((nx + 1) * ny * nz + nx * (ny + 1) * nz + nx * ny * (nz + 1)) := hs.face_centroids
  have l5 : (fill_cart_topology_3d A).face_areas.length =
    (nx + 1) * ny * nz + nx * (ny + 1) * nz + nx * ny * (nz + 1) := hs.face_areas
  have l6 : (fill_cart_topology_3d A).node_coordinates.length =
    3 * ((nx + 1) * (ny + 1) * (nz + 1)) := hs.node_coordinates
  refine ⟨?_, ?_, ?_, ?_, ?_, ?_⟩
  · have := geom3d_cell_centroids (fill_cart_topology_3d A) x y z
      (by rw [l1, h1, h2, h3]; ring)
    rwa [h1, h2, h3] at this
  · have := geom3d_cell_volumes (fill_cart_topology_3d A) x y z
      (by rw [l2, h1, h2, h3]; ring)
    rwa [h1, h2, h3] at this
  · have := geom3d_face_normals (fill_cart_topology_3d A) x y z (by rw [l3, h1, h2, h3])
    rwa [h1, h2, h3] at this
  · have := geom3d_face_centroids (fill_cart_topology_3d A) x y z (by rw [l4, h1, h2, h3])
    rwa [h1, h2, h3] at this
  · have := geom3d_face_areas (fill_cart_topology_3d A) x y z (by rw [l5, h1, h2, h3])
    rwa [h1, h2, h3] at this
  · have := geom3d_node_coordinates (fill_cart_topology_3d A) x y z
      (by rw [l6, h1, h2, h3]; ring)
    rwa [h1, h2, h3] at this

/-- With both grid requests granted the 2D tensor constructor returns a grid
with the Cartesian topology and the axis-aligned geometry. -/
theorem create_grid_tensor2d_spec (m : Extern) (hm : m.grid_granted) (nx ny : Nat)
    (x y : List ℚ) :
    ∃ G, create_grid_tensor2d m nx ny x y = some G ∧ Topo2d G nx ny ∧ Geom2d G nx ny x y := by
  obtain ⟨A, hA, hd, hc, hnc, hnf, hnn, hs⟩ := allocate_cart_grid_2d_granted m hm nx ny
  have T := fill_cart_topology_2d_spec A nx ny hd hc hnc hnf hnn hs
  simp only [create_grid_tensor2d, hA]
  refine ⟨_, rfl, ⟨T.1, T.2, T.3, T.4, T.5, T.6, T.7, T.8, T.9, T.10, T.11, T.12⟩, ?_⟩
  have h1 : (fill_cart_topology_2d A).cartdims.1 = nx := by rw [T.cartdims]
  have h2 : (fill_cart_topology_2d A).cartdims.2.1 = ny := by rw [T.cartdims]
  have l1 : (fill_cart_topology_2d A).cell_centroids.length = 2 * (nx * ny) :=
    hs.cell_centroids
  have l2 : (fill_cart_topology_2d A).cell_volumes.length = nx * ny := hs.cell_volumes
  have l3 : (fill_cart_topology_2d A).face_normals.length =
    2 * ((nx + 1) * ny + nx * (ny + 1)) := hs.face_normals
  have l4 : (fill_cart_topology_2d A).face_centroids.length =
    2 * ((nx + 1) * ny + nx * (ny + 1)) := hs.face_centroids
  have l5 : (fill_cart_topology_2d A).face_areas.length =
    (nx + 1) * ny + nx * (ny + 1) := hs.face_areas
  have l6 : (fill_cart_topology_2d A).node_coordinates.length =
    2 * ((nx + 1) * (ny + 1)) := hs.node_coordinates
  refine ⟨?_, ?_, ?_, ?_, ?_, ?_⟩
  · have := geom2d_cell_centroids (fill_cart_topology_2d A) x y (by rw [l1, h1, h2]; ring)
    rwa [h1, h2] at this
  · have := geom2d_cell_volumes (fill_cart_topology_2d A) x y (by rw [l2, h1, h2]; ring)
    rwa [h1, h2] at this
  · have := geom2d_face_normals (fill_cart_topology_2d A) x y (by rw [l3, h1, h2])
    rwa [h1, h2] at this
  · have := geom2d_face_centroids (fill_cart_topology_2d A) x y (by rw [l4, h1, h2])
    rwa [h1, h2] at this
  · have := geom2d_face_areas (fill_cart_topology_2d A) x y (by rw [l5, h1, h2])
    rwa [h1, h2] at this
  · have := geom2d_node_coordinates (fill_cart_topology_2d A) x y (by rw [l6, h1, h2]; ring)
    rwa [h1, h2] at this

/-! ### Reading the entries of one face family -/

/-- Entry of a three-level stream that follows `a` blocks of another stream. -/
theorem family_get3 {α : Type} (pre post : List α) (m a : Nat) (g : Nat → Nat → Nat → List α)
    (hg : ∀ i j k, (g i j k).length = m) (hpre : pre.length = a * m)
    (nx ny nz i j k r : Nat) (hi : i < nx) (hj : j < ny) (hk : k < nz) (hr : r < m) :
    (pre ++ emitted nz (fun k => emitted ny (fun j => emitted nx (fun i => g i j k))) ++ post)[
      (a + (i + nx * (j + ny * k))) * m + r]? = (g i j k)[r]? := by
  have hb : (i + nx * (j + ny * k)) * m + r < nz * (ny * (nx * m)) := by
    have h1 := lex3_lt hi hj hk
    have h2 : (i + nx * (j + ny * k) + 1) * m ≤ nx * ny * nz * m :=
      Nat.mul_le_mul_right m h1
    have e : nz * (ny * (nx * m)) = nx * ny * nz * m := by ring
    rw [e]
    have e2 : (i + nx * (j + ny * k) + 1) * m = (i + nx * (j + ny * k)) * m + m := by ring
    omega
  have e : (a + (i + nx * (j + ny * k))) * m + r =
      a * m + ((i + nx * (j + ny * k)) * m + r) := by ring
  rw [List.getElem?_append_left (by
      rw [List.length_append, emitted3_length m g hg, hpre, e]; omega),
    List.getElem?_append_right (by rw [hpre, e]; omega), hpre, e, Nat.add_sub_cancel_left]
  exact emitted3_getElem? m g hg nx ny nz i j k r hi hj hk hr

/-- Entry of a two-level stream that follows `a` blocks of another stream. -/
theorem family_get2 {α : Type} (pre post : List α) (m a : Nat) (g : Nat → Nat → List α)
    (hg : ∀ i j, (g i j).length = m) (hpre : pre.length = a * m)
    (nx ny i j r : Nat) (hi : i < nx) (hj : j < ny) (hr : r < m) :
    (pre ++ emitted ny (fun j => emitted nx (fun i => g i j)) ++ post)[
      (a + (i + nx * j)) * m + r]? = (g i j)[r]? := by
  have hb : (i + nx * j) * m + r < ny * (nx * m) := by
    have h1 := lex_lt_left hi hj
    have h2 : (i + nx * j + 1) * m ≤ nx * ny * m := Nat.mul_le_mul_right m h1
    have e : ny * (nx * m) = nx * ny * m := by ring
    rw [e]
    have e2 : (i + nx * j + 1) * m = (i + nx * j) * m + m := by ring
    omega
  have e : (a + (i + nx * j)) * m + r = a * m + ((i + nx * j) * m + r) := by ring
  rw [List.getElem?_append_left (by
      rw [List.length_append, emitted2_length m g hg, hpre, e]; omega),
    List.getElem?_append_right (by rw [hpre, e]; omega), hpre, e, Nat.add_sub_cancel_left]
  exact emitted2_getElem? m g hg nx ny i j r hi hj hr

/-! ### Sums over a stream -/

theorem emitted_sum (g : Nat → List ℚ) (n : Nat) :
    (emitted n g).sum = ∑ i in Finset.range n, (g i).sum := by
  induction n with
  | zero => simp [emitted]
  | succ n ih => rw [emitted, List.sum_append, ih, Finset.sum_range_succ]

theorem sum_edges (x : List ℚ) (n : Nat) :
    ∑ i in Finset.range n, (rd x (i + 1) - rd x i) = rd x n - rd x 0 :=
  Finset.sum_range_sub (fun i => rd x i) n

theorem cvol3d_sum (nx ny nz : Nat) (x y z : List ℚ) :
    (cvol3d nx ny nz x y z).sum =
      (rd x nx - rd x 0) * (rd y ny - rd y 0) * (rd z nz - rd z 0) := by
  simp only [cvol3d, emitted_sum, List.sum_cons, List.sum_nil, add_zero]
  simp only [← Finset.sum_mul, ← Finset.mul_sum, sum_edges]

theorem cvol2d_sum (nx ny : Nat) (x y : List ℚ) :
    (cvol2d nx ny x y).sum = (rd x nx - rd x 0) * (rd y ny - rd y 0) := by
  simp only [cvol2d, emitted_sum, List.sum_cons, List.sum_nil, add_zero]
  simp only [← Finset.sum_mul, ← Finset.mul_sum, sum_edges]

/-! ## Reading the face arrays of a 3D grid -/

theorem farea3d_get_x (nx ny nz : Nat) (x y z : List ℚ) (i j k : Nat) (hi : i ≤ nx)
    (hj : j < ny) (hk : k < nz) :
    (farea3d_x nx ny nz y z ++ farea3d_y nx ny nz x z ++ farea3d_z nx ny nz x y)[
      i + (nx + 1) * (j + ny * k)]? =
      some ((rd y (j + 1) - rd y j) * (rd z (k + 1) - rd z k)) := by
  have h := family_get3 [] (farea3d_y nx ny nz x z ++ farea3d_z nx ny nz x y) 1 0
    (fun _ j k => [(rd y (j + 1) - rd y j) * (rd z (k + 1) - rd z k)])
    (fun _ _ _ => by rfl) rfl (nx + 1) ny nz i j k 0 (Nat.lt_succ_of_le hi) hj hk (by omega)
  simp only [List.nil_append, Nat.zero_add, Nat.mul_one, Nat.add_zero,
    ← List.append_assoc] at h
  exact h

theorem farea3d_get_y (nx ny nz : Nat) (x y z : List ℚ) (i j k : Nat) (hi : i < nx)
    (hj : j ≤ ny) (hk : k < nz) :
    (farea3d_x nx ny nz y z ++ farea3d_y nx ny nz x z ++ farea3d_z nx ny nz x y)[
      (nx + 1) * ny * nz + (i + nx * (j + (ny + 1) * k))]? =
      some ((rd x (i + 1) - rd x i) * (rd z (k + 1) - rd z k)) := by
  have h := family_get3 (farea3d_x nx ny nz y z) (farea3d_z nx ny nz x y) 1
    ((nx + 1) * ny * nz)
    (fun i _ k => [(rd x (i + 1) - rd x i) * (rd z (k + 1) - rd z k)])
    (fun _ _ _ => by rfl) (by rw [farea3d_x_length]; ring) nx (ny + 1) nz i j k 0
    hi (Nat.lt_succ_of_le hj) hk (by omega)
  simp only [Nat.mul_one, Nat.add_zero] at h
  exact h

theorem farea3d_get_z (nx ny nz : Nat) (x y z : List ℚ) (i j k : Nat) (hi : i < nx)
    (hj : j < ny) (hk : k ≤ nz) :
    (farea3d_x nx ny nz y z ++ farea3d_y nx ny nz x z ++ farea3d_z nx ny nz x y)[
      (nx + 1) * ny * nz + nx * (ny + 1) * nz + (i + nx * (j + ny * k))]? =
      some ((rd x (i + 1) - rd x i) * (rd y (j + 1) - rd y j)) := by
  have h := family_get3 (farea3d_x nx ny nz y z ++ farea3d_y nx ny nz x z) [] 1
    ((nx + 1) * ny * nz + nx * (ny + 1) * nz)
    (fun i j _ => [(rd x (i + 1) - rd x i) * (rd y (j + 1) - rd y j)])
    (fun _ _ _ => by rfl)
    (by rw [List.length_append, farea3d_x_length, farea3d_y_length]; ring)
    nx ny (nz + 1) i j k 0 hi hj (Nat.lt_succ_of_le hk) (by omega)
  simp only [Nat.mul_one, Nat.add_zero, List.append_nil] at h
  exact h

/-! ## Uniform coordinates and the layered filler -/

theorem uniform_coords_eq (n : Nat) (d : ℚ) :
    uniform_coords n d = (List.range (n + 1)).map (fun (i : Nat) => (i : ℚ) * d) := by
  rw [← emitted_singleton]
  rw [← Ptr.putAll_fill (emitted (n + 1) (fun i => [(i : ℚ) * d])) (List.replicate (n + 1) 0)
    (by rw [emitted_length 1 _ (fun _ => by rfl), List.length_replicate, Nat.mul_one])]
  exact forLoop_blocks 1 _ (fun _ => by rfl) _
    (fun i a => by simp [Ptr.putAll, Ptr.put]) _ _

/-- A loop on a write cursor and a read offset: round `i` writes the block
`g i d` for the current offset `d` and advances the offset by `c`. -/
theorem forLoop_emit_count {α : Type} (c n : Nat) (body : Nat → Ptr α × Nat → Ptr α × Nat)
    (g : Nat → Nat → List α)
    (h : ∀ i s, body i s = (s.1.putAll (g i s.2), s.2 + c)) (s : Ptr α × Nat) :
    forLoop n body s =
      (s.1.putAll (emitted n (fun i => g i (s.2 + c * i))), s.2 + c * n) := by
  induction n with
  | zero => rfl
  | succ n ih =>
    show body n (forLoop n body s) = _
    rw [h, ih, emitted, Ptr.putAll_append]
    simp only [Nat.mul_succ, Nat.add_assoc]

theorem coord3d_layered_length (nx ny nz : Nat) (x y z depthz : List ℚ) :
    (coord3d_layered nx ny nz x y z depthz).length =
      (nz + 1) * ((ny + 1) * ((nx + 1) * 3)) :=
  emitted3_length 3 _ (fun _ _ _ => by rfl) _ _ _

theorem layered_node_coordinates (m : Extern) (G : UnstructuredGrid) (x y z depthz : List ℚ)
    (h : G.node_coordinates.length =
      (G.cartdims.2.2 + 1) * ((G.cartdims.2.1 + 1) * ((G.cartdims.1 + 1) * 3))) :
    (fill_layered_geometry_3d m G x y z depthz).node_coordinates =
      coord3d_layered G.cartdims.1 G.cartdims.2.1 G.cartdims.2.2 x y z depthz := by
  rw [← Ptr.putAll_fill (coord3d_layered G.cartdims.1 G.cartdims.2.1 G.cartdims.2.2 x y z
    depthz) G.node_coordinates (by rw [coord3d_layered_length, h])]
  refine congrArg Ptr.buf (forLoop_emit (fun s : Ptr ℚ × Nat => s.1) _ _ _ ?_ _)
  intro k s
  have inner : ∀ (j : Nat) (t : Ptr ℚ × Nat),
      forLoop (G.cartdims.1 + 1) (fun i (s : Ptr ℚ × Nat) =>
        (((s.1.put (rd x i)).put (rd y j)).put (rd z k + rd depthz s.2), s.2 + 1)) t =
      (t.1.putAll (emitted (G.cartdims.1 + 1) (fun i =>
        [rd x i, rd y j, rd z k + rd depthz (t.2 + 1 * i)])), t.2 + 1 * (G.cartdims.1 + 1)) :=
    fun j t => forLoop_emit_count 1 _ _
      (fun i d => [rd x i, rd y j, rd z k + rd depthz d]) (fun i s => rfl) t
  have outer := forLoop_emit_count (1 * (G.cartdims.1 + 1)) (G.cartdims.2.1 + 1)
    (fun j (s : Ptr ℚ × Nat) => forLoop (G.cartdims.1 + 1) (fun i (s : Ptr ℚ × Nat) =>
        (((s.1.put (rd x i)).put (rd y j)).put (rd z k + rd depthz s.2), s.2 + 1)) s)
    (fun j d => emitted (G.cartdims.1 + 1) (fun i =>
        [rd x i, rd y j, rd z k + rd depthz (d + 1 * i)]))
    (fun j s => inner j s) (s.1, 0)
  show (forLoop (G.cartdims.2.1 + 1) _ (s.1, 0)).1 = _
  refine (congrArg Prod.fst outer).trans ?_
  show s.1.putAll _ = s.1.putAll _
  congr 1
  refine congrArg (emitted (G.cartdims.2.1 + 1)) (funext fun j => ?_)
  refine congrArg (emitted (G.cartdims.1 + 1)) (funext fun i => ?_)
  have e : 0 + 1 * (G.cartdims.1 + 1) * j + 1 * i = i + (G.cartdims.1 + 1) * j := by ring
  rw [e]

/-- With both grid requests granted and a depth perturbation the 3D tensor
constructor returns a grid with the Cartesian topology and the layered node
coordinates. -/
theorem create_grid_tensor3d_layered (m : Extern) (hm : m.grid_granted) (nx ny nz : Nat)
    (x y z depthz : List ℚ) :
    ∃ G, create_grid_tensor3d m nx ny nz x y z (some depthz) = some G ∧ Topo3d G nx ny nz ∧
      G.node_coordinates = coord3d_layered nx ny nz x y z depthz := by
  obtain ⟨A, hA, hd, hc, hnc, hnf, hnn, hs⟩ := allocate_cart_grid_3d_granted m hm nx ny nz
  have T := fill_cart_topology_3d_spec A nx ny nz hd hc hnc hnf hnn hs
  simp only [create_grid_tensor3d, hA]
  refine ⟨_, rfl, ⟨T.1, T.2, T.3, T.4, T.5, T.6, T.7, T.8, T.9, T.10, T.11, T.12⟩, ?_⟩
  have h1 : (fill_cart_topology_3d A).cartdims.1 = nx := by rw [T.cartdims]
  have h2 : (fill_cart_topology_3d A).cartdims.2.1 = ny := by rw [T.cartdims]
  have h3 : (fill_cart_topology_3d A).cartdims.2.2 = nz := by rw [T.cartdims]
  have l6 : (fill_cart_topology_3d A).node_coordinates.length =
    3 * ((nx + 1) * (ny + 1) * (nz + 1)) := hs.node_coordinates
  have := layered_node_coordinates m (fill_cart_topology_3d A) x y z depthz
    (by rw [l6, h1, h2, h3]; ring)
  rwa [h1, h2, h3] at this

/-- The container handed to the topology builder does not depend on which
environment granted the two requests. -/
theorem allocate_cart_grid_3d_env (m m' : Extern) (hm : m.grid_granted) (hm' : m'.grid_granted)
    (nx ny nz : Nat) : allocate_cart_grid_3d m nx ny nz = allocate_cart_grid_3d m' nx ny nz := by
  obtain ⟨h1, h2⟩ := hm
  obtain ⟨h3, h4⟩ := hm'
  simp only [allocate_cart_grid_3d, allocate_cart_grid, allocate_grid, h1, h2, h3, h4]

theorem allocate_cart_grid_2d_env (m m' : Extern) (hm : m.grid_granted) (hm' : m'.grid_granted)
    (nx ny : Nat) : allocate_cart_grid_2d m nx ny = allocate_cart_grid_2d m' nx ny := by
  obtain ⟨h1, h2⟩ := hm
  obtain ⟨h3, h4⟩ := hm'
  simp only [allocate_cart_grid_2d, allocate_cart_grid, allocate_grid, h1, h2, h3, h4]

/-- The grid returned by the 3D tensor constructor has the topology arrays and
counts of the topology builder run on the allocated container. -/
theorem create_grid_tensor3d_topology_eq (m : Extern) (nx ny nz : Nat) (x y z : List ℚ)
    (depthz : Option (List ℚ)) (A G : UnstructuredGrid)
    (hA : allocate_cart_grid_3d m nx ny nz = some A)
    (hG : create_grid_tensor3d m nx ny nz x y z depthz = some G) :
    G.cell_faces = (fill_cart_topology_3d A).cell_faces ∧
    G.cell_facepos = (fill_cart_topology_3d A).cell_facepos ∧
    G.cell_facetag = (fill_cart_topology_3d A).cell_facetag ∧
    G.face_nodes = (fill_cart_topology_3d A).face_nodes ∧
    G.face_nodepos = (fill_cart_topology_3d A).face_nodepos ∧
    G.face_cells = (fill_cart_topology_3d A).face_cells ∧
    G.global_cell = (fill_cart_topology_3d A).global_cell ∧
    G.dimensions = A.dimensions ∧ G.cartdims = A.cartdims ∧
    G.number_of_cells = A.number_of_cells ∧ G.number_of_faces = A.number_of_faces ∧
    G.number_of_nodes = A.number_of_nodes := by
  simp only [create_grid_tensor3d, hA] at hG
  cases depthz with
  | none =>
    simp only [Option.some.injEq] at hG
    subst hG
    exact ⟨rfl, rfl, rfl, rfl, rfl, rfl, rfl, rfl, rfl, rfl, rfl, rfl⟩
  | some dz =>
    simp only [Option.some.injEq] at hG
    subst hG
    exact ⟨rfl, rfl, rfl, rfl, rfl, rfl, rfl, rfl, rfl, rfl, rfl, rfl⟩

theorem create_grid_tensor2d_topology_eq (m : Extern) (nx ny : Nat) (x y : List ℚ)
    (A G : UnstructuredGrid)
    (hA : allocate_cart_grid_2d m nx ny = some A)
    (hG : create_grid_tensor2d m nx ny x y = some G) :
    G.cell_faces = (fill_cart_topology_2d A).cell_faces ∧
    G.cell_facepos = (fill_cart_topology_2d A).cell_facepos ∧
    G.cell_facetag = (fill_cart_topology_2d A).cell_facetag ∧
    G.face_nodes = (fill_cart_topology_2d A).face_nodes ∧
    G.face_nodepos = (fill_cart_topology_2d A).face_nodepos ∧
    G.face_cells = (fill_cart_topology_2d A).face_cells ∧
    G.global_cell = (fill_cart_topology_2d A).global_cell ∧
    G.dimensions = A.dimensions ∧ G.cartdims = A.cartdims ∧
    G.number_of_cells = A.number_of_cells ∧ G.number_of_faces = A.number_of_faces ∧
    G.number_of_nodes = A.number_of_nodes := by
  simp only [create_grid_tensor2d, hA, Option.some.injEq] at hG
  subst hG
  exact ⟨rfl, rfl, rfl, rfl, rfl, rfl, rfl, rfl, rfl, rfl, rfl, rfl⟩

/-! ## Failure propagation -/

theorem allocate_cart_grid_calls_fst (m : Extern) (ndims ncells nfaces nnodes : Nat) :
    (allocate_cart_grid_calls m ndims ncells nfaces nnodes).1 =
      allocate_cart_grid m ndims ncells nfaces nnodes := by
  unfold allocate_cart_grid_calls allocate_cart_grid allocate_grid
  cases m.allocate_grid_ok <;> cases m.malloc_global_cell <;> rfl

theorem allocate_cart_grid_3d_calls_fst (m : Extern) (nx ny nz : Nat) :
    (allocate_cart_grid_3d_calls m nx ny nz).1 = allocate_cart_grid_3d m nx ny nz := by
  unfold allocate_cart_grid_3d_calls allocate_cart_grid_3d allocate_cart_grid_calls
    allocate_cart_grid allocate_grid
  cases m.allocate_grid_ok <;> cases m.malloc_global_cell <;> rfl

theorem allocate_cart_grid_2d_calls_fst (m : Extern) (nx ny : Nat) :
    (allocate_cart_grid_2d_calls m nx ny).1 = allocate_cart_grid_2d m nx ny := by
  unfold allocate_cart_grid_2d_calls allocate_cart_grid_2d allocate_cart_grid_calls
    allocate_cart_grid allocate_grid
  cases m.allocate_grid_ok <;> cases m.malloc_global_cell <;> rfl

theorem create_grid_tensor3d_calls_fst (m : Extern) (nx ny nz : Nat) (x y z : List ℚ)
    (depthz : Option (List ℚ)) :
    (create_grid_tensor3d_calls m nx ny nz x y z depthz).1 =
      create_grid_tensor3d m nx ny nz x y z depthz := by
  unfold create_grid_tensor3d_calls create_grid_tensor3d allocate_cart_grid_3d_calls
    allocate_cart_grid_3d allocate_cart_grid_calls allocate_cart_grid allocate_grid
  cases m.allocate_grid_ok <;> cases m.malloc_global_cell <;> cases depthz <;> rfl

theorem create_grid_tensor2d_calls_fst (m : Extern) (nx ny : Nat) (x y : List ℚ) :
    (create_grid_tensor2d_calls m nx ny x y).1 = create_grid_tensor2d m nx ny x y := by
  unfold create_grid_tensor2d_calls create_grid_tensor2d allocate_cart_grid_2d_calls
    allocate_cart_grid_2d allocate_cart_grid_calls allocate_cart_grid allocate_grid
  cases m.allocate_grid_ok <;> cases m.malloc_global_cell <;> rfl

/-! ## Membership in a stream -/

theorem mem_emitted {α : Type} (g : Nat → List α) (n : Nat) (v : α) :
    v ∈ emitted n g ↔ ∃ i, i < n ∧ v ∈ g i := by
  induction n with
  | zero => simp [emitted]
  | succ n ih =>
    rw [emitted, List.mem_append, ih]
    constructor
    · rintro (⟨i, hi, h⟩ | h)
      · exact ⟨i, by omega, h⟩
      · exact ⟨n, by omega, h⟩
    · rintro ⟨i, hi, h⟩
      by_cases hin : i = n
      · subst hin; exact Or.inr h
      · exact Or.inl ⟨i, by omega, h⟩

theorem mem_emitted3 {α : Type} (g : Nat → Nat → Nat → List α) (nx ny nz : Nat) (v : α) :
    v ∈ emitted nz (fun k => emitted ny (fun j => emitted nx (fun i => g i j k))) ↔
      ∃ i j k, i < nx ∧ j < ny ∧ k < nz ∧ v ∈ g i j k := by
  simp only [mem_emitted]
  constructor
  · rintro ⟨k, hk, j, hj, i, hi, h⟩
    exact ⟨i, j, k, hi, hj, hk, h⟩
  · rintro ⟨i, j, k, hi, hj, hk, h⟩
    exact ⟨k, hk, j, hj, i, hi, h⟩

theorem mem_emitted2 {α : Type} (g : Nat → Nat → List α) (nx ny : Nat) (v : α) :
    v ∈ emitted ny (fun j => emitted nx (fun i => g i j)) ↔
      ∃ i j, i < nx ∧ j < ny ∧ v ∈ g i j := by
  simp only [mem_emitted]
  constructor
  · rintro ⟨j, hj, i, hi, h⟩
    exact ⟨i, j, hi, hj, h⟩
  · rintro ⟨i, j, hi, hj, h⟩
    exact ⟨j, hj, i, hi, h⟩

/-! ## The written indices as natural numbers -/

theorem cfaces3d_eq (nx ny nz : Nat) :
    cfaces3d nx ny nz = emitted nz (fun k => emitted ny (fun j => emitted nx (fun i =>
      (List.range 6).map (fun (p : Nat) => ((cell_face3d nx ny nz i j k p : Nat) : Int))))) := by
  unfold cfaces3d
  refine congrArg (emitted nz) (funext fun k => ?_)
  refine congrArg (emitted ny) (funext fun j => ?_)
  refine congrArg (emitted nx) (funext fun i => ?_)
  simp only [List.range_succ, List.range_zero, List.nil_append, List.cons_append,
    List.map_cons, List.map_nil, cell_face3d, List.cons.injEq, and_true]
  refine ⟨?_, ?_, ?_, ?_, ?_, ?_⟩ <;> push_cast <;> ring

theorem cfaces2d_eq (nx ny : Nat) :
    cfaces2d nx ny = emitted ny (fun j => emitted nx (fun i =>
      (List.range 4).map (fun (p : Nat) => ((cell_face2d nx ny i j p : Nat) : Int)))) := by
  unfold cfaces2d
  refine congrArg (emitted ny) (funext fun j => ?_)
  refine congrArg (emitted nx) (funext fun i => ?_)
  simp only [List.range_succ, List.range_zero, List.nil_append, List.cons_append,
    List.map_cons, List.map_nil, cell_face2d, List.cons.injEq, and_true]
  refine ⟨?_, ?_, ?_, ?_⟩ <;> push_cast <;> ring

theorem fnodes3d_x_eq (nx ny nz : Nat) :
    fnodes3d_x nx ny nz = emitted nz (fun k => emitted ny (fun j => emitted (nx + 1) (fun i =>
      (face_nodes3d_x nx ny i j k).map (fun (n : Nat) => (n : Int))))) := by
  unfold fnodes3d_x
  refine congrArg (emitted nz) (funext fun k => ?_)
  refine congrArg (emitted ny) (funext fun j => ?_)
  refine congrArg (emitted (nx + 1)) (funext fun i => ?_)
  simp only [face_nodes3d_x, node3d, List.map_cons, List.map_nil, List.cons.injEq, and_true]
  refine ⟨?_, ?_, ?_, ?_⟩ <;> push_cast <;> ring

theorem fnodes3d_y_eq (nx ny nz : Nat) :
    fnodes3d_y nx ny nz = emitted nz (fun k => emitted (ny + 1) (fun j => emitted nx (fun i =>
      (face_nodes3d_y nx ny i j k).map (fun (n : Nat) => (n : Int))))) := by
  unfold fnodes3d_y
  refine congrArg (emitted nz) (funext fun k => ?_)
  refine congrArg (emitted (ny + 1)) (funext fun j => ?_)
  refine congrArg (emitted nx) (funext fun i => ?_)
  simp only [face_nodes3d_y, node3d, List.map_cons, List.map_nil, List.cons.injEq, and_true]
  refine ⟨?_, ?_, ?_, ?_⟩ <;> push_cast <;> ring

theorem fnodes3d_z_eq (nx ny nz : Nat) :
    fnodes3d_z nx ny nz = emitted (nz + 1) (fun k => emitted ny (fun j => emitted nx (fun i =>
      (face_nodes3d_z nx ny i j k).map (fun (n : Nat) => (n : Int))))) := by
  unfold fnodes3d_z
  refine congrArg (emitted (nz + 1)) (funext fun k => ?_)
  refine congrArg (emitted ny) (funext fun j => ?_)
  refine congrArg (emitted nx) (funext fun i => ?_)
  simp only [face_nodes3d_z, node3d, List.map_cons, List.map_nil, List.cons.injEq, and_true]
  refine ⟨?_, ?_, ?_, ?_⟩ <;> push_cast <;> ring

theorem fnodes2d_x_eq (nx ny : Nat) :
    fnodes2d_x nx ny = emitted ny (fun j => emitted (nx + 1) (fun i =>
      (face_nodes2d_x nx i j).map (fun (n : Nat) => (n : Int)))) := by
  unfold fnodes2d_x
  refine congrArg (emitted ny) (funext fun j => ?_)
  refine congrArg (emitted (nx + 1)) (funext fun i => ?_)
  simp only [face_nodes2d_x, node2d, List.map_cons, List.map_nil, List.cons.injEq, and_true]
  refine ⟨?_, ?_⟩ <;> push_cast <;> ring

theorem fnodes2d_y_eq (nx ny : Nat) :
    fnodes2d_y nx ny = emitted (ny + 1) (fun j => emitted nx (fun i =>
      (face_nodes2d_y nx i j).map (fun (n : Nat) => (n : Int)))) := by
  unfold fnodes2d_y
  refine congrArg (emitted (ny + 1)) (funext fun j => ?_)
  refine congrArg (emitted nx) (funext fun i => ?_)
  simp only [face_nodes2d_y, node2d, List.map_cons, List.map_nil, List.cons.injEq, and_true]
  refine ⟨?_, ?_⟩ <;> push_cast <;> ring

theorem node3d_lt {nx ny nz i j k : Nat} (hi : i ≤ nx) (hj : j ≤ ny) (hk : k ≤ nz) :
    node3d nx ny i j k < (nx + 1) * (ny + 1) * (nz + 1) :=
  lex3_lt (Nat.lt_succ_of_le hi) (Nat.lt_succ_of_le hj) (Nat.lt_succ_of_le hk)

theorem node2d_lt {nx ny i j : Nat} (hi : i ≤ nx) (hj : j ≤ ny) :
    node2d nx i j < (nx + 1) * (ny + 1) :=
  lex_lt_left (Nat.lt_succ_of_le hi) (Nat.lt_succ_of_le hj)

/-- Every entry written to `face_nodes` in 3D is the index of a node. -/
theorem fnodes3d_range (nx ny nz : Nat) (v : Int)
    (h : v ∈ fnodes3d_x nx ny nz ++ fnodes3d_y nx ny nz ++ fnodes3d_z nx ny nz) :
    ∃ n : Nat, v = (n : Int) ∧ n < (nx + 1) * (ny + 1) * (nz + 1) := by
  rw [List.mem_append, List.mem_append, fnodes3d_x_eq, fnodes3d_y_eq, fnodes3d_z_eq,
    mem_emitted3, mem_emitted3, mem_emitted3] at h
  rcases h with (⟨i, j, k, hi, hj, hk, h⟩ | ⟨i, j, k, hi, hj, hk, h⟩) |
    ⟨i, j, k, hi, hj, hk, h⟩
  · simp only [face_nodes3d_x, List.map_cons, List.map_nil, List.mem_cons,
      List.mem_nil_iff, or_false] at h
    rcases h with h | h | h | h
    · exact ⟨_, h, node3d_lt (by omega) (by omega) (by omega)⟩
    · exact ⟨_, h, node3d_lt (by omega) (by omega) (by omega)⟩
    · exact ⟨_, h, node3d_lt (by omega) (by omega) (by omega)⟩
    · exact ⟨_, h, node3d_lt (by omega) (by omega) (by omega)⟩
  · simp only [face_nodes3d_y, List.map_cons, List.map_nil, List.mem_cons,
      List.mem_nil_iff, or_false] at h
    rcases h with h | h | h | h
    · exact ⟨_, h, node3d_lt (by omega) (by omega) (by omega)⟩
    · exact ⟨_, h, node3d_lt (by omega) (by omega) (by omega)⟩
    · exact ⟨_, h, node3d_lt (by omega) (by omega) (by omega)⟩
    · exact ⟨_, h, node3d_lt (by omega) (by omega) (by omega)⟩
  · simp only [face_nodes3d_z, List.map_cons, List.map_nil, List.mem_cons,
      List.mem_nil_iff, or_false] at h
    rcases h with h | h | h | h
    · exact ⟨_, h, node3d_lt (by omega) (by omega) (by omega)⟩
    · exact ⟨_, h, node3d_lt (by omega) (by omega) (by omega)⟩
    · exact ⟨_, h, node3d_lt (by omega) (by omega) (by omega)⟩
    · exact ⟨_, h, node3d_lt (by omega) (by omega) (by omega)⟩

/-- Every entry written to `face_nodes` in 2D is the index of a node. -/
theorem fnodes2d_range (nx ny : Nat) (v : Int)
    (h : v ∈ fnodes2d_x nx ny ++ fnodes2d_y nx ny) :
    ∃ n : Nat, v = (n : Int) ∧ n < (nx + 1) * (ny + 1) := by
  rw [List.mem_append, fnodes2d_x_eq, fnodes2d_y_eq, mem_emitted2, mem_emitted2] at h
  rcases h with ⟨i, j, hi, hj, h⟩ | ⟨i, j, hi, hj, h⟩
  · simp only [face_nodes2d_x, List.map_cons, List.map_nil, List.mem_cons,
      List.mem_nil_iff, or_false] at h
    rcases h with h | h
    · exact ⟨_, h, node2d_lt (by omega) (by omega)⟩
    · exact ⟨_, h, node2d_lt (by omega) (by omega)⟩
  · simp only [face_nodes2d_y, List.map_cons, List.map_nil, List.mem_cons,
      List.mem_nil_iff, or_false] at h
    rcases h with h | h
    · exact ⟨_, h, node2d_lt (by omega) (by omega)⟩
    · exact ⟨_, h, node2d_lt (by omega) (by omega)⟩

/-- Every entry written to `cell_faces` in 3D is the index of a face. -/
theorem cfaces3d_range (nx ny nz : Nat) (v : Int) (h : v ∈ cfaces3d nx ny nz) :
    ∃ f : Nat, v = (f : Int) ∧
      f < (nx + 1) * ny * nz + nx * (ny + 1) * nz + nx * ny * (nz + 1) := by
  rw [cfaces3d_eq, mem_emitted3] at h
  obtain ⟨i, j, k, hi, hj, hk, h⟩ := h
  rw [List.mem_map] at h
  obtain ⟨p, hp, rfl⟩ := h
  exact ⟨_, rfl, (cell_face3d_family nx ny nz i j k p hi hj hk (List.mem_range.mp hp)).2⟩

/-- Every entry written to `cell_faces` in 2D is the index of a face. -/
theorem cfaces2d_range (nx ny : Nat) (v : Int) (h : v ∈ cfaces2d nx ny) :
    ∃ f : Nat, v = (f : Int) ∧ f < (nx + 1) * ny + nx * (ny + 1) := by
  rw [cfaces2d_eq, mem_emitted2] at h
  obtain ⟨i, j, hi, hj, h⟩ := h
  rw [List.mem_map] at h
  obtain ⟨p, hp, rfl⟩ := h
  exact ⟨_, rfl, (cell_face2d_family nx ny i j p hi hj (List.mem_range.mp hp)).2⟩

/-! ## Faces, their coordinates and the cells around them -/

/-- Every face index of a 3D grid belongs to exactly one family, with the
coordinates of the face in that family. -/
theorem face_cases3 (nx ny nz f : Nat)
    (hf : f < (nx + 1) * ny * nz + nx * (ny + 1) * nz + nx * ny * (nz + 1)) :
    (∃ i j k, i ≤ nx ∧ j < ny ∧ k < nz ∧ f = i + (nx + 1) * (j + ny * k)) ∨
    (∃ i j k, i < nx ∧ j ≤ ny ∧ k < nz ∧
      f = (nx + 1) * ny * nz + (i + nx * (j + (ny + 1) * k))) ∨
    (∃ i j k, i < nx ∧ j < ny ∧ k ≤ nz ∧
      f = (nx + 1) * ny * nz + nx * (ny + 1) * nz + (i + nx * (j + ny * k))) := by
  by_cases h1 : f < (nx + 1) * ny * nz
  · obtain ⟨i, j, k, hi, hj, hk, e⟩ := cell_decomp3 (nx + 1) ny nz f h1
    exact Or.inl ⟨i, j, k, by omega, hj, hk, e⟩
  · by_cases h2 : f < (nx + 1) * ny * nz + nx * (ny + 1) * nz
    · obtain ⟨i, j, k, hi, hj, hk, e⟩ :=
        cell_decomp3 nx (ny + 1) nz (f - (nx + 1) * ny * nz) (by omega)
      exact Or.inr (Or.inl ⟨i, j, k, hi, by omega, hk, by omega⟩)
    · obtain ⟨i, j, k, hi, hj, hk, e⟩ :=
        cell_decomp3 nx ny (nz + 1) (f - ((nx + 1) * ny * nz + nx * (ny + 1) * nz)) (by omega)
      exact Or.inr (Or.inr ⟨i, j, k, hi, hj, by omega, by omega⟩)

/-- Every face index of a 2D grid belongs to exactly one family. -/
theorem face_cases2 (nx ny f : Nat) (hf : f < (nx + 1) * ny + nx * (ny + 1)) :
    (∃ i j, i ≤ nx ∧ j < ny ∧ f = i + (nx + 1) * j) ∨
    (∃ i j, i < nx ∧ j ≤ ny ∧ f = (nx + 1) * ny + (i + nx * j)) := by
  by_cases h1 : f < (nx + 1) * ny
  · obtain ⟨i, j, hi, hj, e⟩ := cell_decomp2 (nx + 1) ny f h1
    exact Or.inl ⟨i, j, by omega, hj, e⟩
  · obtain ⟨i, j, hi, hj, e⟩ := cell_decomp2 nx (ny + 1) (f - (nx + 1) * ny) (by omega)
    exact Or.inr ⟨i, j, hi, by omega, by omega⟩

/-- The face list of a 3D cell, read through `cell_facepos`. -/
theorem cell_face_list3 (G : UnstructuredGrid) (nx ny nz : Nat) (T : Topo3d G nx ny nz)
    (i j k : Nat) (hi : i < nx) (hj : j < ny) (hk : k < nz) :
    cell_face_list G (i + nx * (j + ny * k)) =
      (List.range 6).map (fun (p : Nat) => ((cell_face3d nx ny nz i j k p : Nat) : Int)) := by
  have hc : i + nx * (j + ny * k) < nx * ny * nz := lex3_lt hi hj hk
  have hp0 := T.cell_facepos (i + nx * (j + ny * k)) (by omega)
  have hp1 := T.cell_facepos (i + nx * (j + ny * k) + 1) (by omega)
  have e0 : (6 * ((i + nx * (j + ny * k) : Nat) : Int)).toNat = (i + nx * (j + ny * k)) * 6 := by
    omega
  have e1 : (6 * ((i + nx * (j + ny * k) + 1 : Nat) : Int)).toNat -
      (i + nx * (j + ny * k)) * 6 = 6 := by omega
  simp only [cell_face_list, getD_of_getElem? hp0, getD_of_getElem? hp1, e0, e1]
  refine List.map_congr_left ?_
  intro p hp
  rw [T.cell_faces]
  exact getD_of_getElem? (cfaces3d_get nx ny nz i j k p hi hj hk (List.mem_range.mp hp))

/-- The face list of a 2D cell, read through `cell_facepos`. -/
theorem cell_face_list2 (G : UnstructuredGrid) (nx ny : Nat) (T : Topo2d G nx ny)
    (i j : Nat) (hi : i < nx) (hj : j < ny) :
    cell_face_list G (i + nx * j) =
      (List.range 4).map (fun (p : Nat) => ((cell_face2d nx ny i j p : Nat) : Int)) := by
  have hc : i + nx * j < nx * ny := lex_lt_left hi hj
  have hp0 := T.cell_facepos (i + nx * j) (by omega)
  have hp1 := T.cell_facepos (i + nx * j + 1) (by omega)
  have e0 : (4 * ((i + nx * j : Nat) : Int)).toNat = (i + nx * j) * 4 := by omega
  have e1 : (4 * ((i + nx * j + 1 : Nat) : Int)).toNat - (i + nx * j) * 4 = 4 := by omega
  simp only [cell_face_list, getD_of_getElem? hp0, getD_of_getElem? hp1, e0, e1]
  refine List.map_congr_left ?_
  intro p hp
  rw [T.cell_faces]
  exact getD_of_getElem? (cfaces2d_get nx ny i j p hi hj (List.mem_range.mp hp))

/-- The faces of a 3D cell are pairwise distinct. -/
theorem cell_face3d_inj (nx ny nz i j k p q : Nat) (hi : i < nx) (hj : j < ny) (hk : k < nz)
    (hp : p < 6) (hq : q < 6)
    (h : cell_face3d nx ny nz i j k p = cell_face3d nx ny nz i j k q) : p = q := by
  have fp := (cell_face3d_family nx ny nz i j k p hi hj hk hp).1
  have fq := (cell_face3d_family nx ny nz i j k q hi hj hk hq).1
  rw [h, fq] at fp
  have hnx : 0 < nx := by omega
  have hnxy : 0 < nx * ny := Nat.mul_pos hnx (by omega)
  have e1 : nx * (j + 1 + (ny + 1) * k) = nx * (j + (ny + 1) * k) + nx := by ring
  have e2 : nx * (j + ny * (k + 1)) = nx * (j + ny * k) + nx * ny := by ring
  interval_cases p <;> interval_cases q <;> simp only [cell_face3d] at h <;>
    first
    | rfl
    | omega

/-- The faces of a 2D cell are pairwise distinct. -/
theorem cell_face2d_inj (nx ny i j p q : Nat) (hi : i < nx) (hj : j < ny)
    (hp : p < 4) (hq : q < 4)
    (h : cell_face2d nx ny i j p = cell_face2d nx ny i j q) : p = q := by
  have fp := (cell_face2d_family nx ny i j p hi hj hp).1
  have fq := (cell_face2d_family nx ny i j q hi hj hq).1
  rw [h, fq] at fp
  have hnx : 0 < nx := by omega
  have e1 : nx * (j + 1) = nx * j + nx := by ring
  interval_cases p <;> interval_cases q <;> simp only [cell_face2d] at h <;>
    first
    | rfl
    | omega

theorem fcells3d_x_block_first (nx ny j k : Nat) :
    (fcells3d_x_block nx ny 0 j k)[0]? = some (-1) := by
  simp [fcells3d_x_block]

theorem fcells3d_x_block_last (nx ny j k : Nat) (hnx : nx ≠ 0) :
    (fcells3d_x_block nx ny nx j k)[1]? = some (-1) := by
  simp [fcells3d_x_block, hnx]

theorem fcells3d_y_block_first (nx ny i k : Nat) :
    (fcells3d_y_block nx ny i 0 k)[0]? = some (-1) := by
  simp [fcells3d_y_block]

theorem fcells3d_y_block_last (nx ny i k : Nat) (hny : ny ≠ 0) :
    (fcells3d_y_block nx ny i ny k)[1]? = some (-1) := by
  simp [fcells3d_y_block, hny]

theorem fcells3d_z_block_first (nx ny nz i j : Nat) :
    (fcells3d_z_block nx ny nz i j 0)[0]? = some (-1) := by
  simp [fcells3d_z_block]

theorem fcells3d_z_block_last (nx ny nz i j : Nat) (hnz : nz ≠ 0) :
    (fcells3d_z_block nx ny nz i j nz)[1]? = some (-1) := by
  simp [fcells3d_z_block, hnz]

theorem fcells2d_x_block_first (nx j : Nat) : (fcells2d_x_block nx 0 j)[0]? = some (-1) := by
  simp [fcells2d_x_block]

theorem fcells2d_x_block_last (nx j : Nat) (hnx : nx ≠ 0) :
    (fcells2d_x_block nx nx j)[1]? = some (-1) := by
  simp [fcells2d_x_block, hnx]

theorem fcells2d_y_block_first (nx ny i : Nat) : (fcells2d_y_block nx ny i 0)[0]? = some (-1) := by
  simp [fcells2d_y_block]

theorem fcells2d_y_block_last (nx ny i : Nat) (hny : ny ≠ 0) :
    (fcells2d_y_block nx ny i ny)[1]? = some (-1) := by
  simp [fcells2d_y_block, hny]

/-- With all cell counts positive, the two neighbour slots of a face of a 3D
grid are `-1` or cells that list the face, and they differ. -/
theorem face_slots3 (nx ny nz : Nat) (hnx : 1 ≤ nx) (hny : 1 ≤ ny) (hnz : 1 ≤ nz) (f : Nat)
    (hf : f < (nx + 1) * ny * nz + nx * (ny + 1) * nz + nx * ny * (nz + 1)) :
    ∃ a b : Int,
      (fcells3d_x nx ny nz ++ fcells3d_y nx ny nz ++ fcells3d_z nx ny nz)[2 * f]? = some a ∧
      (fcells3d_x nx ny nz ++ fcells3d_y nx ny nz ++ fcells3d_z nx ny nz)[2 * f + 1]? =
        some b ∧
      slot_ok3 nx ny nz f a ∧ slot_ok3 nx ny nz f b ∧ a ≠ b := by
  rcases face_cases3 nx ny nz f hf with ⟨i, j, k, hi, hj, hk, rfl⟩ |
    ⟨i, j, k, hi, hj, hk, rfl⟩ | ⟨i, j, k, hi, hj, hk, rfl⟩
  · have g0 := fcells3d_get_x nx ny nz i j k 0 hi hj hk (by omega)
    have g1 := fcells3d_get_x nx ny nz i j k 1 hi hj hk (by omega)
    rw [Nat.add_zero] at g0
    rw [g0, g1]
    have low : i < nx → slot_ok3 nx ny nz (i + (nx + 1) * (j + ny * k))
        ((i + nx * (j + ny * k) : Nat) : Int) := fun h =>
      Or.inr ⟨i, j, k, h, hj, hk, rfl, 0, by omega, rfl⟩
    rcases Nat.eq_zero_or_pos i with h0 | h0
    · subst h0
      refine ⟨_, _, fcells3d_x_block_first nx ny j k,
        fcells3d_x_block_low nx ny 0 j k (by omega), Or.inl rfl, low (by omega), ?_⟩
      omega
    · obtain ⟨i', rfl⟩ : ∃ i', i = i' + 1 := ⟨i - 1, by omega⟩
      have high : slot_ok3 nx ny nz (i' + 1 + (nx + 1) * (j + ny * k))
          ((i' + nx * (j + ny * k) : Nat) : Int) :=
        Or.inr ⟨i', j, k, by omega, hj, hk, rfl, 1, by omega, rfl⟩
      by_cases h1 : i' + 1 = nx
      · refine ⟨_, _, fcells3d_x_block_high nx ny i' j k, ?_, high, Or.inl rfl, ?_⟩
        · rw [h1]; exact fcells3d_x_block_last nx ny j k (by omega)
        · omega
      · refine ⟨_, _, fcells3d_x_block_high nx ny i' j k,
          fcells3d_x_block_low nx ny (i' + 1) j k (by omega), high, low (by omega), ?_⟩
        push_cast; omega
  · have g0 := fcells3d_get_y nx ny nz i j k 0 hi hj hk (by omega)
    have g1 := fcells3d_get_y nx ny nz i j k 1 hi hj hk (by omega)
    rw [Nat.add_zero] at g0
    rw [g0, g1]
    have low : j < ny → slot_ok3 nx ny nz
        ((nx + 1) * ny * nz + (i + nx * (j + (ny + 1) * k)))
        ((i + nx * (j + ny * k) : Nat) : Int) := fun h =>
      Or.inr ⟨i, j, k, hi, h, hk, rfl, 2, by omega, rfl⟩
    rcases Nat.eq_zero_or_pos j with h0 | h0
    · subst h0
      refine ⟨_, _, fcells3d_y_block_first nx ny i k,
        fcells3d_y_block_low nx ny i 0 k (by omega), Or.inl rfl, low (by omega), ?_⟩
      omega
    · obtain ⟨j', rfl⟩ : ∃ j', j = j' + 1 := ⟨j - 1, by omega⟩
      have high : slot_ok3 nx ny nz
          ((nx + 1) * ny * nz + (i + nx * (j' + 1 + (ny + 1) * k)))
          ((i + nx * (j' + ny * k) : Nat) : Int) :=
        Or.inr ⟨i, j', k, hi, by omega, hk, rfl, 3, by omega, rfl⟩
      by_cases h1 : j' + 1 = ny
      · refine ⟨_, _, fcells3d_y_block_high nx ny i j' k, ?_, high, Or.inl rfl, ?_⟩
        · rw [h1]; exact fcells3d_y_block_last nx ny i k (by omega)
        · omega
      · refine ⟨_, _, fcells3d_y_block_high nx ny i j' k,
          fcells3d_y_block_low nx ny i (j' + 1) k (by omega), high, low (by omega), ?_⟩
        have e : nx * (j' + 1 + ny * k) = nx * (j' + ny * k) + nx := by ring
        intro h
        have h' : i + nx * (j' + ny * k) = i + nx * (j' + 1 + ny * k) := by exact_mod_cast h
        omega
  · have g0 := fcells3d_get_z nx ny nz i j k 0 hi hj hk (by omega)
    have g1 := fcells3d_get_z nx ny nz i j k 1 hi hj hk (by omega)
    rw [Nat.add_zero] at g0
    rw [g0, g1]
    have low : k < nz → slot_ok3 nx ny nz
        ((nx + 1) * ny * nz + nx * (ny + 1) * nz + (i + nx * (j + ny * k)))
        ((i + nx * (j + ny * k) : Nat) : Int) := fun h =>
      Or.inr ⟨i, j, k, hi, hj, h, rfl, 4, by omega, rfl⟩
    rcases Nat.eq_zero_or_pos k with h0 | h0
    · subst h0
      refine ⟨_, _, fcells3d_z_block_first nx ny nz i j,
        fcells3d_z_block_low nx ny nz i j 0 (by omega), Or.inl rfl, low (by omega), ?_⟩
      omega
    · obtain ⟨k', rfl⟩ : ∃ k', k = k' + 1 := ⟨k - 1, by omega⟩
      have high : slot_ok3 nx ny nz
          ((nx + 1) * ny * nz + nx * (ny + 1) * nz + (i + nx * (j + ny * (k' + 1))))
          ((i + nx * (j + ny * k') : Nat) : Int) :=
        Or.inr ⟨i, j, k', hi, hj, by omega, rfl, 5, by omega, rfl⟩
      by_cases h1 : k' + 1 = nz
      · refine ⟨_, _, fcells3d_z_block_high nx ny nz i j k', ?_, high, Or.inl rfl, ?_⟩
        · rw [h1]; exact fcells3d_z_block_last nx ny nz i j (by omega)
        · omega
      · refine ⟨_, _, fcells3d_z_block_high nx ny nz i j k',
          fcells3d_z_block_low nx ny nz i j (k' + 1) (by omega), high, low (by omega), ?_⟩
        have e : nx * (j + ny * (k' + 1)) = nx * (j + ny * k') + nx * ny := by ring
        have hpos : 0 < nx * ny := Nat.mul_pos (by omega) (by omega)
        intro h
        have h' : i + nx * (j + ny * k') = i + nx * (j + ny * (k' + 1)) := by exact_mod_cast h
        omega

/-- With both cell counts positive, the two neighbour slots of a face of a 2D
grid are `-1` or cells that list the face, and they differ. -/
theorem face_slots2 (nx ny : Nat) (hnx : 1 ≤ nx) (hny : 1 ≤ ny) (f : Nat)
    (hf : f < (nx + 1) * ny + nx * (ny + 1)) :
    ∃ a b : Int,
      (fcells2d_x nx ny ++ fcells2d_y nx ny)[2 * f]? = some a ∧
      (fcells2d_x nx ny ++ fcells2d_y nx ny)[2 * f + 1]? = some b ∧
      slot_ok2 nx ny f a ∧ slot_ok2 nx ny f b ∧ a ≠ b := by
  rcases face_cases2 nx ny f hf with ⟨i, j, hi, hj, rfl⟩ | ⟨i, j, hi, hj, rfl⟩
  · have g0 := fcells2d_get_x nx ny i j 0 hi hj (by omega)
    have g1 := fcells2d_get_x nx ny i j 1 hi hj (by omega)
    rw [Nat.add_zero] at g0
    rw [g0, g1]
    have low : i < nx → slot_ok2 nx ny (i + (nx + 1) * j) ((i + nx * j : Nat) : Int) :=
      fun h => Or.inr ⟨i, j, h, hj, rfl, 0, by omega, rfl⟩
    rcases Nat.eq_zero_or_pos i with h0 | h0
    · subst h0
      refine ⟨_, _, fcells2d_x_block_first nx j,
        fcells2d_x_block_low nx 0 j (by omega), Or.inl rfl, low (by omega), ?_⟩
      omega
    · obtain ⟨i', rfl⟩ : ∃ i', i = i' + 1 := ⟨i - 1, by omega⟩
      have high : slot_ok2 nx ny (i' + 1 + (nx + 1) * j) ((i' + nx * j : Nat) : Int) :=
        Or.inr ⟨i', j, by omega, hj, rfl, 2, by omega, rfl⟩
      by_cases h1 : i' + 1 = nx
      · refine ⟨_, _, fcells2d_x_block_high nx i' j, ?_, high, Or.inl rfl, ?_⟩
        · rw [h1]; exact fcells2d_x_block_last nx j (by omega)
        · omega
      · refine ⟨_, _, fcells2d_x_block_high nx i' j,
          fcells2d_x_block_low nx (i' + 1) j (by omega), high, low (by omega), ?_⟩
        push_cast; omega
  · have g0 := fcells2d_get_y nx ny i j 0 hi hj (by omega)
    have g1 := fcells2d_get_y nx ny i j 1 hi hj (by omega)
    rw [Nat.add_zero] at g0
    rw [g0, g1]
    have low : j < ny → slot_ok2 nx ny ((nx + 1) * ny + (i + nx * j))
        ((i + nx * j : Nat) : Int) :=
      fun h => Or.inr ⟨i, j, hi, h, rfl, 1, by omega, rfl⟩
    rcases Nat.eq_zero_or_pos j with h0 | h0
    · subst h0
      refine ⟨_, _, fcells2d_y_block_first nx ny i,
        fcells2d_y_block_low nx ny i 0 (by omega), Or.inl rfl, low (by omega), ?_⟩
      omega
    · obtain ⟨j', rfl⟩ : ∃ j', j = j' + 1 := ⟨j - 1, by omega⟩
      have high : slot_ok2 nx ny ((nx + 1) * ny + (i + nx * (j' + 1)))
          ((i + nx * j' : Nat) : Int) :=
        Or.inr ⟨i, j', hi, by omega, rfl, 3, by omega, rfl⟩
      by_cases h1 : j' + 1 = ny
      · refine ⟨_, _, fcells2d_y_block_high nx ny i j', ?_, high, Or.inl rfl, ?_⟩
        · rw [h1]; exact fcells2d_y_block_last nx ny i (by omega)
        · omega
      · refine ⟨_, _, fcells2d_y_block_high nx ny i j',
          fcells2d_y_block_low nx ny i (j' + 1) (by omega), high, low (by omega), ?_⟩
        have e : nx * (j' + 1) = nx * j' + nx := by ring
        intro h
        have h' : i + nx * j' = i + nx * (j' + 1) := by exact_mod_cast h
        omega

theorem card_slot (N : Nat) (a : Int) (h : a = -1 ∨ ∃ c0, c0 < N ∧ a = ((c0 : Nat) : Int)) :
    ((Finset.range N).filter (fun (c : Nat) => a = (c : Int))).card =
      if a = -1 then 0 else 1 := by
  rcases h with h | ⟨c0, hc0, h⟩
  · subst h
    rw [if_pos rfl, Finset.card_eq_zero, Finset.filter_eq_empty_iff]
    intro c _ hc
    omega
  · subst h
    rw [if_neg (by omega)]
    have e : (Finset.range N).filter (fun (c : Nat) => ((c0 : Nat) : Int) = (c : Int)) = {c0} := by
      ext c
      simp only [Finset.mem_filter, Finset.mem_range, Finset.mem_singleton]
      constructor
      · rintro ⟨-, hc⟩
        exact_mod_cast hc.symm
      · rintro rfl
        exact ⟨hc0, rfl⟩
    rw [e, Finset.card_singleton]

/-- Counting the cells that list a face: if the face lists of the cells and the
two neighbour slots agree, and the slots are distinct cells or `-1`, the face
is listed by as many cells as it has slots different from `-1`. -/
theorem incidence_count (G : UnstructuredGrid) (f : Nat) (a b : Int)
    (ha : G.face_cells[2 * f]? = some a) (hb : G.face_cells[2 * f + 1]? = some b)
    (oka : a = -1 ∨ ∃ c0, c0 < G.number_of_cells ∧ a = ((c0 : Nat) : Int))
    (okb : b = -1 ∨ ∃ c0, c0 < G.number_of_cells ∧ b = ((c0 : Nat) : Int))
    (hab : a ≠ b)
    (inc : ∀ c, c < G.number_of_cells → ((f : Int) ∈ cell_face_list G c ↔
      (G.face_cells[2 * f]? = some (c : Int) ∨ G.face_cells[2 * f + 1]? = some (c : Int)))) :
    (cells_with_face G f).card = used_slots G f := by
  have e : cells_with_face G f =
      (Finset.range G.number_of_cells).filter (fun (c : Nat) => a = (c : Int)) ∪
      (Finset.range G.number_of_cells).filter (fun (c : Nat) => b = (c : Int)) := by
    ext c
    simp only [cells_with_face, Finset.mem_filter, Finset.mem_range, Finset.mem_union]
    constructor
    · rintro ⟨hc, h⟩
      rw [inc c hc, ha, hb] at h
      rcases h with h | h
      · exact Or.inl ⟨hc, Option.some.inj h⟩
      · exact Or.inr ⟨hc, Option.some.inj h⟩
    · rintro (⟨hc, h⟩ | ⟨hc, h⟩)
      · exact ⟨hc, (inc c hc).2 (Or.inl (by rw [ha, h]))⟩
      · exact ⟨hc, (inc c hc).2 (Or.inr (by rw [hb, h]))⟩
  have d : Disjoint
      ((Finset.range G.number_of_cells).filter (fun (c : Nat) => a = (c : Int)))
      ((Finset.range G.number_of_cells).filter (fun (c : Nat) => b = (c : Int))) := by
    rw [Finset.disjoint_filter]
    intro c _ h1 h2
    exact hab (h1.trans h2.symm)
  rw [e, Finset.card_union_of_disjoint d, card_slot _ a oka, card_slot _ b okb, used_slots,
    List.getD_eq_getElem?_getD, List.getD_eq_getElem?_getD, ha, hb]
  rfl

/-- In a 3D grid with positive counts, face `f` is in the face list of cell `c`
exactly when `c` is one of the two neighbour slots of `f`. -/
theorem incidence3 (G : UnstructuredGrid) (nx ny nz : Nat) (hnx : 1 ≤ nx) (hny : 1 ≤ ny)
    (hnz : 1 ≤ nz) (T : Topo3d G nx ny nz) (f c : Nat) (hf : f < G.number_of_faces)
    (hc : c < G.number_of_cells) :
    (f : Int) ∈ cell_face_list G c ↔
      (G.face_cells[2 * f]? = some (c : Int) ∨ G.face_cells[2 * f + 1]? = some (c : Int)) := by
  rw [T.number_of_faces] at hf
  rw [T.number_of_cells] at hc
  rw [T.face_cells]
  constructor
  · intro h
    obtain ⟨i, j, k, hi, hj, hk, rfl⟩ := cell_decomp3 nx ny nz c hc
    rw [cell_face_list3 G nx ny nz T i j k hi hj hk, List.mem_map] at h
    obtain ⟨p, hp, e⟩ := h
    rw [List.mem_range] at hp
    have e' : cell_face3d nx ny nz i j k p = f := by exact_mod_cast e
    have s := cell_face3d_slot nx ny nz i j k p hi hj hk hp
    rw [e'] at s
    by_cases h2 : p % 2 = 0
    · rw [if_pos h2] at s; exact Or.inr s
    · rw [if_neg h2] at s; exact Or.inl s
  · intro h
    obtain ⟨a, b, ha, hb, oka, okb, -⟩ := face_slots3 nx ny nz hnx hny hnz f hf
    rw [ha, hb] at h
    have key : ∀ v : Int, v = (c : Int) → slot_ok3 nx ny nz f v →
        (f : Int) ∈ cell_face_list G c := by
      rintro v rfl (h1 | ⟨i, j, k, hi, hj, hk, h1, p, hp, rfl⟩)
      · omega
      · have h1' : c = i + nx * (j + ny * k) := by exact_mod_cast h1
        rw [h1', cell_face_list3 G nx ny nz T i j k hi hj hk, List.mem_map]
        exact ⟨p, List.mem_range.2 hp, rfl⟩
    rcases h with h | h
    · exact key a (Option.some.inj h) oka
    · exact key b (Option.some.inj h) okb

/-- In a 2D grid with positive counts, face `f` is in the face list of cell `c`
exactly when `c` is one of the two neighbour slots of `f`. -/
theorem incidence2 (G : UnstructuredGrid) (nx ny : Nat) (hnx : 1 ≤ nx) (hny : 1 ≤ ny)
    (T : Topo2d G nx ny) (f c : Nat) (hf : f < G.number_of_faces)
    (hc : c < G.number_of_cells) :
    (f : Int) ∈ cell_face_list G c ↔
      (G.face_cells[2 * f]? = some (c : Int) ∨ G.face_cells[2 * f + 1]? = some (c : Int)) := by
  rw [T.number_of_faces] at hf
  rw [T.number_of_cells] at hc
  rw [T.face_cells]
  constructor
  · intro h
    obtain ⟨i, j, hi, hj, rfl⟩ := cell_decomp2 nx ny c hc
    rw [cell_face_list2 G nx ny T i j hi hj, List.mem_map] at h
    obtain ⟨p, hp, e⟩ := h
    rw [List.mem_range] at hp
    have e' : cell_face2d nx ny i j p = f := by exact_mod_cast e
    have s := cell_face2d_slot nx ny i j p hi hj hp
    rw [e'] at s
    by_cases h2 : p < 2
    · rw [if_pos h2] at s; exact Or.inr s
    · rw [if_neg h2] at s; exact Or.inl s
  · intro h
    obtain ⟨a, b, ha, hb, oka, okb, -⟩ := face_slots2 nx ny hnx hny f hf
    rw [ha, hb] at h
    have key : ∀ v : Int, v = (c : Int) → slot_ok2 nx ny f v →
        (f : Int) ∈ cell_face_list G c := by
      rintro v rfl (h1 | ⟨i, j, hi, hj, h1, p, hp, rfl⟩)
      · omega
      · have h1' : c = i + nx * j := by exact_mod_cast h1
        rw [h1', cell_face_list2 G nx ny T i j hi hj, List.mem_map]
        exact ⟨p, List.mem_range.2 hp, rfl⟩
    rcases h with h | h
    · exact key a (Option.some.inj h) oka
    · exact key b (Option.some.inj h) okb

theorem cell_face_list3_nodup (G : UnstructuredGrid) (nx ny nz : Nat) (T : Topo3d G nx ny nz)
    (c : Nat) (hc : c < G.number_of_cells) : (cell_face_list G c).Nodup := by
  rw [T.number_of_cells] at hc
  obtain ⟨i, j, k, hi, hj, hk, rfl⟩ := cell_decomp3 nx ny nz c hc
  rw [cell_face_list3 G nx ny nz T i j k hi hj hk]
  refine List.Nodup.map_on ?_ (List.nodup_range 6)
  intro p hp q hq h
  exact cell_face3d_inj nx ny nz i j k p q hi hj hk (List.mem_range.1 hp) (List.mem_range.1 hq)
    (by exact_mod_cast h)

theorem cell_face_list2_nodup (G : UnstructuredGrid) (nx ny : Nat) (T : Topo2d G nx ny)
    (c : Nat) (hc : c < G.number_of_cells) : (cell_face_list G c).Nodup := by
  rw [T.number_of_cells] at hc
  obtain ⟨i, j, hi, hj, rfl⟩ := cell_decomp2 nx ny c hc
  rw [cell_face_list2 G nx ny T i j hi hj]
  refine List.Nodup.map_on ?_ (List.nodup_range 4)
  intro p hp q hq h
  exact cell_face2d_inj nx ny i j p q hi hj (List.mem_range.1 hp) (List.mem_range.1 hq)
    (by exact_mod_cast h)

theorem slot_ok3_cell (nx ny nz f : Nat) (a : Int) (h : slot_ok3 nx ny nz f a) :
    a = -1 ∨ ∃ c0, c0 < nx * ny * nz ∧ a = ((c0 : Nat) : Int) := by
  rcases h with h | ⟨i, j, k, hi, hj, hk, h, -⟩
  · exact Or.inl h
  · exact Or.inr ⟨_, lex3_lt hi hj hk, h⟩

theorem slot_ok2_cell (nx ny f : Nat) (a : Int) (h : slot_ok2 nx ny f a) :
    a = -1 ∨ ∃ c0, c0 < nx * ny ∧ a = ((c0 : Nat) : Int) := by
  rcases h with h | ⟨i, j, hi, hj, h, -⟩
  · exact Or.inl h
  · exact Or.inr ⟨_, lex_lt_left hi hj, h⟩

/-- The incidence relation of a 3D grid with positive counts, for a grid
satisfying the topology closed forms. -/
theorem incidence3_all (G : UnstructuredGrid) (nx ny nz : Nat) (hnx : 1 ≤ nx) (hny : 1 ≤ ny)
    (hnz : 1 ≤ nz) (T : Topo3d G nx ny nz) :
    (∀ f c, f < G.number_of_faces → c < G.number_of_cells →
      ((f : Int) ∈ cell_face_list G c ↔
        (G.face_cells[2 * f]? = some (c : Int) ∨
          G.face_cells[2 * f + 1]? = some (c : Int)))) ∧
    (∀ f, f < G.number_of_faces → (cells_with_face G f).card = used_slots G f) ∧
    (∀ c, c < G.number_of_cells → (cell_face_list G c).Nodup) := by
  refine ⟨fun f c hf hc => incidence3 G nx ny nz hnx hny hnz T f c hf hc, ?_,
    fun c hc => cell_face_list3_nodup G nx ny nz T c hc⟩
  intro f hf
  have hf' := hf
  rw [T.number_of_faces] at hf'
  obtain ⟨a, b, ha, hb, oka, okb, hab⟩ := face_slots3 nx ny nz hnx hny hnz f hf'
  rw [← T.face_cells] at ha hb
  refine incidence_count G f a b ha hb ?_ ?_ hab
    (fun c hc => incidence3 G nx ny nz hnx hny hnz T f c hf hc)
  · rw [T.number_of_cells]; exact slot_ok3_cell nx ny nz f a oka
  · rw [T.number_of_cells]; exact slot_ok3_cell nx ny nz f b okb

/-- The incidence relation of a 2D grid with positive counts, for a grid
satisfying the topology closed forms. -/
theorem incidence2_all (G : UnstructuredGrid) (nx ny : Nat) (hnx : 1 ≤ nx) (hny : 1 ≤ ny)
    (T : Topo2d G nx ny) :
    (∀ f c, f < G.number_of_faces → c < G.number_of_cells →
      ((f : Int) ∈ cell_face_list G c ↔
        (G.face_cells[2 * f]? = some (c : Int) ∨
          G.face_cells[2 * f + 1]? = some (c : Int)))) ∧
    (∀ f, f < G.number_of_faces → (cells_with_face G f).card = used_slots G f) ∧
    (∀ c, c < G.number_of_cells → (cell_face_list G c).Nodup) := by
  refine ⟨fun f c hf hc => incidence2 G nx ny hnx hny T f c hf hc, ?_,
    fun c hc => cell_face_list2_nodup G nx ny T c hc⟩
  intro f hf
  have hf' := hf
  rw [T.number_of_faces] at hf'
  obtain ⟨a, b, ha, hb, oka, okb, hab⟩ := face_slots2 nx ny hnx hny f hf'
  rw [← T.face_cells] at ha hb
  refine incidence_count G f a b ha hb ?_ ?_ hab
    (fun c hc => incidence2 G nx ny hnx hny T f c hf hc)
  · rw [T.number_of_cells]; exact slot_ok2_cell nx ny f a oka
  · rw [T.number_of_cells]; exact slot_ok2_cell nx ny f b okb

/-! ### Face centroids and the nodes of a face -/

/-- The node list of a face whose `m` nodes are the block `blk` of `face_nodes`. -/
theorem face_node_list_eq (G : UnstructuredGrid) (m f : Nat) (blk : List Nat)
    (hlen : blk.length = m)
    (hp0 : G.face_nodepos[f]? = some ((m : Int) * (f : Int)))
    (hp1 : G.face_nodepos[f + 1]? = some ((m : Int) * ((f + 1 : Nat) : Int)))
    (hn : ∀ r, r < m → G.face_nodes[f * m + r]? =
      (blk.map (fun (n : Nat) => (n : Int)))[r]?) :
    face_node_list G f = blk.map (fun (n : Nat) => (n : Int)) := by
  have e0 : ((m : Int) * (f : Int)).toNat = f * m := by
    rw [← Nat.cast_mul, Int.toNat_natCast, Nat.mul_comm]
  have e1 : ((m : Int) * ((f + 1 : Nat) : Int)).toNat - f * m = m := by
    rw [← Nat.cast_mul, Int.toNat_natCast, Nat.mul_succ, Nat.mul_comm]; omega
  simp only [face_node_list, getD_of_getElem? hp0, getD_of_getElem? hp1, e0, e1]
  apply List.ext_getElem?
  intro r
  by_cases hr : r < m
  · rw [List.getElem?_map, List.getElem?_range hr, Option.map_some', ← hn r hr,
      List.getD_eq_getElem?_getD]
    have hl : r < (blk.map (fun (n : Nat) => (n : Int))).length := by
      rw [List.length_map, hlen]; exact hr
    have h2 := hn r hr
    rw [List.getElem?_eq_getElem hl] at h2
    rw [h2]; rfl
  · rw [List.getElem?_eq_none (by rw [List.length_map, List.length_range]; omega),
      List.getElem?_eq_none (by rw [List.length_map, hlen]; omega)]

theorem fnodes3d_get_x (nx ny nz i j k r : Nat) (hi : i ≤ nx) (hj : j < ny) (hk : k < nz)
    (hr : r < 4) :
    (fnodes3d_x nx ny nz ++ fnodes3d_y nx ny nz ++ fnodes3d_z nx ny nz)[
      (i + (nx + 1) * (j + ny * k)) * 4 + r]? =
      ((face_nodes3d_x nx ny i j k).map (fun (n : Nat) => (n : Int)))[r]? := by
  have h := family_get3 [] (fnodes3d_y nx ny nz ++ fnodes3d_z nx ny nz) 4 0
    (fun i j k => (face_nodes3d_x nx ny i j k).map (fun (n : Nat) => (n : Int)))
    (fun _ _ _ => by rfl) rfl (nx + 1) ny nz i j k r (Nat.lt_succ_of_le hi) hj hk hr
  simp only [List.nil_append, Nat.zero_add, ← List.append_assoc] at h
  rw [fnodes3d_x_eq]
  exact h

theorem fnodes3d_get_y (nx ny nz i j k r : Nat) (hi : i < nx) (hj : j ≤ ny) (hk : k < nz)
    (hr : r < 4) :
    (fnodes3d_x nx ny nz ++ fnodes3d_y nx ny nz ++ fnodes3d_z nx ny nz)[
      ((nx + 1) * ny * nz + (i + nx * (j + (ny + 1) * k))) * 4 + r]? =
      ((face_nodes3d_y nx ny i j k).map (fun (n : Nat) => (n : Int)))[r]? := by
  have h := family_get3 (fnodes3d_x nx ny nz) (fnodes3d_z nx ny nz) 4 ((nx + 1) * ny * nz)
    (fun i j k => (face_nodes3d_y nx ny i j k).map (fun (n : Nat) => (n : Int)))
    (fun _ _ _ => by rfl) (by rw [fnodes3d_x_length]; ring) nx (ny + 1) nz i j k r hi
    (Nat.lt_succ_of_le hj) hk hr
  rw [fnodes3d_y_eq]
  exact h

theorem fnodes3d_get_z (nx ny nz i j k r : Nat) (hi : i < nx) (hj : j < ny) (hk : k ≤ nz)
    (hr : r < 4) :
    (fnodes3d_x nx ny nz ++ fnodes3d_y nx ny nz ++ fnodes3d_z nx ny nz)[
      ((nx + 1) * ny * nz + nx * (ny + 1) * nz + (i + nx * (j + ny * k))) * 4 + r]? =
      ((face_nodes3d_z nx ny i j k).map (fun (n : Nat) => (n : Int)))[r]? := by
  have h := family_get3 (fnodes3d_x nx ny nz ++ fnodes3d_y nx ny nz) [] 4
    ((nx + 1) * ny * nz + nx * (ny + 1) * nz)
    (fun i j k => (face_nodes3d_z nx ny i j k).map (fun (n : Nat) => (n : Int)))
    (fun _ _ _ => by rfl)
    (by rw [List.length_append, fnodes3d_x_length, fnodes3d_y_length]; ring) nx ny (nz + 1)
    i j k r hi hj (Nat.lt_succ_of_le hk) hr
  rw [List.append_nil] at h
  rw [fnodes3d_z_eq]
  exact h

theorem fnodes2d_get_x (nx ny i j r : Nat) (hi : i ≤ nx) (hj : j < ny) (hr : r < 2) :
    (fnodes2d_x nx ny ++ fnodes2d_y nx ny)[(i + (nx + 1) * j) * 2 + r]? =
      ((face_nodes2d_x nx i j).map (fun (n : Nat) => (n : Int)))[r]? := by
  have h := family_get2 [] (fnodes2d_y nx ny) 2 0
    (fun i j => (face_nodes2d_x nx i j).map (fun (n : Nat) => (n : Int)))
    (fun _ _ => by rfl) rfl (nx + 1) ny i j r (Nat.lt_succ_of_le hi) hj hr
  simp only [List.nil_append, Nat.zero_add] at h
  rw [fnodes2d_x_eq]
  exact h

theorem fnodes2d_get_y (nx ny i j r : Nat) (hi : i < nx) (hj : j ≤ ny) (hr : r < 2) :
    (fnodes2d_x nx ny ++ fnodes2d_y nx ny)[((nx + 1) * ny + (i + nx * j)) * 2 + r]? =
      ((face_nodes2d_y nx i j).map (fun (n : Nat) => (n : Int)))[r]? := by
  have h := family_get2 (fnodes2d_x nx ny) [] 2 ((nx + 1) * ny)
    (fun i j => (face_nodes2d_y nx i j).map (fun (n : Nat) => (n : Int)))
    (fun _ _ => by rfl) (by rw [fnodes2d_x_length]; ring) nx (ny + 1) i j r hi
    (Nat.lt_succ_of_le hj) hr
  rw [List.append_nil] at h
  rw [fnodes2d_y_eq]
  exact h

theorem fcent3d_get_x (nx ny nz : Nat) (x y z : List ℚ) (i j k r : Nat) (hi : i ≤ nx)
    (hj : j < ny) (hk : k < nz) (hr : r < 3) :
    (fcent3d_x nx ny nz x y z ++ fcent3d_y nx ny nz x y z ++ fcent3d_z nx ny nz x y z)[
      (i + (nx + 1) * (j + ny * k)) * 3 + r]? =
      [rd x i, (rd y j + rd y (j + 1)) / 2, (rd z k + rd z (k + 1)) / 2][r]? := by
  have h := family_get3 [] (fcent3d_y nx ny nz x y z ++ fcent3d_z nx ny nz x y z) 3 0
    (fun i j k => [rd x i, (rd y j + rd y (j + 1)) / 2, (rd z k + rd z (k + 1)) / 2])
    (fun _ _ _ => by rfl) rfl (nx + 1) ny nz i j k r (Nat.lt_succ_of_le hi) hj hk hr
  simp only [List.nil_append, Nat.zero_add, ← List.append_assoc] at h
  exact h

theorem fcent3d_get_y (nx ny nz : Nat) (x y z : List ℚ) (i j k r : Nat) (hi : i < nx)
    (hj : j ≤ ny) (hk : k < nz) (hr : r < 3) :
    (fcent3d_x nx ny nz x y z ++ fcent3d_y nx ny nz x y z ++ fcent3d_z nx ny nz x y z)[
      ((nx + 1) * ny * nz + (i + nx * (j + (ny + 1) * k))) * 3 + r]? =
      [(rd x i + rd x (i + 1)) / 2, rd y j, (rd z k + rd z (k + 1)) / 2][r]? :=
  family_get3 (fcent3d_x nx ny nz x y z) (fcent3d_z nx ny nz x y z) 3 ((nx + 1) * ny * nz)
    (fun i j k => [(rd x i + rd x (i + 1)) / 2, rd y j, (rd z k + rd z (k + 1)) / 2])
    (fun _ _ _ => by rfl)
    (by rw [fcent3d_x, emitted3_length 3 _ (fun _ _ _ => by rfl)]; ring) nx (ny + 1) nz i j k r
    hi (Nat.lt_succ_of_le hj) hk hr

theorem fcent3d_get_z (nx ny nz : Nat) (x y z : List ℚ) (i j k r : Nat) (hi : i < nx)
    (hj : j < ny) (hk : k ≤ nz) (hr : r < 3) :
    (fcent3d_x nx ny nz x y z ++ fcent3d_y nx ny nz x y z ++ fcent3d_z nx ny nz x y z)[
      ((nx + 1) * ny * nz + nx * (ny + 1) * nz + (i + nx * (j + ny * k))) * 3 + r]? =
      [(rd x i + rd x (i + 1)) / 2, (rd y j + rd y (j + 1)) / 2, rd z k][r]? := by
  have h := family_get3 (fcent3d_x nx ny nz x y z ++ fcent3d_y nx ny nz x y z) [] 3
    ((nx + 1) * ny * nz + nx * (ny + 1) * nz)
    (fun i j k => [(rd x i + rd x (i + 1)) / 2, (rd y j + rd y (j + 1)) / 2, rd z k])
    (fun _ _ _ => by rfl)
    (by
      rw [List.length_append, fcent3d_x, fcent3d_y, emitted3_length 3 _ (fun _ _ _ => by rfl),
        emitted3_length 3 _ (fun _ _ _ => by rfl)]
      ring) nx ny (nz + 1) i j k r hi hj (Nat.lt_succ_of_le hk) hr
  rw [List.append_nil] at h
  exact h

theorem fcent2d_get_x (nx ny : Nat) (x y : List ℚ) (i j r : Nat) (hi : i ≤ nx) (hj : j < ny)
    (hr : r < 2) :
    (fcent2d_x nx ny x y ++ fcent2d_y nx ny x y)[(i + (nx + 1) * j) * 2 + r]? =
      [rd x i, (rd y j + rd y (j + 1)) / 2][r]? := by
  have h := family_get2 [] (fcent2d_y nx ny x y) 2 0
    (fun i j => [rd x i, (rd y j + rd y (j + 1)) / 2])
    (fun _ _ => by rfl) rfl (nx + 1) ny i j r (Nat.lt_succ_of_le hi) hj hr
  simp only [List.nil_append, Nat.zero_add] at h
  exact h

theorem fcent2d_get_y (nx ny : Nat) (x y : List ℚ) (i j r : Nat) (hi : i < nx) (hj : j ≤ ny)
    (hr : r < 2) :
    (fcent2d_x nx ny x y ++ fcent2d_y nx ny x y)[((nx + 1) * ny + (i + nx * j)) * 2 + r]? =
      [(rd x i + rd x (i + 1)) / 2, rd y j][r]? := by
  have h := family_get2 (fcent2d_x nx ny x y) [] 2 ((nx + 1) * ny)
    (fun i j => [(rd x i + rd x (i + 1)) / 2, rd y j])
    (fun _ _ => by rfl)
    (by rw [fcent2d_x, emitted2_length 2 _ (fun _ _ => by rfl)]; ring) nx (ny + 1) i j r hi
    (Nat.lt_succ_of_le hj) hr
  rw [List.append_nil] at h
  exact h

theorem node_coordinate3 (G : UnstructuredGrid) (nx ny nz : Nat) (x y z : List ℚ)
    (T : Topo3d G nx ny nz) (Q : Geom3d G nx ny nz x y z) (i j k r : Nat) (hi : i ≤ nx)
    (hj : j ≤ ny) (hk : k ≤ nz) (hr : r < 3) :
    node_coordinate G ((node3d nx ny i j k : Nat) : Int) r = [rd x i, rd y j, rd z k].getD r 0 := by
  have h := emitted3_getElem? 3 (fun i j k => [rd x i, rd y j, rd z k]) (fun _ _ _ => by rfl)
    (nx + 1) (ny + 1) (nz + 1) i j k r (Nat.lt_succ_of_le hi) (Nat.lt_succ_of_le hj)
    (Nat.lt_succ_of_le hk) hr
  rw [node_coordinate, T.dimensions, Int.toNat_natCast, Q.node_coordinates, node3d,
    Nat.mul_comm 3, List.getD_eq_getElem?_getD, List.getD_eq_getElem?_getD]
  exact congrArg (fun o => Option.getD o 0) h

theorem node_coordinate2 (G : UnstructuredGrid) (nx ny : Nat) (x y : List ℚ)
    (T : Topo2d G nx ny) (Q : Geom2d G nx ny x y) (i j r : Nat) (hi : i ≤ nx)
    (hj : j ≤ ny) (hr : r < 2) :
    node_coordinate G ((node2d nx i j : Nat) : Int) r = [rd x i, rd y j].getD r 0 := by
  have h := emitted2_getElem? 2 (fun i j => [rd x i, rd y j]) (fun _ _ => by rfl)
    (nx + 1) (ny + 1) i j r (Nat.lt_succ_of_le hi) (Nat.lt_succ_of_le hj) hr
  rw [node_coordinate, T.dimensions, Int.toNat_natCast, Q.node_coordinates, node2d,
    Nat.mul_comm 2, List.getD_eq_getElem?_getD, List.getD_eq_getElem?_getD]
  exact congrArg (fun o => Option.getD o 0) h

/-- In the axis-aligned 3D grid the nodes of every face number four and the
stored centroid of the face is the mean of their stored coordinates. -/
theorem face_centroid_mean3 (G : UnstructuredGrid) (nx ny nz : Nat) (x y z : List ℚ)
    (T : Topo3d G nx ny nz) (Q : Geom3d G nx ny nz x y z) (f : Nat)
    (hf : f < G.number_of_faces) :
    (face_node_list G f).length = 4 ∧
    ∀ r, r < 3 → G.face_centroids[3 * f + r]? =
      some (mean ((face_node_list G f).map (fun n => node_coordinate G n r))) := by
  rw [T.number_of_faces] at hf
  have hp0 : G.face_nodepos[f]? = some (((4 : Nat) : Int) * (f : Int)) :=
    T.face_nodepos f (by omega)
  have hp1 : G.face_nodepos[f + 1]? = some (((4 : Nat) : Int) * ((f + 1 : Nat) : Int)) :=
    T.face_nodepos (f + 1) (by omega)
  rcases face_cases3 nx ny nz f hf with ⟨i, j, k, hi, hj, hk, e⟩ | ⟨i, j, k, hi, hj, hk, e⟩ |
    ⟨i, j, k, hi, hj, hk, e⟩
  · have hl := face_node_list_eq G 4 f (face_nodes3d_x nx ny i j k) rfl hp0 hp1
      (fun r hr => by rw [T.face_nodes, e]; exact fnodes3d_get_x nx ny nz i j k r hi hj hk hr)
    have hc := fun r hr => fcent3d_get_x nx ny nz x y z i j k r hi hj hk hr
    have nc := fun a b c ha hb hc r hr => node_coordinate3 G nx ny nz x y z T Q a b c r ha hb hc hr
    rw [hl]
    refine ⟨rfl, fun r hr => ?_⟩
    rw [Q.face_centroids, Nat.mul_comm 3, e, hc r hr]
    simp only [face_nodes3d_x, List.map_cons, List.map_nil, mean,
      nc i j k hi (by omega) (by omega) r hr, nc i (j + 1) k hi (by omega) (by omega) r hr,
      nc i (j + 1) (k + 1) hi (by omega) (by omega) r hr,
      nc i j (k + 1) hi (by omega) (by omega) r hr]
    interval_cases r <;> norm_num <;> ring
  · have hl := face_node_list_eq G 4 f (face_nodes3d_y nx ny i j k) rfl hp0 hp1
      (fun r hr => by rw [T.face_nodes, e]; exact fnodes3d_get_y nx ny nz i j k r hi hj hk hr)
    have hc := fun r hr => fcent3d_get_y nx ny nz x y z i j k r hi hj hk hr
    have nc := fun a b c ha hb hc r hr => node_coordinate3 G nx ny nz x y z T Q a b c r ha hb hc hr
    rw [hl]
    refine ⟨rfl, fun r hr => ?_⟩
    rw [Q.face_centroids, Nat.mul_comm 3, e, hc r hr]
    simp only [face_nodes3d_y, List.map_cons, List.map_nil, mean,
      nc i j k (by omega) hj (by omega) r hr, nc i j (k + 1) (by omega) hj (by omega) r hr,
      nc (i + 1) j (k + 1) (by omega) hj (by omega) r hr,
      nc (i + 1) j k (by omega) hj (by omega) r hr]
    interval_cases r <;> norm_num <;> ring
  · have hl := face_node_list_eq G 4 f (face_nodes3d_z nx ny i j k) rfl hp0 hp1
      (fun r hr => by rw [T.face_nodes, e]; exact fnodes3d_get_z nx ny nz i j k r hi hj hk hr)
    have hc := fun r hr => fcent3d_get_z nx ny nz x y z i j k r hi hj hk hr
    have nc := fun a b c ha hb hc r hr => node_coordinate3 G nx ny nz x y z T Q a b c r ha hb hc hr
    rw [hl]
    refine ⟨rfl, fun r hr => ?_⟩
    rw [Q.face_centroids, Nat.mul_comm 3, e, hc r hr]
    simp only [face_nodes3d_z, List.map_cons, List.map_nil, mean,
      nc i j k (by omega) (by omega) hk r hr, nc (i + 1) j k (by omega) (by omega) hk r hr,
      nc (i + 1) (j + 1) k (by omega) (by omega) hk r hr,
      nc i (j + 1) k (by omega) (by omega) hk r hr]
    interval_cases r <;> norm_num <;> ring

/-- In the axis-aligned 2D grid the nodes of every face number two and the
stored centroid of the face is the mean of their stored coordinates. -/
theorem face_centroid_mean2 (G : UnstructuredGrid) (nx ny : Nat) (x y : List ℚ)
    (T : Topo2d G nx ny) (Q : Geom2d G nx ny x y) (f : Nat)
    (hf : f < G.number_of_faces) :
    (face_node_list G f).length = 2 ∧
    ∀ r, r < 2 → G.face_centroids[2 * f + r]? =
      some (mean ((face_node_list G f).map (fun n => node_coordinate G n r))) := by
  rw [T.number_of_faces] at hf
  have hp0 : G.face_nodepos[f]? = some (((2 : Nat) : Int) * (f : Int)) :=
    T.face_nodepos f (by omega)
  have hp1 : G.face_nodepos[f + 1]? = some (((2 : Nat) : Int) * ((f + 1 : Nat) : Int)) :=
    T.face_nodepos (f + 1) (by omega)
  rcases face_cases2 nx ny f hf with ⟨i, j, hi, hj, e⟩ | ⟨i, j, hi, hj, e⟩
  · have hl := face_node_list_eq G 2 f (face_nodes2d_x nx i j) rfl hp0 hp1
      (fun r hr => by rw [T.face_nodes, e]; exact fnodes2d_get_x nx ny i j r hi hj hr)
    have hc := fun r hr => fcent2d_get_x nx ny x y i j r hi hj hr
    have nc := fun a b ha hb r hr => node_coordinate2 G nx ny x y T Q a b r ha hb hr
    rw [hl]
    refine ⟨rfl, fun r hr => ?_⟩
    rw [Q.face_centroids, Nat.mul_comm 2, e, hc r hr]
    simp only [face_nodes2d_x, List.map_cons, List.map_nil, mean,
      nc i j hi (by omega) r hr, nc i (j + 1) hi (by omega) r hr]
    interval_cases r <;> norm_num
  · have hl := face_node_list_eq G 2 f (face_nodes2d_y nx i j) rfl hp0 hp1
      (fun r hr => by rw [T.face_nodes, e]; exact fnodes2d_get_y nx ny i j r hi hj hr)
    have hc := fun r hr => fcent2d_get_y nx ny x y i j r hi hj hr
    have nc := fun a b ha hb r hr => node_coordinate2 G nx ny x y T Q a b r ha hb hr
    rw [hl]
    refine ⟨rfl, fun r hr => ?_⟩
    rw [Q.face_centroids, Nat.mul_comm 2, e, hc r hr]
    simp only [face_nodes2d_y, List.map_cons, List.map_nil, mean,
      nc (i + 1) j (by omega) hj r hr, nc i j (by omega) hj r hr]
    interval_cases r
    all_goals first | (norm_num; done) | (norm_num; ring)

/-! ## Faces, their nodes and their orientation -/

theorem face_node_list3_x (G : UnstructuredGrid) (nx ny nz : Nat) (T : Topo3d G nx ny nz)
    (i j k : Nat) (hi : i ≤ nx) (hj : j < ny) (hk : k < nz) :
    face_node_list G (i + (nx + 1) * (j + ny * k)) =
      (face_nodes3d_x nx ny i j k).map (fun (n : Nat) => (n : Int)) := by
  have hb : i + (nx + 1) * (j + ny * k) < (nx + 1) * ny * nz :=
    lex3_lt (Nat.lt_succ_of_le hi) hj hk
  exact face_node_list_eq G 4 _ (face_nodes3d_x nx ny i j k) rfl
    (T.face_nodepos _ (by omega)) (T.face_nodepos _ (by omega))
    (fun r hr => by rw [T.face_nodes]; exact fnodes3d_get_x nx ny nz i j k r hi hj hk hr)

theorem face_node_list3_y (G : UnstructuredGrid) (nx ny nz : Nat) (T : Topo3d G nx ny nz)
    (i j k : Nat) (hi : i < nx) (hj : j ≤ ny) (hk : k < nz) :
    face_node_list G ((nx + 1) * ny * nz + (i + nx * (j + (ny + 1) * k))) =
      (face_nodes3d_y nx ny i j k).map (fun (n : Nat) => (n : Int)) := by
  have hb : i + nx * (j + (ny + 1) * k) < nx * (ny + 1) * nz :=
    lex3_lt hi (Nat.lt_succ_of_le hj) hk
  exact face_node_list_eq G 4 _ (face_nodes3d_y nx ny i j k) rfl
    (T.face_nodepos _ (by omega)) (T.face_nodepos _ (by omega))
    (fun r hr => by rw [T.face_nodes]; exact fnodes3d_get_y nx ny nz i j k r hi hj hk hr)

theorem face_node_list3_z (G : UnstructuredGrid) (nx ny nz : Nat) (T : Topo3d G nx ny nz)
    (i j k : Nat) (hi : i < nx) (hj : j < ny) (hk : k ≤ nz) :
    face_node_list G ((nx + 1) * ny * nz + nx * (ny + 1) * nz + (i + nx * (j + ny * k))) =
      (face_nodes3d_z nx ny i j k).map (fun (n : Nat) => (n : Int)) := by
  have hb : i + nx * (j + ny * k) < nx * ny * (nz + 1) :=
    lex3_lt hi hj (Nat.lt_succ_of_le hk)
  exact face_node_list_eq G 4 _ (face_nodes3d_z nx ny i j k) rfl
    (T.face_nodepos _ (by omega)) (T.face_nodepos _ (by omega))
    (fun r hr => by rw [T.face_nodes]; exact fnodes3d_get_z nx ny nz i j k r hi hj hk hr)

theorem face_node_list2_x (G : UnstructuredGrid) (nx ny : Nat) (T : Topo2d G nx ny)
    (i j : Nat) (hi : i ≤ nx) (hj : j < ny) :
    face_node_list G (i + (nx + 1) * j) =
      (face_nodes2d_x nx i j).map (fun (n : Nat) => (n : Int)) := by
  have hb : i + (nx + 1) * j < (nx + 1) * ny := lex_lt_left (Nat.lt_succ_of_le hi) hj
  exact face_node_list_eq G 2 _ (face_nodes2d_x nx i j) rfl
    (T.face_nodepos _ (by omega)) (T.face_nodepos _ (by omega))
    (fun r hr => by rw [T.face_nodes]; exact fnodes2d_get_x nx ny i j r hi hj hr)

theorem face_node_list2_y (G : UnstructuredGrid) (nx ny : Nat) (T : Topo2d G nx ny)
    (i j : Nat) (hi : i < nx) (hj : j ≤ ny) :
    face_node_list G ((nx + 1) * ny + (i + nx * j)) =
      (face_nodes2d_y nx i j).map (fun (n : Nat) => (n : Int)) := by
  have hb : i + nx * j < nx * (ny + 1) := lex_lt_left hi (Nat.lt_succ_of_le hj)
  exact face_node_list_eq G 2 _ (face_nodes2d_y nx i j) rfl
    (T.face_nodepos _ (by omega)) (T.face_nodepos _ (by omega))
    (fun r hr => by rw [T.face_nodes]; exact fnodes2d_get_y nx ny i j r hi hj hr)

theorem fnorm3d_get_x (nx ny nz : Nat) (x y z : List ℚ) (i j k r : Nat) (hi : i ≤ nx)
    (hj : j < ny) (hk : k < nz) (hr : r < 3) :
    (fnorm3d_x nx ny nz y z ++ fnorm3d_y nx ny nz x z ++ fnorm3d_z nx ny nz x y)[
      (i + (nx + 1) * (j + ny * k)) * 3 + r]? =
      [(rd y (j + 1) - rd y j) * (rd z (k + 1) - rd z k), 0, 0][r]? := by
  have h := family_get3 [] (fnorm3d_y nx ny nz x z ++ fnorm3d_z nx ny nz x y) 3 0
    (fun _ j k => [(rd y (j + 1) - rd y j) * (rd z (k + 1) - rd z k), 0, 0])
    (fun _ _ _ => by rfl) rfl (nx + 1) ny nz i j k r (Nat.lt_succ_of_le hi) hj hk hr
  simp only [List.nil_append, Nat.zero_add, ← List.append_assoc] at h
  exact h

theorem fnorm3d_get_y (nx ny nz : Nat) (x y z : List ℚ) (i j k r : Nat) (hi : i < nx)
    (hj : j ≤ ny) (hk : k < nz) (hr : r < 3) :
    (fnorm3d_x nx ny nz y z ++ fnorm3d_y nx ny nz x z ++ fnorm3d_z nx ny nz x y)[
      ((nx + 1) * ny * nz + (i + nx * (j + (ny + 1) * k))) * 3 + r]? =
      [0, (rd x (i + 1) - rd x i) * (rd z (k + 1) - rd z k), 0][r]? :=
  family_get3 (fnorm3d_x nx ny nz y z) (fnorm3d_z nx ny nz x y) 3 ((nx + 1) * ny * nz)
    (fun i _ k => [0, (rd x (i + 1) - rd x i) * (rd z (k + 1) - rd z k), 0])
    (fun _ _ _ => by rfl) (by rw [fnorm3d_x_length]; ring) nx (ny + 1) nz i j k r
    hi (Nat.lt_succ_of_le hj) hk hr

theorem fnorm3d_get_z (nx ny nz : Nat) (x y z : List ℚ) (i j k r : Nat) (hi : i < nx)
    (hj : j < ny) (hk : k ≤ nz) (hr : r < 3) :
    (fnorm3d_x nx ny nz y z ++ fnorm3d_y nx ny nz x z ++ fnorm3d_z nx ny nz x y)[
      ((nx + 1) * ny * nz + nx * (ny + 1) * nz + (i + nx * (j + ny * k))) * 3 + r]? =
      [0, 0, (rd x (i + 1) - rd x i) * (rd y (j + 1) - rd y j)][r]? := by
  have h := family_get3 (fnorm3d_x nx ny nz y z ++ fnorm3d_y nx ny nz x z) [] 3
    ((nx + 1) * ny * nz + nx * (ny + 1) * nz)
    (fun i j _ => [0, 0, (rd x (i + 1) - rd x i) * (rd y (j + 1) - rd y j)])
    (fun _ _ _ => by rfl)
    (by rw [List.length_append, fnorm3d_x_length, fnorm3d_y_length]; ring) nx ny (nz + 1)
    i j k r hi hj (Nat.lt_succ_of_le hk) hr
  rw [List.append_nil] at h
  exact h

theorem fnorm2d_get_x (nx ny : Nat) (x y : List ℚ) (i j r : Nat) (hi : i ≤ nx) (hj : j < ny)
    (hr : r < 2) :
    (fnorm2d_x nx ny y ++ fnorm2d_y nx ny x)[(i + (nx + 1) * j) * 2 + r]? =
      [rd y (j + 1) - rd y j, 0][r]? := by
  have h := family_get2 [] (fnorm2d_y nx ny x) 2 0
    (fun _ j => [rd y (j + 1) - rd y j, 0])
    (fun _ _ => by rfl) rfl (nx + 1) ny i j r (Nat.lt_succ_of_le hi) hj hr
  simp only [List.nil_append, Nat.zero_add] at h
  exact h

theorem fnorm2d_get_y (nx ny : Nat) (x y : List ℚ) (i j r : Nat) (hi : i < nx) (hj : j ≤ ny)
    (hr : r < 2) :
    (fnorm2d_x nx ny y ++ fnorm2d_y nx ny x)[((nx + 1) * ny + (i + nx * j)) * 2 + r]? =
      [0, rd x (i + 1) - rd x i][r]? := by
  have h := family_get2 (fnorm2d_x nx ny y) [] 2 ((nx + 1) * ny)
    (fun i _ => [0, rd x (i + 1) - rd x i])
    (fun _ _ => by rfl) (by rw [fnorm2d_x_length]; ring) nx (ny + 1) i j r hi
    (Nat.lt_succ_of_le hj) hr
  rw [List.append_nil] at h
  exact h

/-- In the axis-aligned 3D grid the first and last edge at the first node of
every face span its stored normal, and the four nodes form a parallelogram. -/
theorem winding3 (G : UnstructuredGrid) (nx ny nz : Nat) (x y z : List ℚ)
    (T : Topo3d G nx ny nz) (Q : Geom3d G nx ny nz x y z) (f : Nat)
    (hf : f < G.number_of_faces) :
    (face_node_list G f).length = 4 ∧
    ∀ r, r < 3 →
      G.face_normals[3 * f + r]? =
        some (cross (fun s => face_point G f 1 s - face_point G f 0 s)
          (fun s => face_point G f 3 s - face_point G f 0 s) r) ∧
      face_point G f 2 r = face_point G f 1 r + face_point G f 3 r - face_point G f 0 r := by
  rw [T.number_of_faces] at hf
  have nc := fun a b c ha hb hc r hr => node_coordinate3 G nx ny nz x y z T Q a b c r ha hb hc hr
  rcases face_cases3 nx ny nz f hf with ⟨i, j, k, hi, hj, hk, rfl⟩ |
    ⟨i, j, k, hi, hj, hk, rfl⟩ | ⟨i, j, k, hi, hj, hk, rfl⟩
  · have hl := face_node_list3_x G nx ny nz T i j k hi hj hk
    have P : ∀ s, s < 3 →
        face_point G (i + (nx + 1) * (j + ny * k)) 0 s = [rd x i, rd y j, rd z k].getD s 0 ∧
        face_point G (i + (nx + 1) * (j + ny * k)) 1 s =
          [rd x i, rd y (j + 1), rd z k].getD s 0 ∧
        face_point G (i + (nx + 1) * (j + ny * k)) 2 s =
          [rd x i, rd y (j + 1), rd z (k + 1)].getD s 0 ∧
        face_point G (i + (nx + 1) * (j + ny * k)) 3 s =
          [rd x i, rd y j, rd z (k + 1)].getD s 0 := by
      intro s hs
      simp only [face_point, hl, face_nodes3d_x, List.map_cons, List.map_nil,
        List.getD_cons_zero, List.getD_cons_succ]
      exact ⟨nc i j k hi (by omega) (by omega) s hs, nc i (j + 1) k hi (by omega) (by omega) s hs,
        nc i (j + 1) (k + 1) hi (by omega) (by omega) s hs,
        nc i j (k + 1) hi (by omega) (by omega) s hs⟩
    obtain ⟨a0, a1, a2, a3⟩ := P 0 (by omega)
    obtain ⟨b0, b1, b2, b3⟩ := P 1 (by omega)
    obtain ⟨c0, c1, c2, c3⟩ := P 2 (by omega)
    rw [hl]
    refine ⟨rfl, fun r hr => ?_⟩
    rw [Q.face_normals, Nat.mul_comm 3, fnorm3d_get_x nx ny nz x y z i j k r hi hj hk hr]
    interval_cases r <;>
      simp [cross, a0, a1, a2, a3, b0, b1, b2, b3, c0, c1, c2, c3]
  · have hl := face_node_list3_y G nx ny nz T i j k hi hj hk
    have P : ∀ s, s < 3 →
        face_point G ((nx + 1) * ny * nz + (i + nx * (j + (ny + 1) * k))) 0 s =
          [rd x i, rd y j, rd z k].getD s 0 ∧
        face_point G ((nx + 1) * ny * nz + (i + nx * (j + (ny + 1) * k))) 1 s =
          [rd x i, rd y j, rd z (k + 1)].getD s 0 ∧
        face_point G ((nx + 1) * ny * nz + (i + nx * (j + (ny + 1) * k))) 2 s =
          [rd x (i + 1), rd y j, rd z (k + 1)].getD s 0 ∧
        face_point G ((nx + 1) * ny * nz + (i + nx * (j + (ny + 1) * k))) 3 s =
          [rd x (i + 1), rd y j, rd z k].getD s 0 := by
      intro s hs
      simp only [face_point, hl, face_nodes3d_y, List.map_cons, List.map_nil,
        List.getD_cons_zero, List.getD_cons_succ]
      exact ⟨nc i j k (by omega) hj (by omega) s hs, nc i j (k + 1) (by omega) hj (by omega) s hs,
        nc (i + 1) j (k + 1) (by omega) hj (by omega) s hs,
        nc (i + 1) j k (by omega) hj (by omega) s hs⟩
    obtain ⟨a0, a1, a2, a3⟩ := P 0 (by omega)
    obtain ⟨b0, b1, b2, b3⟩ := P 1 (by omega)
    obtain ⟨c0, c1, c2, c3⟩ := P 2 (by omega)
    rw [hl]
    refine ⟨rfl, fun r hr => ?_⟩
    rw [Q.face_normals, Nat.mul_comm 3, fnorm3d_get_y nx ny nz x y z i j k r hi hj hk hr]
    interval_cases r <;>
      simp [cross, a0, a1, a2, a3, b0, b1, b2, b3, c0, c1, c2, c3]
    ring
  · have hl := face_node_list3_z G nx ny nz T i j k hi hj hk
    have P : ∀ s, s < 3 →
        face_point G ((nx + 1) * ny * nz + nx * (ny + 1) * nz + (i + nx * (j + ny * k))) 0 s =
          [rd x i, rd y j, rd z k].getD s 0 ∧
        face_point G ((nx + 1) * ny * nz + nx * (ny + 1) * nz + (i + nx * (j + ny * k))) 1 s =
          [rd x (i + 1), rd y j, rd z k].getD s 0 ∧
        face_point G ((nx + 1) * ny * nz + nx * (ny + 1) * nz + (i + nx * (j + ny * k))) 2 s =
          [rd x (i + 1), rd y (j + 1), rd z k].getD s 0 ∧
        face_point G ((nx + 1) * ny * nz + nx * (ny + 1) * nz + (i + nx * (j + ny * k))) 3 s =
          [rd x i, rd y (j + 1), rd z k].getD s 0 := by
      intro s hs
      simp only [face_point, hl, face_nodes3d_z, List.map_cons, List.map_nil,
        List.getD_cons_zero, List.getD_cons_succ]
      exact ⟨nc i j k (by omega) (by omega) hk s hs, nc (i + 1) j k (by omega) (by omega) hk s hs,
        nc (i + 1) (j + 1) k (by omega) (by omega) hk s hs,
        nc i (j + 1) k (by omega) (by omega) hk s hs⟩
    obtain ⟨a0, a1, a2, a3⟩ := P 0 (by omega)
    obtain ⟨b0, b1, b2, b3⟩ := P 1 (by omega)
    obtain ⟨c0, c1, c2, c3⟩ := P 2 (by omega)
    rw [hl]
    refine ⟨rfl, fun r hr => ?_⟩
    rw [Q.face_normals, Nat.mul_comm 3, fnorm3d_get_z nx ny nz x y z i j k r hi hj hk hr]
    interval_cases r <;>
      simp [cross, a0, a1, a2, a3, b0, b1, b2, b3, c0, c1, c2, c3]

/-- In the axis-aligned 2D grid the stored normal of every face is its edge
vector turned clockwise by a quarter turn. -/
theorem winding2 (G : UnstructuredGrid) (nx ny : Nat) (x y : List ℚ)
    (T : Topo2d G nx ny) (Q : Geom2d G nx ny x y) (f : Nat)
    (hf : f < G.number_of_faces) :
    (face_node_list G f).length = 2 ∧
    G.face_normals[2 * f]? = some (face_point G f 1 1 - face_point G f 0 1) ∧
    G.face_normals[2 * f + 1]? = some (-(face_point G f 1 0 - face_point G f 0 0)) := by
  rw [T.number_of_faces] at hf
  have nc := fun a b ha hb r hr => node_coordinate2 G nx ny x y T Q a b r ha hb hr
  rcases face_cases2 nx ny f hf with ⟨i, j, hi, hj, rfl⟩ | ⟨i, j, hi, hj, rfl⟩
  · have hl := face_node_list2_x G nx ny T i j hi hj
    have P : ∀ s, s < 2 →
        face_point G (i + (nx + 1) * j) 0 s = [rd x i, rd y j].getD s 0 ∧
        face_point G (i + (nx + 1) * j) 1 s = [rd x i, rd y (j + 1)].getD s 0 := by
      intro s hs
      simp only [face_point, hl, face_nodes2d_x, List.map_cons, List.map_nil,
        List.getD_cons_zero, List.getD_cons_succ]
      exact ⟨nc i j hi (by omega) s hs, nc i (j + 1) hi (by omega) s hs⟩
    obtain ⟨a0, a1⟩ := P 0 (by omega)
    obtain ⟨b0, b1⟩ := P 1 (by omega)
    have h0 := fnorm2d_get_x nx ny x y i j 0 hi hj (by omega)
    have h1 := fnorm2d_get_x nx ny x y i j 1 hi hj (by omega)
    rw [Nat.add_zero] at h0
    refine ⟨by rw [hl]; rfl, ?_, ?_⟩
    · rw [Q.face_normals, Nat.mul_comm 2, h0]
      simp [b0, b1]
    · rw [Q.face_normals, Nat.mul_comm 2, h1]
      simp [a0, a1]
  · have hl := face_node_list2_y G nx ny T i j hi hj
    have P : ∀ s, s < 2 →
        face_point G ((nx + 1) * ny + (i + nx * j)) 0 s = [rd x (i + 1), rd y j].getD s 0 ∧
        face_point G ((nx + 1) * ny + (i + nx * j)) 1 s = [rd x i, rd y j].getD s 0 := by
      intro s hs
      simp only [face_point, hl, face_nodes2d_y, List.map_cons, List.map_nil,
        List.getD_cons_zero, List.getD_cons_succ]
      exact ⟨nc (i + 1) j (by omega) hj s hs, nc i j (by omega) hj s hs⟩
    obtain ⟨a0, a1⟩ := P 0 (by omega)
    obtain ⟨b0, b1⟩ := P 1 (by omega)
    have h0 := fnorm2d_get_y nx ny x y i j 0 hi hj (by omega)
    have h1 := fnorm2d_get_y nx ny x y i j 1 hi hj (by omega)
    rw [Nat.add_zero] at h0
    refine ⟨by rw [hl]; rfl, ?_, ?_⟩
    · rw [Q.face_normals, Nat.mul_comm 2, h0]
      simp [b0, b1]
    · rw [Q.face_normals, Nat.mul_comm 2, h1]
      simp [a0, a1]

theorem face_node_list3_valid (G : UnstructuredGrid) (nx ny nz : Nat) (T : Topo3d G nx ny nz)
    (f : Nat) (hf : f < G.number_of_faces) :
    ∀ n ∈ face_node_list G f, 0 ≤ n ∧ n < (G.number_of_nodes : Int) := by
  rw [T.number_of_faces] at hf
  rw [T.number_of_nodes]
  have key : ∀ a b c, a ≤ nx → b ≤ ny → c ≤ nz →
      0 ≤ ((node3d nx ny a b c : Nat) : Int) ∧
      ((node3d nx ny a b c : Nat) : Int) < (((nx + 1) * (ny + 1) * (nz + 1) : Nat) : Int) :=
    fun a b c ha hb hc => ⟨Int.natCast_nonneg _, by exact_mod_cast node3d_lt ha hb hc⟩
  rcases face_cases3 nx ny nz f hf with ⟨i, j, k, hi, hj, hk, rfl⟩ |
    ⟨i, j, k, hi, hj, hk, rfl⟩ | ⟨i, j, k, hi, hj, hk, rfl⟩
  · rw [face_node_list3_x G nx ny nz T i j k hi hj hk]
    intro n hn
    simp only [face_nodes3d_x, List.map_cons, List.map_nil, List.mem_cons, List.mem_nil_iff,
      or_false] at hn
    rcases hn with rfl | rfl | rfl | rfl <;> apply key <;> omega
  · rw [face_node_list3_y G nx ny nz T i j k hi hj hk]
    intro n hn
    simp only [face_nodes3d_y, List.map_cons, List.map_nil, List.mem_cons, List.mem_nil_iff,
      or_false] at hn
    rcases hn with rfl | rfl | rfl | rfl <;> apply key <;> omega
  · rw [face_node_list3_z G nx ny nz T i j k hi hj hk]
    intro n hn
    simp only [face_nodes3d_z, List.map_cons, List.map_nil, List.mem_cons, List.mem_nil_iff,
      or_false] at hn
    rcases hn with rfl | rfl | rfl | rfl <;> apply key <;> omega

theorem face_node_list2_valid (G : UnstructuredGrid) (nx ny : Nat) (T : Topo2d G nx ny)
    (f : Nat) (hf : f < G.number_of_faces) :
    ∀ n ∈ face_node_list G f, 0 ≤ n ∧ n < (G.number_of_nodes : Int) := by
  rw [T.number_of_faces] at hf
  rw [T.number_of_nodes]
  have key : ∀ a b, a ≤ nx → b ≤ ny →
      0 ≤ ((node2d nx a b : Nat) : Int) ∧
      ((node2d nx a b : Nat) : Int) < (((nx + 1) * (ny + 1) : Nat) : Int) :=
    fun a b ha hb => ⟨Int.natCast_nonneg _, by exact_mod_cast node2d_lt ha hb⟩
  rcases face_cases2 nx ny f hf with ⟨i, j, hi, hj, rfl⟩ | ⟨i, j, hi, hj, rfl⟩
  · rw [face_node_list2_x G nx ny T i j hi hj]
    intro n hn
    simp only [face_nodes2d_x, List.map_cons, List.map_nil, List.mem_cons, List.mem_nil_iff,
      or_false] at hn
    rcases hn with rfl | rfl <;> apply key <;> omega
  · rw [face_node_list2_y G nx ny T i j hi hj]
    intro n hn
    simp only [face_nodes2d_y, List.map_cons, List.map_nil, List.mem_cons, List.mem_nil_iff,
      or_false] at hn
    rcases hn with rfl | rfl <;> apply key <;> omega

/-! ### The two neighbours of a face -/

/-- The neighbour slots of the x-normal face `(i, j, k)`: the first is `-1` or
the cell `(i - 1, j, k)`, the second is `-1` or the cell `(i, j, k)`. -/
theorem slots3_x (nx ny nz i j k : Nat) (hnx : 1 ≤ nx) (hi : i ≤ nx) (hj : j < ny)
    (hk : k < nz) :
    ∃ a b : Int,
      (fcells3d_x nx ny nz ++ fcells3d_y nx ny nz ++ fcells3d_z nx ny nz)[
        2 * (i + (nx + 1) * (j + ny * k))]? = some a ∧
      (fcells3d_x nx ny nz ++ fcells3d_y nx ny nz ++ fcells3d_z nx ny nz)[
        2 * (i + (nx + 1) * (j + ny * k)) + 1]? = some b ∧
      (a = -1 ∨ ∃ i', i = i' + 1 ∧ a = ((i' + nx * (j + ny * k) : Nat) : Int)) ∧
      (b = -1 ∨ (i < nx ∧ b = ((i + nx * (j + ny * k) : Nat) : Int))) := by
  have g0 := fcells3d_get_x nx ny nz i j k 0 hi hj hk (by omega)
  have g1 := fcells3d_get_x nx ny nz i j k 1 hi hj hk (by omega)
  rw [Nat.add_zero] at g0
  rw [g0, g1]
  rcases Nat.eq_zero_or_pos i with h0 | h0
  · subst h0
    exact ⟨_, _, fcells3d_x_block_first nx ny j k, fcells3d_x_block_low nx ny 0 j k (by omega),
      Or.inl rfl, Or.inr ⟨by omega, rfl⟩⟩
  · obtain ⟨i', rfl⟩ : ∃ i', i = i' + 1 := ⟨i - 1, by omega⟩
    by_cases h1 : i' + 1 = nx
    · refine ⟨_, _, fcells3d_x_block_high nx ny i' j k, ?_, Or.inr ⟨i', rfl, rfl⟩, Or.inl rfl⟩
      rw [h1]; exact fcells3d_x_block_last nx ny j k (by omega)
    · exact ⟨_, _, fcells3d_x_block_high nx ny i' j k,
        fcells3d_x_block_low nx ny (i' + 1) j k (by omega), Or.inr ⟨i', rfl, rfl⟩,
        Or.inr ⟨by omega, rfl⟩⟩

/-- The neighbour slots of the y-normal face `(i, j, k)`: the first is `-1` or
the cell `(i, j - 1, k)`, the second is `-1` or the cell `(i, j, k)`. -/
theorem slots3_y (nx ny nz i j k : Nat) (hny : 1 ≤ ny) (hi : i < nx) (hj : j ≤ ny)
    (hk : k < nz) :
    ∃ a b : Int,
      (fcells3d_x nx ny nz ++ fcells3d_y nx ny nz ++ fcells3d_z nx ny nz)[
        2 * ((nx + 1) * ny * nz + (i + nx * (j + (ny + 1) * k)))]? = some a ∧
      (fcells3d_x nx ny nz ++ fcells3d_y nx ny nz ++ fcells3d_z nx ny nz)[
        2 * ((nx + 1) * ny * nz + (i + nx * (j + (ny + 1) * k))) + 1]? = some b ∧
      (a = -1 ∨ ∃ j', j = j' + 1 ∧ a = ((i + nx * (j' + ny * k) : Nat) : Int)) ∧
      (b = -1 ∨ (j < ny ∧ b = ((i + nx * (j + ny * k) : Nat) : Int))) := by
  have g0 := fcells3d_get_y nx ny nz i j k 0 hi hj hk (by omega)
  have g1 := fcells3d_get_y nx ny nz i j k 1 hi hj hk (by omega)
  rw [Nat.add_zero] at g0
  rw [g0, g1]
  rcases Nat.eq_zero_or_pos j with h0 | h0
  · subst h0
    exact ⟨_, _, fcells3d_y_block_first nx ny i k, fcells3d_y_block_low nx ny i 0 k (by omega),
      Or.inl rfl, Or.inr ⟨by omega, rfl⟩⟩
  · obtain ⟨j', rfl⟩ : ∃ j', j = j' + 1 := ⟨j - 1, by omega⟩
    by_cases h1 : j' + 1 = ny
    · refine ⟨_, _, fcells3d_y_block_high nx ny i j' k, ?_, Or.inr ⟨j', rfl, rfl⟩, Or.inl rfl⟩
      rw [h1]; exact fcells3d_y_block_last nx ny i k (by omega)
    · exact ⟨_, _, fcells3d_y_block_high nx ny i j' k,
        fcells3d_y_block_low nx ny i (j' + 1) k (by omega), Or.inr ⟨j', rfl, rfl⟩,
        Or.inr ⟨by omega, rfl⟩⟩

/-- The neighbour slots of the z-normal face `(i, j, k)`: the first is `-1` or
the cell `(i, j, k - 1)`, the second is `-1` or the cell `(i, j, k)`. -/
theorem slots3_z (nx ny nz i j k : Nat) (hnz : 1 ≤ nz) (hi : i < nx) (hj : j < ny)
    (hk : k ≤ nz) :
    ∃ a b : Int,
      (fcells3d_x nx ny nz ++ fcells3d_y nx ny nz ++ fcells3d_z nx ny nz)[
        2 * ((nx + 1) * ny * nz + nx * (ny + 1) * nz + (i + nx * (j + ny * k)))]? = some a ∧
      (fcells3d_x nx ny nz ++ fcells3d_y nx ny nz ++ fcells3d_z nx ny nz)[
        2 * ((nx + 1) * ny * nz + nx * (ny + 1) * nz + (i + nx * (j + ny * k))) + 1]? =
        some b ∧
      (a = -1 ∨ ∃ k', k = k' + 1 ∧ a = ((i + nx * (j + ny * k') : Nat) : Int)) ∧
      (b = -1 ∨ (k < nz ∧ b = ((i + nx * (j + ny * k) : Nat) : Int))) := by
  have g0 := fcells3d_get_z nx ny nz i j k 0 hi hj hk (by omega)
  have g1 := fcells3d_get_z nx ny nz i j k 1 hi hj hk (by omega)
  rw [Nat.add_zero] at g0
  rw [g0, g1]
  rcases Nat.eq_zero_or_pos k with h0 | h0
  · subst h0
    exact ⟨_, _, fcells3d_z_block_first nx ny nz i j,
      fcells3d_z_block_low nx ny nz i j 0 (by omega), Or.inl rfl, Or.inr ⟨by omega, rfl⟩⟩
  · obtain ⟨k', rfl⟩ : ∃ k', k = k' + 1 := ⟨k - 1, by omega⟩
    by_cases h1 : k' + 1 = nz
    · refine ⟨_, _, fcells3d_z_block_high nx ny nz i j k', ?_, Or.inr ⟨k', rfl, rfl⟩,
        Or.inl rfl⟩
      rw [h1]; exact fcells3d_z_block_last nx ny nz i j (by omega)
    · exact ⟨_, _, fcells3d_z_block_high nx ny nz i j k',
        fcells3d_z_block_low nx ny nz i j (k' + 1) (by omega), Or.inr ⟨k', rfl, rfl⟩,
        Or.inr ⟨by omega, rfl⟩⟩

theorem ccent3d_get (nx ny nz : Nat) (x y z : List ℚ) (i j k r : Nat) (hi : i < nx)
    (hj : j < ny) (hk : k < nz) (hr : r < 3) :
    (ccent3d nx ny nz x y z)[(i + nx * (j + ny * k)) * 3 + r]? =
      [(rd x i + rd x (i + 1)) / 2, (rd y j + rd y (j + 1)) / 2,
        (rd z k + rd z (k + 1)) / 2][r]? :=
  emitted3_getElem? 3 _ (fun _ _ _ => by rfl) nx ny nz i j k r hi hj hk hr

theorem cvol3d_get (nx ny nz : Nat) (x y z : List ℚ) (i j k : Nat) (hi : i < nx)
    (hj : j < ny) (hk : k < nz) :
    (cvol3d nx ny nz x y z)[i + nx * (j + ny * k)]? =
      some ((rd x (i + 1) - rd x i) * (rd y (j + 1) - rd y j) * (rd z (k + 1) - rd z k)) := by
  have h := emitted3_getElem? 1
    (fun i j k => [(rd x (i + 1) - rd x i) * (rd y (j + 1) - rd y j) * (rd z (k + 1) - rd z k)])
    (fun _ _ _ => by rfl) nx ny nz i j k 0 hi hj hk (by omega)
  simp only [Nat.mul_one, Nat.add_zero] at h
  exact h

/-- Comparing a stored cell centroid with a stored face centroid, component by
component: the components along axis `a` are related by `R`, the others are
equal. -/
theorem side_facts (R : ℚ → ℚ → Prop) (cc fc cv fv : List ℚ) (bc bf a : Nat) (ha : a < 3)
    (hcv : cv.length = 3) (hfv : fv.length = 3)
    (hc : ∀ r, r < 3 → cc[bc + r]? = cv[r]?) (hf : ∀ r, r < 3 → fc[bf + r]? = fv[r]?)
    (hR : R (cv.getD a 0) (fv.getD a 0))
    (heq : ∀ b, b < 3 → b ≠ a → cv.getD b 0 = fv.getD b 0) :
    (∃ u v, cc[bc + a]? = some u ∧ fc[bf + a]? = some v ∧ R u v) ∧
    ∀ b, b < 3 → b ≠ a → ∃ v, cc[bc + b]? = some v ∧ fc[bf + b]? = some v := by
  have gc : ∀ r, r < 3 → cc[bc + r]? = some (cv.getD r 0) := by
    intro r hr
    rw [hc r hr, List.getD_eq_getElem?_getD, List.getElem?_eq_getElem (by omega)]; rfl
  have gf : ∀ r, r < 3 → fc[bf + r]? = some (fv.getD r 0) := by
    intro r hr
    rw [hf r hr, List.getD_eq_getElem?_getD, List.getElem?_eq_getElem (by omega)]; rfl
  refine ⟨⟨_, _, gc a ha, gf a ha, hR⟩, fun b hb hne => ⟨_, gc b hb, ?_⟩⟩
  rw [gf b hb, heq b hb hne]

/-- The stored centroid of the cell `(ci, cj, ck)` against a stored face
centroid `fv`, for a neighbour slot holding that cell. -/
theorem cell_vs_face (R : ℚ → ℚ → Prop) (G : UnstructuredGrid) (nx ny nz : Nat)
    (x y z : List ℚ) (T : Topo3d G nx ny nz) (Q : Geom3d G nx ny nz x y z)
    (ci cj ck : Nat) (hci : ci < nx) (hcj : cj < ny) (hck : ck < nz) (f a : Nat) (ha : a < 3)
    (fv : List ℚ) (hfv : fv.length = 3)
    (hf : ∀ r, r < 3 → G.face_centroids[3 * f + r]? = fv[r]?)
    (hR : R ([(rd x ci + rd x (ci + 1)) / 2, (rd y cj + rd y (cj + 1)) / 2,
      (rd z ck + rd z (ck + 1)) / 2].getD a 0) (fv.getD a 0))
    (heq : ∀ b, b < 3 → b ≠ a →
      [(rd x ci + rd x (ci + 1)) / 2, (rd y cj + rd y (cj + 1)) / 2,
        (rd z ck + rd z (ck + 1)) / 2].getD b 0 = fv.getD b 0)
    (c : Int) (hc : c = ((ci + nx * (cj + ny * ck) : Nat) : Int)) :
    0 ≤ c ∧ c < (G.number_of_cells : Int) ∧
    (∃ u v, G.cell_centroids[3 * c.toNat + a]? = some u ∧
      G.face_centroids[3 * f + a]? = some v ∧ R u v) ∧
    ∀ b, b < 3 → b ≠ a → ∃ v, G.cell_centroids[3 * c.toNat + b]? = some v ∧
      G.face_centroids[3 * f + b]? = some v := by
  subst hc
  rw [Int.toNat_natCast, T.number_of_cells]
  refine ⟨Int.natCast_nonneg _, by exact_mod_cast lex3_lt hci hcj hck, ?_⟩
  exact side_facts R G.cell_centroids G.face_centroids
    [(rd x ci + rd x (ci + 1)) / 2, (rd y cj + rd y (cj + 1)) / 2,
      (rd z ck + rd z (ck + 1)) / 2] fv _ _ a ha rfl hfv
    (fun r hr => by
      rw [Q.cell_centroids, Nat.mul_comm 3]
      exact ccent3d_get nx ny nz x y z ci cj ck r hci hcj hck hr) hf hR heq

/-- In a 3D axis-aligned grid with positive counts and strictly increasing
coordinates, every face has positive area and a normal that points along its
axis from the first neighbour to the second. -/
theorem orientation3 (G : UnstructuredGrid) (nx ny nz : Nat) (x y z : List ℚ)
    (T : Topo3d G nx ny nz) (Q : Geom3d G nx ny nz x y z)
    (hnx : 1 ≤ nx) (hny : 1 ≤ ny) (hnz : 1 ≤ nz)
    (hx : ∀ i, i < nx → rd x i < rd x (i + 1)) (hy : ∀ j, j < ny → rd y j < rd y (j + 1))
    (hz : ∀ k, k < nz → rd z k < rd z (k + 1))
    (f a : Nat) (hf : f < G.number_of_faces)
    (ha : a = face_family ((nx + 1) * ny * nz) (nx * (ny + 1) * nz) f) :
    a < 3 ∧
    (∃ n s, G.face_normals[3 * f + a]? = some n ∧ G.face_areas[f]? = some s ∧ 0 < n ∧ 0 < s) ∧
    (∀ c0 : Int, G.face_cells[2 * f]? = some c0 → c0 ≠ -1 →
      0 ≤ c0 ∧ c0 < (G.number_of_cells : Int) ∧
      (∃ u v, G.cell_centroids[3 * c0.toNat + a]? = some u ∧
        G.face_centroids[3 * f + a]? = some v ∧ u < v) ∧
      ∀ b, b < 3 → b ≠ a → ∃ v, G.cell_centroids[3 * c0.toNat + b]? = some v ∧
        G.face_centroids[3 * f + b]? = some v) ∧
    (∀ c1 : Int, G.face_cells[2 * f + 1]? = some c1 → c1 ≠ -1 →
      0 ≤ c1 ∧ c1 < (G.number_of_cells : Int) ∧
      (∃ u v, G.cell_centroids[3 * c1.toNat + a]? = some u ∧
        G.face_centroids[3 * f + a]? = some v ∧ v < u) ∧
      ∀ b, b < 3 → b ≠ a → ∃ v, G.cell_centroids[3 * c1.toNat + b]? = some v ∧
        G.face_centroids[3 * f + b]? = some v) := by
  rw [T.number_of_faces] at hf
  rcases face_cases3 nx ny nz f hf with ⟨i, j, k, hi, hj, hk, rfl⟩ |
    ⟨i, j, k, hi, hj, hk, rfl⟩ | ⟨i, j, k, hi, hj, hk, rfl⟩
  · have hb : i + (nx + 1) * (j + ny * k) < (nx + 1) * ny * nz :=
      lex3_lt (Nat.lt_succ_of_le hi) hj hk
    have ha0 : a = 0 := by rw [ha, face_family, if_pos hb]
    subst ha0
    have hfc : ∀ r, r < 3 → G.face_centroids[3 * (i + (nx + 1) * (j + ny * k)) + r]? =
        [rd x i, (rd y j + rd y (j + 1)) / 2, (rd z k + rd z (k + 1)) / 2][r]? := fun r hr => by
      rw [Q.face_centroids, Nat.mul_comm 3]
      exact fcent3d_get_x nx ny nz x y z i j k r hi hj hk hr
    obtain ⟨s0, s1, g0, g1, o0, o1⟩ := slots3_x nx ny nz i j k hnx hi hj hk
    rw [← T.face_cells] at g0 g1
    refine ⟨by omega, ⟨(rd y (j + 1) - rd y j) * (rd z (k + 1) - rd z k),
      (rd y (j + 1) - rd y j) * (rd z (k + 1) - rd z k), ?_, ?_, ?_, ?_⟩, ?_, ?_⟩
    · rw [Q.face_normals, Nat.mul_comm 3]
      exact fnorm3d_get_x nx ny nz x y z i j k 0 hi hj hk (by omega)
    · rw [Q.face_areas]
      exact farea3d_get_x nx ny nz x y z i j k hi hj hk
    · exact mul_pos (sub_pos.2 (hy j hj)) (sub_pos.2 (hz k hk))
    · exact mul_pos (sub_pos.2 (hy j hj)) (sub_pos.2 (hz k hk))
    · intro c0 h hne
      rw [g0] at h
      have e := Option.some.inj h
      subst e
      rcases o0 with o | ⟨i', rfl, o⟩
      · exact absurd o hne
      · refine cell_vs_face (fun u v => u < v) G nx ny nz x y z T Q i' j k (by omega) hj hk _ 0
          (by omega) _ (by rfl) hfc ?_ ?_ _ o
        · have := hx i' (by omega)
          simp only [List.getD_cons_zero]
          linarith
        · intro b hb hne
          interval_cases b
          · exact absurd rfl hne
          · rfl
          · rfl
    · intro c1 h hne
      rw [g1] at h
      have e := Option.some.inj h
      subst e
      rcases o1 with o | ⟨hlt, o⟩
      · exact absurd o hne
      · refine cell_vs_face (fun u v => v < u) G nx ny nz x y z T Q i j k hlt hj hk _ 0
          (by omega) _ (by rfl) hfc ?_ ?_ _ o
        · have := hx i hlt
          simp only [List.getD_cons_zero]
          linarith
        · intro b hb hne
          interval_cases b
          · exact absurd rfl hne
          · rfl
          · rfl
  · have hb : i + nx * (j + (ny + 1) * k) < nx * (ny + 1) * nz :=
      lex3_lt hi (Nat.lt_succ_of_le hj) hk
    have ha0 : a = 1 := by
      rw [ha, face_family, if_neg (by omega), if_pos (by omega)]
    subst ha0
    have hfc : ∀ r, r < 3 →
        G.face_centroids[3 * ((nx + 1) * ny * nz + (i + nx * (j + (ny + 1) * k))) + r]? =
        [(rd x i + rd x (i + 1)) / 2, rd y j, (rd z k + rd z (k + 1)) / 2][r]? := fun r hr => by
      rw [Q.face_centroids, Nat.mul_comm 3]
      exact fcent3d_get_y nx ny nz x y z i j k r hi hj hk hr
    obtain ⟨s0, s1, g0, g1, o0, o1⟩ := slots3_y nx ny nz i j k hny hi hj hk
    rw [← T.face_cells] at g0 g1
    refine ⟨by omega, ⟨(rd x (i + 1) - rd x i) * (rd z (k + 1) - rd z k),
      (rd x (i + 1) - rd x i) * (rd z (k + 1) - rd z k), ?_, ?_, ?_, ?_⟩, ?_, ?_⟩
    · rw [Q.face_normals, Nat.mul_comm 3]
      exact fnorm3d_get_y nx ny nz x y z i j k 1 hi hj hk (by omega)
    · rw [Q.face_areas]
      exact farea3d_get_y nx ny nz x y z i j k hi hj hk
    · exact mul_pos (sub_pos.2 (hx i hi)) (sub_pos.2 (hz k hk))
    · exact mul_pos (sub_pos.2 (hx i hi)) (sub_pos.2 (hz k hk))
    · intro c0 h hne
      rw [g0] at h
      have e := Option.some.inj h
      subst e
      rcases o0 with o | ⟨j', rfl, o⟩
      · exact absurd o hne
      · refine cell_vs_face (fun u v => u < v) G nx ny nz x y z T Q i j' k hi (by omega) hk _ 1
          (by omega) _ (by rfl) hfc ?_ ?_ _ o
        · have := hy j' (by omega)
          simp only [List.getD_cons_zero, List.getD_cons_succ]
          linarith
        · intro b hb hne
          interval_cases b
          · rfl
          · exact absurd rfl hne
          · rfl
    · intro c1 h hne
      rw [g1] at h
      have e := Option.some.inj h
      subst e
      rcases o1 with o | ⟨hlt, o⟩
      · exact absurd o hne
      · refine cell_vs_face (fun u v => v < u) G nx ny nz x y z T Q i j k hi hlt hk _ 1
          (by omega) _ (by rfl) hfc ?_ ?_ _ o
        · have := hy j hlt
          simp only [List.getD_cons_zero, List.getD_cons_succ]
          linarith
        · intro b hb hne
          interval_cases b
          · rfl
          · exact absurd rfl hne
          · rfl
  · have hb : i + nx * (j + ny * k) < nx * ny * (nz + 1) :=
      lex3_lt hi hj (Nat.lt_succ_of_le hk)
    have ha0 : a = 2 := by
      rw [ha, face_family, if_neg (by omega), if_neg (by omega)]
    subst ha0
    have hfc : ∀ r, r < 3 →
        G.face_centroids[
          3 * ((nx + 1) * ny * nz + nx * (ny + 1) * nz + (i + nx * (j + ny * k))) + r]? =
        [(rd x i + rd x (i + 1)) / 2, (rd y j + rd y (j + 1)) / 2, rd z k][r]? := fun r hr => by
      rw [Q.face_centroids, Nat.mul_comm 3]
      exact fcent3d_get_z nx ny nz x y z i j k r hi hj hk hr
    obtain ⟨s0, s1, g0, g1, o0, o1⟩ := slots3_z nx ny nz i j k hnz hi hj hk
    rw [← T.face_cells] at g0 g1
    refine ⟨by omega, ⟨(rd x (i + 1) - rd x i) * (rd y (j + 1) - rd y j),
      (rd x (i + 1) - rd x i) * (rd y (j + 1) - rd y j), ?_, ?_, ?_, ?_⟩, ?_, ?_⟩
    · rw [Q.face_normals, Nat.mul_comm 3]
      exact fnorm3d_get_z nx ny nz x y z i j k 2 hi hj hk (by omega)
    · rw [Q.face_areas]
      exact farea3d_get_z nx ny nz x y z i j k hi hj hk
    · exact mul_pos (sub_pos.2 (hx i hi)) (sub_pos.2 (hy j hj))
    · exact mul_pos (sub_pos.2 (hx i hi)) (sub_pos.2 (hy j hj))
    · intro c0 h hne
      rw [g0] at h
      have e := Option.some.inj h
      subst e
      rcases o0 with o | ⟨k', rfl, o⟩
      · exact absurd o hne
      · refine cell_vs_face (fun u v => u < v) G nx ny nz x y z T Q i j k' hi hj (by omega) _ 2
          (by omega) _ (by rfl) hfc ?_ ?_ _ o
        · have := hz k' (by omega)
          simp only [List.getD_cons_zero, List.getD_cons_succ]
          linarith
        · intro b hb hne
          interval_cases b
          · rfl
          · rfl
          · exact absurd rfl hne
    · intro c1 h hne
      rw [g1] at h
      have e := Option.some.inj h
      subst e
      rcases o1 with o | ⟨hlt, o⟩
      · exact absurd o hne
      · refine cell_vs_face (fun u v => v < u) G nx ny nz x y z T Q i j k hi hj hlt _ 2
          (by omega) _ (by rfl) hfc ?_ ?_ _ o
        · have := hz k hlt
          simp only [List.getD_cons_zero, List.getD_cons_succ]
          linarith
        · intro b hb hne
          interval_cases b
          · rfl
          · rfl
          · exact absurd rfl hne

theorem volumes_positive3 (G : UnstructuredGrid) (nx ny nz : Nat) (x y z : List ℚ)
    (T : Topo3d G nx ny nz) (Q : Geom3d G nx ny nz x y z)
    (hx : ∀ i, i < nx → rd x i < rd x (i + 1)) (hy : ∀ j, j < ny → rd y j < rd y (j + 1))
    (hz : ∀ k, k < nz → rd z k < rd z (k + 1)) (c : Nat) (hc : c < G.number_of_cells) :
    ∃ v, G.cell_volumes[c]? = some v ∧ 0 < v := by
  rw [T.number_of_cells] at hc
  obtain ⟨i, j, k, hi, hj, hk, rfl⟩ := cell_decomp3 nx ny nz c hc
  refine ⟨_, by rw [Q.cell_volumes]; exact cvol3d_get nx ny nz x y z i j k hi hj hk, ?_⟩
  exact mul_pos (mul_pos (sub_pos.2 (hx i hi)) (sub_pos.2 (hy j hj))) (sub_pos.2 (hz k hk))

/-! ## The corner nodes of a cell -/

theorem lex_inj {n i q i' q' : Nat} (hi : i < n) (hi' : i' < n) (h : i + n * q = i' + n * q') :
    i = i' ∧ q = q' := by
  have h1 : (i + n * q) % n = i := by
    rw [Nat.add_mul_mod_self_left]; exact Nat.mod_eq_of_lt hi
  have h2 : (i' + n * q') % n = i' := by
    rw [Nat.add_mul_mod_self_left]; exact Nat.mod_eq_of_lt hi'
  have e : i = i' := by rw [← h1, ← h2, h]
  subst e
  exact ⟨rfl, Nat.eq_of_mul_eq_mul_left (by omega) (Nat.add_left_cancel h)⟩

/-- Distinct index triples within the node lattice give distinct nodes. -/
theorem node3d_inj {nx ny a b c a' b' c' : Nat} (ha : a ≤ nx) (ha' : a' ≤ nx) (hb : b ≤ ny)
    (hb' : b' ≤ ny) (h : node3d nx ny a b c = node3d nx ny a' b' c') :
    a = a' ∧ b = b' ∧ c = c' := by
  obtain ⟨e1, h2⟩ := lex_inj (Nat.lt_succ_of_le ha) (Nat.lt_succ_of_le ha') h
  obtain ⟨e2, e3⟩ := lex_inj (Nat.lt_succ_of_le hb) (Nat.lt_succ_of_le hb') h2
  exact ⟨e1, e2, e3⟩

theorem face_nodes3d_x_nodup (nx ny i j k : Nat) (hi : i ≤ nx) (hj : j < ny) :
    (face_nodes3d_x nx ny i j k).Nodup := by
  simp only [face_nodes3d_x, List.nodup_cons, List.mem_cons, List.mem_singleton,
    List.not_mem_nil, not_or, List.nodup_nil, and_true, not_false_eq_true, or_false]
  refine ⟨⟨?_, ?_, ?_⟩, ⟨?_, ?_⟩, ?_⟩ <;>
    (intro h
     have := node3d_inj (by omega) (by omega) (by omega) (by omega) h
     omega)

theorem face_nodes3d_y_nodup (nx ny i j k : Nat) (hi : i < nx) (hj : j ≤ ny) :
    (face_nodes3d_y nx ny i j k).Nodup := by
  simp only [face_nodes3d_y, List.nodup_cons, List.mem_cons, List.mem_singleton,
    List.not_mem_nil, not_or, List.nodup_nil, and_true, not_false_eq_true, or_false]
  refine ⟨⟨?_, ?_, ?_⟩, ⟨?_, ?_⟩, ?_⟩ <;>
    (intro h
     have := node3d_inj (by omega) (by omega) (by omega) (by omega) h
     omega)

theorem face_nodes3d_z_nodup (nx ny i j k : Nat) (hi : i < nx) (hj : j < ny) :
    (face_nodes3d_z nx ny i j k).Nodup := by
  simp only [face_nodes3d_z, List.nodup_cons, List.mem_cons, List.mem_singleton,
    List.not_mem_nil, not_or, List.nodup_nil, and_true, not_false_eq_true, or_false]
  refine ⟨⟨?_, ?_, ?_⟩, ⟨?_, ?_⟩, ?_⟩ <;>
    (intro h
     have := node3d_inj (by omega) (by omega) (by omega) (by omega) h
     omega)

theorem cast_nodup (l : List Nat) (h : l.Nodup) :
    (l.map (fun (n : Nat) => (n : Int))).Nodup :=
  List.Nodup.map (fun _ _ e => by exact_mod_cast e) h

/-- The nodes of the x-normal face at offset `s` of cell `(i, j, k)` are the
corners of the cell with x-offset `s`. -/
theorem corners_x (nx ny i j k s : Nat) (hs : s < 2) (n : Int) :
    n ∈ (face_nodes3d_x nx ny (i + s) j k).map (fun (n : Nat) => (n : Int)) ↔
      ∃ a b d, a < 2 ∧ b < 2 ∧ d < 2 ∧ a = s ∧
        n = (((i + a) + (nx + 1) * ((j + b) + (ny + 1) * (k + d)) : Nat) : Int) := by
  simp only [face_nodes3d_x, node3d, List.map_cons, List.map_nil, List.mem_cons,
    List.mem_nil_iff, or_false]
  constructor
  · rintro (rfl | rfl | rfl | rfl)
    · exact ⟨s, 0, 0, hs, by omega, by omega, rfl, rfl⟩
    · exact ⟨s, 1, 0, hs, by omega, by omega, rfl, rfl⟩
    · exact ⟨s, 1, 1, hs, by omega, by omega, rfl, rfl⟩
    · exact ⟨s, 0, 1, hs, by omega, by omega, rfl, rfl⟩
  · rintro ⟨a, b, d, -, hb, hd, rfl, rfl⟩
    interval_cases b <;> interval_cases d <;> simp

/-- The nodes of the y-normal face at offset `s` of cell `(i, j, k)` are the
corners of the cell with y-offset `s`. -/
theorem corners_y (nx ny i j k s : Nat) (hs : s < 2) (n : Int) :
    n ∈ (face_nodes3d_y nx ny i (j + s) k).map (fun (n : Nat) => (n : Int)) ↔
      ∃ a b d, a < 2 ∧ b < 2 ∧ d < 2 ∧ b = s ∧
        n = (((i + a) + (nx + 1) * ((j + b) + (ny + 1) * (k + d)) : Nat) : Int) := by
  simp only [face_nodes3d_y, node3d, List.map_cons, List.map_nil, List.mem_cons,
    List.mem_nil_iff, or_false]
  constructor
  · rintro (rfl | rfl | rfl | rfl)
    · exact ⟨0, s, 0, by omega, hs, by omega, rfl, rfl⟩
    · exact ⟨0, s, 1, by omega, hs, by omega, rfl, rfl⟩
    · exact ⟨1, s, 1, by omega, hs, by omega, rfl, rfl⟩
    · exact ⟨1, s, 0, by omega, hs, by omega, rfl, rfl⟩
  · rintro ⟨a, b, d, ha, -, hd, rfl, rfl⟩
    interval_cases a <;> interval_cases d <;> simp

/-- The nodes of the z-normal face at offset `s` of cell `(i, j, k)` are the
corners of the cell with z-offset `s`. -/
theorem corners_z (nx ny i j k s : Nat) (hs : s < 2) (n : Int) :
    n ∈ (face_nodes3d_z nx ny i j (k + s)).map (fun (n : Nat) => (n : Int)) ↔
      ∃ a b d, a < 2 ∧ b < 2 ∧ d < 2 ∧ d = s ∧
        n = (((i + a) + (nx + 1) * ((j + b) + (ny + 1) * (k + d)) : Nat) : Int) := by
  simp only [face_nodes3d_z, node3d, List.map_cons, List.map_nil, List.mem_cons,
    List.mem_nil_iff, or_false]
  constructor
  · rintro (rfl | rfl | rfl | rfl)
    · exact ⟨0, 0, s, by omega, by omega, hs, rfl, rfl⟩
    · exact ⟨1, 0, s, by omega, by omega, hs, rfl, rfl⟩
    · exact ⟨1, 1, s, by omega, by omega, hs, rfl, rfl⟩
    · exact ⟨0, 1, s, by omega, by omega, hs, rfl, rfl⟩
  · rintro ⟨a, b, d, ha, hb, -, rfl, rfl⟩
    interval_cases a <;> interval_cases b <;> simp

/-- The face at local position `p` of the 3D cell `(i, j, k)` has four distinct
nodes: the corners of the cell whose offset along axis `p / 2` is `p % 2`. -/
theorem face_of_cell (G : UnstructuredGrid) (nx ny nz : Nat) (T : Topo3d G nx ny nz)
    (i j k : Nat) (hi : i < nx) (hj : j < ny) (hk : k < nz) (p : Nat) (hp : p < 6) :
    (face_node_list G (cell_face3d nx ny nz i j k p)).length = 4 ∧
    (face_node_list G (cell_face3d nx ny nz i j k p)).Nodup ∧
    ∀ n : Int, n ∈ face_node_list G (cell_face3d nx ny nz i j k p) ↔
      ∃ a b d, a < 2 ∧ b < 2 ∧ d < 2 ∧ [a, b, d].getD (p / 2) 0 = p % 2 ∧
        n = (((i + a) + (nx + 1) * ((j + b) + (ny + 1) * (k + d)) : Nat) : Int) := by
  interval_cases p <;> simp only [cell_face3d]
  · rw [face_node_list3_x G nx ny nz T i j k (by omega) hj hk]
    exact ⟨rfl, cast_nodup _ (face_nodes3d_x_nodup nx ny i j k (by omega) hj),
      fun n => corners_x nx ny i j k 0 (by omega) n⟩
  · rw [face_node_list3_x G nx ny nz T (i + 1) j k (by omega) hj hk]
    exact ⟨rfl, cast_nodup _ (face_nodes3d_x_nodup nx ny (i + 1) j k (by omega) hj),
      fun n => corners_x nx ny i j k 1 (by omega) n⟩
  · rw [face_node_list3_y G nx ny nz T i j k hi (by omega) hk]
    exact ⟨rfl, cast_nodup _ (face_nodes3d_y_nodup nx ny i j k hi (by omega)),
      fun n => corners_y nx ny i j k 0 (by omega) n⟩
  · rw [face_node_list3_y G nx ny nz T i (j + 1) k hi (by omega) hk]
    exact ⟨rfl, cast_nodup _ (face_nodes3d_y_nodup nx ny i (j + 1) k hi (by omega)),
      fun n => corners_y nx ny i j k 1 (by omega) n⟩
  · rw [face_node_list3_z G nx ny nz T i j k hi hj (by omega)]
    exact ⟨rfl, cast_nodup _ (face_nodes3d_z_nodup nx ny i j k hi hj),
      fun n => corners_z nx ny i j k 0 (by omega) n⟩
  · rw [face_node_list3_z G nx ny nz T i j (k + 1) hi hj (by omega)]
    exact ⟨rfl, cast_nodup _ (face_nodes3d_z_nodup nx ny i j (k + 1) hi hj),
      fun n => corners_z nx ny i j k 1 (by omega) n⟩

/-! ## Grids with a zero count and the validity of neighbour slots -/

/-- Every face of a 3D grid lists four pairwise distinct nodes. -/
theorem face_nodes_distinct3 (G : UnstructuredGrid) (nx ny nz : Nat) (T : Topo3d G nx ny nz)
    (f : Nat) (hf : f < G.number_of_faces) :
    (face_node_list G f).length = 4 ∧ (face_node_list G f).Nodup := by
  rw [T.number_of_faces] at hf
  rcases face_cases3 nx ny nz f hf with ⟨i, j, k, hi, hj, hk, rfl⟩ |
    ⟨i, j, k, hi, hj, hk, rfl⟩ | ⟨i, j, k, hi, hj, hk, rfl⟩
  · rw [face_node_list3_x G nx ny nz T i j k hi hj hk]
    exact ⟨rfl, cast_nodup _ (face_nodes3d_x_nodup nx ny i j k hi hj)⟩
  · rw [face_node_list3_y G nx ny nz T i j k hi hj hk]
    exact ⟨rfl, cast_nodup _ (face_nodes3d_y_nodup nx ny i j k hi hj)⟩
  · rw [face_node_list3_z G nx ny nz T i j k hi hj hk]
    exact ⟨rfl, cast_nodup _ (face_nodes3d_z_nodup nx ny i j k hi hj)⟩

/-- When a count is zero every face of the 3D grid is a low boundary face of
the family along that axis: its first neighbour slot is `-1` and its second
slot holds a non-negative number. -/
theorem zero_slots3 (nx ny nz : Nat) (h0 : nx = 0 ∨ ny = 0 ∨ nz = 0) (f : Nat)
    (hf : f < (nx + 1) * ny * nz + nx * (ny + 1) * nz + nx * ny * (nz + 1)) :
    (fcells3d_x nx ny nz ++ fcells3d_y nx ny nz ++ fcells3d_z nx ny nz)[2 * f]? = some (-1) ∧
    ∃ c : Int, 0 ≤ c ∧
      (fcells3d_x nx ny nz ++ fcells3d_y nx ny nz ++ fcells3d_z nx ny nz)[2 * f + 1]? =
        some c := by
  rcases face_cases3 nx ny nz f hf with ⟨i, j, k, hi, hj, hk, rfl⟩ |
    ⟨i, j, k, hi, hj, hk, rfl⟩ | ⟨i, j, k, hi, hj, hk, rfl⟩
  · have hi0 : i = 0 := by omega
    subst hi0
    have g0 := fcells3d_get_x nx ny nz 0 j k 0 hi hj hk (by omega)
    have g1 := fcells3d_get_x nx ny nz 0 j k 1 hi hj hk (by omega)
    rw [Nat.add_zero] at g0
    rw [g0, g1]
    refine ⟨fcells3d_x_block_first nx ny j k, (nx : Int) * (j + ny * k), by positivity, ?_⟩
    simp [fcells3d_x_block]
  · have hj0 : j = 0 := by omega
    subst hj0
    have g0 := fcells3d_get_y nx ny nz i 0 k 0 hi hj hk (by omega)
    have g1 := fcells3d_get_y nx ny nz i 0 k 1 hi hj hk (by omega)
    rw [Nat.add_zero] at g0
    rw [g0, g1]
    refine ⟨fcells3d_y_block_first nx ny i k, (i : Int) + nx * (ny * k), by positivity, ?_⟩
    simp [fcells3d_y_block]
  · have hk0 : k = 0 := by omega
    subst hk0
    have g0 := fcells3d_get_z nx ny nz i j 0 0 hi hj hk (by omega)
    have g1 := fcells3d_get_z nx ny nz i j 0 1 hi hj hk (by omega)
    rw [Nat.add_zero] at g0
    rw [g0, g1]
    refine ⟨fcells3d_z_block_first nx ny nz i j, (i : Int) + nx * j, by positivity, ?_⟩
    simp [fcells3d_z_block]

theorem i32_of_range (v : Int) (h0 : 0 ≤ v) (h1 : v < 2 ^ 31) : i32 v = v := by
  unfold i32
  omega

theorem i32_nat (n : Nat) (h : n < 2 ^ 31) : i32 (n : Int) = n :=
  i32_of_range n (Int.natCast_nonneg n) (by exact_mod_cast h)

theorem i32_modEq (a : Int) : i32 a ≡ a [ZMOD 2 ^ 32] := by
  unfold i32 Int.ModEq
  omega

theorem i32_congr {a b : Int} (h : a ≡ b [ZMOD 2 ^ 32]) : i32 a = i32 b := by
  unfold i32
  unfold Int.ModEq at h
  omega

theorem i32_add_left (a b : Int) : i32 (i32 a + b) = i32 (a + b) :=
  i32_congr ((i32_modEq a).add_right b)

theorem i32_add_right (a b : Int) : i32 (a + i32 b) = i32 (a + b) :=
  i32_congr ((i32_modEq b).add_left a)

theorem i32_mul_left (a b : Int) : i32 (i32 a * b) = i32 (a * b) :=
  i32_congr ((i32_modEq a).mul_right b)

theorem i32_mul_right (a b : Int) : i32 (a * i32 b) = i32 (a * b) :=
  i32_congr ((i32_modEq b).mul_left a)

theorem i32_sub_left (a b : Int) : i32 (i32 a - b) = i32 (a - b) :=
  i32_congr ((i32_modEq a).sub_right b)

/-- A wrapped expression whose exact value is a natural number below `2^31`
has that value. -/
theorem i32_eq_cast (e : Int) (n : Nat) (hn : n < 2 ^ 31) (h : e = (n : Int)) : i32 e = n := by
  rw [h]; exact i32_nat n hn

theorem forLoopM_spec {σ : Type} (Inv : Nat → σ → Prop) (n : Nat)
    (body : Nat → σ → Option σ) (body' : Nat → σ → σ)
    (h : ∀ i, i < n → ∀ s, Inv i s → body i s = some (body' i s) ∧ Inv (i + 1) (body' i s))
    (s : σ) (h0 : Inv 0 s) :
    forLoopM n body s = some (forLoop n body' s) ∧ Inv n (forLoop n body' s) := by
  induction n with
  | zero => exact ⟨rfl, h0⟩
  | succ n ih =>
    obtain ⟨e, hi⟩ := ih (fun i hi s hs => h i (Nat.lt_succ_of_lt hi) s hs)
    obtain ⟨e2, hi2⟩ := h n (Nat.lt_succ_self n) _ hi
    refine ⟨?_, hi2⟩
    show (forLoopM n body s).bind (body n) = some (body' n (forLoop n body' s))
    rw [e]; exact e2

/-- Three nested checked loops agree with the three nested loops when every
round does, the invariant being indexed by the number of rounds done. -/
theorem forLoopM3_spec {σ : Type} (Inv : Nat → σ → Prop) (n1 n2 n3 : Nat)
    (body : Nat → Nat → Nat → σ → Option σ) (body' : Nat → Nat → Nat → σ → σ)
    (h : ∀ i j k, i < n1 → j < n2 → k < n3 → ∀ s, Inv (i + n1 * (j + n2 * k)) s →
      body i j k s = some (body' i j k s) ∧ Inv (i + n1 * (j + n2 * k) + 1) (body' i j k s))
    (s : σ) (h0 : Inv 0 s) :
    forLoopM n3 (fun k s => forLoopM n2 (fun j s => forLoopM n1
        (fun i s => body i j k s) s) s) s =
      some (forLoop n3 (fun k s => forLoop n2 (fun j s => forLoop n1
        (fun i s => body' i j k s) s) s) s) ∧
    Inv (n1 * n2 * n3) (forLoop n3 (fun k s => forLoop n2 (fun j s => forLoop n1
        (fun i s => body' i j k s) s) s) s) := by
  have e3 : n1 * n2 * n3 = n1 * (n2 * n3) := Nat.mul_assoc _ _ _
  rw [e3]
  refine forLoopM_spec (fun k s => Inv (n1 * (n2 * k)) s) n3 _ _ ?_ s (by simpa using h0)
  intro k hk s hs
  have e2 : n1 * (n2 * (k + 1)) = n1 * (n2 + n2 * k) := by ring
  beta_reduce
  rw [e2]
  refine forLoopM_spec (fun j s => Inv (n1 * (j + n2 * k)) s) n2 _ _ ?_ s (by simpa using hs)
  intro j hj s hs
  have e1 : n1 * (j + 1 + n2 * k) = n1 + n1 * (j + n2 * k) := by ring
  beta_reduce
  rw [e1]
  refine forLoopM_spec (fun i s => Inv (i + n1 * (j + n2 * k)) s) n1 _ _ ?_ s
    (by simpa using hs)
  intro i hi s hs
  have e0 : i + 1 + n1 * (j + n2 * k) = i + n1 * (j + n2 * k) + 1 := by ring
  beta_reduce
  rw [e0]
  exact h i j k hi hj hk s hs

/-- Two nested checked loops agree with the two nested loops when every round
does. -/
theorem forLoopM2_spec {σ : Type} (Inv : Nat → σ → Prop) (n1 n2 : Nat)
    (body : Nat → Nat → σ → Option σ) (body' : Nat → Nat → σ → σ)
    (h : ∀ i j, i < n1 → j < n2 → ∀ s, Inv (i + n1 * j) s →
      body i j s = some (body' i j s) ∧ Inv (i + n1 * j + 1) (body' i j s))
    (s : σ) (h0 : Inv 0 s) :
    forLoopM n2 (fun j s => forLoopM n1 (fun i s => body i j s) s) s =
      some (forLoop n2 (fun j s => forLoop n1 (fun i s => body' i j s) s) s) ∧
    Inv (n1 * n2) (forLoop n2 (fun j s => forLoop n1 (fun i s => body' i j s) s) s) := by
  refine forLoopM_spec (fun j s => Inv (n1 * j) s) n2 _ _ ?_ s (by simpa using h0)
  intro j hj s hs
  have e1 : n1 * (j + 1) = n1 + n1 * j := by ring
  beta_reduce
  rw [e1]
  refine forLoopM_spec (fun i s => Inv (i + n1 * j) s) n1 _ _ ?_ s (by simpa using hs)
  intro i hi s hs
  have e0 : i + 1 + n1 * j = i + n1 * j + 1 := by ring
  beta_reduce
  rw [e0]
  exact h i j hi hj s hs

theorem Ptr.putC_bind {α β : Type} (p : Ptr α) (v : α) (f : Ptr α → Option β)
    (h : p.pos < p.buf.length) : (p.putC v).bind f = f (p.put v) := by
  simp [Ptr.putC, h]

theorem Ptr.storeC_bind {α β : Type} (p : Ptr α) (k : Nat) (v : α) (f : Ptr α → Option β)
    (h : p.pos + k < p.buf.length) : (p.storeC k v).bind f = f (p.store k v) := by
  simp [Ptr.storeC, h]

theorem Ptr.loadC_bind {β : Type} (p : Ptr Int) (k : Nat) (f : Int → Option β)
    (h : p.pos + k < p.buf.length) : (p.loadC k).bind f = f (p.load k) := by
  simp [Ptr.loadC, h]

theorem Ptr.put_pos {α : Type} (p : Ptr α) (v : α) : (p.put v).pos = p.pos + 1 := rfl

theorem Ptr.put_length {α : Type} (p : Ptr α) (v : α) :
    (p.put v).buf.length = p.buf.length := by
  simp [Ptr.put]

/-- The round `p[1] = v; ++p` leaves the cursor one entry further, on the
entry just written. -/
theorem Ptr.store_inc (p : Ptr Int) (v : Int) (h : p.pos + 1 < p.buf.length) :
    ((p.store 1 v).inc).pos = p.pos + 1 ∧
    ((p.store 1 v).inc).buf.length = p.buf.length ∧
    ((p.store 1 v).inc).load 0 = v := by
  refine ⟨rfl, by simp [Ptr.store, Ptr.inc], ?_⟩
  simp only [Ptr.load, Ptr.inc, Ptr.store, Nat.add_zero]
  rw [List.getD_eq_getElem?_getD, List.getElem?_set_self h]
  rfl

/-- A wrapped expression equals the expression the builder computes when both
have the value of one natural number below `2^31`. -/
theorem i32_eq_of (e w : Int) (n : Nat) (hn : n < 2 ^ 31) (h : e = (n : Int))
    (hw : w = (n : Int)) : i32 e = w := by
  rw [hw]; exact i32_eq_cast e n hn h

theorem cells_le_faces (nx ny nz : Nat) :
    nx * ny * nz ≤ (nx + 1) * ny * nz + nx * (ny + 1) * nz + nx * ny * (nz + 1) := by
  have : nx * ny * nz ≤ nx * ny * (nz + 1) := Nat.mul_le_mul_left _ (Nat.le_succ nz)
  omega

/-- Two checked stores through a cursor with room for two entries. -/
theorem Ptr.put2C (q : Ptr Int) (a a' b b' : Int) (h : q.pos + 1 < q.buf.length)
    (ha : a = a') (hb : b = b') :
    ((q.putC a).bind fun q => q.putC b) = some ((q.put a').put b') := by
  subst ha hb
  rw [Ptr.putC_bind _ _ _ (by omega)]
  unfold Ptr.putC
  rw [if_pos (by rw [Ptr.put_pos, Ptr.put_length]; exact h)]

theorem Ptr.put2_pos (q : Ptr Int) (a b : Int) :
    ((q.put a).put b).pos = q.pos + 2 ∧ ((q.put a).put b).buf.length = q.buf.length :=
  ⟨rfl, by rw [Ptr.put_length, Ptr.put_length]⟩

/-- One round of a cell loop with six faces per cell. -/
theorem cell_round6 (N c : Nat) (s : Ptr Int × Ptr Int) (hI : CellInv 6 N c s) (hc : c < N)
    (H : 6 * N < 2 ^ 31) (v0 v1 v2 v3 v4 v5 w0 w1 w2 w3 w4 w5 : Int)
    (h0 : v0 = w0) (h1 : v1 = w1) (h2 : v2 = w2) (h3 : v3 = w3) (h4 : v4 = w4) (h5 : v5 = w5) :
    ((s.1.putC v0).bind fun f1 => (f1.putC v1).bind fun f2 => (f2.putC v2).bind fun f3 =>
      (f3.putC v3).bind fun f4 => (f4.putC v4).bind fun f5 => (f5.putC v5).bind fun f6 =>
      (s.2.loadC 0).bind fun v => (s.2.storeC 1 (i32 (v + 6))).bind fun p =>
      some (f6, p.inc)) =
      some ((((((s.1.put w0).put w1).put w2).put w3).put w4).put w5,
        (s.2.store 1 (s.2.load 0 + 6)).inc) ∧
    CellInv 6 N (c + 1) ((((((s.1.put w0).put w1).put w2).put w3).put w4).put w5,
        (s.2.store 1 (s.2.load 0 + 6)).inc) := by
  subst h0 h1 h2 h3 h4 h5
  obtain ⟨e1, e2, e3, e4, e5⟩ := hI
  have hv : i32 (((6 * c : Nat) : Int) + 6) = ((6 * c : Nat) : Int) + 6 :=
    i32_of_range _ (by positivity) (by
      have : 6 * c + 6 < 2 ^ 31 := by omega
      exact_mod_cast this)
  refine ⟨?_, ?_, ?_, ?_, ?_, ?_⟩
  · rw [Ptr.putC_bind _ _ _ (by omega),
      Ptr.putC_bind _ _ _ (by simp only [Ptr.put_pos, Ptr.put_length]; omega),
      Ptr.putC_bind _ _ _ (by simp only [Ptr.put_pos, Ptr.put_length]; omega),
      Ptr.putC_bind _ _ _ (by simp only [Ptr.put_pos, Ptr.put_length]; omega),
      Ptr.putC_bind _ _ _ (by simp only [Ptr.put_pos, Ptr.put_length]; omega),
      Ptr.putC_bind _ _ _ (by simp only [Ptr.put_pos, Ptr.put_length]; omega),
      Ptr.loadC_bind _ _ _ (by omega)]
    rw [Ptr.storeC_bind s.2 1 _ _ (by omega), e5, hv]
  · show s.1.pos + 1 + 1 + 1 + 1 + 1 + 1 = 6 * (c + 1)
    omega
  · simp only [Ptr.put_length]; exact e2
  · rw [(Ptr.store_inc _ _ (by omega)).1, e3]
  · rw [(Ptr.store_inc _ _ (by omega)).2.1, e4]
  · rw [(Ptr.store_inc _ _ (by omega)).2.2, e5]; push_cast; ring

/-- One round of a cell loop with four faces per cell. -/
theorem cell_round4 (N c : Nat) (s : Ptr Int × Ptr Int) (hI : CellInv 4 N c s) (hc : c < N)
    (H : 4 * N < 2 ^ 31) (v0 v1 v2 v3 w0 w1 w2 w3 : Int)
    (h0 : v0 = w0) (h1 : v1 = w1) (h2 : v2 = w2) (h3 : v3 = w3) :
    ((s.1.putC v0).bind fun f1 => (f1.putC v1).bind fun f2 => (f2.putC v2).bind fun f3 =>
      (f3.putC v3).bind fun f4 =>
      (s.2.loadC 0).bind fun v => (s.2.storeC 1 (i32 (v + 4))).bind fun p =>
      some (f4, p.inc)) =
      some ((((s.1.put w0).put w1).put w2).put w3, (s.2.store 1 (s.2.load 0 + 4)).inc) ∧
    CellInv 4 N (c + 1) ((((s.1.put w0).put w1).put w2).put w3,
        (s.2.store 1 (s.2.load 0 + 4)).inc) := by
  subst h0 h1 h2 h3
  obtain ⟨e1, e2, e3, e4, e5⟩ := hI
  have hv : i32 (((4 * c : Nat) : Int) + 4) = ((4 * c : Nat) : Int) + 4 :=
    i32_of_range _ (by positivity) (by
      have : 4 * c + 4 < 2 ^ 31 := by omega
      exact_mod_cast this)
  refine ⟨?_, ?_, ?_, ?_, ?_, ?_⟩
  · rw [Ptr.putC_bind _ _ _ (by omega),
      Ptr.putC_bind _ _ _ (by simp only [Ptr.put_pos, Ptr.put_length]; omega),
      Ptr.putC_bind _ _ _ (by simp only [Ptr.put_pos, Ptr.put_length]; omega),
      Ptr.putC_bind _ _ _ (by simp only [Ptr.put_pos, Ptr.put_length]; omega),
      Ptr.loadC_bind _ _ _ (by omega)]
    rw [Ptr.storeC_bind s.2 1 _ _ (by omega), e5, hv]
  · show s.1.pos + 1 + 1 + 1 + 1 = 4 * (c + 1)
    omega
  · simp only [Ptr.put_length]; exact e2
  · rw [(Ptr.store_inc _ _ (by omega)).1, e3]
  · rw [(Ptr.store_inc _ _ (by omega)).2.1, e4]
  · rw [(Ptr.store_inc _ _ (by omega)).2.2, e5]; push_cast; ring

/-- One round of a face loop with four nodes per face; `Z` is the rest of the
round, which writes the two neighbour slots. -/
theorem face_round4 (F c : Nat) (t : Ptr Int × Ptr Int × Ptr Int) (hI : FaceInv 4 F c t)
    (hc : c < F) (H : 4 * F < 2 ^ 31) (v0 v1 v2 v3 w0 w1 w2 w3 : Int)
    (h0 : v0 = w0) (h1 : v1 = w1) (h2 : v2 = w2) (h3 : v3 = w3)
    (Z : Ptr Int → Ptr Int → Option (Ptr Int × Ptr Int × Ptr Int)) (Y : Ptr Int)
    (hZ : ∀ f p, Z f p = some (f, p.inc, Y))
    (hY : Y.pos = t.2.2.pos + 2 ∧ Y.buf.length = t.2.2.buf.length) :
    ((t.1.putC v0).bind fun f1 => (f1.putC v1).bind fun f2 => (f2.putC v2).bind fun f3 =>
      (f3.putC v3).bind fun f4 =>
      (t.2.1.loadC 0).bind fun v => (t.2.1.storeC 1 (i32 (v + 4))).bind fun p => Z f4 p) =
      some ((((t.1.put w0).put w1).put w2).put w3, (t.2.1.store 1 (t.2.1.load 0 + 4)).inc, Y) ∧
    FaceInv 4 F (c + 1) ((((t.1.put w0).put w1).put w2).put w3,
        (t.2.1.store 1 (t.2.1.load 0 + 4)).inc, Y) := by
  subst h0 h1 h2 h3
  obtain ⟨e1, e2, e3, e4, e5, e6, e7⟩ := hI
  have hv : i32 (((4 * c : Nat) : Int) + 4) = ((4 * c : Nat) : Int) + 4 :=
    i32_of_range _ (by positivity) (by
      have : 4 * c + 4 < 2 ^ 31 := by omega
      exact_mod_cast this)
  refine ⟨?_, ?_, ?_, ?_, ?_, ?_, ?_, ?_⟩
  · rw [Ptr.putC_bind _ _ _ (by omega),
      Ptr.putC_bind _ _ _ (by simp only [Ptr.put_pos, Ptr.put_length]; omega),
      Ptr.putC_bind _ _ _ (by simp only [Ptr.put_pos, Ptr.put_length]; omega),
      Ptr.putC_bind _ _ _ (by simp only [Ptr.put_pos, Ptr.put_length]; omega),
      Ptr.loadC_bind _ _ _ (by omega)]
    rw [Ptr.storeC_bind t.2.1 1 _ _ (by omega), e5, hv, hZ]
  · show t.1.pos + 1 + 1 + 1 + 1 = 4 * (c + 1)
    omega
  · simp only [Ptr.put_length]; exact e2
  · rw [(Ptr.store_inc _ _ (by omega)).1, e3]
  · rw [(Ptr.store_inc _ _ (by omega)).2.1, e4]
  · rw [(Ptr.store_inc _ _ (by omega)).2.2, e5]; push_cast; ring
  · show Y.pos = 2 * (c + 1)
    omega
  · show Y.buf.length = 2 * F
    omega

/-- One round of a face loop with two nodes per face. -/
theorem face_round2 (F c : Nat) (t : Ptr Int × Ptr Int × Ptr Int) (hI : FaceInv 2 F c t)
    (hc : c < F) (H : 2 * F < 2 ^ 31) (v0 v1 w0 w1 : Int)
    (h0 : v0 = w0) (h1 : v1 = w1)
    (Z : Ptr Int → Ptr Int → Option (Ptr Int × Ptr Int × Ptr Int)) (Y : Ptr Int)
    (hZ : ∀ f p, Z f p = some (f, p.inc, Y))
    (hY : Y.pos = t.2.2.pos + 2 ∧ Y.buf.length = t.2.2.buf.length) :
    ((t.1.putC v0).bind fun f1 => (f1.putC v1).bind fun f2 =>
      (t.2.1.loadC 0).bind fun v => (t.2.1.storeC 1 (i32 (v + 2))).bind fun p => Z f2 p) =
      some ((t.1.put w0).put w1, (t.2.1.store 1 (t.2.1.load 0 + 2)).inc, Y) ∧
    FaceInv 2 F (c + 1) ((t.1.put w0).put w1, (t.2.1.store 1 (t.2.1.load 0 + 2)).inc, Y) := by
  subst h0 h1
  obtain ⟨e1, e2, e3, e4, e5, e6, e7⟩ := hI
  have hv : i32 (((2 * c : Nat) : Int) + 2) = ((2 * c : Nat) : Int) + 2 :=
    i32_of_range _ (by positivity) (by
      have : 2 * c + 2 < 2 ^ 31 := by omega
      exact_mod_cast this)
  refine ⟨?_, ?_, ?_, ?_, ?_, ?_, ?_, ?_⟩
  · rw [Ptr.putC_bind _ _ _ (by omega),
      Ptr.putC_bind _ _ _ (by simp only [Ptr.put_pos, Ptr.put_length]; omega),
      Ptr.loadC_bind _ _ _ (by omega)]
    rw [Ptr.storeC_bind t.2.1 1 _ _ (by omega), e5, hv, hZ]
  · show t.1.pos + 1 + 1 = 2 * (c + 1)
    omega
  · simp only [Ptr.put_length]; exact e2
  · rw [(Ptr.store_inc _ _ (by omega)).1, e3]
  · rw [(Ptr.store_inc _ _ (by omega)).2.1, e4]
  · rw [(Ptr.store_inc _ _ (by omega)).2.2, e5]; push_cast; ring
  · show Y.pos = 2 * (c + 1)
    omega
  · show Y.buf.length = 2 * F
    omega

/-- The checked cell loop of the 3D builder succeeds and leaves what the cell
loop of `fill_cart_topology_3d` leaves. -/
theorem cell_loop_3d_checked_eq (nx ny nz : Nat)
    (HF : (nx + 1) * ny * nz + nx * (ny + 1) * nz + nx * ny * (nz + 1) < 2 ^ 31)
    (H6 : 6 * (nx * ny * nz) < 2 ^ 31)
    (s0 : Ptr Int × Ptr Int) (h0 : CellInv 6 (nx * ny * nz) 0 s0) :
    cell_loop_3d_checked nx ny nz ((nx + 1 : Nat) : Int) ((ny + 1 : Nat) : Int)
        (((nx + 1) * ny * nz : Nat) : Int) ((nx * (ny + 1) * nz : Nat) : Int) s0 =
      some (forLoop nz (fun k s => forLoop ny (fun j s => forLoop nx
        (fun i (s : Ptr Int × Ptr Int) =>
          let cfaces := s.1
          let cfacepos := s.2
          let cfaces := cfaces.put ((i : Int) + ((nx + 1 : Nat) : Int) * (j + ny * k))
          let cfaces := cfaces.put ((i : Int) + 1 + ((nx + 1 : Nat) : Int) * (j + ny * k))
          let cfaces := cfaces.put ((i : Int) + nx * (j + ((ny + 1 : Nat) : Int) * k)
            + (((nx + 1) * ny * nz : Nat) : Int))
          let cfaces := cfaces.put ((i : Int) + nx * (j + 1 + ((ny + 1 : Nat) : Int) * k)
            + (((nx + 1) * ny * nz : Nat) : Int))
          let cfaces := cfaces.put ((i : Int) + nx * (j + ny * k)
            + (((nx + 1) * ny * nz : Nat) : Int) + ((nx * (ny + 1) * nz : Nat) : Int))
          let cfaces := cfaces.put ((i : Int) + nx * (j + ny * (k + 1))
            + (((nx + 1) * ny * nz : Nat) : Int) + ((nx * (ny + 1) * nz : Nat) : Int))
          let cfacepos := cfacepos.store 1 (cfacepos.load 0 + 6)
          let cfacepos := cfacepos.inc
          (cfaces, cfacepos)) s) s) s0) ∧
    CellInv 6 (nx * ny * nz) (nx * ny * nz) (forLoop nz (fun k s => forLoop ny (fun j s =>
      forLoop nx
        (fun i (s : Ptr Int × Ptr Int) =>
          let cfaces := s.1
          let cfacepos := s.2
          let cfaces := cfaces.put ((i : Int) + ((nx + 1 : Nat) : Int) * (j + ny * k))
          let cfaces := cfaces.put ((i : Int) + 1 + ((nx + 1 : Nat) : Int) * (j + ny * k))
          let cfaces := cfaces.put ((i : Int) + nx * (j + ((ny + 1 : Nat) : Int) * k)
            + (((nx + 1) * ny * nz : Nat) : Int))
          let cfaces := cfaces.put ((i : Int) + nx * (j + 1 + ((ny + 1 : Nat) : Int) * k)
            + (((nx + 1) * ny * nz : Nat) : Int))
          let cfaces := cfaces.put ((i : Int) + nx * (j + ny * k)
            + (((nx + 1) * ny * nz : Nat) : Int) + ((nx * (ny + 1) * nz : Nat) : Int))
          let cfaces := cfaces.put ((i : Int) + nx * (j + ny * (k + 1))
            + (((nx + 1) * ny * nz : Nat) : Int) + ((nx * (ny + 1) * nz : Nat) : Int))
          let cfacepos := cfacepos.store 1 (cfacepos.load 0 + 6)
          let cfacepos := cfacepos.inc
          (cfaces, cfacepos)) s) s) s0) := by
  unfold cell_loop_3d_checked
  refine forLoopM3_spec (CellInv 6 (nx * ny * nz)) nx ny nz _ _ ?_ s0 h0
  intro i j k hi hj hk s hs
  have hc : i + nx * (j + ny * k) < nx * ny * nz := lex3_lt hi hj hk
  have hf := fun p hp => (cell_face3d_family nx ny nz i j k p hi hj hk hp).2
  have hv : ∀ p, p < 6 → cell_face3d nx ny nz i j k p < 2 ^ 31 := fun p hp => by
    have := hf p hp; omega
  simp only [i32_add_left, i32_add_right, i32_mul_left, i32_mul_right, i32_sub_left,
    bind, pure]
  refine cell_round6 (nx * ny * nz) _ s hs hc H6 _ _ _ _ _ _ _ _ _ _ _ _ ?_ ?_ ?_ ?_ ?_ ?_
  · exact i32_eq_of _ _ (cell_face3d nx ny nz i j k 0) (hv 0 (by omega))
      (by simp only [cell_face3d]; push_cast; ring) (by simp only [cell_face3d]; push_cast; ring)
  · exact i32_eq_of _ _ (cell_face3d nx ny nz i j k 1) (hv 1 (by omega))
      (by simp only [cell_face3d]; push_cast; ring) (by simp only [cell_face3d]; push_cast; ring)
  · exact i32_eq_of _ _ (cell_face3d nx ny nz i j k 2) (hv 2 (by omega))
      (by simp only [cell_face3d]; push_cast; ring) (by simp only [cell_face3d]; push_cast; ring)
  · exact i32_eq_of _ _ (cell_face3d nx ny nz i j k 3) (hv 3 (by omega))
      (by simp only [cell_face3d]; push_cast; ring) (by simp only [cell_face3d]; push_cast; ring)
  · exact i32_eq_of _ _ (cell_face3d nx ny nz i j k 4) (hv 4 (by omega))
      (by simp only [cell_face3d]; push_cast; ring) (by simp only [cell_face3d]; push_cast; ring)
  · exact i32_eq_of _ _ (cell_face3d nx ny nz i j k 5) (hv 5 (by omega))
      (by simp only [cell_face3d]; push_cast; ring) (by simp only [cell_face3d]; push_cast; ring)

/-- The two checked slot stores of a face round, followed by the end of the
round. -/
theorem slots_tail {σ τ : Type} (q : Ptr Int) (a a' b b' : Int) (h : q.pos + 1 < q.buf.length)
    (ha : a = a') (hb : b = b') (f : σ) (p : τ) :
    (((q.putC a).bind fun q => q.putC b).bind fun y => some (f, p, y)) =
      some (f, p, (q.put a').put b') := by
  rw [Ptr.put2C q a a' b b' h ha hb]
  rfl

theorem i32_succ_toNat (n : Nat) (h : n + 1 < 2 ^ 31) : (i32 ((n : Int) + 1)).toNat = n + 1 := by
  rw [i32_of_range _ (by positivity) (by omega)]
  omega

/-- The checked loop over the x-normal faces of the 3D builder succeeds and
leaves what the loop of `fill_cart_topology_3d` leaves. -/
theorem xface_loop_3d_checked_eq (nx ny nz F : Nat)
    (hF : F = (nx + 1) * ny * nz + nx * (ny + 1) * nz + nx * ny * (nz + 1))
    (HN : (nx + 1) * (ny + 1) * (nz + 1) < 2 ^ 31) (H4 : 4 * F < 2 ^ 31)
    (t0 r : Ptr Int × Ptr Int × Ptr Int) (h0 : FaceInv 4 F 0 t0)
    (hr : r = forLoop nz (fun k t => forLoop ny (fun j t => forLoop (nx + 1)
      (fun i (t : Ptr Int × Ptr Int × Ptr Int) =>
        let fnodes := t.1
        let fnodepos := t.2.1
        let fcells := t.2.2
        let fnodes := fnodes.put ((i : Int) + ((nx + 1 : Nat) : Int) * (j + ((ny + 1 : Nat) : Int) * k))
        let fnodes := fnodes.put ((i : Int) + ((nx + 1 : Nat) : Int) * (j + 1 + ((ny + 1 : Nat) : Int) * k))
        let fnodes := fnodes.put
          ((i : Int) + ((nx + 1 : Nat) : Int) * (j + 1 + ((ny + 1 : Nat) : Int) * (k + 1)))
        let fnodes := fnodes.put ((i : Int) + ((nx + 1 : Nat) : Int) * (j + ((ny + 1 : Nat) : Int) * (k + 1)))
        let fnodepos := fnodepos.store 1 (fnodepos.load 0 + 4)
        let fnodepos := fnodepos.inc
        let fcells :=
          if i = 0 then
            (fcells.put (-1)).put ((i : Int) + nx * (j + ny * k))
          else if i = nx then
            (fcells.put ((i : Int) - 1 + nx * (j + ny * k))).put (-1)
          else
            (fcells.put ((i : Int) - 1 + nx * (j + ny * k))).put ((i : Int) + nx * (j + ny * k))
        (fnodes, fnodepos, fcells)) t) t) t0) :
    xface_loop_3d_checked nx ny nz ((nx + 1 : Nat) : Int) ((ny + 1 : Nat) : Int) t0 = some r ∧
    FaceInv 4 F ((nx + 1) * ny * nz) r := by
  subst hr
  unfold xface_loop_3d_checked
  have hx : nx + 1 < 2 ^ 31 := by
    have : nx + 1 ≤ (nx + 1) * ((ny + 1) * (nz + 1)) := Nat.le_mul_of_pos_right _ (by positivity)
    rw [← Nat.mul_assoc] at this
    omega
  rw [i32_succ_toNat nx hx]
  refine forLoopM3_spec (FaceInv 4 F) (nx + 1) ny nz _ _ ?_ t0 h0
  intro i j k hi hj hk t ht
  have hc : i + (nx + 1) * (j + ny * k) < (nx + 1) * ny * nz := lex3_lt hi hj hk
  have hn : ∀ a b c, a ≤ nx → b ≤ ny → c ≤ nz → node3d nx ny a b c < 2 ^ 31 :=
    fun a b c ha hb hc => lt_trans (node3d_lt ha hb hc) HN
  have hroom : t.2.2.pos + 1 < t.2.2.buf.length := by
    obtain ⟨-, -, -, -, -, e6, e7⟩ := ht
    omega
  have hcell : ∀ a, a ≤ nx → a + nx * (j + ny * k) < 2 ^ 31 := fun a ha => by
    have h1 : a + (nx + 1) * (j + ny * k) < (nx + 1) * ny * nz :=
      lex3_lt (Nat.lt_succ_of_le ha) hj hk
    have h2 : nx * (j + ny * k) ≤ (nx + 1) * (j + ny * k) :=
      Nat.mul_le_mul_right _ (Nat.le_succ nx)
    omega
  have hcF : i + (nx + 1) * (j + ny * k) < F := by omega
  have hi' : i ≤ nx := Nat.le_of_lt_succ hi
  have hj' : j + 1 ≤ ny := hj
  have hk' : k + 1 ≤ nz := hk
  have hhi : i ≠ 0 → i32 ((i : Int) - 1 + nx * (j + ny * k)) = (i : Int) - 1 + nx * (j + ny * k) :=
    fun h => by
      obtain ⟨a, rfl⟩ : ∃ a, i = a + 1 := Nat.exists_eq_succ_of_ne_zero h
      exact i32_eq_of _ _ (a + nx * (j + ny * k)) (hcell a (Nat.le_of_succ_le hi'))
        (by push_cast; ring) (by push_cast; ring)
  have hlo : i32 ((i : Int) + nx * (j + ny * k)) = (i : Int) + nx * (j + ny * k) :=
    i32_eq_of _ _ (i + nx * (j + ny * k)) (hcell i hi') (by push_cast; ring)
      (by push_cast; ring)
  simp only [i32_add_left, i32_add_right, i32_mul_left, i32_mul_right, i32_sub_left,
    bind, pure]
  refine face_round4 F _ t ht hcF H4 _ _ _ _ _ _ _ _ ?_ ?_ ?_ ?_ _ _ ?_ ?_
  · exact i32_eq_of _ _ (node3d nx ny i j k) (hn _ _ _ hi' hj.le hk.le)
      (by simp only [node3d]; push_cast; ring) (by simp only [node3d]; push_cast; ring)
  · exact i32_eq_of _ _ (node3d nx ny i (j + 1) k) (hn _ _ _ hi' hj' hk.le)
      (by simp only [node3d]; push_cast; ring) (by simp only [node3d]; push_cast; ring)
  · exact i32_eq_of _ _ (node3d nx ny i (j + 1) (k + 1)) (hn _ _ _ hi' hj' hk')
      (by simp only [node3d]; push_cast; ring) (by simp only [node3d]; push_cast; ring)
  · exact i32_eq_of _ _ (node3d nx ny i j (k + 1)) (hn _ _ _ hi' hj.le hk')
      (by simp only [node3d]; push_cast; ring) (by simp only [node3d]; push_cast; ring)
  · intro f p
    split_ifs with h1 h2
    · exact slots_tail _ _ _ _ _ hroom rfl hlo _ _
    · exact slots_tail _ _ _ _ _ hroom (hhi h1) rfl _ _
    · exact slots_tail _ _ _ _ _ hroom (hhi h1) hlo _ _
  · split_ifs <;> exact Ptr.put2_pos _ _ _

theorem succ_lt_of_nodes3 (nx ny nz : Nat) (HN : (nx + 1) * (ny + 1) * (nz + 1) < 2 ^ 31) :
    nx + 1 < 2 ^ 31 ∧ ny + 1 < 2 ^ 31 ∧ nz + 1 < 2 ^ 31 := by
  have h1 : nx + 1 ≤ (nx + 1) * ((ny + 1) * (nz + 1)) := Nat.le_mul_of_pos_right _ (by positivity)
  have h2 : ny + 1 ≤ (ny + 1) * ((nx + 1) * (nz + 1)) := Nat.le_mul_of_pos_right _ (by positivity)
  have h3 : nz + 1 ≤ (nz + 1) * ((nx + 1) * (ny + 1)) := Nat.le_mul_of_pos_right _ (by positivity)
  have e2 : (ny + 1) * ((nx + 1) * (nz + 1)) = (nx + 1) * (ny + 1) * (nz + 1) := by ring
  have e3 : (nz + 1) * ((nx + 1) * (ny + 1)) = (nx + 1) * (ny + 1) * (nz + 1) := by ring
  rw [← Nat.mul_assoc] at h1
  rw [e2] at h2
  rw [e3] at h3
  omega

/-- The checked loop over the y-normal faces of the 3D builder succeeds and
leaves what the loop of `fill_cart_topology_3d` leaves. -/
theorem yface_loop_3d_checked_eq (nx ny nz F : Nat)
    (hF : F = (nx + 1) * ny * nz + nx * (ny + 1) * nz + nx * ny * (nz + 1))
    (HN : (nx + 1) * (ny + 1) * (nz + 1) < 2 ^ 31) (H4 : 4 * F < 2 ^ 31)
    (t0 r : Ptr Int × Ptr Int × Ptr Int) (h0 : FaceInv 4 F ((nx + 1) * ny * nz) t0)
    (hr : r = forLoop nz (fun k t => forLoop (ny + 1) (fun j t => forLoop nx
      (fun i (t : Ptr Int × Ptr Int × Ptr Int) =>
        let fnodes := t.1
        let fnodepos := t.2.1
        let fcells := t.2.2
        let fnodes := fnodes.put ((i : Int) + ((nx + 1 : Nat) : Int) * (j + ((ny + 1 : Nat) : Int) * k))
        let fnodes := fnodes.put ((i : Int) + ((nx + 1 : Nat) : Int) * (j + ((ny + 1 : Nat) : Int) * (k + 1)))
        let fnodes := fnodes.put
          ((i : Int) + 1 + ((nx + 1 : Nat) : Int) * (j + ((ny + 1 : Nat) : Int) * (k + 1)))
        let fnodes := fnodes.put ((i : Int) + 1 + ((nx + 1 : Nat) : Int) * (j + ((ny + 1 : Nat) : Int) * k))
        let fnodepos := fnodepos.store 1 (fnodepos.load 0 + 4)
        let fnodepos := fnodepos.inc
        let fcells :=
          if j = 0 then
            (fcells.put (-1)).put ((i : Int) + nx * (j + ny * k))
          else if j = ny then
            (fcells.put ((i : Int) + nx * ((j : Int) - 1 + ny * k))).put (-1)
          else
            (fcells.put ((i : Int) + nx * ((j : Int) - 1 + ny * k))).put
              ((i : Int) + nx * (j + ny * k))
        (fnodes, fnodepos, fcells)) t) t) t0) :
    yface_loop_3d_checked nx ny nz ((nx + 1 : Nat) : Int) ((ny + 1 : Nat) : Int) t0 = some r ∧
    FaceInv 4 F ((nx + 1) * ny * nz + nx * (ny + 1) * nz) r := by
  subst hr
  unfold yface_loop_3d_checked
  rw [i32_succ_toNat ny (succ_lt_of_nodes3 nx ny nz HN).2.1]
  refine forLoopM3_spec (fun c t => FaceInv 4 F ((nx + 1) * ny * nz + c) t) nx (ny + 1) nz
    _ _ ?_ t0 h0
  intro i j k hi hj hk t ht
  have hc : i + nx * (j + (ny + 1) * k) < nx * (ny + 1) * nz := lex3_lt hi hj hk
  have hn : ∀ a b c, a ≤ nx → b ≤ ny → c ≤ nz → node3d nx ny a b c < 2 ^ 31 :=
    fun a b c ha hb hc => lt_trans (node3d_lt ha hb hc) HN
  have hroom : t.2.2.pos + 1 < t.2.2.buf.length := by
    obtain ⟨-, -, -, -, -, e6, e7⟩ := ht
    omega
  have hcell : ∀ b, b ≤ ny → i + nx * (b + ny * k) < 2 ^ 31 := fun b hb => by
    have h1 : i + nx * (b + (ny + 1) * k) < nx * (ny + 1) * nz :=
      lex3_lt hi (Nat.lt_succ_of_le hb) hk
    have h2 : nx * (b + ny * k) ≤ nx * (b + (ny + 1) * k) :=
      Nat.mul_le_mul_left _ (Nat.add_le_add_left (Nat.mul_le_mul_right _ (Nat.le_succ ny)) _)
    omega
  have hcF : (nx + 1) * ny * nz + (i + nx * (j + (ny + 1) * k)) < F := by omega
  have hi' : i + 1 ≤ nx := hi
  have hj' : j ≤ ny := Nat.le_of_lt_succ hj
  have hk' : k + 1 ≤ nz := hk
  have hhi : j ≠ 0 → i32 ((i : Int) + nx * ((j : Int) - 1 + ny * k)) =
      (i : Int) + nx * ((j : Int) - 1 + ny * k) :=
    fun h => by
      obtain ⟨b, rfl⟩ : ∃ b, j = b + 1 := Nat.exists_eq_succ_of_ne_zero h
      exact i32_eq_of _ _ (i + nx * (b + ny * k)) (hcell b (Nat.le_of_succ_le hj'))
        (by push_cast; ring) (by push_cast; ring)
  have hlo : i32 ((i : Int) + nx * (j + ny * k)) = (i : Int) + nx * (j + ny * k) :=
    i32_eq_of _ _ (i + nx * (j + ny * k)) (hcell j hj') (by push_cast; ring)
      (by push_cast; ring)
  simp only [i32_add_left, i32_add_right, i32_mul_left, i32_mul_right, i32_sub_left,
    bind, pure]
  refine face_round4 F _ t ht hcF H4 _ _ _ _ _ _ _ _ ?_ ?_ ?_ ?_ _ _ ?_ ?_
  · exact i32_eq_of _ _ (node3d nx ny i j k) (hn _ _ _ hi.le hj' hk.le)
      (by simp only [node3d]; push_cast; ring) (by simp only [node3d]; push_cast; ring)
  · exact i32_eq_of _ _ (node3d nx ny i j (k + 1)) (hn _ _ _ hi.le hj' hk')
      (by simp only [node3d]; push_cast; ring) (by simp only [node3d]; push_cast; ring)
  · exact i32_eq_of _ _ (node3d nx ny (i + 1) j (k + 1)) (hn _ _ _ hi' hj' hk')
      (by simp only [node3d]; push_cast; ring) (by simp only [node3d]; push_cast; ring)
  · exact i32_eq_of _ _ (node3d nx ny (i + 1) j k) (hn _ _ _ hi' hj' hk.le)
      (by simp only [node3d]; push_cast; ring) (by simp only [node3d]; push_cast; ring)
  · intro f p
    split_ifs with h1 h2
    · exact slots_tail _ _ _ _ _ hroom rfl hlo _ _
    · exact slots_tail _ _ _ _ _ hroom (hhi h1) rfl _ _
    · exact slots_tail _ _ _ _ _ hroom (hhi h1) hlo _ _
  · split_ifs <;> exact Ptr.put2_pos _ _ _

/-- The checked loop over the z-normal faces of the 3D builder succeeds and
leaves what the loop of `fill_cart_topology_3d` leaves. -/
theorem zface_loop_3d_checked_eq (nx ny nz F : Nat)
    (hF : F = (nx + 1) * ny * nz + nx * (ny + 1) * nz + nx * ny * (nz + 1))
    (HN : (nx + 1) * (ny + 1) * (nz + 1) < 2 ^ 31) (H4 : 4 * F < 2 ^ 31)
    (t0 r : Ptr Int × Ptr Int × Ptr Int)
    (h0 : FaceInv 4 F ((nx + 1) * ny * nz + nx * (ny + 1) * nz) t0)
    (hr : r = forLoop (nz + 1) (fun k t => forLoop ny (fun j t => forLoop nx
      (fun i (t : Ptr Int × Ptr Int × Ptr Int) =>
        let fnodes := t.1
        let fnodepos := t.2.1
        let fcells := t.2.2
        let fnodes := fnodes.put ((i : Int) + ((nx + 1 : Nat) : Int) * (j + ((ny + 1 : Nat) : Int) * k))
        let fnodes := fnodes.put ((i : Int) + 1 + ((nx + 1 : Nat) : Int) * (j + ((ny + 1 : Nat) : Int) * k))
        let fnodes := fnodes.put
          ((i : Int) + 1 + ((nx + 1 : Nat) : Int) * (j + 1 + ((ny + 1 : Nat) : Int) * k))
        let fnodes := fnodes.put ((i : Int) + ((nx + 1 : Nat) : Int) * (j + 1 + ((ny + 1 : Nat) : Int) * k))
        let fnodepos := fnodepos.store 1 (fnodepos.load 0 + 4)
        let fnodepos := fnodepos.inc
        let fcells :=
          if k = 0 then
            (fcells.put (-1)).put ((i : Int) + nx * (j + ny * k))
          else if k = nz then
            (fcells.put ((i : Int) + nx * (j + ny * ((k : Int) - 1)))).put (-1)
          else
            (fcells.put ((i : Int) + nx * (j + ny * ((k : Int) - 1)))).put
              ((i : Int) + nx * (j + ny * k))
        (fnodes, fnodepos, fcells)) t) t) t0) :
    zface_loop_3d_checked nx ny nz ((nx + 1 : Nat) : Int) ((ny + 1 : Nat) : Int) t0 = some r ∧
    FaceInv 4 F F r := by
  subst hr
  unfold zface_loop_3d_checked
  rw [i32_succ_toNat nz (succ_lt_of_nodes3 nx ny nz HN).2.2]
  have hfin : FaceInv 4 F F = FaceInv 4 F
      ((nx + 1) * ny * nz + nx * (ny + 1) * nz + nx * ny * (nz + 1)) := by rw [← hF]
  rw [hfin]
  refine forLoopM3_spec
    (fun c t => FaceInv 4 F ((nx + 1) * ny * nz + nx * (ny + 1) * nz + c) t) nx ny (nz + 1)
    _ _ ?_ t0 h0
  intro i j k hi hj hk t ht
  have hc : i + nx * (j + ny * k) < nx * ny * (nz + 1) := lex3_lt hi hj hk
  have hn : ∀ a b c, a ≤ nx → b ≤ ny → c ≤ nz → node3d nx ny a b c < 2 ^ 31 :=
    fun a b c ha hb hc => lt_trans (node3d_lt ha hb hc) HN
  have hroom : t.2.2.pos + 1 < t.2.2.buf.length := by
    obtain ⟨-, -, -, -, -, e6, e7⟩ := ht
    omega
  have hcell : ∀ c, c ≤ nz → i + nx * (j + ny * c) < 2 ^ 31 := fun c hc => by
    have h1 : i + nx * (j + ny * c) < nx * ny * (nz + 1) :=
      lex3_lt hi hj (Nat.lt_succ_of_le hc)
    omega
  have hcF : (nx + 1) * ny * nz + nx * (ny + 1) * nz + (i + nx * (j + ny * k)) < F := by omega
  have hi' : i + 1 ≤ nx := hi
  have hj' : j + 1 ≤ ny := hj
  have hk' : k ≤ nz := Nat.le_of_lt_succ hk
  have hhi : k ≠ 0 → i32 ((i : Int) + nx * (j + ny * ((k : Int) - 1))) =
      (i : Int) + nx * (j + ny * ((k : Int) - 1)) :=
    fun h => by
      obtain ⟨c, rfl⟩ : ∃ c, k = c + 1 := Nat.exists_eq_succ_of_ne_zero h
      exact i32_eq_of _ _ (i + nx * (j + ny * c)) (hcell c (Nat.le_of_succ_le hk'))
        (by push_cast; ring) (by push_cast; ring)
  have hlo : i32 ((i : Int) + nx * (j + ny * k)) = (i : Int) + nx * (j + ny * k) :=
    i32_eq_of _ _ (i + nx * (j + ny * k)) (hcell k hk') (by push_cast; ring)
      (by push_cast; ring)
  simp only [i32_add_left, i32_add_right, i32_mul_left, i32_mul_right, i32_sub_left,
    bind, pure]
  refine face_round4 F _ t ht hcF H4 _ _ _ _ _ _ _ _ ?_ ?_ ?_ ?_ _ _ ?_ ?_
  · exact i32_eq_of _ _ (node3d nx ny i j k) (hn _ _ _ hi.le hj.le hk')
      (by simp only [node3d]; push_cast; ring) (by simp only [node3d]; push_cast; ring)
  · exact i32_eq_of _ _ (node3d nx ny (i + 1) j k) (hn _ _ _ hi' hj.le hk')
      (by simp only [node3d]; push_cast; ring) (by simp only [node3d]; push_cast; ring)
  · exact i32_eq_of _ _ (node3d nx ny (i + 1) (j + 1) k) (hn _ _ _ hi' hj' hk')
      (by simp only [node3d]; push_cast; ring) (by simp only [node3d]; push_cast; ring)
  · exact i32_eq_of _ _ (node3d nx ny i (j + 1) k) (hn _ _ _ hi.le hj' hk')
      (by simp only [node3d]; push_cast; ring) (by simp only [node3d]; push_cast; ring)
  · intro f p
    split_ifs with h1 h2
    · exact slots_tail _ _ _ _ _ hroom rfl hlo _ _
    · exact slots_tail _ _ _ _ _ hroom (hhi h1) rfl _ _
    · exact slots_tail _ _ _ _ _ hroom (hhi h1) hlo _ _
  · split_ifs <;> exact Ptr.put2_pos _ _ _

theorem storeAt_nat (a : List Int) (e : Int) (n : Nat) (v : Int) (he : e = (n : Int))
    (hn : n < a.length) : storeAt a e v = some (a.set n v) := by
  subst he
  unfold storeAt
  rw [if_pos ⟨Int.natCast_nonneg n, by rw [Int.toNat_ofNat]; exact hn⟩, Int.toNat_ofNat]

/-- The checked tag loop of the 3D builder succeeds and leaves what the tag
loop of `fill_cart_topology_3d` leaves. -/
theorem tag_loop_3d_checked_eq (nx ny nz : Nat) (H6 : 6 * (nx * ny * nz) < 2 ^ 31)
    (tag0 : List Int) (h0 : tag0.length = 6 * (nx * ny * nz)) :
    tag_loop_3d_checked nx ny nz tag0 =
      some (forLoop (nx * ny * nz) (fun k tag =>
        forLoop 6 (fun i (tag : List Int) => tag.set (k * 6 + i) (i : Int)) tag) tag0) := by
  unfold tag_loop_3d_checked
  have hN : nx * ny * nz < 2 ^ 31 := by omega
  rw [i32_mul_left, i32_eq_cast _ (nx * ny * nz) hN (by push_cast; ring), Int.toNat_ofNat]
  refine (forLoopM2_spec (fun _ (tag : List Int) => tag.length = 6 * (nx * ny * nz)) 6
    (nx * ny * nz) _ _ ?_ tag0 h0).1
  intro i k hi hk tag ht
  have hb : k * 6 + i < 2 ^ 31 := by omega
  have hl : k * 6 + i < tag.length := by omega
  refine ⟨?_, by show (tag.set _ _).length = _; rw [List.length_set]; exact ht⟩
  rw [i32_add_left]
  exact storeAt_nat _ _ _ _ (i32_eq_cast _ (k * 6 + i) hb (by push_cast; ring)) hl

/-- The checked `fill_cart_indices` succeeds and leaves what
`fill_cart_indices` leaves. -/
theorem fill_cart_indices_checked_eq (G : UnstructuredGrid)
    (h : G.global_cell.length = G.number_of_cells) :
    fill_cart_indices_checked G = some (fill_cart_indices G) := by
  have e := (forLoopM_spec (fun _ (gc : List Int) => gc.length = G.number_of_cells)
    G.number_of_cells (fun i (gc : List Int) => storeAt gc (i : Int) (i : Int))
    (fun i gc => gc.set i (i : Int))
    (fun i hi gc hg => ⟨storeAt_nat _ _ _ _ rfl (lt_of_lt_of_eq hi (Eq.symm hg)),
      (List.length_set gc i (i : Int)).trans hg⟩) G.global_cell h).1
  unfold fill_cart_indices_checked
  simp only [bind, pure]
  rw [e]
  rfl

theorem cell_start (buf1 buf2 : List Int) (d N : Nat) (h1 : buf1.length = d * N)
    (h2 : buf2.length = N + 1) :
    CellInv d N 0 ((⟨buf1, 0⟩ : Ptr Int), (⟨buf2, 0⟩ : Ptr Int).store 0 0) := by
  refine ⟨rfl, h1, rfl, by simp [Ptr.store, h2], ?_⟩
  simp only [Ptr.load, Ptr.store, Nat.add_zero, Nat.mul_zero, Nat.cast_zero]
  rw [List.getD_eq_getElem?_getD, List.getElem?_set_self (by omega)]
  rfl

theorem face_start (buf1 buf2 buf3 : List Int) (d N : Nat) (h1 : buf1.length = d * N)
    (h2 : buf2.length = N + 1) (h3 : buf3.length = 2 * N) :
    FaceInv d N 0 ((⟨buf1, 0⟩ : Ptr Int), (⟨buf2, 0⟩ : Ptr Int).store 0 0,
      (⟨buf3, 0⟩ : Ptr Int)) := by
  refine ⟨rfl, h1, rfl, by simp [Ptr.store, h2], ?_, rfl, h3⟩
  simp only [Ptr.load, Ptr.store, Nat.add_zero, Nat.mul_zero, Nat.cast_zero]
  rw [List.getD_eq_getElem?_getD, List.getElem?_set_self (by omega)]
  rfl

/-- On arrays of the sizes the allocator provides, and with counts that fit
an `int`, the checked run of `fill_cart_topology_3d` succeeds: no access falls
outside its array, the result is the grid `fill_cart_topology_3d` builds, and
the three cursors end at the ends of their arrays. -/
theorem fill_cart_topology_3d_checked_eq (A : UnstructuredGrid)
    (hnc : A.number_of_cells = A.cartdims.1 * A.cartdims.2.1 * A.cartdims.2.2)
    (hs : Sized A 3 (A.cartdims.1 * A.cartdims.2.1 * A.cartdims.2.2)
      ((A.cartdims.1 + 1) * A.cartdims.2.1 * A.cartdims.2.2 +
        A.cartdims.1 * (A.cartdims.2.1 + 1) * A.cartdims.2.2 +
        A.cartdims.1 * A.cartdims.2.1 * (A.cartdims.2.2 + 1))
      ((A.cartdims.1 + 1) * (A.cartdims.2.1 + 1) * (A.cartdims.2.2 + 1)))
    (HN : (A.cartdims.1 + 1) * (A.cartdims.2.1 + 1) * (A.cartdims.2.2 + 1) < 2 ^ 31)
    (H4 : 4 * ((A.cartdims.1 + 1) * A.cartdims.2.1 * A.cartdims.2.2 +
        A.cartdims.1 * (A.cartdims.2.1 + 1) * A.cartdims.2.2 +
        A.cartdims.1 * A.cartdims.2.1 * (A.cartdims.2.2 + 1)) < 2 ^ 31) :
    fill_cart_topology_3d_checked A =
      some (fill_cart_topology_3d A, A.cell_faces.length, A.face_nodes.length,
        A.face_cells.length) := by
  have hcf := cells_le_faces A.cartdims.1 A.cartdims.2.1 A.cartdims.2.2
  have H6 : 6 * (A.cartdims.1 * A.cartdims.2.1 * A.cartdims.2.2) < 2 ^ 31 := by
    have h3 : 3 * (A.cartdims.1 * A.cartdims.2.1 * A.cartdims.2.2) ≤
        (A.cartdims.1 + 1) * A.cartdims.2.1 * A.cartdims.2.2 +
        A.cartdims.1 * (A.cartdims.2.1 + 1) * A.cartdims.2.2 +
        A.cartdims.1 * A.cartdims.2.1 * (A.cartdims.2.2 + 1) := by
      have e : (A.cartdims.1 + 1) * A.cartdims.2.1 * A.cartdims.2.2 +
        A.cartdims.1 * (A.cartdims.2.1 + 1) * A.cartdims.2.2 +
        A.cartdims.1 * A.cartdims.2.1 * (A.cartdims.2.2 + 1) =
        3 * (A.cartdims.1 * A.cartdims.2.1 * A.cartdims.2.2) +
          (A.cartdims.2.1 * A.cartdims.2.2 + A.cartdims.1 * A.cartdims.2.2 +
            A.cartdims.1 * A.cartdims.2.1) := by ring
      rw [e]; exact Nat.le_add_right _ _
    omega
  have HF : (A.cartdims.1 + 1) * A.cartdims.2.1 * A.cartdims.2.2 +
        A.cartdims.1 * (A.cartdims.2.1 + 1) * A.cartdims.2.2 +
        A.cartdims.1 * A.cartdims.2.1 * (A.cartdims.2.2 + 1) < 2 ^ 31 := by omega
  have hxf : (A.cartdims.1 + 1) * A.cartdims.2.1 * A.cartdims.2.2 < 2 ^ 31 := by omega
  have hyf : A.cartdims.1 * (A.cartdims.2.1 + 1) * A.cartdims.2.2 < 2 ^ 31 := by omega
  obtain ⟨hx1, hy1, -⟩ := succ_lt_of_nodes3 _ _ _ HN
  have l1 : A.cell_faces.length = 6 * (A.cartdims.1 * A.cartdims.2.1 * A.cartdims.2.2) := by
    rw [hs.cell_faces]; ring
  have l2 : A.cell_facetag.length = 6 * (A.cartdims.1 * A.cartdims.2.1 * A.cartdims.2.2) := by
    rw [hs.cell_facetag]; ring
  have l3 : A.face_nodes.length = 4 * ((A.cartdims.1 + 1) * A.cartdims.2.1 * A.cartdims.2.2 +
        A.cartdims.1 * (A.cartdims.2.1 + 1) * A.cartdims.2.2 +
        A.cartdims.1 * A.cartdims.2.1 * (A.cartdims.2.2 + 1)) := by
    rw [hs.face_nodes]; ring
  have p1 : 0 + 0 < A.cell_facepos.length := by rw [hs.cell_facepos]; omega
  have p2 : 0 + 0 < A.face_nodepos.length := by rw [hs.face_nodepos]; omega
  obtain ⟨e1, i1⟩ := cell_loop_3d_checked_eq A.cartdims.1 A.cartdims.2.1 A.cartdims.2.2 HF H6
    _ (cell_start A.cell_faces A.cell_facepos 6 _ l1 hs.cell_facepos)
  have e2 := tag_loop_3d_checked_eq A.cartdims.1 A.cartdims.2.1 A.cartdims.2.2 H6
    A.cell_facetag l2
  obtain ⟨e3, i3⟩ := xface_loop_3d_checked_eq A.cartdims.1 A.cartdims.2.1 A.cartdims.2.2 _ rfl
    HN H4 _ _ (face_start A.face_nodes A.face_nodepos A.face_cells 4 _ l3 hs.face_nodepos
      hs.face_cells) rfl
  obtain ⟨e4, i4⟩ := yface_loop_3d_checked_eq A.cartdims.1 A.cartdims.2.1 A.cartdims.2.2 _ rfl
    HN H4 _ _ i3 rfl
  obtain ⟨e5, i5⟩ := zface_loop_3d_checked_eq A.cartdims.1 A.cartdims.2.1 A.cartdims.2.2 _ rfl
    HN H4 _ _ i4 rfl
  have q1 := i1.1
  have q2 := i5.1
  have q3 := i5.2.2.2.2.2.1
  have hNx : i32 ((A.cartdims.1 : Int) + 1) = ((A.cartdims.1 + 1 : Nat) : Int) :=
    i32_eq_cast _ _ hx1 (by push_cast; ring)
  have hNy : i32 ((A.cartdims.2.1 : Int) + 1) = ((A.cartdims.2.1 + 1 : Nat) : Int) :=
    i32_eq_cast _ _ hy1 (by push_cast; ring)
  have hnxf : i32 (i32 (((A.cartdims.1 + 1 : Nat) : Int) * A.cartdims.2.1) * A.cartdims.2.2) =
      (((A.cartdims.1 + 1) * A.cartdims.2.1 * A.cartdims.2.2 : Nat) : Int) := by
    rw [i32_mul_left]; exact i32_eq_cast _ _ hxf (by push_cast; ring)
  have hnyf : i32 (i32 ((A.cartdims.1 : Int) * ((A.cartdims.2.1 + 1 : Nat) : Int)) *
      A.cartdims.2.2) =
      ((A.cartdims.1 * (A.cartdims.2.1 + 1) * A.cartdims.2.2 : Nat) : Int) := by
    rw [i32_mul_left]; exact i32_eq_cast _ _ hyf (by push_cast; ring)
  unfold fill_cart_topology_3d_checked
  simp only [bind, pure, hNx, hNy, hnxf, hnyf]
  rw [Ptr.storeC_bind _ _ _ _ p1, e1, Option.some_bind, e2, Option.some_bind,
    Ptr.storeC_bind _ _ _ _ p2, e3, Option.some_bind, e4, Option.some_bind, e5,
    Option.some_bind,
    fill_cart_indices_checked_eq _
      (by show A.global_cell.length = A.number_of_cells; rw [hs.global_cell, hnc]),
    Option.some_bind, q1, q2, q3, l1, l3, hs.face_cells]
  rfl

theorem succ_lt_of_nodes2 (nx ny : Nat) (HN : (nx + 1) * (ny + 1) < 2 ^ 31) :
    nx + 1 < 2 ^ 31 ∧ ny + 1 < 2 ^ 31 := by
  have h1 : nx + 1 ≤ (nx + 1) * (ny + 1) := Nat.le_mul_of_pos_right _ (by positivity)
  have h2 : ny + 1 ≤ (nx + 1) * (ny + 1) := Nat.le_mul_of_pos_left _ (by positivity)
  omega

theorem storeAt_bind {β : Type} (a : List Int) (e : Int) (n : Nat) (v : Int)
    (f : List Int → Option β) (he : e = (n : Int)) (hn : n < a.length) :
    (storeAt a e v).bind f = f (a.set n v) := by
  rw [storeAt_nat a e n v he hn, Option.some_bind]

/-- The checked cell loop of the 2D builder succeeds and leaves what the cell
loop of `fill_cart_topology_2d` leaves. -/
theorem cell_loop_2d_checked_eq (nx ny : Nat)
    (HF : (nx + 1) * ny + nx * (ny + 1) < 2 ^ 31) (H4 : 4 * (nx * ny) < 2 ^ 31)
    (s0 r : Ptr Int × Ptr Int) (h0 : CellInv 4 (nx * ny) 0 s0)
    (hr : r = forLoop ny (fun j s => forLoop nx (fun i (s : Ptr Int × Ptr Int) =>
      let cfaces := s.1
      let cfacepos := s.2
      let cfaces := cfaces.put ((i : Int) + ((nx + 1 : Nat) : Int) * j)
      let cfaces := cfaces.put ((i : Int) + nx * j + (((nx + 1) * ny : Nat) : Int))
      let cfaces := cfaces.put ((i : Int) + 1 + ((nx + 1 : Nat) : Int) * j)
      let cfaces := cfaces.put ((i : Int) + nx * (j + 1) + (((nx + 1) * ny : Nat) : Int))
      let cfacepos := cfacepos.store 1 (cfacepos.load 0 + 4)
      let cfacepos := cfacepos.inc
      (cfaces, cfacepos)) s) s0) :
    cell_loop_2d_checked nx ny ((nx + 1 : Nat) : Int) (((nx + 1) * ny : Nat) : Int) s0 = some r ∧
    CellInv 4 (nx * ny) (nx * ny) r := by
  subst hr
  unfold cell_loop_2d_checked
  refine forLoopM2_spec (CellInv 4 (nx * ny)) nx ny _ _ ?_ s0 h0
  intro i j hi hj s hs
  have hc : i + nx * j < nx * ny := lex_lt_left hi hj
  have hf := fun p hp => (cell_face2d_family nx ny i j p hi hj hp).2
  have hv : ∀ p, p < 4 → cell_face2d nx ny i j p < 2 ^ 31 := fun p hp => by
    have := hf p hp; omega
  have hv0 := hv 0 (by decide)
  have hv1 := hv 1 (by decide)
  have hv2 := hv 2 (by decide)
  have hv3 := hv 3 (by decide)
  simp only [i32_add_left, i32_add_right, i32_mul_left, i32_mul_right, i32_sub_left,
    bind, pure]
  refine cell_round4 (nx * ny) _ s hs hc H4 _ _ _ _ _ _ _ _ ?_ ?_ ?_ ?_
  · exact i32_eq_of _ _ (cell_face2d nx ny i j 0) hv0
      (by simp only [cell_face2d]; push_cast; ring) (by simp only [cell_face2d]; push_cast; ring)
  · exact i32_eq_of _ _ (cell_face2d nx ny i j 1) hv1
      (by simp only [cell_face2d]; push_cast; ring) (by simp only [cell_face2d]; push_cast; ring)
  · exact i32_eq_of _ _ (cell_face2d nx ny i j 2) hv2
      (by simp only [cell_face2d]; push_cast; ring) (by simp only [cell_face2d]; push_cast; ring)
  · exact i32_eq_of _ _ (cell_face2d nx ny i j 3) hv3
      (by simp only [cell_face2d]; push_cast; ring) (by simp only [cell_face2d]; push_cast; ring)

/-- The checked tag loop of the 2D builder succeeds and leaves what the tag
loop of `fill_cart_topology_2d` leaves. -/
theorem tag_loop_2d_checked_eq (nx ny : Nat) (H4 : 4 * (nx * ny) < 2 ^ 31)
    (tag0 : List Int) (h0 : tag0.length = 4 * (nx * ny)) :
    tag_loop_2d_checked nx ny tag0 =
      some (forLoop (nx * ny) (fun j tag =>
        let tag := tag.set (j * 4 + 0) 0
        let tag := tag.set (j * 4 + 1) 2
        let tag := tag.set (j * 4 + 2) 1
        let tag := tag.set (j * 4 + 3) 3
        tag) tag0) := by
  unfold tag_loop_2d_checked
  have hN : nx * ny < 2 ^ 31 := by omega
  rw [i32_eq_cast _ (nx * ny) hN (by push_cast; ring), Int.toNat_ofNat]
  refine (forLoopM_spec (fun _ (tag : List Int) => tag.length = 4 * (nx * ny))
    (nx * ny) _ _ ?_ tag0 h0).1
  intro j hj tag ht
  have ht' : tag.length = 4 * (nx * ny) := ht
  have hb0 : j * 4 + 0 < 2 ^ 31 := by omega
  have hb1 : j * 4 + 1 < 2 ^ 31 := by omega
  have hb2 : j * 4 + 2 < 2 ^ 31 := by omega
  have hb3 : j * 4 + 3 < 2 ^ 31 := by omega
  have hl0 : j * 4 + 0 < tag.length := by omega
  have hl1 : j * 4 + 1 < tag.length := by omega
  have hl2 : j * 4 + 2 < tag.length := by omega
  have hl3 : j * 4 + 3 < tag.length := by omega
  refine ⟨?_, ?_⟩
  · simp only [bind, pure, i32_add_left]
    rw [storeAt_bind _ _ (j * 4 + 0) _ _ (i32_eq_cast _ _ hb0 (by push_cast; ring)) hl0,
      storeAt_bind _ _ (j * 4 + 1) _ _ (i32_eq_cast _ _ hb1 (by push_cast; ring))
        (by rw [List.length_set]; exact hl1),
      storeAt_bind _ _ (j * 4 + 2) _ _ (i32_eq_cast _ _ hb2 (by push_cast; ring))
        (by rw [List.length_set, List.length_set]; exact hl2),
      storeAt_bind _ _ (j * 4 + 3) _ _ (i32_eq_cast _ _ hb3 (by push_cast; ring))
        (by rw [List.length_set, List.length_set, List.length_set]; exact hl3)]
  · show ((((tag.set _ _).set _ _).set _ _).set _ _).length = _
    rw [List.length_set, List.length_set, List.length_set, List.length_set]
    exact ht'

/-- The checked loop over the x-normal faces of the 2D builder succeeds and
leaves what the loop of `fill_cart_topology_2d` leaves. -/
theorem xface_loop_2d_checked_eq (nx ny F : Nat)
    (hF : F = (nx + 1) * ny + nx * (ny + 1))
    (HN : (nx + 1) * (ny + 1) < 2 ^ 31) (H2 : 2 * F < 2 ^ 31)
    (t0 r : Ptr Int × Ptr Int × Ptr Int) (h0 : FaceInv 2 F 0 t0)
    (hr : r = forLoop ny (fun j t => forLoop (nx + 1)
      (fun i (t : Ptr Int × Ptr Int × Ptr Int) =>
        let fnodes := t.1
        let fnodepos := t.2.1
        let fcells := t.2.2
        let fnodes := fnodes.put ((i : Int) + ((nx + 1 : Nat) : Int) * j)
        let fnodes := fnodes.put ((i : Int) + ((nx + 1 : Nat) : Int) * (j + 1))
        let fnodepos := fnodepos.store 1 (fnodepos.load 0 + 2)
        let fnodepos := fnodepos.inc
        let fcells :=
          if i = 0 then
            (fcells.put (-1)).put ((i : Int) + nx * j)
          else if i = nx then
            (fcells.put ((i : Int) - 1 + nx * j)).put (-1)
          else
            (fcells.put ((i : Int) - 1 + nx * j)).put ((i : Int) + nx * j)
        (fnodes, fnodepos, fcells)) t) t0) :
    xface_loop_2d_checked nx ny ((nx + 1 : Nat) : Int) t0 = some r ∧
    FaceInv 2 F ((nx + 1) * ny) r := by
  subst hr
  unfold xface_loop_2d_checked
  rw [i32_succ_toNat nx (succ_lt_of_nodes2 nx ny HN).1]
  refine forLoopM2_spec (FaceInv 2 F) (nx + 1) ny _ _ ?_ t0 h0
  intro i j hi hj t ht
  have hc : i + (nx + 1) * j < (nx + 1) * ny := lex_lt_left hi hj
  have hn : ∀ a b, a ≤ nx → b ≤ ny → node2d nx a b < 2 ^ 31 :=
    fun a b ha hb => lt_trans (node2d_lt ha hb) HN
  have hroom : t.2.2.pos + 1 < t.2.2.buf.length := by
    obtain ⟨-, -, -, -, -, e6, e7⟩ := ht
    omega
  have hcell : ∀ a, a ≤ nx → a + nx * j < 2 ^ 31 := fun a ha => by
    have h1 : a + (nx + 1) * j < (nx + 1) * ny := lex_lt_left (Nat.lt_succ_of_le ha) hj
    have h2 : nx * j ≤ (nx + 1) * j := Nat.mul_le_mul_right _ (Nat.le_succ nx)
    omega
  have hcF : i + (nx + 1) * j < F := by omega
  have hi' : i ≤ nx := Nat.le_of_lt_succ hi
  have hj' : j + 1 ≤ ny := hj
  have hhi : i ≠ 0 → i32 ((i : Int) - 1 + nx * j) = (i : Int) - 1 + nx * j :=
    fun h => by
      obtain ⟨a, rfl⟩ : ∃ a, i = a + 1 := Nat.exists_eq_succ_of_ne_zero h
      exact i32_eq_of _ _ (a + nx * j) (hcell a (Nat.le_of_succ_le hi'))
        (by push_cast; ring) (by push_cast; ring)
  have hlo : i32 ((i : Int) + nx * j) = (i : Int) + nx * j :=
    i32_eq_of _ _ (i + nx * j) (hcell i hi') (by push_cast; ring) (by push_cast; ring)
  simp only [i32_add_left, i32_add_right, i32_mul_left, i32_mul_right, i32_sub_left,
    bind, pure]
  refine face_round2 F _ t ht hcF H2 _ _ _ _ ?_ ?_ _ _ ?_ ?_
  · exact i32_eq_of _ _ (node2d nx i j) (hn _ _ hi' hj.le)
      (by simp only [node2d]; push_cast; ring) (by simp only [node2d]; push_cast; ring)
  · exact i32_eq_of _ _ (node2d nx i (j + 1)) (hn _ _ hi' hj')
      (by simp only [node2d]; push_cast; ring) (by simp only [node2d]; push_cast; ring)
  · intro f p
    split_ifs with h1 h2
    · exact slots_tail _ _ _ _ _ hroom rfl hlo _ _
    · exact slots_tail _ _ _ _ _ hroom (hhi h1) rfl _ _
    · exact slots_tail _ _ _ _ _ hroom (hhi h1) hlo _ _
  · split_ifs <;> exact Ptr.put2_pos _ _ _

/-- The checked loop over the y-normal faces of the 2D builder succeeds and
leaves what the loop of `fill_cart_topology_2d` leaves. -/
theorem yface_loop_2d_checked_eq (nx ny F : Nat)
    (hF : F = (nx + 1) * ny + nx * (ny + 1))
    (HN : (nx + 1) * (ny + 1) < 2 ^ 31) (H2 : 2 * F < 2 ^ 31)
    (t0 r : Ptr Int × Ptr Int × Ptr Int) (h0 : FaceInv 2 F ((nx + 1) * ny) t0)
    (hr : r = forLoop (ny + 1) (fun j t => forLoop nx
      (fun i (t : Ptr Int × Ptr Int × Ptr Int) =>
        let fnodes := t.1
        let fnodepos := t.2.1
        let fcells := t.2.2
        let fnodes := fnodes.put ((i : Int) + 1 + ((nx + 1 : Nat) : Int) * j)
        let fnodes := fnodes.put ((i : Int) + ((nx + 1 : Nat) : Int) * j)
        let fnodepos := fnodepos.store 1 (fnodepos.load 0 + 2)
        let fnodepos := fnodepos.inc
        let fcells :=
          if j = 0 then
            (fcells.put (-1)).put ((i : Int) + nx * j)
          else if j = ny then
            (fcells.put ((i : Int) + nx * ((j : Int) - 1))).put (-1)
          else
            (fcells.put ((i : Int) + nx * ((j : Int) - 1))).put ((i : Int) + nx * j)
        (fnodes, fnodepos, fcells)) t) t0) :
    yface_loop_2d_checked nx ny ((nx + 1 : Nat) : Int) t0 = some r ∧
    FaceInv 2 F F r := by
  subst hr
  unfold yface_loop_2d_checked
  rw [i32_succ_toNat ny (succ_lt_of_nodes2 nx ny HN).2]
  have hfin : FaceInv 2 F F = FaceInv 2 F ((nx + 1) * ny + nx * (ny + 1)) := by rw [← hF]
  rw [hfin]
  refine forLoopM2_spec (fun c t => FaceInv 2 F ((nx + 1) * ny + c) t) nx (ny + 1) _ _ ?_ t0 h0
  intro i j hi hj t ht
  have hc : i + nx * j < nx * (ny + 1) := lex_lt_left hi hj
  have hn : ∀ a b, a ≤ nx → b ≤ ny → node2d nx a b < 2 ^ 31 :=
    fun a b ha hb => lt_trans (node2d_lt ha hb) HN
  have hroom : t.2.2.pos + 1 < t.2.2.buf.length := by
    obtain ⟨-, -, -, -, -, e6, e7⟩ := ht
    omega
  have hcell : ∀ b, b ≤ ny → i + nx * b < 2 ^ 31 := fun b hb => by
    have h1 : i + nx * b < nx * (ny + 1) := lex_lt_left hi (Nat.lt_succ_of_le hb)
    omega
  have hcF : (nx + 1) * ny + (i + nx * j) < F := by omega
  have hi' : i + 1 ≤ nx := hi
  have hj' : j ≤ ny := Nat.le_of_lt_succ hj
  have hhi : j ≠ 0 → i32 ((i : Int) + nx * ((j : Int) - 1)) = (i : Int) + nx * ((j : Int) - 1) :=
    fun h => by
      obtain ⟨b, rfl⟩ : ∃ b, j = b + 1 := Nat.exists_eq_succ_of_ne_zero h
      exact i32_eq_of _ _ (i + nx * b) (hcell b (Nat.le_of_succ_le hj'))
        (by push_cast; ring) (by push_cast; ring)
  have hlo : i32 ((i : Int) + nx * j) = (i : Int) + nx * j :=
    i32_eq_of _ _ (i + nx * j) (hcell j hj') (by push_cast; ring) (by push_cast; ring)
  simp only [i32_add_left, i32_add_right, i32_mul_left, i32_mul_right, i32_sub_left,
    bind, pure]
  refine face_round2 F _ t ht hcF H2 _ _ _ _ ?_ ?_ _ _ ?_ ?_
  · exact i32_eq_of _ _ (node2d nx (i + 1) j) (hn _ _ hi' hj')
      (by simp only [node2d]; push_cast; ring) (by simp only [node2d]; push_cast; ring)
  · exact i32_eq_of _ _ (node2d nx i j) (hn _ _ hi.le hj')
      (by simp only [node2d]; push_cast; ring) (by simp only [node2d]; push_cast; ring)
  · intro f p
    split_ifs with h1 h2
    · exact slots_tail _ _ _ _ _ hroom rfl hlo _ _
    · exact slots_tail _ _ _ _ _ hroom (hhi h1) rfl _ _
    · exact slots_tail _ _ _ _ _ hroom (hhi h1) hlo _ _
  · split_ifs <;> exact Ptr.put2_pos _ _ _

/-- On arrays of the sizes the allocator provides, and with counts that fit
an `int`, the checked run of `fill_cart_topology_2d` succeeds: no access falls
outside its array, the result is the grid `fill_cart_topology_2d` builds, and
the three cursors end at the ends of their arrays. -/
theorem fill_cart_topology_2d_checked_eq (A : UnstructuredGrid)
    (hnc : A.number_of_cells = A.cartdims.1 * A.cartdims.2.1)
    (hs : Sized A 2 (A.cartdims.1 * A.cartdims.2.1)
      ((A.cartdims.1 + 1) * A.cartdims.2.1 + A.cartdims.1 * (A.cartdims.2.1 + 1))
      ((A.cartdims.1 + 1) * (A.cartdims.2.1 + 1)))
    (HN : (A.cartdims.1 + 1) * (A.cartdims.2.1 + 1) < 2 ^ 31)
    (H2 : 2 * ((A.cartdims.1 + 1) * A.cartdims.2.1 + A.cartdims.1 * (A.cartdims.2.1 + 1)) <
      2 ^ 31) :
    fill_cart_topology_2d_checked A =
      some (fill_cart_topology_2d A, A.cell_faces.length, A.face_nodes.length,
        A.face_cells.length) := by
  have H4 : 4 * (A.cartdims.1 * A.cartdims.2.1) < 2 ^ 31 := by
    have e : (A.cartdims.1 + 1) * A.cartdims.2.1 + A.cartdims.1 * (A.cartdims.2.1 + 1) =
        2 * (A.cartdims.1 * A.cartdims.2.1) + (A.cartdims.2.1 + A.cartdims.1) := by ring
    rw [e] at H2
    omega
  have HF : (A.cartdims.1 + 1) * A.cartdims.2.1 + A.cartdims.1 * (A.cartdims.2.1 + 1) <
      2 ^ 31 := by omega
  have hxf : (A.cartdims.1 + 1) * A.cartdims.2.1 < 2 ^ 31 := by omega
  obtain ⟨hx1, -⟩ := succ_lt_of_nodes2 _ _ HN
  have l1 : A.cell_faces.length = 4 * (A.cartdims.1 * A.cartdims.2.1) := by
    rw [hs.cell_faces]; ring
  have l2 : A.cell_facetag.length = 4 * (A.cartdims.1 * A.cartdims.2.1) := by
    rw [hs.cell_facetag]; ring
  have l3 : A.face_nodes.length =
      2 * ((A.cartdims.1 + 1) * A.cartdims.2.1 + A.cartdims.1 * (A.cartdims.2.1 + 1)) := by
    rw [hs.face_nodes]; ring
  have p1 : 0 + 0 < A.cell_facepos.length := by rw [hs.cell_facepos]; omega
  have p2 : 0 + 0 < A.face_nodepos.length := by rw [hs.face_nodepos]; omega
  obtain ⟨e1, i1⟩ := cell_loop_2d_checked_eq A.cartdims.1 A.cartdims.2.1 HF H4
    _ _ (cell_start A.cell_faces A.cell_facepos 4 _ l1 hs.cell_facepos) rfl
  have e2 := tag_loop_2d_checked_eq A.cartdims.1 A.cartdims.2.1 H4 A.cell_facetag l2
  obtain ⟨e3, i3⟩ := xface_loop_2d_checked_eq A.cartdims.1 A.cartdims.2.1 _ rfl
    HN H2 _ _ (face_start A.face_nodes A.face_nodepos A.face_cells 2 _ l3 hs.face_nodepos
      hs.face_cells) rfl
  obtain ⟨e4, i4⟩ := yface_loop_2d_checked_eq A.cartdims.1 A.cartdims.2.1 _ rfl
    HN H2 _ _ i3 rfl
  have q1 := i1.1
  have q2 := i4.1
  have q3 := i4.2.2.2.2.2.1
  have hNx : i32 ((A.cartdims.1 : Int) + 1) = ((A.cartdims.1 + 1 : Nat) : Int) :=
    i32_eq_cast _ _ hx1 (by push_cast; ring)
  have hnxf : i32 (((A.cartdims.1 + 1 : Nat) : Int) * A.cartdims.2.1) =
      (((A.cartdims.1 + 1) * A.cartdims.2.1 : Nat) : Int) :=
    i32_eq_cast _ _ hxf (by push_cast; ring)
  unfold fill_cart_topology_2d_checked
  simp only [bind, pure, hNx, hnxf]
  rw [Ptr.storeC_bind _ _ _ _ p1, e1, Option.some_bind, e2, Option.some_bind,
    Ptr.storeC_bind _ _ _ _ p2, e3, Option.some_bind, e4, Option.some_bind,
    fill_cart_indices_checked_eq _
      (by show A.global_cell.length = A.number_of_cells; rw [hs.global_cell, hnc]),
    Option.some_bind, q1, q2, q3, l1, l3, hs.face_cells]
  rfl

theorem size_of_int_nat (n : Nat) (h : n < 2 ^ 31) : size_of_int (n : Int) = n := by
  unfold size_of_int
  omega

/-- With counts that fit an `int`, the allocator computes in `int` the counts
it computes in exact arithmetic. -/
theorem allocate_cart_grid_3d_int32_eq (m : Extern) (nx ny nz : Nat)
    (HN : (nx + 1) * (ny + 1) * (nz + 1) < 2 ^ 31)
    (HF : (nx + 1) * ny * nz + nx * (ny + 1) * nz + nx * ny * (nz + 1) < 2 ^ 31) :
    allocate_cart_grid_3d_int32 m nx ny nz = allocate_cart_grid_3d m nx ny nz := by
  have hcf := cells_le_faces nx ny nz
  have hN : nx * ny * nz < 2 ^ 31 := by omega
  have hxf : (nx + 1) * ny * nz < 2 ^ 31 := by omega
  have hyf : nx * (ny + 1) * nz < 2 ^ 31 := by omega
  have hzf : nx * ny * (nz + 1) < 2 ^ 31 := by omega
  have e1 : i32 (i32 (i32 ((nx : Int) + 1) * ny) * nz) = (((nx + 1) * ny * nz : Nat) : Int) := by
    simp only [i32_mul_left, i32_mul_right, i32_add_left, i32_add_right]
    exact i32_eq_cast _ _ hxf (by push_cast; ring)
  have e2 : i32 (i32 ((nx : Int) * i32 ((ny : Int) + 1)) * nz) =
      ((nx * (ny + 1) * nz : Nat) : Int) := by
    simp only [i32_mul_left, i32_mul_right, i32_add_left, i32_add_right]
    exact i32_eq_cast _ _ hyf (by push_cast; ring)
  have e3 : i32 (i32 ((nx : Int) * ny) * i32 ((nz : Int) + 1)) =
      ((nx * ny * (nz + 1) : Nat) : Int) := by
    simp only [i32_mul_left, i32_mul_right, i32_add_left, i32_add_right]
    exact i32_eq_cast _ _ hzf (by push_cast; ring)
  have e4 : i32 (i32 ((nx : Int) * ny) * nz) = ((nx * ny * nz : Nat) : Int) := by
    simp only [i32_mul_left, i32_mul_right, i32_add_left, i32_add_right]
    exact i32_eq_cast _ _ hN (by push_cast; ring)
  have e5 : i32 (i32 (i32 ((nx : Int) + 1) * i32 ((ny : Int) + 1)) * i32 ((nz : Int) + 1)) =
      (((nx + 1) * (ny + 1) * (nz + 1) : Nat) : Int) := by
    simp only [i32_mul_left, i32_mul_right, i32_add_left, i32_add_right]
    exact i32_eq_cast _ _ HN (by push_cast; ring)
  have e6 : i32 (i32 ((((nx + 1) * ny * nz : Nat) : Int) + ((nx * (ny + 1) * nz : Nat) : Int)) +
      ((nx * ny * (nz + 1) : Nat) : Int)) =
      (((nx + 1) * ny * nz + nx * (ny + 1) * nz + nx * ny * (nz + 1) : Nat) : Int) := by
    simp only [i32_mul_left, i32_mul_right, i32_add_left, i32_add_right]
    exact i32_eq_cast _ _ HF (by push_cast; ring)
  unfold allocate_cart_grid_3d_int32 allocate_cart_grid_3d
  simp only [e1, e2, e3, e4, e5, e6, size_of_int_nat _ hN, size_of_int_nat _ HF,
    size_of_int_nat _ HN, Int.toNat_ofNat]

/-- With counts that fit an `int`, the 2D allocator computes in `int` the
counts it computes in exact arithmetic. -/
theorem allocate_cart_grid_2d_int32_eq (m : Extern) (nx ny : Nat)
    (HN : (nx + 1) * (ny + 1) < 2 ^ 31)
    (HF : (nx + 1) * ny + nx * (ny + 1) < 2 ^ 31) :
    allocate_cart_grid_2d_int32 m nx ny = allocate_cart_grid_2d m nx ny := by
  have hN : nx * ny < 2 ^ 31 := by
    have : nx * ny ≤ (nx + 1) * ny := Nat.mul_le_mul_right _ (Nat.le_succ nx)
    omega
  have hxf : (nx + 1) * ny < 2 ^ 31 := by omega
  have hyf : nx * (ny + 1) < 2 ^ 31 := by omega
  have e1 : i32 (i32 ((nx : Int) + 1) * ny) = (((nx + 1) * ny : Nat) : Int) := by
    simp only [i32_mul_left, i32_mul_right, i32_add_left, i32_add_right]
    exact i32_eq_cast _ _ hxf (by push_cast; ring)
  have e2 : i32 ((nx : Int) * i32 ((ny : Int) + 1)) = ((nx * (ny + 1) : Nat) : Int) := by
    simp only [i32_mul_left, i32_mul_right, i32_add_left, i32_add_right]
    exact i32_eq_cast _ _ hyf (by push_cast; ring)
  have e4 : i32 ((nx : Int) * ny) = ((nx * ny : Nat) : Int) :=
    i32_eq_cast _ _ hN (by push_cast; ring)
  have e5 : i32 (i32 ((nx : Int) + 1) * i32 ((ny : Int) + 1)) =
      (((nx + 1) * (ny + 1) : Nat) : Int) := by
    simp only [i32_mul_left, i32_mul_right, i32_add_left, i32_add_right]
    exact i32_eq_cast _ _ HN (by push_cast; ring)
  have e6 : i32 ((((nx + 1) * ny : Nat) : Int) + ((nx * (ny + 1) : Nat) : Int)) =
      (((nx + 1) * ny + nx * (ny + 1) : Nat) : Int) :=
    i32_eq_cast _ _ HF (by push_cast; ring)
  unfold allocate_cart_grid_2d_int32 allocate_cart_grid_2d
  simp only [e1, e2, e4, e5, e6, size_of_int_nat _ hN, size_of_int_nat _ HF,
    size_of_int_nat _ HN, Int.toNat_ofNat]

/-- A checked loop whose first round fails, fails. -/
theorem forLoopM_first_none {σ : Type} (n : Nat) (hn : 0 < n) (body : Nat → σ → Option σ)
    (s : σ) (h : body 0 s = none) : forLoopM n body s = none := by
  induction n with
  | zero => exact absurd hn (Nat.lt_irrefl 0)
  | succ n ih =>
    show (forLoopM n body s).bind (body n) = none
    rcases Nat.eq_zero_or_pos n with h0 | h0
    · subst h0
      exact h
    · rw [ih h0]
      rfl

/-- The checked run of the 3D builder on a grid with at least one cell in
every direction whose `cell_faces` array is empty fails: the first store of the
cell loop falls outside the array. -/
theorem fill_cart_topology_3d_checked_none (A : UnstructuredGrid)
    (h1 : 0 < A.cartdims.1) (h2 : 0 < A.cartdims.2.1) (h3 : 0 < A.cartdims.2.2)
    (h : A.cell_faces.length = 0) : fill_cart_topology_3d_checked A = none := by
  unfold fill_cart_topology_3d_checked
  simp only [bind, pure]
  cases hp : (⟨A.cell_facepos, 0⟩ : Ptr Int).storeC 0 0 with
  | none => rfl
  | some a =>
    rw [Option.some_bind]
    have hl : cell_loop_3d_checked A.cartdims.1 A.cartdims.2.1 A.cartdims.2.2
        (i32 ((A.cartdims.1 : Int) + 1)) (i32 ((A.cartdims.2.1 : Int) + 1))
        (i32 (i32 (i32 ((A.cartdims.1 : Int) + 1) * A.cartdims.2.1) * A.cartdims.2.2))
        (i32 (i32 ((A.cartdims.1 : Int) * i32 ((A.cartdims.2.1 : Int) + 1)) * A.cartdims.2.2))
        (⟨A.cell_faces, 0⟩, a) = none := by
      unfold cell_loop_3d_checked
      refine forLoopM_first_none _ h3 _ _ ?_
      refine forLoopM_first_none _ h2 _ _ ?_
      refine forLoopM_first_none _ h1 _ _ ?_
      simp only [bind, pure]
      unfold Ptr.putC
      rw [if_neg (by show ¬ (0 < A.cell_faces.length); rw [h]; exact Nat.lt_irrefl 0)]
      rfl
    rw [hl]
    rfl

/-! ## Properties of the constructed grids -/

/-- C1: in the grid returned by `create_grid_cart2d(nx, ny, dx, dy)` the faces
of cell `c = i + nx*j`, read as `cell_faces[k]` for `k` from `cell_facepos[c]`
up to `cell_facepos[c+1]-1`, are in this order
`[i + (nx+1)*j, i + nx*j + (nx+1)*ny, i+1 + (nx+1)*j, i + nx*(j+1) + (nx+1)*ny]`,
and for `nx = ny = 2` the whole `cell_faces` array is
`[0,6,1,8, 1,7,2,9, 3,8,4,10, 4,9,5,11]`. -/
theorem cart2d_cell_faces (m : Extern) (hx : m.malloc_x = true) (hy : m.malloc_y = true)
    (hm : m.grid_granted) (nx ny : Nat) (dx dy : ℚ) (i j : Nat) (hi : i < nx) (hj : j < ny) :
    (∃ G, create_grid_cart2d m nx ny dx dy = some G ∧
      cell_face_list G (i + nx * j) =
        [(i : Int) + (nx + 1) * j, i + nx * j + (nx + 1) * ny, i + 1 + (nx + 1) * j,
          i + nx * (j + 1) + (nx + 1) * ny]) ∧
    (∃ G, create_grid_cart2d m 2 2 dx dy = some G ∧
      G.cell_faces = [0, 6, 1, 8, 1, 7, 2, 9, 3, 8, 4, 10, 4, 9, 5, 11]) := by
  constructor
  · rw [create_grid_cart2d_eq m hx hy]
    obtain ⟨G, hG, T⟩ := create_grid_tensor2d_topology m hm nx ny
      (uniform_coords nx dx) (uniform_coords ny dy)
    refine ⟨G, hG, ?_⟩
    have hc : i + nx * j < nx * ny := lex_lt_left hi hj
    have hp0 := T.cell_facepos (i + nx * j) (by omega)
    have hp1 := T.cell_facepos (i + nx * j + 1) (by omega)
    have hget : ∀ r, r < 4 → G.cell_faces[(i + nx * j) * 4 + r]? =
        [(i : Int) + ((nx + 1 : Nat) : Int) * j,
          (i : Int) + nx * j + (((nx + 1) * ny : Nat) : Int),
          (i : Int) + 1 + ((nx + 1 : Nat) : Int) * j,
          (i : Int) + nx * (j + 1) + (((nx + 1) * ny : Nat) : Int)][r]? := by
      intro r hr
      rw [T.cell_faces]
      exact emitted2_getElem? 4 _ (fun _ _ => by rfl) nx ny i j r hi hj hr
    have e0 : (4 * ((i + nx * j : Nat) : Int)).toNat = (i + nx * j) * 4 := by omega
    have e1 : (4 * ((i + nx * j + 1 : Nat) : Int)).toNat - (i + nx * j) * 4 = 4 := by omega
    simp only [cell_face_list, getD_of_getElem? hp0, getD_of_getElem? hp1, e0, e1]
    have g0 := hget 0 (by omega)
    have g1 := hget 1 (by omega)
    have g2 := hget 2 (by omega)
    have g3 := hget 3 (by omega)
    simp only [List.getElem?_cons_zero, List.getElem?_cons_succ] at g0 g1 g2 g3
    simp only [List.range_succ, List.range_zero, List.nil_append, List.cons_append,
      List.map_cons, List.map_nil, getD_of_getElem? g0, getD_of_getElem? g1,
      getD_of_getElem? g2, getD_of_getElem? g3]
    push_cast
    rfl
  · rw [create_grid_cart2d_eq m hx hy]
    obtain ⟨G, hG, T⟩ := create_grid_tensor2d_topology m hm 2 2
      (uniform_coords 2 dx) (uniform_coords 2 dy)
    refine ⟨G, hG, ?_⟩
    rw [T.cell_faces]
    decide

/-- Witness for C1: cell 3 of the 2 by 2 grid. -/
theorem cart2d_cell_faces_witness :
    (∃ G, create_grid_cart2d Extern.ample 2 2 1 1 = some G ∧
      cell_face_list G (1 + 2 * 1) =
        [((1 : Nat) : Int) + ((2 : Nat) + 1) * (1 : Nat),
          (1 : Nat) + (2 : Nat) * (1 : Nat) + ((2 : Nat) + 1) * (2 : Nat),
          (1 : Nat) + 1 + ((2 : Nat) + 1) * (1 : Nat),
          (1 : Nat) + (2 : Nat) * ((1 : Nat) + 1) + ((2 : Nat) + 1) * (2 : Nat)]) ∧
    (∃ G, create_grid_cart2d Extern.ample 2 2 1 1 = some G ∧
      G.cell_faces = [0, 6, 1, 8, 1, 7, 2, 9, 3, 8, 4, 10, 4, 9, 5, 11]) :=
  cart2d_cell_faces Extern.ample rfl rfl ⟨rfl, rfl⟩ 2 2 1 1 1 1 (by decide) (by decide)

/-- C2: the grid returned by `create_grid_cart3d(nx, ny, nz)` has
`global_cell[c] = c` for every `c` with `0 <= c < nx*ny*nz`; `global_cell` is
the identity permutation of `[0, nx*ny*nz)`, in which every value is hit
exactly once. -/
theorem cart3d_global_cell (m : Extern) (hx : m.malloc_x = true) (hy : m.malloc_y = true)
    (hz : m.malloc_z = true) (hm : m.grid_granted) (nx ny nz c : Nat)
    (hc : c < nx * ny * nz) :
    ∃ G, create_grid_cart3d m nx ny nz = some G ∧
      G.global_cell[c]? = some (c : Int) ∧
      G.global_cell = (List.range (nx * ny * nz)).map (fun (v : Nat) => (v : Int)) ∧
      G.global_cell.length = nx * ny * nz ∧
      G.global_cell.count (c : Int) = 1 := by
  rw [create_grid_cart3d, create_grid_hexa3d_eq m hx hy hz]
  obtain ⟨G, hG, T⟩ := create_grid_tensor3d_topology m hm nx ny nz
    (uniform_coords nx 1) (uniform_coords ny 1) (uniform_coords nz 1) none
  have hgc : G.global_cell = (List.range (nx * ny * nz)).map (fun (v : Nat) => (v : Int)) := by
    rw [T.global_cell, emitted_singleton]
  refine ⟨G, hG, ?_, hgc, ?_, ?_⟩
  · rw [hgc, List.getElem?_map, List.getElem?_range hc]; rfl
  · rw [hgc, List.length_map, List.length_range]
  · rw [hgc]
    refine List.count_eq_one_of_mem ?_ ?_
    · exact List.Nodup.map (fun a b h => by exact_mod_cast h) (List.nodup_range _)
    · exact List.mem_map.mpr ⟨c, List.mem_range.mpr hc, rfl⟩

/-- Witness for C2: cell 7 of the 2 by 2 by 2 grid of the
reference test. -/
theorem cart3d_global_cell_witness :
    ∃ G, create_grid_cart3d Extern.ample 2 2 2 = some G ∧
      G.global_cell[7]? = some ((7 : Nat) : Int) ∧
      G.global_cell = (List.range (2 * 2 * 2)).map (fun (v : Nat) => (v : Int)) ∧
      G.global_cell.length = 2 * 2 * 2 ∧
      G.global_cell.count ((7 : Nat) : Int) = 1 :=
  cart3d_global_cell Extern.ample rfl rfl rfl ⟨rfl, rfl⟩ 2 2 2 7 (by decide)

/-- C3: in the 3D and in the 2D topology with all cell counts at least 1, a
face of the family with normal axis `a` at position `p` along that axis has
neighbour slots `(face_cells[2f], face_cells[2f+1])` equal to `(-1, c)` with
`c >= 0` when `p = 0`, to `(c, -1)` with `c >= 0` when `p = n_a`, and both
slots `>= 0` when `0 < p < n_a`; no face has both slots equal to `-1`. The
x-normal faces are numbered `i + (nx+1)*(j + ny*k)`, the y-normal faces
follow them as `i + nx*(j + (ny+1)*k)` and the z-normal faces come last as
`i + nx*(j + ny*k)`. -/
theorem face_cells_boundary_pattern (m : Extern) (hm : m.grid_granted) (nx ny nz : Nat)
    (hnx : 1 ≤ nx) (hny : 1 ≤ ny) (hnz : 1 ≤ nz) (x y z : List ℚ) (depthz : Option (List ℚ))
    (i j k : Nat) :
    (∃ G, create_grid_tensor3d m nx ny nz x y z depthz = some G ∧
      (i ≤ nx → j < ny → k < nz →
        boundary_slots G (i + (nx + 1) * (j + ny * k)) i nx) ∧
      (i < nx → j ≤ ny → k < nz →
        boundary_slots G ((nx + 1) * ny * nz + (i + nx * (j + (ny + 1) * k))) j ny) ∧
      (i < nx → j < ny → k ≤ nz →
        boundary_slots G
          ((nx + 1) * ny * nz + nx * (ny + 1) * nz + (i + nx * (j + ny * k))) k nz)) ∧
    (∃ G, create_grid_tensor2d m nx ny x y = some G ∧
      (i ≤ nx → j < ny → boundary_slots G (i + (nx + 1) * j) i nx) ∧
      (i < nx → j ≤ ny → boundary_slots G ((nx + 1) * ny + (i + nx * j)) j ny)) := by
  have hp3 : (0 : Int) ≤ (nx : Int) * (j + ny * k) := by positivity
  have hp2 : (0 : Int) ≤ (nx : Int) * j := by positivity
  constructor
  · obtain ⟨G, hG, T⟩ := create_grid_tensor3d_topology m hm nx ny nz x y z depthz
    refine ⟨G, hG, ?_, ?_, ?_⟩
    · intro hi hj hk
      have g0 := fcells3d_get_x nx ny nz i j k 0 hi hj hk (by omega)
      have g1 := fcells3d_get_x nx ny nz i j k 1 hi hj hk (by omega)
      unfold boundary_slots
      rw [T.face_cells, ← Nat.add_zero (2 * (i + (nx + 1) * (j + ny * k))), g0, g1]
      exact slots_pattern _ i nx hnx ((i : Int) - 1 + nx * (j + ny * k))
        ((i : Int) + nx * (j + ny * k)) (fun h => by omega) (by omega) rfl
    · intro hi hj hk
      have g0 := fcells3d_get_y nx ny nz i j k 0 hi hj hk (by omega)
      have g1 := fcells3d_get_y nx ny nz i j k 1 hi hj hk (by omega)
      unfold boundary_slots
      rw [T.face_cells,
        ← Nat.add_zero (2 * ((nx + 1) * ny * nz + (i + nx * (j + (ny + 1) * k)))), g0, g1]
      have hq : 0 < j → (0 : Int) ≤ (nx : Int) * ((j : Int) - 1 + ny * k) := by
        intro h
        have : (0 : Int) ≤ (j : Int) - 1 := by omega
        positivity
      exact slots_pattern _ j ny hny ((i : Int) + nx * ((j : Int) - 1 + ny * k))
        ((i : Int) + nx * (j + ny * k)) (fun h => by have := hq h; omega) (by omega) rfl
    · intro hi hj hk
      have g0 := fcells3d_get_z nx ny nz i j k 0 hi hj hk (by omega)
      have g1 := fcells3d_get_z nx ny nz i j k 1 hi hj hk (by omega)
      unfold boundary_slots
      rw [T.face_cells, ← Nat.add_zero
        (2 * ((nx + 1) * ny * nz + nx * (ny + 1) * nz + (i + nx * (j + ny * k)))), g0, g1]
      have hq : 0 < k → (0 : Int) ≤ (nx : Int) * (j + ny * ((k : Int) - 1)) := by
        intro h
        have : (0 : Int) ≤ (k : Int) - 1 := by omega
        positivity
      exact slots_pattern _ k nz hnz ((i : Int) + nx * (j + ny * ((k : Int) - 1)))
        ((i : Int) + nx * (j + ny * k)) (fun h => by have := hq h; omega) (by omega) rfl
  · obtain ⟨G, hG, T⟩ := create_grid_tensor2d_topology m hm nx ny x y
    refine ⟨G, hG, ?_, ?_⟩
    · intro hi hj
      have g0 := fcells2d_get_x nx ny i j 0 hi hj (by omega)
      have g1 := fcells2d_get_x nx ny i j 1 hi hj (by omega)
      unfold boundary_slots
      rw [T.face_cells, ← Nat.add_zero (2 * (i + (nx + 1) * j)), g0, g1]
      exact slots_pattern _ i nx hnx ((i : Int) - 1 + nx * j) ((i : Int) + nx * j)
        (fun h => by omega) (by omega) rfl
    · intro hi hj
      have g0 := fcells2d_get_y nx ny i j 0 hi hj (by omega)
      have g1 := fcells2d_get_y nx ny i j 1 hi hj (by omega)
      unfold boundary_slots
      rw [T.face_cells, ← Nat.add_zero (2 * ((nx + 1) * ny + (i + nx * j))), g0, g1]
      have hq : 0 < j → (0 : Int) ≤ (nx : Int) * ((j : Int) - 1) := by
        intro h
        have : (0 : Int) ≤ (j : Int) - 1 := by omega
        positivity
      exact slots_pattern _ j ny hny ((i : Int) + nx * ((j : Int) - 1)) ((i : Int) + nx * j)
        (fun h => by have := hq h; omega) (by omega) rfl

/-- Witness for C3: the faces through the middle of
the 2 by 2 by 2 and 2 by 2 grids. -/
theorem face_cells_boundary_pattern_witness :
    (∃ G, create_grid_tensor3d Extern.ample 2 2 2 [0, 1, 2] [0, 1, 2] [0, 1, 2] none = some G ∧
      (1 ≤ 2 → 1 < 2 → 1 < 2 →
        boundary_slots G (1 + (2 + 1) * (1 + 2 * 1)) 1 2) ∧
      (1 < 2 → 1 ≤ 2 → 1 < 2 →
        boundary_slots G ((2 + 1) * 2 * 2 + (1 + 2 * (1 + (2 + 1) * 1))) 1 2) ∧
      (1 < 2 → 1 < 2 → 1 ≤ 2 →
        boundary_slots G
          ((2 + 1) * 2 * 2 + 2 * (2 + 1) * 2 + (1 + 2 * (1 + 2 * 1))) 1 2)) ∧
    (∃ G, create_grid_tensor2d Extern.ample 2 2 [0, 1, 2] [0, 1, 2] = some G ∧
      (1 ≤ 2 → 1 < 2 → boundary_slots G (1 + (2 + 1) * 1) 1 2) ∧
      (1 < 2 → 1 ≤ 2 → boundary_slots G ((2 + 1) * 2 + (1 + 2 * 1)) 1 2)) :=
  face_cells_boundary_pattern Extern.ample ⟨rfl, rfl⟩ 2 2 2 (by decide) (by decide) (by decide)
    [0, 1, 2] [0, 1, 2] [0, 1, 2] none 1 1 1

/-- C4: the face tag tells which side of the face its cell is on. For every
cell `c` and local position `p < 2*dimensions`, with `q = cell_facepos[c] + p`,
`f = cell_faces[q]` and `t = cell_facetag[q]`: in 3D `t = p` and in 2D the tags
by position are `(0,2,1,3)`; `f` is a face of the family of axis `t div 2`
(x-family `[0, nxf)`, y-family `[nxf, nxf+nyf)`, z-family the rest); and
`c = face_cells[2f+1]` when `t` is even while `c = face_cells[2f]` when `t` is
odd. -/
theorem cell_facetag_side (m : Extern) (hm : m.grid_granted) (nx ny nz : Nat)
    (x y z : List ℚ) (depthz : Option (List ℚ)) (c p : Nat) :
    (∃ G, create_grid_tensor3d m nx ny nz x y z depthz = some G ∧
      (c < nx * ny * nz → p < 6 → ∃ b f t : Nat,
        G.cell_facepos[c]? = some (b : Int) ∧ G.cell_faces[b + p]? = some (f : Int) ∧
        G.cell_facetag[b + p]? = some (t : Int) ∧ t = p ∧ f < G.number_of_faces ∧
        face_family ((nx + 1) * ny * nz) (nx * (ny + 1) * nz) f = t / 2 ∧
        (t % 2 = 0 → G.face_cells[2 * f + 1]? = some (c : Int)) ∧
        (t % 2 = 1 → G.face_cells[2 * f]? = some (c : Int)))) ∧
    (∃ G, create_grid_tensor2d m nx ny x y = some G ∧
      (c < nx * ny → p < 4 → ∃ b f t : Nat,
        G.cell_facepos[c]? = some (b : Int) ∧ G.cell_faces[b + p]? = some (f : Int) ∧
        G.cell_facetag[b + p]? = some (t : Int) ∧ ([0, 2, 1, 3] : List Nat)[p]? = some t ∧
        f < G.number_of_faces ∧
        face_family ((nx + 1) * ny) (nx * (ny + 1)) f = t / 2 ∧
        (t % 2 = 0 → G.face_cells[2 * f + 1]? = some (c : Int)) ∧
        (t % 2 = 1 → G.face_cells[2 * f]? = some (c : Int)))) := by
  constructor
  · obtain ⟨G, hG, T⟩ := create_grid_tensor3d_topology m hm nx ny nz x y z depthz
    refine ⟨G, hG, ?_⟩
    intro hc hp
    obtain ⟨i, j, k, hi, hj, hk, rfl⟩ := cell_decomp3 nx ny nz c hc
    have hfam := cell_face3d_family nx ny nz i j k p hi hj hk hp
    have hslot := cell_face3d_slot nx ny nz i j k p hi hj hk hp
    refine ⟨6 * (i + nx * (j + ny * k)), cell_face3d nx ny nz i j k p, p, ?_, ?_, ?_, rfl,
      ?_, hfam.1, ?_, ?_⟩
    · rw [T.cell_facepos _ (le_of_lt hc)]; push_cast; rfl
    · rw [T.cell_faces, Nat.mul_comm 6]
      exact cfaces3d_get nx ny nz i j k p hi hj hk hp
    · rw [T.cell_facetag, Nat.mul_comm 6]
      exact ctag3d_get nx ny nz _ p hc hp
    · rw [T.number_of_faces]; exact hfam.2
    · intro h
      rw [if_pos h] at hslot
      rw [T.face_cells]; exact hslot
    · intro h
      rw [if_neg (by omega), Nat.add_zero] at hslot
      rw [T.face_cells]; exact hslot
  · obtain ⟨G, hG, T⟩ := create_grid_tensor2d_topology m hm nx ny x y
    refine ⟨G, hG, ?_⟩
    intro hc hp
    obtain ⟨i, j, hi, hj, rfl⟩ := cell_decomp2 nx ny c hc
    have hfam := cell_face2d_family nx ny i j p hi hj hp
    have hslot := cell_face2d_slot nx ny i j p hi hj hp
    have htag : ∃ t : Nat, ([0, 2, 1, 3] : List Nat)[p]? = some t ∧
        ([0, 2, 1, 3] : List Int)[p]? = some (t : Int) ∧ t / 2 = p % 2 ∧
        (t % 2 = 0 ↔ p < 2) := by
      interval_cases p
      · exact ⟨0, rfl, rfl, rfl, by decide⟩
      · exact ⟨2, rfl, rfl, rfl, by decide⟩
      · exact ⟨1, rfl, rfl, rfl, by decide⟩
      · exact ⟨3, rfl, rfl, rfl, by decide⟩
    obtain ⟨t, ht1, ht2, ht3, ht4⟩ := htag
    refine ⟨4 * (i + nx * j), cell_face2d nx ny i j p, t, ?_, ?_, ?_, ht1, ?_, ?_, ?_, ?_⟩
    · rw [T.cell_facepos _ (le_of_lt hc)]; push_cast; rfl
    · rw [T.cell_faces, Nat.mul_comm 4]
      exact cfaces2d_get nx ny i j p hi hj hp
    · rw [T.cell_facetag, Nat.mul_comm 4, ctag2d_get nx ny _ p hc hp]
      exact ht2
    · rw [T.number_of_faces]; exact hfam.2
    · rw [ht3]; exact hfam.1
    · intro h
      rw [if_pos (ht4.mp h)] at hslot
      rw [T.face_cells]; exact hslot
    · intro h
      rw [if_neg (fun h2 => by have := ht4.mpr h2; omega), Nat.add_zero] at hslot
      rw [T.face_cells]; exact hslot

/-- Witness for C4: the y-high face of the last cell of the 2 by 2 grid and of
cell 3 of the 2 by 2 by 2 grid. -/
theorem cell_facetag_side_witness :
    (∃ G, create_grid_tensor3d Extern.ample 2 2 2 [0, 1, 2] [0, 1, 2] [0, 1, 2] none = some G ∧
      (3 < 2 * 2 * 2 → 3 < 6 → ∃ b f t : Nat,
        G.cell_facepos[3]? = some (b : Int) ∧ G.cell_faces[b + 3]? = some (f : Int) ∧
        G.cell_facetag[b + 3]? = some (t : Int) ∧ t = 3 ∧ f < G.number_of_faces ∧
        face_family ((2 + 1) * 2 * 2) (2 * (2 + 1) * 2) f = t / 2 ∧
        (t % 2 = 0 → G.face_cells[2 * f + 1]? = some ((3 : Nat) : Int)) ∧
        (t % 2 = 1 → G.face_cells[2 * f]? = some ((3 : Nat) : Int)))) ∧
    (∃ G, create_grid_tensor2d Extern.ample 2 2 [0, 1, 2] [0, 1, 2] = some G ∧
      (3 < 2 * 2 → 3 < 4 → ∃ b f t : Nat,
        G.cell_facepos[3]? = some (b : Int) ∧ G.cell_faces[b + 3]? = some (f : Int) ∧
        G.cell_facetag[b + 3]? = some (t : Int) ∧ ([0, 2, 1, 3] : List Nat)[3]? = some t ∧
        f < G.number_of_faces ∧
        face_family ((2 + 1) * 2) (2 * (2 + 1)) f = t / 2 ∧
        (t % 2 = 0 → G.face_cells[2 * f + 1]? = some ((3 : Nat) : Int)) ∧
        (t % 2 = 1 → G.face_cells[2 * f]? = some ((3 : Nat) : Int)))) :=
  cell_facetag_side Extern.ample ⟨rfl, rfl⟩ 2 2 2 [0, 1, 2] [0, 1, 2] [0, 1, 2] none 3 3

/-- C5: for every grid built by the 3D or 2D topology builder (any cell
counts, zero included) `cell_facepos[c] = 2*dimensions*c` for every
`0 <= c <= number_of_cells` and `face_nodepos[f] = 2*(dimensions-1)*f` for every
`0 <= f <= number_of_faces`; both tables start at 0 and increase by exactly 6
and 4 per step in 3D and by exactly 4 and 2 per step in 2D. -/
theorem offset_tables (m : Extern) (hm : m.grid_granted) (nx ny nz : Nat)
    (x y z : List ℚ) (depthz : Option (List ℚ)) (c f : Nat) :
    (∃ G, create_grid_tensor3d m nx ny nz x y z depthz = some G ∧
      (c ≤ G.number_of_cells → G.cell_facepos[c]? = some (2 * (G.dimensions : Int) * c)) ∧
      (f ≤ G.number_of_faces →
        G.face_nodepos[f]? = some (2 * ((G.dimensions : Int) - 1) * f)) ∧
      G.cell_facepos[0]? = some 0 ∧ G.face_nodepos[0]? = some 0 ∧
      (c < G.number_of_cells → ∃ a b : Int, G.cell_facepos[c]? = some a ∧
        G.cell_facepos[c + 1]? = some b ∧ b = a + 6) ∧
      (f < G.number_of_faces → ∃ a b : Int, G.face_nodepos[f]? = some a ∧
        G.face_nodepos[f + 1]? = some b ∧ b = a + 4)) ∧
    (∃ G, create_grid_tensor2d m nx ny x y = some G ∧
      (c ≤ G.number_of_cells → G.cell_facepos[c]? = some (2 * (G.dimensions : Int) * c)) ∧
      (f ≤ G.number_of_faces →
        G.face_nodepos[f]? = some (2 * ((G.dimensions : Int) - 1) * f)) ∧
      G.cell_facepos[0]? = some 0 ∧ G.face_nodepos[0]? = some 0 ∧
      (c < G.number_of_cells → ∃ a b : Int, G.cell_facepos[c]? = some a ∧
        G.cell_facepos[c + 1]? = some b ∧ b = a + 4) ∧
      (f < G.number_of_faces → ∃ a b : Int, G.face_nodepos[f]? = some a ∧
        G.face_nodepos[f + 1]? = some b ∧ b = a + 2)) := by
  constructor
  · obtain ⟨G, hG, T⟩ := create_grid_tensor3d_topology m hm nx ny nz x y z depthz
    refine ⟨G, hG, ?_, ?_, ?_, ?_, ?_, ?_⟩
    · intro h
      rw [T.number_of_cells] at h
      rw [T.cell_facepos c h, T.dimensions]; norm_num
    · intro h
      rw [T.number_of_faces] at h
      rw [T.face_nodepos f h, T.dimensions]; norm_num
    · rw [T.cell_facepos 0 (Nat.zero_le _)]; rfl
    · rw [T.face_nodepos 0 (Nat.zero_le _)]; rfl
    · intro h
      rw [T.number_of_cells] at h
      exact ⟨_, _, T.cell_facepos c (le_of_lt h), T.cell_facepos (c + 1) h, by push_cast; ring⟩
    · intro h
      rw [T.number_of_faces] at h
      exact ⟨_, _, T.face_nodepos f (le_of_lt h), T.face_nodepos (f + 1) h, by push_cast; ring⟩
  · obtain ⟨G, hG, T⟩ := create_grid_tensor2d_topology m hm nx ny x y
    refine ⟨G, hG, ?_, ?_, ?_, ?_, ?_, ?_⟩
    · intro h
      rw [T.number_of_cells] at h
      rw [T.cell_facepos c h, T.dimensions]; norm_num
    · intro h
      rw [T.number_of_faces] at h
      rw [T.face_nodepos f h, T.dimensions]; norm_num
    · rw [T.cell_facepos 0 (Nat.zero_le _)]; rfl
    · rw [T.face_nodepos 0 (Nat.zero_le _)]; rfl
    · intro h
      rw [T.number_of_cells] at h
      exact ⟨_, _, T.cell_facepos c (le_of_lt h), T.cell_facepos (c + 1) h, by push_cast; ring⟩
    · intro h
      rw [T.number_of_faces] at h
      exact ⟨_, _, T.face_nodepos f (le_of_lt h), T.face_nodepos (f + 1) h, by push_cast; ring⟩

/-- Witness for C5: the first cell and the second face of the grids with a
single cell. -/
theorem offset_tables_witness :
    (∃ G, create_grid_tensor3d Extern.ample 1 1 1 [0, 1] [0, 1] [0, 1] none = some G ∧
      (0 ≤ G.number_of_cells →
        G.cell_facepos[0]? = some (2 * (G.dimensions : Int) * (0 : Nat))) ∧
      (1 ≤ G.number_of_faces →
        G.face_nodepos[1]? = some (2 * ((G.dimensions : Int) - 1) * (1 : Nat))) ∧
      G.cell_facepos[0]? = some 0 ∧ G.face_nodepos[0]? = some 0 ∧
      (0 < G.number_of_cells → ∃ a b : Int, G.cell_facepos[0]? = some a ∧
        G.cell_facepos[0 + 1]? = some b ∧ b = a + 6) ∧
      (1 < G.number_of_faces → ∃ a b : Int, G.face_nodepos[1]? = some a ∧
        G.face_nodepos[1 + 1]? = some b ∧ b = a + 4)) ∧
    (∃ G, create_grid_tensor2d Extern.ample 1 1 [0, 1] [0, 1] = some G ∧
      (0 ≤ G.number_of_cells →
        G.cell_facepos[0]? = some (2 * (G.dimensions : Int) * (0 : Nat))) ∧
      (1 ≤ G.number_of_faces →
        G.face_nodepos[1]? = some (2 * ((G.dimensions : Int) - 1) * (1 : Nat))) ∧
      G.cell_facepos[0]? = some 0 ∧ G.face_nodepos[0]? = some 0 ∧
      (0 < G.number_of_cells → ∃ a b : Int, G.cell_facepos[0]? = some a ∧
        G.cell_facepos[0 + 1]? = some b ∧ b = a + 4) ∧
      (1 < G.number_of_faces → ∃ a b : Int, G.face_nodepos[1]? = some a ∧
        G.face_nodepos[1 + 1]? = some b ∧ b = a + 2)) :=
  offset_tables Extern.ample ⟨rfl, rfl⟩ 1 1 1 [0, 1] [0, 1] [0, 1] none 0 1

/-- C6: for every `nx, ny, nz >= 0` the 3D allocation sets
`number_of_cells = nx*ny*nz`,
`number_of_faces = (nx+1)*ny*nz + nx*(ny+1)*nz + nx*ny*(nz+1)`,
`number_of_nodes = (nx+1)*(ny+1)*(nz+1)`, `cartdims = (nx, ny, nz)` and requests
`4*number_of_faces` face-node entries and `6*number_of_cells` cell-face
entries; the 2D allocation sets `number_of_cells = nx*ny`,
`number_of_faces = (nx+1)*ny + nx*(ny+1)`, `number_of_nodes = (nx+1)*(ny+1)`,
`cartdims = (nx, ny, 1)` and requests `2*number_of_faces` and
`4*number_of_cells` entries. The product of the `cartdims` entries equals
`number_of_cells`, and with `nx = 0` or `ny = 0` the mesh has zero cells. -/
theorem allocation_counts (m : Extern) (hm : m.grid_granted) (nx ny nz : Nat)
    (x y z : List ℚ) (depthz : Option (List ℚ)) :
    (∃ g A, allocate_grid m.allocate_grid_ok 3 (nx * ny * nz)
        ((nx + 1) * ny * nz + nx * (ny + 1) * nz + nx * ny * (nz + 1))
        (4 * ((nx + 1) * ny * nz + nx * (ny + 1) * nz + nx * ny * (nz + 1)))
        (6 * (nx * ny * nz)) ((nx + 1) * (ny + 1) * (nz + 1)) = some g ∧
      allocate_cart_grid_3d m nx ny nz = some A ∧
      A = { g with
        global_cell := List.replicate (nx * ny * nz) 0
        dimensions := 3
        cartdims := (nx, ny, nz)
        number_of_cells := nx * ny * nz
        number_of_faces := (nx + 1) * ny * nz + nx * (ny + 1) * nz + nx * ny * (nz + 1)
        number_of_nodes := (nx + 1) * (ny + 1) * (nz + 1) } ∧
      A.face_nodes.length = 4 * A.number_of_faces ∧
      A.cell_faces.length = 6 * A.number_of_cells ∧
      A.cartdims.1 * A.cartdims.2.1 * A.cartdims.2.2 = A.number_of_cells ∧
      (nx = 0 ∨ ny = 0 → A.number_of_cells = 0)) ∧
    (∃ g A, allocate_grid m.allocate_grid_ok 2 (nx * ny)
        ((nx + 1) * ny + nx * (ny + 1)) (2 * ((nx + 1) * ny + nx * (ny + 1)))
        (4 * (nx * ny)) ((nx + 1) * (ny + 1)) = some g ∧
      allocate_cart_grid_2d m nx ny = some A ∧
      A = { g with
        global_cell := List.replicate (nx * ny) 0
        dimensions := 2
        cartdims := (nx, ny, 1)
        number_of_cells := nx * ny
        number_of_faces := (nx + 1) * ny + nx * (ny + 1)
        number_of_nodes := (nx + 1) * (ny + 1) } ∧
      A.face_nodes.length = 2 * A.number_of_faces ∧
      A.cell_faces.length = 4 * A.number_of_cells ∧
      A.cartdims.1 * A.cartdims.2.1 * A.cartdims.2.2 = A.number_of_cells ∧
      (nx = 0 ∨ ny = 0 → A.number_of_cells = 0)) ∧
    (∃ G, create_grid_tensor3d m nx ny nz x y z depthz = some G ∧
      G.number_of_cells = nx * ny * nz ∧
      G.number_of_faces = (nx + 1) * ny * nz + nx * (ny + 1) * nz + nx * ny * (nz + 1) ∧
      G.number_of_nodes = (nx + 1) * (ny + 1) * (nz + 1) ∧ G.cartdims = (nx, ny, nz)) ∧
    (∃ G, create_grid_tensor2d m nx ny x y = some G ∧
      G.number_of_cells = nx * ny ∧ G.number_of_faces = (nx + 1) * ny + nx * (ny + 1) ∧
      G.number_of_nodes = (nx + 1) * (ny + 1) ∧ G.cartdims = (nx, ny, 1)) := by
  have hm2 := hm
  obtain ⟨h1, h2⟩ := hm
  refine ⟨?_, ?_, ?_, ?_⟩
  rotate_left 2
  · obtain ⟨G, hG, T⟩ := create_grid_tensor3d_topology m hm2 nx ny nz x y z depthz
    exact ⟨G, hG, T.number_of_cells, T.number_of_faces, T.number_of_nodes, T.cartdims⟩
  · obtain ⟨G, hG, T⟩ := create_grid_tensor2d_topology m hm2 nx ny x y
    exact ⟨G, hG, T.number_of_cells, T.number_of_faces, T.number_of_nodes, T.cartdims⟩
  · have e1 : ((nx + 1) * ny * nz + nx * (ny + 1) * nz + nx * ny * (nz + 1)) * (2 * (3 - 1)) =
        4 * ((nx + 1) * ny * nz + nx * (ny + 1) * nz + nx * ny * (nz + 1)) := by omega
    have e2 : nx * ny * nz * (2 * 3) = 6 * (nx * ny * nz) := by omega
    simp only [allocate_cart_grid_3d, allocate_cart_grid, e1, e2, allocate_grid, h1, h2, if_true]
    refine ⟨_, _, rfl, rfl, rfl, ?_, ?_, ?_, ?_⟩
    · simp
    · simp
    · rfl
    · rintro (h | h) <;> simp [h]
  · have e1 : ((nx + 1) * ny + nx * (ny + 1)) * (2 * (2 - 1)) =
        2 * ((nx + 1) * ny + nx * (ny + 1)) := by omega
    have e2 : nx * ny * (2 * 2) = 4 * (nx * ny) := by omega
    simp only [allocate_cart_grid_2d, allocate_cart_grid, e1, e2, allocate_grid, h1, h2, if_true]
    refine ⟨_, _, rfl, rfl, rfl, ?_, ?_, ?_, ?_⟩
    · simp
    · simp
    · simp
    · rintro (h | h) <;> simp [h]

/-- Witness for C6: a grid with no cell along x. -/
theorem allocation_counts_witness :
    (∃ G, create_grid_tensor3d Extern.ample 0 2 3 [0] [0, 1, 2] [0, 1, 2, 3] none = some G ∧
      G.number_of_cells = 0 * 2 * 3 ∧
      G.number_of_faces = (0 + 1) * 2 * 3 + 0 * (2 + 1) * 3 + 0 * 2 * (3 + 1) ∧
      G.number_of_nodes = (0 + 1) * (2 + 1) * (3 + 1) ∧ G.cartdims = (0, 2, 3)) ∧
    (∃ G, create_grid_tensor2d Extern.ample 0 2 [0] [0, 1, 2] = some G ∧
      G.number_of_cells = 0 * 2 ∧ G.number_of_faces = (0 + 1) * 2 + 0 * (2 + 1) ∧
      G.number_of_nodes = (0 + 1) * (2 + 1) ∧ G.cartdims = (0, 2, 1)) :=
  (allocation_counts Extern.ample ⟨rfl, rfl⟩ 0 2 3 [0] [0, 1, 2] [0, 1, 2, 3] none).2.2

/-- C7: in the grid returned by `create_grid_tensor3d` with no depth
perturbation the node `n = i + (nx+1)*(j + (ny+1)*k)` has
`node_coordinates[3n..3n+2] = (x[i], y[j], z[k])`, and in the grid returned by
`create_grid_tensor2d` the node `n = i + (nx+1)*j` has
`node_coordinates[2n..2n+1] = (x[i], y[j])`, for any cell counts (zero
included): the nodes are the tensor product of the coordinate arrays,
numbered with the x index fastest. -/
theorem tensor_node_coordinates (m : Extern) (hm : m.grid_granted) (nx ny nz : Nat)
    (x y z : List ℚ) (i j k : Nat) (hi : i ≤ nx) (hj : j ≤ ny) :
    (∃ G, create_grid_tensor3d m nx ny nz x y z none = some G ∧
      (k ≤ nz →
        G.node_coordinates[3 * (i + (nx + 1) * (j + (ny + 1) * k))]? = some (rd x i) ∧
        G.node_coordinates[3 * (i + (nx + 1) * (j + (ny + 1) * k)) + 1]? = some (rd y j) ∧
        G.node_coordinates[3 * (i + (nx + 1) * (j + (ny + 1) * k)) + 2]? = some (rd z k))) ∧
    (∃ G, create_grid_tensor2d m nx ny x y = some G ∧
      G.node_coordinates[2 * (i + (nx + 1) * j)]? = some (rd x i) ∧
      G.node_coordinates[2 * (i + (nx + 1) * j) + 1]? = some (rd y j)) := by
  constructor
  · obtain ⟨G, hG, -, Q⟩ := create_grid_tensor3d_spec m hm nx ny nz x y z
    refine ⟨G, hG, ?_⟩
    intro hk
    have key : ∀ r, r < 3 → G.node_coordinates[3 * (i + (nx + 1) * (j + (ny + 1) * k)) + r]? =
        [rd x i, rd y j, rd z k][r]? := by
      intro r hr
      rw [Q.node_coordinates, Nat.mul_comm 3]
      exact emitted3_getElem? 3 _ (fun _ _ _ => by rfl) (nx + 1) (ny + 1) (nz + 1) i j k r
        (Nat.lt_succ_of_le hi) (Nat.lt_succ_of_le hj) (Nat.lt_succ_of_le hk) hr
    exact ⟨key 0 (by omega), key 1 (by omega), key 2 (by omega)⟩
  · obtain ⟨G, hG, -, Q⟩ := create_grid_tensor2d_spec m hm nx ny x y
    refine ⟨G, hG, ?_⟩
    have key : ∀ r, r < 2 → G.node_coordinates[2 * (i + (nx + 1) * j) + r]? =
        [rd x i, rd y j][r]? := by
      intro r hr
      rw [Q.node_coordinates, Nat.mul_comm 2]
      exact emitted2_getElem? 2 _ (fun _ _ => by rfl) (nx + 1) (ny + 1) i j r
        (Nat.lt_succ_of_le hi) (Nat.lt_succ_of_le hj) hr
    exact ⟨key 0 (by omega), key 1 (by omega)⟩

/-- Witness for C7: the last node of a 1 by 2 by 1 grid
with uneven spacing. -/
theorem tensor_node_coordinates_witness :
    (∃ G, create_grid_tensor3d Extern.ample 1 2 1 [0, 3] [1, 2, 5] [0, 7] none = some G ∧
      (1 ≤ 1 →
        G.node_coordinates[3 * (1 + (1 + 1) * (2 + (2 + 1) * 1))]? = some (rd [0, 3] 1) ∧
        G.node_coordinates[3 * (1 + (1 + 1) * (2 + (2 + 1) * 1)) + 1]? = some (rd [1, 2, 5] 2) ∧
        G.node_coordinates[3 * (1 + (1 + 1) * (2 + (2 + 1) * 1)) + 2]? = some (rd [0, 7] 1))) ∧
    (∃ G, create_grid_tensor2d Extern.ample 1 2 [0, 3] [1, 2, 5] = some G ∧
      G.node_coordinates[2 * (1 + (1 + 1) * 2)]? = some (rd [0, 3] 1) ∧
      G.node_coordinates[2 * (1 + (1 + 1) * 2) + 1]? = some (rd [1, 2, 5] 2)) :=
  tensor_node_coordinates Extern.ample ⟨rfl, rfl⟩ 1 2 1 [0, 3] [1, 2, 5] [0, 7] 1 2 1
    (by decide) (by decide)

/-- C8: with exact arithmetic the axis-aligned 3D geometry filler gives the
cell `c = i + nx*(j + ny*k)` the centroid
`((x[i]+x[i+1])/2, (y[j]+y[j+1])/2, (z[k]+z[k+1])/2)` at `cell_centroids[3c..3c+2]`
and the volume `(x[i+1]-x[i])*(y[j+1]-y[j])*(z[k+1]-z[k])`; the 2D filler gives
the cell `c = i + nx*j` the centroid `((x[i]+x[i+1])/2, (y[j]+y[j+1])/2)` and
the volume `(x[i+1]-x[i])*(y[j+1]-y[j])`. No coordinate array is rejected: a
zero-length interval gives volume 0 and a decreasing interval a negative
factor. -/
theorem cell_geometry (m : Extern) (hm : m.grid_granted) (nx ny nz : Nat)
    (x y z : List ℚ) (i j k : Nat) (hi : i < nx) (hj : j < ny) :
    (∃ G, create_grid_tensor3d m nx ny nz x y z none = some G ∧
      (k < nz →
        G.cell_centroids[3 * (i + nx * (j + ny * k))]? = some ((rd x i + rd x (i + 1)) / 2) ∧
        G.cell_centroids[3 * (i + nx * (j + ny * k)) + 1]? =
          some ((rd y j + rd y (j + 1)) / 2) ∧
        G.cell_centroids[3 * (i + nx * (j + ny * k)) + 2]? =
          some ((rd z k + rd z (k + 1)) / 2) ∧
        G.cell_volumes[i + nx * (j + ny * k)]? =
          some ((rd x (i + 1) - rd x i) * (rd y (j + 1) - rd y j) * (rd z (k + 1) - rd z k)) ∧
        (rd x (i + 1) = rd x i → G.cell_volumes[i + nx * (j + ny * k)]? = some 0) ∧
        (rd x (i + 1) < rd x i → rd x (i + 1) - rd x i < 0))) ∧
    (∃ G, create_grid_tensor2d m nx ny x y = some G ∧
      G.cell_centroids[2 * (i + nx * j)]? = some ((rd x i + rd x (i + 1)) / 2) ∧
      G.cell_centroids[2 * (i + nx * j) + 1]? = some ((rd y j + rd y (j + 1)) / 2) ∧
      G.cell_volumes[i + nx * j]? =
        some ((rd x (i + 1) - rd x i) * (rd y (j + 1) - rd y j)) ∧
      (rd x (i + 1) = rd x i → G.cell_volumes[i + nx * j]? = some 0) ∧
      (rd x (i + 1) < rd x i → rd x (i + 1) - rd x i < 0)) := by
  constructor
  · obtain ⟨G, hG, -, Q⟩ := create_grid_tensor3d_spec m hm nx ny nz x y z
    refine ⟨G, hG, ?_⟩
    intro hk
    have key : ∀ r, r < 3 → G.cell_centroids[3 * (i + nx * (j + ny * k)) + r]? =
        [(rd x i + rd x (i + 1)) / 2, (rd y j + rd y (j + 1)) / 2,
          (rd z k + rd z (k + 1)) / 2][r]? := by
      intro r hr
      rw [Q.cell_centroids, Nat.mul_comm 3]
      exact emitted3_getElem? 3 _ (fun _ _ _ => by rfl) nx ny nz i j k r hi hj hk hr
    have vol : G.cell_volumes[i + nx * (j + ny * k)]? =
        some ((rd x (i + 1) - rd x i) * (rd y (j + 1) - rd y j) * (rd z (k + 1) - rd z k)) := by
      have := emitted3_getElem? 1 (fun i j k =>
        [(rd x (i + 1) - rd x i) * (rd y (j + 1) - rd y j) * (rd z (k + 1) - rd z k)])
        (fun _ _ _ => by rfl) nx ny nz i j k 0 hi hj hk (by omega)
      rw [Nat.mul_one, Nat.add_zero] at this
      rw [Q.cell_volumes]; exact this
    refine ⟨key 0 (by omega), key 1 (by omega), key 2 (by omega), vol, ?_, ?_⟩
    · intro h; rw [vol, h]; simp
    · intro h; linarith
  · obtain ⟨G, hG, -, Q⟩ := create_grid_tensor2d_spec m hm nx ny x y
    refine ⟨G, hG, ?_⟩
    have key : ∀ r, r < 2 → G.cell_centroids[2 * (i + nx * j) + r]? =
        [(rd x i + rd x (i + 1)) / 2, (rd y j + rd y (j + 1)) / 2][r]? := by
      intro r hr
      rw [Q.cell_centroids, Nat.mul_comm 2]
      exact emitted2_getElem? 2 _ (fun _ _ => by rfl) nx ny i j r hi hj hr
    have vol : G.cell_volumes[i + nx * j]? =
        some ((rd x (i + 1) - rd x i) * (rd y (j + 1) - rd y j)) := by
      have := emitted2_getElem? 1 (fun i j =>
        [(rd x (i + 1) - rd x i) * (rd y (j + 1) - rd y j)])
        (fun _ _ => by rfl) nx ny i j 0 hi hj (by omega)
      rw [Nat.mul_one, Nat.add_zero] at this
      rw [Q.cell_volumes]; exact this
    refine ⟨key 0 (by omega), key 1 (by omega), vol, ?_, ?_⟩
    · intro h; rw [vol, h]; simp
    · intro h; linarith

/-- Witness for C8: the second cell of a 2 by 1 by 1 grid whose x
coordinates decrease. -/
theorem cell_geometry_witness :
    (∃ G, create_grid_tensor3d Extern.ample 2 1 1 [0, 3, 1] [1, 2] [0, 7] none = some G ∧
      (0 < 1 →
        G.cell_centroids[3 * (1 + 2 * (0 + 1 * 0))]? =
          some ((rd [0, 3, 1] 1 + rd [0, 3, 1] (1 + 1)) / 2) ∧
        G.cell_centroids[3 * (1 + 2 * (0 + 1 * 0)) + 1]? =
          some ((rd [1, 2] 0 + rd [1, 2] (0 + 1)) / 2) ∧
        G.cell_centroids[3 * (1 + 2 * (0 + 1 * 0)) + 2]? =
          some ((rd [0, 7] 0 + rd [0, 7] (0 + 1)) / 2) ∧
        G.cell_volumes[1 + 2 * (0 + 1 * 0)]? =
          some ((rd [0, 3, 1] (1 + 1) - rd [0, 3, 1] 1) * (rd [1, 2] (0 + 1) - rd [1, 2] 0) *
            (rd [0, 7] (0 + 1) - rd [0, 7] 0)) ∧
        (rd [0, 3, 1] (1 + 1) = rd [0, 3, 1] 1 → G.cell_volumes[1 + 2 * (0 + 1 * 0)]? = some 0) ∧
        (rd [0, 3, 1] (1 + 1) < rd [0, 3, 1] 1 → rd [0, 3, 1] (1 + 1) - rd [0, 3, 1] 1 < 0))) ∧
    (∃ G, create_grid_tensor2d Extern.ample 2 1 [0, 3, 1] [1, 2] = some G ∧
      G.cell_centroids[2 * (1 + 2 * 0)]? = some ((rd [0, 3, 1] 1 + rd [0, 3, 1] (1 + 1)) / 2) ∧
      G.cell_centroids[2 * (1 + 2 * 0) + 1]? = some ((rd [1, 2] 0 + rd [1, 2] (0 + 1)) / 2) ∧
      G.cell_volumes[1 + 2 * 0]? =
        some ((rd [0, 3, 1] (1 + 1) - rd [0, 3, 1] 1) * (rd [1, 2] (0 + 1) - rd [1, 2] 0)) ∧
      (rd [0, 3, 1] (1 + 1) = rd [0, 3, 1] 1 → G.cell_volumes[1 + 2 * 0]? = some 0) ∧
      (rd [0, 3, 1] (1 + 1) < rd [0, 3, 1] 1 → rd [0, 3, 1] (1 + 1) - rd [0, 3, 1] 1 < 0)) :=
  cell_geometry Extern.ample ⟨rfl, rfl⟩ 2 1 1 [0, 3, 1] [1, 2] [0, 7] 1 0 0
    (by decide) (by decide)

/-- C9: with exact arithmetic, for every face `f` of the 3D axis-aligned grid:
if `f = i + (nx+1)*(j + ny*k)` is in the x-family then
`face_areas[f] = (y[j+1]-y[j])*(z[k+1]-z[k])`, its normal is `(area, 0, 0)` and
its centroid `(x[i], (y[j]+y[j+1])/2, (z[k]+z[k+1])/2)`; if
`f - nxf = i + nx*(j + (ny+1)*k)` is in the y-family then the area is
`(x[i+1]-x[i])*(z[k+1]-z[k])`, the normal `(0, area, 0)` and the centroid
`((x[i]+x[i+1])/2, y[j], (z[k]+z[k+1])/2)`; if `f - nxf - nyf = i + nx*(j + ny*k)`
is in the z-family then the area is `(x[i+1]-x[i])*(y[j+1]-y[j])`, the normal
`(0, 0, area)` and the centroid `((x[i]+x[i+1])/2, (y[j]+y[j+1])/2, z[k])`. -/
theorem face_geometry (m : Extern) (hm : m.grid_granted) (nx ny nz : Nat)
    (x y z : List ℚ) (i j k : Nat) :
    ∃ G, create_grid_tensor3d m nx ny nz x y z none = some G ∧
      (i ≤ nx → j < ny → k < nz →
        G.face_areas[i + (nx + 1) * (j + ny * k)]? =
          some ((rd y (j + 1) - rd y j) * (rd z (k + 1) - rd z k)) ∧
        G.face_normals[3 * (i + (nx + 1) * (j + ny * k))]? =
          some ((rd y (j + 1) - rd y j) * (rd z (k + 1) - rd z k)) ∧
        G.face_normals[3 * (i + (nx + 1) * (j + ny * k)) + 1]? = some 0 ∧
        G.face_normals[3 * (i + (nx + 1) * (j + ny * k)) + 2]? = some 0 ∧
        G.face_centroids[3 * (i + (nx + 1) * (j + ny * k))]? = some (rd x i) ∧
        G.face_centroids[3 * (i + (nx + 1) * (j + ny * k)) + 1]? =
          some ((rd y j + rd y (j + 1)) / 2) ∧
        G.face_centroids[3 * (i + (nx + 1) * (j + ny * k)) + 2]? =
          some ((rd z k + rd z (k + 1)) / 2)) ∧
      (i < nx → j ≤ ny → k < nz →
        G.face_areas[(nx + 1) * ny * nz + (i + nx * (j + (ny + 1) * k))]? =
          some ((rd x (i + 1) - rd x i) * (rd z (k + 1) - rd z k)) ∧
        G.face_normals[3 * ((nx + 1) * ny * nz + (i + nx * (j + (ny + 1) * k)))]? = some 0 ∧
        G.face_normals[3 * ((nx + 1) * ny * nz + (i + nx * (j + (ny + 1) * k))) + 1]? =
          some ((rd x (i + 1) - rd x i) * (rd z (k + 1) - rd z k)) ∧
        G.face_normals[3 * ((nx + 1) * ny * nz + (i + nx * (j + (ny + 1) * k))) + 2]? = some 0 ∧
        G.face_centroids[3 * ((nx + 1) * ny * nz + (i + nx * (j + (ny + 1) * k)))]? =
          some ((rd x i + rd x (i + 1)) / 2) ∧
        G.face_centroids[3 * ((nx + 1) * ny * nz + (i + nx * (j + (ny + 1) * k))) + 1]? =
          some (rd y j) ∧
        G.face_centroids[3 * ((nx + 1) * ny * nz + (i + nx * (j + (ny + 1) * k))) + 2]? =
          some ((rd z k + rd z (k + 1)) / 2)) ∧
      (i < nx → j < ny → k ≤ nz →
        G.face_areas[(nx + 1) * ny * nz + nx * (ny + 1) * nz + (i + nx * (j + ny * k))]? =
          some ((rd x (i + 1) - rd x i) * (rd y (j + 1) - rd y j)) ∧
        G.face_normals[
          3 * ((nx + 1) * ny * nz + nx * (ny + 1) * nz + (i + nx * (j + ny * k)))]? = some 0 ∧
        G.face_normals[
          3 * ((nx + 1) * ny * nz + nx * (ny + 1) * nz + (i + nx * (j + ny * k))) + 1]? =
          some 0 ∧
        G.face_normals[
          3 * ((nx + 1) * ny * nz + nx * (ny + 1) * nz + (i + nx * (j + ny * k))) + 2]? =
          some ((rd x (i + 1) - rd x i) * (rd y (j + 1) - rd y j)) ∧
        G.face_centroids[
          3 * ((nx + 1) * ny * nz + nx * (ny + 1) * nz + (i + nx * (j + ny * k)))]? =
          some ((rd x i + rd x (i + 1)) / 2) ∧
        G.face_centroids[
          3 * ((nx + 1) * ny * nz + nx * (ny + 1) * nz + (i + nx * (j + ny * k))) + 1]? =
          some ((rd y j + rd y (j + 1)) / 2) ∧
        G.face_centroids[
          3 * ((nx + 1) * ny * nz + nx * (ny + 1) * nz + (i + nx * (j + ny * k))) + 2]? =
          some (rd z k)) := by
  obtain ⟨G, hG, -, Q⟩ := create_grid_tensor3d_spec m hm nx ny nz x y z
  refine ⟨G, hG, ?_, ?_, ?_⟩
  · intro hi hj hk
    have hi1 : i < nx + 1 := Nat.lt_succ_of_le hi
    have ea : ∀ s : List ℚ, s = [] ++ s := fun s => rfl
    have hA := family_get3 [] (farea3d_y nx ny nz x z ++ farea3d_z nx ny nz x y) 1 0
      (fun _ j k => [(rd y (j + 1) - rd y j) * (rd z (k + 1) - rd z k)])
      (fun _ _ _ => by rfl) rfl (nx + 1) ny nz i j k 0 hi1 hj hk (by omega)
    have hN := fun r hr => family_get3 []
      (fnorm3d_y nx ny nz x z ++ fnorm3d_z nx ny nz x y) 3 0
      (fun _ j k => [(rd y (j + 1) - rd y j) * (rd z (k + 1) - rd z k), 0, 0])
      (fun _ _ _ => by rfl) rfl (nx + 1) ny nz i j k r hi1 hj hk hr
    have hC := fun r hr => family_get3 []
      (fcent3d_y nx ny nz x y z ++ fcent3d_z nx ny nz x y z) 3 0
      (fun i j k => [rd x i, (rd y j + rd y (j + 1)) / 2, (rd z k + rd z (k + 1)) / 2])
      (fun _ _ _ => by rfl) rfl (nx + 1) ny nz i j k r hi1 hj hk hr
    simp only [List.nil_append, Nat.zero_add, Nat.mul_one, Nat.add_zero,
      ← List.append_assoc] at hA hN hC
    rw [Q.face_areas, Q.face_normals, Q.face_centroids]
    simp only [Nat.mul_comm 3]
    exact ⟨hA, hN 0 (by omega), hN 1 (by omega), hN 2 (by omega), hC 0 (by omega),
      hC 1 (by omega), hC 2 (by omega)⟩
  · intro hi hj hk
    have hj1 : j < ny + 1 := Nat.lt_succ_of_le hj
    have hA := family_get3 (farea3d_x nx ny nz y z) (farea3d_z nx ny nz x y) 1
      ((nx + 1) * ny * nz)
      (fun i _ k => [(rd x (i + 1) - rd x i) * (rd z (k + 1) - rd z k)])
      (fun _ _ _ => by rfl) (by rw [farea3d_x_length]; ring) nx (ny + 1) nz i j k 0
      hi hj1 hk (by omega)
    have hN := fun r hr => family_get3 (fnorm3d_x nx ny nz y z) (fnorm3d_z nx ny nz x y) 3
      ((nx + 1) * ny * nz)
      (fun i _ k => [0, (rd x (i + 1) - rd x i) * (rd z (k + 1) - rd z k), 0])
      (fun _ _ _ => by rfl) (by rw [fnorm3d_x_length]; ring) nx (ny + 1) nz i j k r
      hi hj1 hk hr
    have hC := fun r hr => family_get3 (fcent3d_x nx ny nz x y z) (fcent3d_z nx ny nz x y z) 3
      ((nx + 1) * ny * nz)
      (fun i j k => [(rd x i + rd x (i + 1)) / 2, rd y j, (rd z k + rd z (k + 1)) / 2])
      (fun _ _ _ => by rfl) (by rw [fcent3d_x_length]; ring) nx (ny + 1) nz i j k r
      hi hj1 hk hr
    simp only [Nat.mul_one, Nat.add_zero] at hA
    rw [Q.face_areas, Q.face_normals, Q.face_centroids]
    simp only [Nat.mul_comm 3]
    exact ⟨hA, hN 0 (by omega), hN 1 (by omega), hN 2 (by omega), hC 0 (by omega),
      hC 1 (by omega), hC 2 (by omega)⟩
  · intro hi hj hk
    have hk1 : k < nz + 1 := Nat.lt_succ_of_le hk
    have hA := family_get3 (farea3d_x nx ny nz y z ++ farea3d_y nx ny nz x z) [] 1
      ((nx + 1) * ny * nz + nx * (ny + 1) * nz)
      (fun i j _ => [(rd x (i + 1) - rd x i) * (rd y (j + 1) - rd y j)])
      (fun _ _ _ => by rfl)
      (by rw [List.length_append, farea3d_x_length, farea3d_y_length]; ring)
      nx ny (nz + 1) i j k 0 hi hj hk1 (by omega)
    have hN := fun r hr => family_get3 (fnorm3d_x nx ny nz y z ++ fnorm3d_y nx ny nz x z) [] 3
      ((nx + 1) * ny * nz + nx * (ny + 1) * nz)
      (fun i j _ => [0, 0, (rd x (i + 1) - rd x i) * (rd y (j + 1) - rd y j)])
      (fun _ _ _ => by rfl)
      (by rw [List.length_append, fnorm3d_x_length, fnorm3d_y_length]; ring)
      nx ny (nz + 1) i j k r hi hj hk1 hr
    have hC := fun r hr => family_get3
      (fcent3d_x nx ny nz x y z ++ fcent3d_y nx ny nz x y z) [] 3
      ((nx + 1) * ny * nz + nx * (ny + 1) * nz)
      (fun i j k => [(rd x i + rd x (i + 1)) / 2, (rd y j + rd y (j + 1)) / 2, rd z k])
      (fun _ _ _ => by rfl)
      (by rw [List.length_append, fcent3d_x_length, fcent3d_y_length]; ring)
      nx ny (nz + 1) i j k r hi hj hk1 hr
    simp only [Nat.mul_one, Nat.add_zero, List.append_nil] at hA hN hC
    rw [Q.face_areas, Q.face_normals, Q.face_centroids]
    simp only [Nat.mul_comm 3]
    exact ⟨hA, hN 0 (by omega), hN 1 (by omega), hN 2 (by omega), hC 0 (by omega),
      hC 1 (by omega), hC 2 (by omega)⟩

/-- Witness for C9: the x-normal face at `x = 2` of the single
cell `[0,2] x [0,3] x [0,5]` has area 15, normal `(15, 0, 0)` and centroid
`(2, 3/2, 5/2)`. -/
theorem face_geometry_witness :
    ∃ G, create_grid_tensor3d Extern.ample 1 1 1 [0, 2] [0, 3] [0, 5] none = some G ∧
      G.face_areas[1]? = some 15 ∧
      G.face_normals[3]? = some 15 ∧ G.face_normals[4]? = some 0 ∧
      G.face_normals[5]? = some 0 ∧
      G.face_centroids[3]? = some 2 ∧ G.face_centroids[4]? = some (3 / 2) ∧
      G.face_centroids[5]? = some (5 / 2) := by
  obtain ⟨G, hG, hx, -, -⟩ :=
    face_geometry Extern.ample ⟨rfl, rfl⟩ 1 1 1 [0, 2] [0, 3] [0, 5] 1 0 0
  obtain ⟨h1, h2, h3, h4, h5, h6, h7⟩ := hx (by decide) (by decide) (by decide)
  refine ⟨G, hG, ?_, ?_, ?_, ?_, ?_, ?_, ?_⟩
  · rw [h1]; norm_num [rd]
  · rw [h2]; norm_num [rd]
  · exact h3
  · exact h4
  · rw [h5]; norm_num [rd]
  · rw [h6]; norm_num [rd]
  · rw [h7]; norm_num [rd]

/-- C10: with exact arithmetic and any coordinate arrays (monotone or not) the
sum of `cell_volumes` over all cells of the grid built by `create_grid_tensor3d`
without depth perturbation equals `(x[nx]-x[0])*(y[ny]-y[0])*(z[nz]-z[0])`, and
for `create_grid_tensor2d` it equals `(x[nx]-x[0])*(y[ny]-y[0])`. -/
theorem cell_volumes_sum (m : Extern) (hm : m.grid_granted) (nx ny nz : Nat)
    (x y z : List ℚ) :
    (∃ G, create_grid_tensor3d m nx ny nz x y z none = some G ∧
      G.cell_volumes.length = G.number_of_cells ∧
      G.cell_volumes.sum = (rd x nx - rd x 0) * (rd y ny - rd y 0) * (rd z nz - rd z 0)) ∧
    (∃ G, create_grid_tensor2d m nx ny x y = some G ∧
      G.cell_volumes.length = G.number_of_cells ∧
      G.cell_volumes.sum = (rd x nx - rd x 0) * (rd y ny - rd y 0)) := by
  constructor
  · obtain ⟨G, hG, T, Q⟩ := create_grid_tensor3d_spec m hm nx ny nz x y z
    refine ⟨G, hG, ?_, ?_⟩
    · rw [Q.cell_volumes, cvol3d_length, T.number_of_cells]; ring
    · rw [Q.cell_volumes, cvol3d_sum]
  · obtain ⟨G, hG, T, Q⟩ := create_grid_tensor2d_spec m hm nx ny x y
    refine ⟨G, hG, ?_, ?_⟩
    · rw [Q.cell_volumes, cvol2d_length, T.number_of_cells]; ring
    · rw [Q.cell_volumes, cvol2d_sum]

/-- Witness for C10: a grid whose x coordinates are not
monotone. -/
theorem cell_volumes_sum_witness :
    (∃ G, create_grid_tensor3d Extern.ample 2 1 1 [0, 3, 1] [1, 2] [0, 7] none = some G ∧
      G.cell_volumes.length = G.number_of_cells ∧
      G.cell_volumes.sum = (rd [0, 3, 1] 2 - rd [0, 3, 1] 0) * (rd [1, 2] 1 - rd [1, 2] 0) *
        (rd [0, 7] 1 - rd [0, 7] 0)) ∧
    (∃ G, create_grid_tensor2d Extern.ample 2 1 [0, 3, 1] [1, 2] = some G ∧
      G.cell_volumes.length = G.number_of_cells ∧
      G.cell_volumes.sum = (rd [0, 3, 1] 2 - rd [0, 3, 1] 0) * (rd [1, 2] 1 - rd [1, 2] 0)) :=
  cell_volumes_sum Extern.ample ⟨rfl, rfl⟩ 2 1 1 [0, 3, 1] [1, 2] [0, 7]

/-- C11: with exact arithmetic, in the 3D axis-aligned grid the sum of
`face_areas` over the `ny*nz` x-normal faces at x-position `i` (any
`0 <= i <= nx`) equals `(y[ny]-y[0])*(z[nz]-z[0])`, the sum over the y-normal
faces at y-position `j` equals `(x[nx]-x[0])*(z[nz]-z[0])`, and the sum over
the z-normal faces at z-position `k` equals `(x[nx]-x[0])*(y[ny]-y[0])`. -/
theorem face_area_slab_sums (m : Extern) (hm : m.grid_granted) (nx ny nz : Nat)
    (x y z : List ℚ) (i j k : Nat) :
    ∃ G, create_grid_tensor3d m nx ny nz x y z none = some G ∧
      (i ≤ nx →
        ∑ k' in Finset.range nz, ∑ j' in Finset.range ny,
          G.face_areas.getD (i + (nx + 1) * (j' + ny * k')) 0 =
        (rd y ny - rd y 0) * (rd z nz - rd z 0)) ∧
      (j ≤ ny →
        ∑ k' in Finset.range nz, ∑ i' in Finset.range nx,
          G.face_areas.getD ((nx + 1) * ny * nz + (i' + nx * (j + (ny + 1) * k'))) 0 =
        (rd x nx - rd x 0) * (rd z nz - rd z 0)) ∧
      (k ≤ nz →
        ∑ j' in Finset.range ny, ∑ i' in Finset.range nx,
          G.face_areas.getD
            ((nx + 1) * ny * nz + nx * (ny + 1) * nz + (i' + nx * (j' + ny * k))) 0 =
        (rd x nx - rd x 0) * (rd y ny - rd y 0)) := by
  obtain ⟨G, hG, -, Q⟩ := create_grid_tensor3d_spec m hm nx ny nz x y z
  refine ⟨G, hG, ?_, ?_, ?_⟩
  · intro hi
    have : ∀ k' ∈ Finset.range nz, ∀ j' ∈ Finset.range ny,
        G.face_areas.getD (i + (nx + 1) * (j' + ny * k')) 0 =
          (rd y (j' + 1) - rd y j') * (rd z (k' + 1) - rd z k') := by
      intro k' hk' j' hj'
      rw [Q.face_areas]
      exact getD_of_getElem? (farea3d_get_x nx ny nz x y z i j' k' hi
        (Finset.mem_range.mp hj') (Finset.mem_range.mp hk'))
    rw [Finset.sum_congr rfl (fun k' hk' => Finset.sum_congr rfl (this k' hk'))]
    simp only [← Finset.sum_mul, ← Finset.mul_sum, sum_edges]
  · intro hj
    have : ∀ k' ∈ Finset.range nz, ∀ i' ∈ Finset.range nx,
        G.face_areas.getD ((nx + 1) * ny * nz + (i' + nx * (j + (ny + 1) * k'))) 0 =
          (rd x (i' + 1) - rd x i') * (rd z (k' + 1) - rd z k') := by
      intro k' hk' i' hi'
      rw [Q.face_areas]
      exact getD_of_getElem? (farea3d_get_y nx ny nz x y z i' j k'
        (Finset.mem_range.mp hi') hj (Finset.mem_range.mp hk'))
    rw [Finset.sum_congr rfl (fun k' hk' => Finset.sum_congr rfl (this k' hk'))]
    simp only [← Finset.sum_mul, ← Finset.mul_sum, sum_edges]
  · intro hk
    have : ∀ j' ∈ Finset.range ny, ∀ i' ∈ Finset.range nx,
        G.face_areas.getD
          ((nx + 1) * ny * nz + nx * (ny + 1) * nz + (i' + nx * (j' + ny * k))) 0 =
          (rd x (i' + 1) - rd x i') * (rd y (j' + 1) - rd y j') := by
      intro j' hj' i' hi'
      rw [Q.face_areas]
      exact getD_of_getElem? (farea3d_get_z nx ny nz x y z i' j' k
        (Finset.mem_range.mp hi') (Finset.mem_range.mp hj') hk)
    rw [Finset.sum_congr rfl (fun j' hj' => Finset.sum_congr rfl (this j' hj'))]
    simp only [← Finset.sum_mul, ← Finset.mul_sum, sum_edges]

/-- Witness for C11: the slabs through a 1 by 2 by 1 grid with uneven
spacing. -/
theorem face_area_slab_sums_witness :
    ∃ G, create_grid_tensor3d Extern.ample 1 2 1 [0, 3] [1, 2, 5] [0, 7] none = some G ∧
      (1 ≤ 1 →
        ∑ k' in Finset.range 1, ∑ j' in Finset.range 2,
          G.face_areas.getD (1 + (1 + 1) * (j' + 2 * k')) 0 =
        (rd [1, 2, 5] 2 - rd [1, 2, 5] 0) * (rd [0, 7] 1 - rd [0, 7] 0)) ∧
      (1 ≤ 2 →
        ∑ k' in Finset.range 1, ∑ i' in Finset.range 1,
          G.face_areas.getD ((1 + 1) * 2 * 1 + (i' + 1 * (1 + (2 + 1) * k'))) 0 =
        (rd [0, 3] 1 - rd [0, 3] 0) * (rd [0, 7] 1 - rd [0, 7] 0)) ∧
      (0 ≤ 1 →
        ∑ j' in Finset.range 2, ∑ i' in Finset.range 1,
          G.face_areas.getD
            ((1 + 1) * 2 * 1 + 1 * (2 + 1) * 1 + (i' + 1 * (j' + 2 * 0))) 0 =
        (rd [0, 3] 1 - rd [0, 3] 0) * (rd [1, 2, 5] 2 - rd [1, 2, 5] 0)) :=
  face_area_slab_sums Extern.ample ⟨rfl, rfl⟩ 1 2 1 [0, 3] [1, 2, 5] [0, 7] 1 1 0

/-- C12: for all cell counts and spacings `create_grid_hexa3d(nx, ny, nz, dx,
dy, dz)` returns the mesh that `create_grid_tensor3d(nx, ny, nz, X, Y, Z,
absent)` returns for `X[i] = i*dx`, `Y[i] = i*dy`, `Z[i] = i*dz`;
`create_grid_cart2d(nx, ny, dx, dy)` returns the mesh of
`create_grid_tensor2d(nx, ny, X, Y)`; and `create_grid_cart3d(nx, ny, nz)` is
`create_grid_hexa3d(nx, ny, nz, 1, 1, 1)`. -/
theorem uniform_constructors (m : Extern) (hx : m.malloc_x = true) (hy : m.malloc_y = true)
    (hz : m.malloc_z = true) (hm : m.grid_granted) (nx ny nz : Nat) (dx dy dz : ℚ) :
    (∃ G, create_grid_hexa3d m nx ny nz dx dy dz = some G ∧
      create_grid_tensor3d m nx ny nz
        ((List.range (nx + 1)).map (fun (i : Nat) => (i : ℚ) * dx))
        ((List.range (ny + 1)).map (fun (i : Nat) => (i : ℚ) * dy))
        ((List.range (nz + 1)).map (fun (i : Nat) => (i : ℚ) * dz)) none = some G) ∧
    (∃ G, create_grid_cart2d m nx ny dx dy = some G ∧
      create_grid_tensor2d m nx ny
        ((List.range (nx + 1)).map (fun (i : Nat) => (i : ℚ) * dx))
        ((List.range (ny + 1)).map (fun (i : Nat) => (i : ℚ) * dy)) = some G) ∧
    (∃ G, create_grid_cart3d m nx ny nz = some G ∧
      create_grid_hexa3d m nx ny nz 1 1 1 = some G) := by
  refine ⟨?_, ?_, ?_⟩
  · rw [create_grid_hexa3d_eq m hx hy hz, uniform_coords_eq, uniform_coords_eq,
      uniform_coords_eq]
    obtain ⟨G, hG, -⟩ := create_grid_tensor3d_topology m hm nx ny nz
      ((List.range (nx + 1)).map (fun (i : Nat) => (i : ℚ) * dx))
      ((List.range (ny + 1)).map (fun (i : Nat) => (i : ℚ) * dy))
      ((List.range (nz + 1)).map (fun (i : Nat) => (i : ℚ) * dz)) none
    exact ⟨G, hG, hG⟩
  · rw [create_grid_cart2d_eq m hx hy, uniform_coords_eq, uniform_coords_eq]
    obtain ⟨G, hG, -⟩ := create_grid_tensor2d_topology m hm nx ny
      ((List.range (nx + 1)).map (fun (i : Nat) => (i : ℚ) * dx))
      ((List.range (ny + 1)).map (fun (i : Nat) => (i : ℚ) * dy))
    exact ⟨G, hG, hG⟩
  · rw [create_grid_cart3d, create_grid_hexa3d_eq m hx hy hz]
    obtain ⟨G, hG, -⟩ := create_grid_tensor3d_topology m hm nx ny nz
      (uniform_coords nx 1) (uniform_coords ny 1) (uniform_coords nz 1) none
    exact ⟨G, hG, hG⟩

/-- Witness for C12: a 2 by 1 by 3 grid with spacings 1/2, 2 and 3. -/
theorem uniform_constructors_witness :
    (∃ G, create_grid_hexa3d Extern.ample 2 1 3 (1 / 2) 2 3 = some G ∧
      create_grid_tensor3d Extern.ample 2 1 3
        ((List.range (2 + 1)).map (fun (i : Nat) => (i : ℚ) * (1 / 2)))
        ((List.range (1 + 1)).map (fun (i : Nat) => (i : ℚ) * 2))
        ((List.range (3 + 1)).map (fun (i : Nat) => (i : ℚ) * 3)) none = some G) ∧
    (∃ G, create_grid_cart2d Extern.ample 2 1 (1 / 2) 2 = some G ∧
      create_grid_tensor2d Extern.ample 2 1
        ((List.range (2 + 1)).map (fun (i : Nat) => (i : ℚ) * (1 / 2)))
        ((List.range (1 + 1)).map (fun (i : Nat) => (i : ℚ) * 2)) = some G) ∧
    (∃ G, create_grid_cart3d Extern.ample 2 1 3 = some G ∧
      create_grid_hexa3d Extern.ample 2 1 3 1 1 1 = some G) :=
  uniform_constructors Extern.ample rfl rfl rfl ⟨rfl, rfl⟩ 2 1 3 (1 / 2) 2 3

/-- C13: the layered filler used by `create_grid_tensor3d` when `depthz` is
present gives the node `n = i + (nx+1)*(j + (ny+1)*k)` the coordinates
`(x[i], y[j], z[k] + depthz[i + (nx+1)*j])`: the same perturbation table is
used for every layer `k`, the x and y coordinates are those of the unperturbed
tensor grid, and an all-zero `depthz` gives exactly the node coordinates of the
axis-aligned filler. -/
theorem layered_nodes (m : Extern) (hm : m.grid_granted) (nx ny nz : Nat)
    (x y z depthz : List ℚ) (i j k : Nat) (hi : i ≤ nx) (hj : j ≤ ny) (hk : k ≤ nz) :
    ∃ G, create_grid_tensor3d m nx ny nz x y z (some depthz) = some G ∧
      G.node_coordinates[3 * (i + (nx + 1) * (j + (ny + 1) * k))]? = some (rd x i) ∧
      G.node_coordinates[3 * (i + (nx + 1) * (j + (ny + 1) * k)) + 1]? = some (rd y j) ∧
      G.node_coordinates[3 * (i + (nx + 1) * (j + (ny + 1) * k)) + 2]? =
        some (rd z k + rd depthz (i + (nx + 1) * j)) ∧
      ((∀ t, rd depthz t = 0) →
        ∃ G0, create_grid_tensor3d m nx ny nz x y z none = some G0 ∧
          G.node_coordinates = G0.node_coordinates) := by
  obtain ⟨G, hG, -, hN⟩ := create_grid_tensor3d_layered m hm nx ny nz x y z depthz
  have key : ∀ r, r < 3 → G.node_coordinates[3 * (i + (nx + 1) * (j + (ny + 1) * k)) + r]? =
      [rd x i, rd y j, rd z k + rd depthz (i + (nx + 1) * j)][r]? := by
    intro r hr
    rw [hN, Nat.mul_comm 3]
    exact emitted3_getElem? 3 _ (fun _ _ _ => by rfl) (nx + 1) (ny + 1) (nz + 1) i j k r
      (Nat.lt_succ_of_le hi) (Nat.lt_succ_of_le hj) (Nat.lt_succ_of_le hk) hr
  refine ⟨G, hG, key 0 (by omega), key 1 (by omega), key 2 (by omega), ?_⟩
  intro h0
  obtain ⟨G0, hG0, -, Q⟩ := create_grid_tensor3d_spec m hm nx ny nz x y z
  refine ⟨G0, hG0, ?_⟩
  rw [hN, Q.node_coordinates, coord3d_layered, coord3d]
  simp only [h0, add_zero]

/-- Witness for C13: the last node of a single cell whose four node columns
are shifted by 1, 2, 3 and 4. -/
theorem layered_nodes_witness :
    ∃ G, create_grid_tensor3d Extern.ample 1 1 1 [0, 1] [0, 1] [0, 1] (some [1, 2, 3, 4]) =
        some G ∧
      G.node_coordinates[3 * (1 + (1 + 1) * (1 + (1 + 1) * 1))]? = some (rd [0, 1] 1) ∧
      G.node_coordinates[3 * (1 + (1 + 1) * (1 + (1 + 1) * 1)) + 1]? = some (rd [0, 1] 1) ∧
      G.node_coordinates[3 * (1 + (1 + 1) * (1 + (1 + 1) * 1)) + 2]? =
        some (rd [0, 1] 1 + rd [1, 2, 3, 4] (1 + (1 + 1) * 1)) ∧
      ((∀ t, rd [1, 2, 3, 4] t = 0) →
        ∃ G0, create_grid_tensor3d Extern.ample 1 1 1 [0, 1] [0, 1] [0, 1] none = some G0 ∧
          G.node_coordinates = G0.node_coordinates) :=
  layered_nodes Extern.ample ⟨rfl, rfl⟩ 1 1 1 [0, 1] [0, 1] [0, 1] [1, 2, 3, 4] 1 1 1
    (by decide) (by decide) (by decide)

/-- C14: the topology depends only on the cell counts. For any two sets of
inputs `(x, y, z, depthz)` and `(x', y', z', depthz')`, with or without a depth
perturbation, the two meshes returned by `create_grid_tensor3d(nx, ny, nz, ...)`
have identical `cell_faces`, `cell_facepos`, `cell_facetag`, `face_nodes`,
`face_nodepos`, `face_cells`, `global_cell` and counts, whatever the geometry
post-processor computes; the same holds for `create_grid_tensor2d` with respect
to `(x, y)`. -/
theorem topology_independent_of_geometry (m m' : Extern) (hm : m.grid_granted)
    (hm' : m'.grid_granted) (nx ny nz : Nat) (x y z x' y' z' : List ℚ)
    (depthz depthz' : Option (List ℚ)) :
    (∃ G G', create_grid_tensor3d m nx ny nz x y z depthz = some G ∧
      create_grid_tensor3d m' nx ny nz x' y' z' depthz' = some G' ∧
      G.cell_faces = G'.cell_faces ∧ G.cell_facepos = G'.cell_facepos ∧
      G.cell_facetag = G'.cell_facetag ∧ G.face_nodes = G'.face_nodes ∧
      G.face_nodepos = G'.face_nodepos ∧ G.face_cells = G'.face_cells ∧
      G.global_cell = G'.global_cell ∧ G.dimensions = G'.dimensions ∧
      G.cartdims = G'.cartdims ∧ G.number_of_cells = G'.number_of_cells ∧
      G.number_of_faces = G'.number_of_faces ∧ G.number_of_nodes = G'.number_of_nodes) ∧
    (∃ G G', create_grid_tensor2d m nx ny x y = some G ∧
      create_grid_tensor2d m' nx ny x' y' = some G' ∧
      G.cell_faces = G'.cell_faces ∧ G.cell_facepos = G'.cell_facepos ∧
      G.cell_facetag = G'.cell_facetag ∧ G.face_nodes = G'.face_nodes ∧
      G.face_nodepos = G'.face_nodepos ∧ G.face_cells = G'.face_cells ∧
      G.global_cell = G'.global_cell ∧ G.dimensions = G'.dimensions ∧
      G.cartdims = G'.cartdims ∧ G.number_of_cells = G'.number_of_cells ∧
      G.number_of_faces = G'.number_of_faces ∧ G.number_of_nodes = G'.number_of_nodes) := by
  constructor
  · obtain ⟨A, hA, -⟩ := allocate_cart_grid_3d_granted m hm nx ny nz
    have hA' : allocate_cart_grid_3d m' nx ny nz = some A := by
      rw [← allocate_cart_grid_3d_env m m' hm hm']; exact hA
    obtain ⟨G, hG, -⟩ := create_grid_tensor3d_topology m hm nx ny nz x y z depthz
    obtain ⟨G', hG', -⟩ := create_grid_tensor3d_topology m' hm' nx ny nz x' y' z' depthz'
    obtain ⟨a1, a2, a3, a4, a5, a6, a7, a8, a9, a10, a11, a12⟩ :=
      create_grid_tensor3d_topology_eq m nx ny nz x y z depthz A G hA hG
    obtain ⟨b1, b2, b3, b4, b5, b6, b7, b8, b9, b10, b11, b12⟩ :=
      create_grid_tensor3d_topology_eq m' nx ny nz x' y' z' depthz' A G' hA' hG'
    exact ⟨G, G', hG, hG', a1.trans b1.symm, a2.trans b2.symm, a3.trans b3.symm,
      a4.trans b4.symm, a5.trans b5.symm, a6.trans b6.symm, a7.trans b7.symm,
      a8.trans b8.symm, a9.trans b9.symm, a10.trans b10.symm, a11.trans b11.symm,
      a12.trans b12.symm⟩
  · obtain ⟨A, hA, -⟩ := allocate_cart_grid_2d_granted m hm nx ny
    have hA' : allocate_cart_grid_2d m' nx ny = some A := by
      rw [← allocate_cart_grid_2d_env m m' hm hm']; exact hA
    obtain ⟨G, hG, -⟩ := create_grid_tensor2d_topology m hm nx ny x y
    obtain ⟨G', hG', -⟩ := create_grid_tensor2d_topology m' hm' nx ny x' y'
    obtain ⟨a1, a2, a3, a4, a5, a6, a7, a8, a9, a10, a11, a12⟩ :=
      create_grid_tensor2d_topology_eq m nx ny x y A G hA hG
    obtain ⟨b1, b2, b3, b4, b5, b6, b7, b8, b9, b10, b11, b12⟩ :=
      create_grid_tensor2d_topology_eq m' nx ny x' y' A G' hA' hG'
    exact ⟨G, G', hG, hG', a1.trans b1.symm, a2.trans b2.symm, a3.trans b3.symm,
      a4.trans b4.symm, a5.trans b5.symm, a6.trans b6.symm, a7.trans b7.symm,
      a8.trans b8.symm, a9.trans b9.symm, a10.trans b10.symm, a11.trans b11.symm,
      a12.trans b12.symm⟩

/-- Witness for C14: a uniform grid and a layered grid with other coordinates
on the same 2 by 1 by 1 cell counts. -/
theorem topology_independent_of_geometry_witness :
    ∃ G G', create_grid_tensor3d Extern.ample 2 1 1 [0, 1, 2] [0, 1] [0, 1] none = some G ∧
      create_grid_tensor3d Extern.ample 2 1 1 [0, 3, 1] [1, 5] [2, 9]
        (some [1, 2, 3, 4, 5, 6]) = some G' ∧
      G.cell_faces = G'.cell_faces ∧ G.cell_facepos = G'.cell_facepos ∧
      G.cell_facetag = G'.cell_facetag ∧ G.face_nodes = G'.face_nodes ∧
      G.face_nodepos = G'.face_nodepos ∧ G.face_cells = G'.face_cells ∧
      G.global_cell = G'.global_cell ∧ G.dimensions = G'.dimensions ∧
      G.cartdims = G'.cartdims ∧ G.number_of_cells = G'.number_of_cells ∧
      G.number_of_faces = G'.number_of_faces ∧ G.number_of_nodes = G'.number_of_nodes :=
  (topology_independent_of_geometry Extern.ample Extern.ample ⟨rfl, rfl⟩ ⟨rfl, rfl⟩ 2 1 1
    [0, 1, 2] [0, 1] [0, 1] [0, 3, 1] [1, 5] [2, 9] none (some [1, 2, 3, 4, 5, 6])).1

/-- C15, as stated, fails: with `nx = 0` and `ny = nz = 1` the mesh has no cell
but one face, and the x-normal face loop writes its four nodes and its two
neighbour slots. -/
theorem zero_count_faces_counterexample :
    ∃ G, create_grid_tensor3d Extern.ample 0 1 1 [0] [0, 1] [0, 1] none = some G ∧
      G.number_of_cells = 0 ∧ G.number_of_faces = 1 ∧
      G.face_nodes = [0, 1, 3, 2] ∧ G.face_cells = [-1, 0] := by
  obtain ⟨G, hG, T⟩ := create_grid_tensor3d_topology Extern.ample ⟨rfl, rfl⟩ 0 1 1
    [0] [0, 1] [0, 1] none
  refine ⟨G, hG, ?_, ?_, ?_, ?_⟩
  · rw [T.number_of_cells]
  · rw [T.number_of_faces]
  · rw [T.face_nodes]; decide
  · rw [T.face_cells]; decide

/-- C17: with each allocation modelled as a step that may fail,
`allocate_cart_grid` returns null when `allocate_grid` fails, and when
`allocate_grid` succeeds but the `global_cell` allocation fails it calls
`destroy_grid` on the container and returns null; `create_grid_tensor2d` and
`create_grid_tensor3d` return null exactly when `allocate_cart_grid` returns
null, in which case no topology or geometry routine is run, and otherwise they
return the mesh filled by the topology and the geometry routine. No other input
(cell counts, coordinates, depth perturbation) makes a tensor constructor
return null. -/
theorem failure_propagation (m : Extern) (ndims ncells nfaces nnodes nx ny nz : Nat)
    (x y z : List ℚ) (depthz : Option (List ℚ)) :
    ((allocate_cart_grid_calls m ndims ncells nfaces nnodes).1 =
        allocate_cart_grid m ndims ncells nfaces nnodes ∧
      (create_grid_tensor3d_calls m nx ny nz x y z depthz).1 =
        create_grid_tensor3d m nx ny nz x y z depthz ∧
      (create_grid_tensor2d_calls m nx ny x y).1 = create_grid_tensor2d m nx ny x y) ∧
    ((m.allocate_grid_ok = false →
        allocate_cart_grid_calls m ndims ncells nfaces nnodes = (none, [Call.allocate_grid])) ∧
      (m.allocate_grid_ok = true → m.malloc_global_cell = false →
        allocate_cart_grid_calls m ndims ncells nfaces nnodes =
          (none, [Call.allocate_grid, Call.malloc_global_cell, Call.destroy_grid])) ∧
      (m.allocate_grid_ok = true → m.malloc_global_cell = true →
        ∃ A, allocate_cart_grid_calls m ndims ncells nfaces nnodes =
          (some A, [Call.allocate_grid, Call.malloc_global_cell]))) ∧
    ((create_grid_tensor3d m nx ny nz x y z depthz = none ↔
        allocate_cart_grid m 3 (nx * ny * nz)
          ((nx + 1) * ny * nz + nx * (ny + 1) * nz + nx * ny * (nz + 1))
          ((nx + 1) * (ny + 1) * (nz + 1)) = none) ∧
      (create_grid_tensor3d m nx ny nz x y z depthz = none →
        ∀ c ∈ (create_grid_tensor3d_calls m nx ny nz x y z depthz).2,
          c = Call.allocate_grid ∨ c = Call.malloc_global_cell ∨ c = Call.destroy_grid) ∧
      (∀ A, allocate_cart_grid_3d m nx ny nz = some A →
        create_grid_tensor3d_calls m nx ny nz x y z depthz =
          match depthz with
          | none =>
            (some (fill_cart_geometry_3d (fill_cart_topology_3d A) x y z),
              [Call.allocate_grid, Call.malloc_global_cell, Call.fill_cart_topology_3d,
                Call.fill_cart_geometry_3d])
          | some d =>
            (some (fill_layered_geometry_3d m (fill_cart_topology_3d A) x y z d),
              [Call.allocate_grid, Call.malloc_global_cell, Call.fill_cart_topology_3d,
                Call.fill_layered_geometry_3d])) ∧
      (create_grid_tensor3d m nx ny nz x y z depthz = none ↔
        (m.allocate_grid_ok = false ∨ m.malloc_global_cell = false))) ∧
    ((create_grid_tensor2d m nx ny x y = none ↔
        allocate_cart_grid m 2 (nx * ny) ((nx + 1) * ny + nx * (ny + 1))
          ((nx + 1) * (ny + 1)) = none) ∧
      (create_grid_tensor2d m nx ny x y = none →
        ∀ c ∈ (create_grid_tensor2d_calls m nx ny x y).2,
          c = Call.allocate_grid ∨ c = Call.malloc_global_cell ∨ c = Call.destroy_grid) ∧
      (∀ A, allocate_cart_grid_2d m nx ny = some A →
        create_grid_tensor2d_calls m nx ny x y =
          (some (fill_cart_geometry_2d (fill_cart_topology_2d A) x y),
            [Call.allocate_grid, Call.malloc_global_cell, Call.fill_cart_topology_2d,
              Call.fill_cart_geometry_2d])) ∧
      (create_grid_tensor2d m nx ny x y = none ↔
        (m.allocate_grid_ok = false ∨ m.malloc_global_cell = false))) := by
  refine ⟨⟨allocate_cart_grid_calls_fst m ndims ncells nfaces nnodes,
    create_grid_tensor3d_calls_fst m nx ny nz x y z depthz,
    create_grid_tensor2d_calls_fst m nx ny x y⟩, ?_, ?_, ?_⟩
  · obtain ⟨mx, my, mz, ag, gc, cg⟩ := m
    refine ⟨?_, ?_, ?_⟩
    · intro h
      simp only at h
      subst h
      rfl
    · intro h1 h2
      simp only at h1 h2
      subst h1 h2
      rfl
    · intro h1 h2
      simp only at h1 h2
      subst h1 h2
      exact ⟨_, rfl⟩
  · obtain ⟨mx, my, mz, ag, gc, cg⟩ := m
    cases ag <;> cases gc <;> cases depthz <;>
      simp [create_grid_tensor3d, create_grid_tensor3d_calls, allocate_cart_grid_3d,
        allocate_cart_grid_3d_calls, allocate_cart_grid, allocate_cart_grid_calls,
        allocate_grid]
  · obtain ⟨mx, my, mz, ag, gc, cg⟩ := m
    cases ag <;> cases gc <;>
      simp [create_grid_tensor2d, create_grid_tensor2d_calls, allocate_cart_grid_2d,
        allocate_cart_grid_2d_calls, allocate_cart_grid, allocate_cart_grid_calls,
        allocate_grid]


/-- C19: `cell_faces` and `face_cells` describe the same incidence relation.
For all positive cell counts, in the 3D grid (any coordinates, layered or not)
and in the 2D grid, for every face `f` and every cell `c` the face `f` occurs in
the face list of `c` (the entries of `cell_faces` from `cell_facepos[c]` up to
`cell_facepos[c+1]`) if and only if `c` equals `face_cells[2f]` or
`face_cells[2f+1]`; every face occurs in exactly as many cell face lists as it
has slots different from `-1`; and no face list holds a face twice. -/
theorem cell_faces_face_cells_incidence (m : Extern) (hm : m.grid_granted) (nx ny nz : Nat)
    (x y z : List ℚ) (depthz : Option (List ℚ)) (hnx : 1 ≤ nx) (hny : 1 ≤ ny) :
    (1 ≤ nz → ∃ G, create_grid_tensor3d m nx ny nz x y z depthz = some G ∧
      (∀ f c, f < G.number_of_faces → c < G.number_of_cells →
        ((f : Int) ∈ cell_face_list G c ↔
          (G.face_cells[2 * f]? = some (c : Int) ∨
            G.face_cells[2 * f + 1]? = some (c : Int)))) ∧
      (∀ f, f < G.number_of_faces → (cells_with_face G f).card = used_slots G f) ∧
      (∀ c, c < G.number_of_cells → (cell_face_list G c).Nodup)) ∧
    (∃ G, create_grid_tensor2d m nx ny x y = some G ∧
      (∀ f c, f < G.number_of_faces → c < G.number_of_cells →
        ((f : Int) ∈ cell_face_list G c ↔
          (G.face_cells[2 * f]? = some (c : Int) ∨
            G.face_cells[2 * f + 1]? = some (c : Int)))) ∧
      (∀ f, f < G.number_of_faces → (cells_with_face G f).card = used_slots G f) ∧
      (∀ c, c < G.number_of_cells → (cell_face_list G c).Nodup)) := by
  constructor
  · intro hnz
    obtain ⟨G, hG, T⟩ := create_grid_tensor3d_topology m hm nx ny nz x y z depthz
    exact ⟨G, hG, incidence3_all G nx ny nz hnx hny hnz T⟩
  · obtain ⟨G, hG, T⟩ := create_grid_tensor2d_topology m hm nx ny x y
    exact ⟨G, hG, incidence2_all G nx ny hnx hny T⟩

/-- Witness for C19: the 2 by 1 by 1 grid, in which the face 1 between the two
cells is listed by both and every other face by one cell. -/
theorem cell_faces_face_cells_incidence_witness :
    ∃ G, create_grid_tensor3d Extern.ample 2 1 1 [0, 1, 2] [0, 1] [0, 1] none = some G ∧
      (∀ f c, f < G.number_of_faces → c < G.number_of_cells →
        ((f : Int) ∈ cell_face_list G c ↔
          (G.face_cells[2 * f]? = some (c : Int) ∨
            G.face_cells[2 * f + 1]? = some (c : Int)))) ∧
      (∀ f, f < G.number_of_faces → (cells_with_face G f).card = used_slots G f) ∧
      (∀ c, c < G.number_of_cells → (cell_face_list G c).Nodup) :=
  (cell_faces_face_cells_incidence Extern.ample ⟨rfl, rfl⟩ 2 1 1 [0, 1, 2] [0, 1] [0, 1] none
    (by decide) (by decide)).1 (by decide)

/-- C20: with arithmetic taken exactly, in every axis-aligned grid (3D built
without depth perturbation, and 2D; all cell counts, the positive ones in
particular, and any coordinate arrays) every face `f` lists four nodes in 3D and two in 2D between
`face_nodepos[f]` and `face_nodepos[f+1]`, and each component `r` of its stored
centroid, `face_centroids[dimensions*f + r]`, equals the arithmetic mean of the
components `node_coordinates[dimensions*n + r]` over the listed nodes `n`. -/
theorem face_centroid_is_node_mean (m : Extern) (hm : m.grid_granted) (nx ny nz : Nat)
    (x y z : List ℚ) :
    (∃ G, create_grid_tensor3d m nx ny nz x y z none = some G ∧
      G.dimensions = 3 ∧
      ∀ f, f < G.number_of_faces →
        (face_node_list G f).length = 4 ∧
        ∀ r, r < G.dimensions → G.face_centroids[G.dimensions * f + r]? =
          some (mean ((face_node_list G f).map (fun n => node_coordinate G n r)))) ∧
    (∃ G, create_grid_tensor2d m nx ny x y = some G ∧
      G.dimensions = 2 ∧
      ∀ f, f < G.number_of_faces →
        (face_node_list G f).length = 2 ∧
        ∀ r, r < G.dimensions → G.face_centroids[G.dimensions * f + r]? =
          some (mean ((face_node_list G f).map (fun n => node_coordinate G n r)))) := by
  constructor
  · obtain ⟨G, hG, T, Q⟩ := create_grid_tensor3d_spec m hm nx ny nz x y z
    refine ⟨G, hG, T.dimensions, fun f hf => ?_⟩
    rw [T.dimensions]
    exact face_centroid_mean3 G nx ny nz x y z T Q f hf
  · obtain ⟨G, hG, T, Q⟩ := create_grid_tensor2d_spec m hm nx ny x y
    refine ⟨G, hG, T.dimensions, fun f hf => ?_⟩
    rw [T.dimensions]
    exact face_centroid_mean2 G nx ny x y T Q f hf

/-- Witness for C20: the 2 by 1 grid with nodes at `x = 0, 1, 3` and
`y = 0, 5`. -/
theorem face_centroid_is_node_mean_witness :
    ∃ G, create_grid_tensor2d Extern.ample 2 1 [0, 1, 3] [0, 5] = some G ∧
      G.dimensions = 2 ∧
      ∀ f, f < G.number_of_faces →
        (face_node_list G f).length = 2 ∧
        ∀ r, r < G.dimensions → G.face_centroids[G.dimensions * f + r]? =
          some (mean ((face_node_list G f).map (fun n => node_coordinate G n r))) :=
  (face_centroid_is_node_mean Extern.ample ⟨rfl, rfl⟩ 2 1 1 [0, 1, 3] [0, 5] [0, 1]).2

/-- C21: the node winding of every face agrees with its stored normal. With
arithmetic taken exactly and `P0, P1, P2, P3` the stored coordinates of the
nodes of face `f` in `face_nodes` order (each node a valid index into
`node_coordinates`): in every 3D axis-aligned grid (all cell counts, the
positive ones in particular, any coordinates) the cross product
`(P1 - P0) x (P3 - P0)` equals the stored normal of `f` and
`P2 = P1 + P3 - P0`; in every 2D axis-aligned grid, with edge vector
`e = P1 - P0`, the stored normal of `f` equals `(e_y, -e_x)`. -/
theorem winding_agrees_with_normal (m : Extern) (hm : m.grid_granted) (nx ny nz : Nat)
    (x y z : List ℚ) :
    (∃ G, create_grid_tensor3d m nx ny nz x y z none = some G ∧
      G.node_coordinates.length = 3 * G.number_of_nodes ∧
      ∀ f, f < G.number_of_faces →
        (face_node_list G f).length = 4 ∧
        (∀ n ∈ face_node_list G f, 0 ≤ n ∧ n < (G.number_of_nodes : Int)) ∧
        ∀ r, r < 3 →
          G.face_normals[3 * f + r]? =
            some (cross (fun s => face_point G f 1 s - face_point G f 0 s)
              (fun s => face_point G f 3 s - face_point G f 0 s) r) ∧
          face_point G f 2 r =
            face_point G f 1 r + face_point G f 3 r - face_point G f 0 r) ∧
    (∃ G, create_grid_tensor2d m nx ny x y = some G ∧
      G.node_coordinates.length = 2 * G.number_of_nodes ∧
      ∀ f, f < G.number_of_faces →
        (face_node_list G f).length = 2 ∧
        (∀ n ∈ face_node_list G f, 0 ≤ n ∧ n < (G.number_of_nodes : Int)) ∧
        G.face_normals[2 * f]? = some (face_point G f 1 1 - face_point G f 0 1) ∧
        G.face_normals[2 * f + 1]? =
          some (-(face_point G f 1 0 - face_point G f 0 0))) := by
  constructor
  · obtain ⟨G, hG, T, Q⟩ := create_grid_tensor3d_spec m hm nx ny nz x y z
    refine ⟨G, hG, ?_, fun f hf => ?_⟩
    · rw [Q.node_coordinates, coord3d_length, T.number_of_nodes]; ring
    · obtain ⟨h1, h2⟩ := winding3 G nx ny nz x y z T Q f hf
      exact ⟨h1, face_node_list3_valid G nx ny nz T f hf, h2⟩
  · obtain ⟨G, hG, T, Q⟩ := create_grid_tensor2d_spec m hm nx ny x y
    refine ⟨G, hG, ?_, fun f hf => ?_⟩
    · rw [Q.node_coordinates, coord2d_length, T.number_of_nodes]; ring
    · obtain ⟨h1, h2⟩ := winding2 G nx ny x y T Q f hf
      exact ⟨h1, face_node_list2_valid G nx ny T f hf, h2⟩

/-- Witness for C21: the 2 by 1 by 1 grid with nodes at `x = 0, 1, 3`,
`y = 0, 5` and `z = 0, 7`. -/
theorem winding_agrees_with_normal_witness :
    ∃ G, create_grid_tensor3d Extern.ample 2 1 1 [0, 1, 3] [0, 5] [0, 7] none = some G ∧
      G.node_coordinates.length = 3 * G.number_of_nodes ∧
      ∀ f, f < G.number_of_faces →
        (face_node_list G f).length = 4 ∧
        (∀ n ∈ face_node_list G f, 0 ≤ n ∧ n < (G.number_of_nodes : Int)) ∧
        ∀ r, r < 3 →
          G.face_normals[3 * f + r]? =
            some (cross (fun s => face_point G f 1 s - face_point G f 0 s)
              (fun s => face_point G f 3 s - face_point G f 0 s) r) ∧
          face_point G f 2 r =
            face_point G f 1 r + face_point G f 3 r - face_point G f 0 r :=
  (winding_agrees_with_normal Extern.ample ⟨rfl, rfl⟩ 2 1 1 [0, 1, 3] [0, 5] [0, 7]).1

/-- C22: face normals point from the first neighbour to the second. With
arithmetic taken exactly, for every 3D axis-aligned grid with
`nx, ny, nz >= 1` and strictly increasing coordinate arrays `x`, `y`, `z`, all
cell volumes are strictly positive and, for every face `f` with normal axis
`a` (0 for the x-family, 1 for the y-family, 2 for the z-family): the
`a`-component of the face normal and the face area are strictly positive; if
`face_cells[2f] = c0` is not `-1` then `c0` is a cell whose centroid has an
`a`-component strictly less than that of the centroid of `f`; if
`face_cells[2f+1] = c1` is not `-1` then `c1` is a cell whose centroid has an
`a`-component strictly greater; and in both cases the other two components of
the cell centroid equal those of the face centroid. -/
theorem normals_point_first_to_second (m : Extern) (hm : m.grid_granted) (nx ny nz : Nat)
    (x y z : List ℚ) (hnx : 1 ≤ nx) (hny : 1 ≤ ny) (hnz : 1 ≤ nz)
    (hx : ∀ i, i < nx → rd x i < rd x (i + 1)) (hy : ∀ j, j < ny → rd y j < rd y (j + 1))
    (hz : ∀ k, k < nz → rd z k < rd z (k + 1)) :
    ∃ G, create_grid_tensor3d m nx ny nz x y z none = some G ∧
      (∀ c, c < G.number_of_cells → ∃ v, G.cell_volumes[c]? = some v ∧ 0 < v) ∧
      ∀ f a, f < G.number_of_faces →
        a = face_family ((nx + 1) * ny * nz) (nx * (ny + 1) * nz) f →
        a < 3 ∧
        (∃ n s, G.face_normals[3 * f + a]? = some n ∧ G.face_areas[f]? = some s ∧
          0 < n ∧ 0 < s) ∧
        (∀ c0 : Int, G.face_cells[2 * f]? = some c0 → c0 ≠ -1 →
          0 ≤ c0 ∧ c0 < (G.number_of_cells : Int) ∧
          (∃ u v, G.cell_centroids[3 * c0.toNat + a]? = some u ∧
            G.face_centroids[3 * f + a]? = some v ∧ u < v) ∧
          ∀ b, b < 3 → b ≠ a → ∃ v, G.cell_centroids[3 * c0.toNat + b]? = some v ∧
            G.face_centroids[3 * f + b]? = some v) ∧
        (∀ c1 : Int, G.face_cells[2 * f + 1]? = some c1 → c1 ≠ -1 →
          0 ≤ c1 ∧ c1 < (G.number_of_cells : Int) ∧
          (∃ u v, G.cell_centroids[3 * c1.toNat + a]? = some u ∧
            G.face_centroids[3 * f + a]? = some v ∧ v < u) ∧
          ∀ b, b < 3 → b ≠ a → ∃ v, G.cell_centroids[3 * c1.toNat + b]? = some v ∧
            G.face_centroids[3 * f + b]? = some v) := by
  obtain ⟨G, hG, T, Q⟩ := create_grid_tensor3d_spec m hm nx ny nz x y z
  exact ⟨G, hG, fun c hc => volumes_positive3 G nx ny nz x y z T Q hx hy hz c hc,
    fun f a hf ha => orientation3 G nx ny nz x y z T Q hnx hny hnz hx hy hz f a hf ha⟩

/-- Witness for C22: the 2 by 1 by 1 grid with nodes at `x = 0, 1, 3`,
`y = 0, 5` and `z = 0, 7`. -/
theorem normals_point_first_to_second_witness :
    ∃ G, create_grid_tensor3d Extern.ample 2 1 1 [0, 1, 3] [0, 5] [0, 7] none = some G ∧
      (∀ c, c < G.number_of_cells → ∃ v, G.cell_volumes[c]? = some v ∧ 0 < v) ∧
      ∀ f a, f < G.number_of_faces →
        a = face_family ((2 + 1) * 1 * 1) (2 * (1 + 1) * 1) f →
        a < 3 ∧
        (∃ n s, G.face_normals[3 * f + a]? = some n ∧ G.face_areas[f]? = some s ∧
          0 < n ∧ 0 < s) ∧
        (∀ c0 : Int, G.face_cells[2 * f]? = some c0 → c0 ≠ -1 →
          0 ≤ c0 ∧ c0 < (G.number_of_cells : Int) ∧
          (∃ u v, G.cell_centroids[3 * c0.toNat + a]? = some u ∧
            G.face_centroids[3 * f + a]? = some v ∧ u < v) ∧
          ∀ b, b < 3 → b ≠ a → ∃ v, G.cell_centroids[3 * c0.toNat + b]? = some v ∧
            G.face_centroids[3 * f + b]? = some v) ∧
        (∀ c1 : Int, G.face_cells[2 * f + 1]? = some c1 → c1 ≠ -1 →
          0 ≤ c1 ∧ c1 < (G.number_of_cells : Int) ∧
          (∃ u v, G.cell_centroids[3 * c1.toNat + a]? = some u ∧
            G.face_centroids[3 * f + a]? = some v ∧ v < u) ∧
          ∀ b, b < 3 → b ≠ a → ∃ v, G.cell_centroids[3 * c1.toNat + b]? = some v ∧
            G.face_centroids[3 * f + b]? = some v) :=
  normals_point_first_to_second Extern.ample ⟨rfl, rfl⟩ 2 1 1 [0, 1, 3] [0, 5] [0, 7]
    (by decide) (by decide) (by decide)
    (by intro i hi; interval_cases i <;> norm_num [rd])
    (by intro j hj; interval_cases j; norm_num [rd])
    (by intro k hk; interval_cases k; norm_num [rd])

/-- C23: in the 3D topology (any coordinates, layered or not), for every cell
`c = i + nx*(j + ny*k)` with `i < nx`, `j < ny`, `k < nz` (so all counts are at
least 1): the face list of `c` has six pairwise distinct entries; the face at
position `p` of the list is a face of the grid with four pairwise distinct
nodes; and a node belongs to that face exactly when it is the corner
`(i+a) + (nx+1)*((j+b) + (ny+1)*(k+d))` of the cell, `a, b, d` in `{0, 1}`,
whose offset along the axis `p / 2` of the face is `p % 2`, that is 0 for the
face on the low side and 1 for the face on the high side. -/
theorem cell_corner_nodes (m : Extern) (hm : m.grid_granted) (nx ny nz : Nat)
    (x y z : List ℚ) (depthz : Option (List ℚ)) (i j k : Nat) (hi : i < nx) (hj : j < ny)
    (hk : k < nz) :
    ∃ G, create_grid_tensor3d m nx ny nz x y z depthz = some G ∧
      (cell_face_list G (i + nx * (j + ny * k))).length = 6 ∧
      (cell_face_list G (i + nx * (j + ny * k))).Nodup ∧
      ∀ p, p < 6 → ∃ f : Nat,
        (cell_face_list G (i + nx * (j + ny * k)))[p]? = some (f : Int) ∧
        f < G.number_of_faces ∧
        (face_node_list G f).length = 4 ∧
        (face_node_list G f).Nodup ∧
        ∀ n : Int, n ∈ face_node_list G f ↔
          ∃ a b d, a < 2 ∧ b < 2 ∧ d < 2 ∧ [a, b, d].getD (p / 2) 0 = p % 2 ∧
            n = (((i + a) + (nx + 1) * ((j + b) + (ny + 1) * (k + d)) : Nat) : Int) := by
  obtain ⟨G, hG, T⟩ := create_grid_tensor3d_topology m hm nx ny nz x y z depthz
  have hl := cell_face_list3 G nx ny nz T i j k hi hj hk
  have hc : i + nx * (j + ny * k) < G.number_of_cells := by
    rw [T.number_of_cells]; exact lex3_lt hi hj hk
  refine ⟨G, hG, by rw [hl]; rfl, cell_face_list3_nodup G nx ny nz T _ hc, fun p hp => ?_⟩
  refine ⟨cell_face3d nx ny nz i j k p, ?_, ?_, face_of_cell G nx ny nz T i j k hi hj hk p hp⟩
  · rw [hl, List.getElem?_map, List.getElem?_range hp]; rfl
  · rw [T.number_of_faces]
    exact (cell_face3d_family nx ny nz i j k p hi hj hk hp).2

/-- Witness for C23: the second cell of the 2 by 1 by 1 layered grid. -/
theorem cell_corner_nodes_witness :
    ∃ G, create_grid_tensor3d Extern.ample 2 1 1 [0, 1, 2] [0, 1] [0, 1]
        (some [0, 0, 0, 0, 0, 0]) = some G ∧
      (cell_face_list G (1 + 2 * (0 + 1 * 0))).length = 6 ∧
      (cell_face_list G (1 + 2 * (0 + 1 * 0))).Nodup ∧
      ∀ p, p < 6 → ∃ f : Nat,
        (cell_face_list G (1 + 2 * (0 + 1 * 0)))[p]? = some (f : Int) ∧
        f < G.number_of_faces ∧
        (face_node_list G f).length = 4 ∧
        (face_node_list G f).Nodup ∧
        ∀ n : Int, n ∈ face_node_list G f ↔
          ∃ a b d, a < 2 ∧ b < 2 ∧ d < 2 ∧ [a, b, d].getD (p / 2) 0 = p % 2 ∧
            n = (((1 + a) + (2 + 1) * ((0 + b) + (1 + 1) * (0 + d)) : Nat) : Int) :=
  cell_corner_nodes Extern.ample ⟨rfl, rfl⟩ 2 1 1 [0, 1, 2] [0, 1] [0, 1]
    (some [0, 0, 0, 0, 0, 0]) 1 0 0 (by decide) (by decide) (by decide)

/-- C15, amended: in every 3D construction in which at least one of `nx`, `ny`,
`nz` is 0 the mesh has `number_of_cells = 0` and the cell loop and the tag loop
write no entry (`cell_faces` and `cell_facetag` are empty); `number_of_faces` is
the product of the other two counts; for each of these faces the face loops
write four pairwise distinct node indices in `[0, number_of_nodes)`, read
between `face_nodepos[f]` and `face_nodepos[f+1]`, and the neighbour slots
`(-1, c)` with `c >= 0`; and they write nothing exactly when a second count
is 0. -/
theorem zero_count_mesh (m : Extern) (hm : m.grid_granted) (nx ny nz : Nat)
    (h0 : nx = 0 ∨ ny = 0 ∨ nz = 0) (x y z : List ℚ) (depthz : Option (List ℚ)) :
    ∃ G, create_grid_tensor3d m nx ny nz x y z depthz = some G ∧
      G.number_of_cells = 0 ∧ G.cell_faces = [] ∧ G.cell_facetag = [] ∧
      (nx = 0 → G.number_of_faces = ny * nz) ∧
      (ny = 0 → G.number_of_faces = nx * nz) ∧
      (nz = 0 → G.number_of_faces = nx * ny) ∧
      G.face_nodes.length = 4 * G.number_of_faces ∧
      G.face_cells.length = 2 * G.number_of_faces ∧
      (∀ f, f < G.number_of_faces →
        (face_node_list G f).length = 4 ∧ (face_node_list G f).Nodup ∧
        (∀ n ∈ face_node_list G f, 0 ≤ n ∧ n < (G.number_of_nodes : Int)) ∧
        G.face_cells[2 * f]? = some (-1) ∧
        ∃ c : Int, 0 ≤ c ∧ G.face_cells[2 * f + 1]? = some c) ∧
      (G.number_of_faces = 0 → G.face_nodes = [] ∧ G.face_cells = []) := by
  obtain ⟨G, hG, T⟩ := create_grid_tensor3d_topology m hm nx ny nz x y z depthz
  have hc : nx * ny * nz = 0 := by
    rcases h0 with h | h | h <;> subst h <;> simp
  have hfn : G.face_nodes.length = 4 * G.number_of_faces := by
    rw [T.face_nodes, T.number_of_faces, List.length_append, List.length_append,
      fnodes3d_x_length, fnodes3d_y_length, fnodes3d_z_length]
    ring
  have hfc : G.face_cells.length = 2 * G.number_of_faces := by
    rw [T.face_cells, T.number_of_faces, List.length_append, List.length_append,
      fcells3d_x_length, fcells3d_y_length, fcells3d_z_length]
    ring
  refine ⟨G, hG, ?_, ?_, ?_, ?_, ?_, ?_, hfn, hfc, ?_, ?_⟩
  · rw [T.number_of_cells, hc]
  · apply List.eq_nil_of_length_eq_zero
    rw [T.cell_faces, cfaces3d_length]
    have : nz * (ny * (nx * 6)) = nx * ny * nz * 6 := by ring
    rw [this, hc]
  · apply List.eq_nil_of_length_eq_zero
    rw [T.cell_facetag, ctag3d_length, hc]
  · intro h; subst h; rw [T.number_of_faces]; ring
  · intro h; subst h; rw [T.number_of_faces]; ring
  · intro h; subst h; rw [T.number_of_faces]; ring
  · intro f hf
    obtain ⟨h1, h2⟩ := face_nodes_distinct3 G nx ny nz T f hf
    refine ⟨h1, h2, face_node_list3_valid G nx ny nz T f hf, ?_⟩
    rw [T.number_of_faces] at hf
    rw [T.face_cells]
    exact zero_slots3 nx ny nz h0 f hf
  · intro h
    rw [h] at hfn hfc
    exact ⟨List.eq_nil_of_length_eq_zero hfn, List.eq_nil_of_length_eq_zero hfc⟩

/-- Witness for C15 (amended): no cell along x, two cells along y and three
along z. -/
theorem zero_count_mesh_witness :
    ∃ G, create_grid_tensor3d Extern.ample 0 2 3 [0] [0, 1, 2] [0, 1, 2, 3] none = some G ∧
      G.number_of_cells = 0 ∧ G.cell_faces = [] ∧ G.cell_facetag = [] ∧
      (0 = 0 → G.number_of_faces = 2 * 3) ∧
      (2 = 0 → G.number_of_faces = 0 * 3) ∧
      (3 = 0 → G.number_of_faces = 0 * 2) ∧
      G.face_nodes.length = 4 * G.number_of_faces ∧
      G.face_cells.length = 2 * G.number_of_faces ∧
      (∀ f, f < G.number_of_faces →
        (face_node_list G f).length = 4 ∧ (face_node_list G f).Nodup ∧
        (∀ n ∈ face_node_list G f, 0 ≤ n ∧ n < (G.number_of_nodes : Int)) ∧
        G.face_cells[2 * f]? = some (-1) ∧
        ∃ c : Int, 0 ≤ c ∧ G.face_cells[2 * f + 1]? = some c) ∧
      (G.number_of_faces = 0 → G.face_nodes = [] ∧ G.face_cells = []) :=
  zero_count_mesh Extern.ample ⟨rfl, rfl⟩ 0 2 3 (Or.inl rfl) [0] [0, 1, 2] [0, 1, 2, 3] none

/-- C18, as stated, fails for counts that do not fit an `int`: with
`nx = ny = 65536` and `nz = 1` the allocator computes `ncells = nx*ny*nz` in
`int`, which wraps to 0, and provides an empty `cell_faces` array, while the
cell loop of `fill_cart_topology_3d` runs over all `65536 * 65536` cells: its
first store already falls outside the array, so the checked run fails. -/
theorem index_safety_overflow_counterexample :
    ∃ A, allocate_cart_grid_3d_int32 Extern.ample 65536 65536 1 = some A ∧
      A.cartdims = (65536, 65536, 1) ∧ A.number_of_cells = 0 ∧
      A.cell_faces.length = 0 ∧ fill_cart_topology_3d_checked A = none := by
  have hc : i32 (i32 (((65536 : Nat) : Int) * ((65536 : Nat) : Int)) * ((1 : Nat) : Int)) = 0 := by
    decide
  obtain ⟨G, hG, hs⟩ := allocate_cart_grid_granted Extern.ample ⟨rfl, rfl⟩ 3 (size_of_int 0)
    (size_of_int (i32 (i32 (i32 (i32 (i32 (((65536 : Nat) : Int) + 1) * ((65536 : Nat) : Int)) *
        ((1 : Nat) : Int)) +
      i32 (i32 (((65536 : Nat) : Int) * i32 (((65536 : Nat) : Int) + 1)) * ((1 : Nat) : Int))) +
      i32 (i32 (((65536 : Nat) : Int) * ((65536 : Nat) : Int)) * i32 (((1 : Nat) : Int) + 1)))))
    (size_of_int (i32 (i32 (i32 (((65536 : Nat) : Int) + 1) * i32 (((65536 : Nat) : Int) + 1)) *
      i32 (((1 : Nat) : Int) + 1))))
  have hA : ∃ A, allocate_cart_grid_3d_int32 Extern.ample 65536 65536 1 = some A ∧
      A.cartdims = (65536, 65536, 1) ∧ A.number_of_cells = 0 ∧ A.cell_faces = G.cell_faces := by
    unfold allocate_cart_grid_3d_int32
    simp only [hc, hG]
    exact ⟨_, rfl, rfl, rfl, rfl⟩
  obtain ⟨A, h1, h2, h3, h4⟩ := hA
  have hl : A.cell_faces.length = 0 := by
    rw [h4, hs.cell_faces]
    decide
  refine ⟨A, h1, h2, h3, hl, ?_⟩
  exact fill_cart_topology_3d_checked_none A (by rw [h2]; decide) (by rw [h2]; decide)
    (by rw [h2]; decide) hl

/-- C18, amended: index safety for counts that fit an `int`. When the number
of nodes and four times (in 2D twice) the number of faces are below `2^31`,
the run of the topology builder with 32-bit `int` arithmetic and every store
and load checked against the length of its array succeeds on the arrays the
allocator provides, so no access falls outside them; it leaves the arrays that
`fill_cart_topology_3d` (`fill_cart_topology_2d`) leaves, which are the
topology arrays of the constructed mesh; the cursors of `cell_faces`,
`face_nodes` and `face_cells` end at the ends of their arrays, having written
exactly `2*dimensions*number_of_cells`, `2*(dimensions-1)*number_of_faces` and
`2*number_of_faces` entries; every entry of `cell_faces` lies in
`[0, number_of_faces)`, every entry of `face_nodes` in `[0, number_of_nodes)`
and every tag in `[0, 2*dimensions)`. -/
theorem index_safety (m : Extern) (hm : m.grid_granted) (nx ny nz : Nat)
    (x y z : List ℚ) (depthz : Option (List ℚ)) :
    ((nx + 1) * (ny + 1) * (nz + 1) < 2 ^ 31 →
      4 * ((nx + 1) * ny * nz + nx * (ny + 1) * nz + nx * ny * (nz + 1)) < 2 ^ 31 →
      ∃ A G, allocate_cart_grid_3d_int32 m nx ny nz = some A ∧
        allocate_cart_grid_3d m nx ny nz = some A ∧
        fill_cart_topology_3d_checked A =
          some (fill_cart_topology_3d A, A.cell_faces.length, A.face_nodes.length,
            A.face_cells.length) ∧
        create_grid_tensor3d m nx ny nz x y z depthz = some G ∧
        G.cell_faces = (fill_cart_topology_3d A).cell_faces ∧
        G.cell_facetag = (fill_cart_topology_3d A).cell_facetag ∧
        G.face_nodes = (fill_cart_topology_3d A).face_nodes ∧
        G.face_cells = (fill_cart_topology_3d A).face_cells ∧
        A.cell_faces.length = 2 * 3 * G.number_of_cells ∧
        A.face_nodes.length = 2 * (3 - 1) * G.number_of_faces ∧
        A.face_cells.length = 2 * G.number_of_faces ∧
        G.dimensions = 3 ∧
        (∀ v ∈ G.cell_faces, 0 ≤ v ∧ v < G.number_of_faces) ∧
        (∀ v ∈ G.face_nodes, 0 ≤ v ∧ v < G.number_of_nodes) ∧
        (∀ v ∈ G.cell_facetag, 0 ≤ v ∧ v < 2 * 3)) ∧
    ((nx + 1) * (ny + 1) < 2 ^ 31 →
      2 * ((nx + 1) * ny + nx * (ny + 1)) < 2 ^ 31 →
      ∃ A G, allocate_cart_grid_2d_int32 m nx ny = some A ∧
        allocate_cart_grid_2d m nx ny = some A ∧
        fill_cart_topology_2d_checked A =
          some (fill_cart_topology_2d A, A.cell_faces.length, A.face_nodes.length,
            A.face_cells.length) ∧
        create_grid_tensor2d m nx ny x y = some G ∧
        G.cell_faces = (fill_cart_topology_2d A).cell_faces ∧
        G.cell_facetag = (fill_cart_topology_2d A).cell_facetag ∧
        G.face_nodes = (fill_cart_topology_2d A).face_nodes ∧
        G.face_cells = (fill_cart_topology_2d A).face_cells ∧
        A.cell_faces.length = 2 * 2 * G.number_of_cells ∧
        A.face_nodes.length = 2 * (2 - 1) * G.number_of_faces ∧
        A.face_cells.length = 2 * G.number_of_faces ∧
        G.dimensions = 2 ∧
        (∀ v ∈ G.cell_faces, 0 ≤ v ∧ v < G.number_of_faces) ∧
        (∀ v ∈ G.face_nodes, 0 ≤ v ∧ v < G.number_of_nodes) ∧
        (∀ v ∈ G.cell_facetag, 0 ≤ v ∧ v < 2 * 2)) := by
  constructor
  · intro HN H4
    obtain ⟨A, hA, -, hc, hnc, -, -, hs⟩ := allocate_cart_grid_3d_granted m hm nx ny nz
    obtain ⟨G, hG, T⟩ := create_grid_tensor3d_topology m hm nx ny nz x y z depthz
    obtain ⟨g1, -, g3, g4, -, g6, -⟩ :=
      create_grid_tensor3d_topology_eq m nx ny nz x y z depthz A G hA hG
    have h1 : A.cartdims.1 = nx := by rw [hc]
    have h2 : A.cartdims.2.1 = ny := by rw [hc]
    have h3 : A.cartdims.2.2 = nz := by rw [hc]
    have HF : (nx + 1) * ny * nz + nx * (ny + 1) * nz + nx * ny * (nz + 1) < 2 ^ 31 := by
      omega
    refine ⟨A, G, ?_, hA, ?_, hG, g1, g3, g4, g6, ?_, ?_, ?_, T.dimensions, ?_, ?_, ?_⟩
    · rw [allocate_cart_grid_3d_int32_eq m nx ny nz HN HF, hA]
    · exact fill_cart_topology_3d_checked_eq A (by rw [h1, h2, h3]; exact hnc)
        (by rw [h1, h2, h3]; exact hs) (by rw [h1, h2, h3]; exact HN)
        (by rw [h1, h2, h3]; exact H4)
    · rw [hs.cell_faces, T.number_of_cells]; ring
    · rw [hs.face_nodes, T.number_of_faces]; ring
    · rw [hs.face_cells, T.number_of_faces]
    · intro v hv
      rw [T.cell_faces] at hv
      obtain ⟨f, rfl, hf⟩ := cfaces3d_range nx ny nz v hv
      rw [T.number_of_faces]
      exact ⟨Int.natCast_nonneg f, by exact_mod_cast hf⟩
    · intro v hv
      rw [T.face_nodes] at hv
      obtain ⟨n, rfl, hn⟩ := fnodes3d_range nx ny nz v hv
      rw [T.number_of_nodes]
      exact ⟨Int.natCast_nonneg n, by exact_mod_cast hn⟩
    · intro v hv
      rw [T.cell_facetag, ctag3d, mem_emitted] at hv
      obtain ⟨_, -, hv⟩ := hv
      simp only [List.mem_cons, List.mem_nil_iff, or_false] at hv
      rcases hv with h | h | h | h | h | h <;> subst h <;> decide
  · intro HN H2
    obtain ⟨A, hA, -, hc, hnc, -, -, hs⟩ := allocate_cart_grid_2d_granted m hm nx ny
    obtain ⟨G, hG, T⟩ := create_grid_tensor2d_topology m hm nx ny x y
    obtain ⟨g1, -, g3, g4, -, g6, -⟩ :=
      create_grid_tensor2d_topology_eq m nx ny x y A G hA hG
    have h1 : A.cartdims.1 = nx := by rw [hc]
    have h2 : A.cartdims.2.1 = ny := by rw [hc]
    have HF : (nx + 1) * ny + nx * (ny + 1) < 2 ^ 31 := by omega
    refine ⟨A, G, ?_, hA, ?_, hG, g1, g3, g4, g6, ?_, ?_, ?_, T.dimensions, ?_, ?_, ?_⟩
    · rw [allocate_cart_grid_2d_int32_eq m nx ny HN HF, hA]
    · exact fill_cart_topology_2d_checked_eq A (by rw [h1, h2]; exact hnc)
        (by rw [h1, h2]; exact hs) (by rw [h1, h2]; exact HN)
        (by rw [h1, h2]; exact H2)
    · rw [hs.cell_faces, T.number_of_cells]; ring
    · rw [hs.face_nodes, T.number_of_faces]; ring
    · rw [hs.face_cells, T.number_of_faces]
    · intro v hv
      rw [T.cell_faces] at hv
      obtain ⟨f, rfl, hf⟩ := cfaces2d_range nx ny v hv
      rw [T.number_of_faces]
      exact ⟨Int.natCast_nonneg f, by exact_mod_cast hf⟩
    · intro v hv
      rw [T.face_nodes] at hv
      obtain ⟨n, rfl, hn⟩ := fnodes2d_range nx ny v hv
      rw [T.number_of_nodes]
      exact ⟨Int.natCast_nonneg n, by exact_mod_cast hn⟩
    · intro v hv
      rw [T.cell_facetag, ctag2d, mem_emitted] at hv
      obtain ⟨_, -, hv⟩ := hv
      simp only [List.mem_cons, List.mem_nil_iff, or_false] at hv
      rcases hv with h | h | h | h <;> subst h <;> decide

/-- Witness for C18 (amended): a 2 by 1 by 1 layered grid and the 2 by 1
grid. -/
theorem index_safety_witness :
    (∃ A G, allocate_cart_grid_3d_int32 Extern.ample 2 1 1 = some A ∧
        allocate_cart_grid_3d Extern.ample 2 1 1 = some A ∧
        fill_cart_topology_3d_checked A =
          some (fill_cart_topology_3d A, A.cell_faces.length, A.face_nodes.length,
            A.face_cells.length) ∧
        create_grid_tensor3d Extern.ample 2 1 1 [0, 1, 2] [0, 1] [0, 1]
          (some [0, 0, 0, 0, 0, 0]) = some G ∧
        G.cell_faces = (fill_cart_topology_3d A).cell_faces ∧
        G.cell_facetag = (fill_cart_topology_3d A).cell_facetag ∧
        G.face_nodes = (fill_cart_topology_3d A).face_nodes ∧
        G.face_cells = (fill_cart_topology_3d A).face_cells ∧
        A.cell_faces.length = 2 * 3 * G.number_of_cells ∧
        A.face_nodes.length = 2 * (3 - 1) * G.number_of_faces ∧
        A.face_cells.length = 2 * G.number_of_faces ∧
        G.dimensions = 3 ∧
        (∀ v ∈ G.cell_faces, 0 ≤ v ∧ v < G.number_of_faces) ∧
        (∀ v ∈ G.face_nodes, 0 ≤ v ∧ v < G.number_of_nodes) ∧
        (∀ v ∈ G.cell_facetag, 0 ≤ v ∧ v < 2 * 3)) ∧
    (∃ A G, allocate_cart_grid_2d_int32 Extern.ample 2 1 = some A ∧
        allocate_cart_grid_2d Extern.ample 2 1 = some A ∧
        fill_cart_topology_2d_checked A =
          some (fill_cart_topology_2d A, A.cell_faces.length, A.face_nodes.length,
            A.face_cells.length) ∧
        create_grid_tensor2d Extern.ample 2 1 [0, 1, 2] [0, 1] = some G ∧
        G.cell_faces = (fill_cart_topology_2d A).cell_faces ∧
        G.cell_facetag = (fill_cart_topology_2d A).cell_facetag ∧
        G.face_nodes = (fill_cart_topology_2d A).face_nodes ∧
        G.face_cells = (fill_cart_topology_2d A).face_cells ∧
        A.cell_faces.length = 2 * 2 * G.number_of_cells ∧
        A.face_nodes.length = 2 * (2 - 1) * G.number_of_faces ∧
        A.face_cells.length = 2 * G.number_of_faces ∧
        G.dimensions = 2 ∧
        (∀ v ∈ G.cell_faces, 0 ≤ v ∧ v < G.number_of_faces) ∧
        (∀ v ∈ G.face_nodes, 0 ≤ v ∧ v < G.number_of_nodes) ∧
        (∀ v ∈ G.cell_facetag, 0 ≤ v ∧ v < 2 * 2)) :=
  ⟨(index_safety Extern.ample ⟨rfl, rfl⟩ 2 1 1 [0, 1, 2] [0, 1] [0, 1]
      (some [0, 0, 0, 0, 0, 0])).1 (by decide) (by decide),
    (index_safety Extern.ample ⟨rfl, rfl⟩ 2 1 1 [0, 1, 2] [0, 1] [0, 1]
      (some [0, 0, 0, 0, 0, 0])).2 (by decide) (by decide)⟩

end CartGrid
